import Mathlib

/-!
Verification of the sudoku solver library (`src/pattern.rs`, `src/template.rs`,
`src/setup.rs`, `src/lib.rs`) against its specification.

The Rust code is shallowly embedded:

* `Pattern` (three `u32` words) becomes a structure of three `Nat` fields;
  every bit operation keeps the source's word/shift arithmetic.  The `u32`
  complement `!w` is written `w ^^^ 0xFFFFFFFF`, which agrees with Rust for
  words below `2^32` (an invariant of all reachable patterns, proved below).
* The template catalog `Template::all` is the same row-by-row recursion; the
  Rust recursion on `row` (stopping at `row == 9`) is driven here by the
  structurally decreasing count `left` of remaining rows, with `row = 9 - left`.
* `Possibilities` keeps the four `[[u8; 9]; 9]` counter tables as 9×9 nested
  lists of `Nat`.  The `u8` counters start at 9 and are only ever decremented
  after the prior-bit check, so they never underflow in any run reachable from
  `new`; plain `Nat` subtraction therefore models them faithfully.
* The worklist `Vec` with `push`/`pop` is a LIFO stack, modelled by a list
  with cons as push and head as pop (the same pop order as the source).
  The `work` loop is not structurally recursive; it is driven by a fuel
  argument initialised to `45792 + queue length`, which always dominates the
  decreasing measure `53 * (live bits) + queue length` (each processed item
  either removes a live bit, enqueueing at most 52 new items, or merely pops),
  so the fuel-exhaustion branch is unreachable.
* Partial operations are total here with the conventions: out-of-range list
  reads use `getD` defaults, and the `expect`-panicking `find_in_*` helpers
  return a default on the (unreachable) miss.
-/

/-- Bit field of Sudoku cells, row-major; bit 0 of the first word is the
top-left cell, bit 16 of the third word the bottom-right cell. -/
structure Pattern where
  w0 : Nat
  w1 : Nat
  w2 : Nat
deriving DecidableEq, Repr

def Pattern.EMPTY : Pattern := ⟨0, 0, 0⟩

def Pattern.FULL : Pattern := ⟨0xFFFFFFFF, 0xFFFFFFFF, 0x1FFFF⟩

/-- Read word `i` of the backing `[u32; 3]` array. -/
def Pattern.word (p : Pattern) (i : Nat) : Nat :=
  if i = 0 then p.w0 else if i = 1 then p.w1 else p.w2

/-- Write word `i` of the backing `[u32; 3]` array. -/
def Pattern.setWord (p : Pattern) (i v : Nat) : Pattern :=
  if i = 0 then { p with w0 := v } else if i = 1 then { p with w1 := v } else { p with w2 := v }

/-- Does the pattern contain the cell?  The cell index `idx = 9 * row + col`
is written out at each use. -/
def Pattern.has (p : Pattern) (row col : Nat) : Bool :=
  (p.word ((9 * row + col) / 32) &&& (1 <<< ((9 * row + col) % 32))) != 0

/-- Remove the cell; the first component is whether it was previously present
(Rust `remove` mutates and returns the old bit). -/
def Pattern.remove (p : Pattern) (row col : Nat) : Bool × Pattern :=
  (p.has row col,
   p.setWord ((9 * row + col) / 32)
     (p.word ((9 * row + col) / 32) &&& ((1 <<< ((9 * row + col) % 32)) ^^^ 0xFFFFFFFF)))

/-- New pattern also containing the given cell (Rust `with`; renamed because
`with` is a Lean keyword). -/
def Pattern.withCell (p : Pattern) (row col : Nat) : Pattern :=
  p.setWord ((9 * row + col) / 32)
    (p.word ((9 * row + col) / 32) ||| (1 <<< ((9 * row + col) % 32)))

/-- Bitwise AND (`impl BitAnd for Pattern`). -/
def Pattern.land (p other : Pattern) : Pattern :=
  ⟨p.w0 &&& other.w0, p.w1 &&& other.w1, p.w2 &&& other.w2⟩

/-- Bitwise OR (`impl BitOr for Pattern`). -/
def Pattern.lor (p other : Pattern) : Pattern :=
  ⟨p.w0 ||| other.w0, p.w1 ||| other.w1, p.w2 ||| other.w2⟩

/-- Complement (`impl Not for Pattern`): full-word `u32` NOT on the first two
words, and an explicit XOR mask on the 17 used bits of the third word. -/
def Pattern.compl (p : Pattern) : Pattern :=
  ⟨p.w0 ^^^ 0xFFFFFFFF, p.w1 ^^^ 0xFFFFFFFF, p.w2 ^^^ 0x1FFFF⟩

def Pattern.is_subset (p other : Pattern) : Bool :=
  p.land other == p

def Pattern.intersects (p other : Pattern) : Bool :=
  p.land other != Pattern.EMPTY

/-- Well-formedness: the words fit `u32` and all bits beyond position 80
(that is, beyond bit 16 of the third word) are zero. -/
def Pattern.wf (p : Pattern) : Prop :=
  p.w0 < 2 ^ 32 ∧ p.w1 < 2 ^ 32 ∧ p.w2 < 2 ^ 17

instance (p : Pattern) : Decidable p.wf := by
  unfold Pattern.wf
  infer_instance

/-- Patterns reachable from `EMPTY` or `FULL` through the defined
pattern-producing operations, applied at valid cells (`row, col < 9`). -/
inductive PatternReachable : Pattern → Prop where
  | empty : PatternReachable Pattern.EMPTY
  | full : PatternReachable Pattern.FULL
  | ofRemove (p : Pattern) (row col : Nat) : PatternReachable p → row < 9 → col < 9 →
      PatternReachable (p.remove row col).2
  | ofWith (p : Pattern) (row col : Nat) : PatternReachable p → row < 9 → col < 9 →
      PatternReachable (p.withCell row col)
  | ofAnd (p q : Pattern) : PatternReachable p → PatternReachable q →
      PatternReachable (p.land q)
  | ofOr (p q : Pattern) : PatternReachable p → PatternReachable q →
      PatternReachable (p.lor q)
  | ofCompl (p : Pattern) : PatternReachable p → PatternReachable p.compl

/-- Row-by-row depth-first template enumeration (`Template::all`'s `fill`):
choose a free column in a free box for each row.  The Rust recursion runs
`row` from 0 to 9; here the structural argument is `left = 9 - row`, the
number of rows still to place. -/
def fill (build : Pattern) (cols boxes : Nat) : Nat → List Pattern
  | 0 => [build]
  | left + 1 =>
    let row := 9 - (left + 1)
    (List.range 9).flatMap (fun col =>
      let box_idx := row / 3 * 3 + col / 3
      if (1 <<< col) &&& cols = 0 && (1 <<< box_idx) &&& boxes = 0 then
        fill (build.withCell row col) (cols ||| (1 <<< col)) (boxes ||| (1 <<< box_idx)) left
      else [])

/-- A legal single-digit layout, stored as an index into the catalog
(Rust `Template(u16)`). -/
structure Template where
  idx : Nat
deriving DecidableEq, Repr

/-- The cached catalog of all template patterns. -/
def Template.all : List Pattern := fill Pattern.EMPTY 0 0 9

/-- Expand a template identifier to its pattern by catalog lookup. -/
def Template.as_pattern (t : Template) : Pattern :=
  Template.all.getD t.idx Pattern.EMPTY

/-- Templates whose pattern is a subset of `possible`
(`enumerate`/`filter`/`map` over the catalog). -/
def Template.within (possible : Pattern) : List Template :=
  ((Template.all.enum).filter (fun ip => ip.2.is_subset possible)).map
    (fun ip => Template.mk ip.1)

/-- Full solution: a template for each digit (Rust `Solution([Template; 9])`). -/
structure Solution where
  ts : List Template
deriving DecidableEq, Repr

/-- The `Default` solution: nine copies of `Template(0)`. -/
def Solution.default9 : Solution := ⟨List.replicate 9 (Template.mk 0)⟩

/-- Array read `self.0[digit]`. -/
def Solution.get (s : Solution) (d : Nat) : Template :=
  s.ts.getD d (Template.mk 0)

/-- Array write `self.0[digit] = t`. -/
def Solution.setT (s : Solution) (d : Nat) (t : Template) : Solution :=
  ⟨s.ts.set d t⟩

/-- Loop of `Solution::is_valid`: accumulate filled cells, failing on overlap. -/
def isValidAux : List Template → Pattern → Bool
  | [], _ => true
  | t :: rest, filled =>
    if t.as_pattern.intersects filled then false
    else isValidAux rest (filled.lor t.as_pattern)

/-- Are the digit patterns nonoverlapping? -/
def Solution.is_valid (s : Solution) : Bool :=
  isValidAux s.ts Pattern.EMPTY

/-- Error returned when constraint propagation hits a contradiction. -/
structure ImpossiblePuzzle where
deriving DecidableEq, Repr

/-- Constraint-propagation state: per-digit candidate patterns, the worklist
of pending `(row, col, digit)` eliminations, and the four counter tables. -/
structure Possibilities where
  patterns : List Pattern
  work_queue : List (Nat × Nat × Nat)
  cell_constraints : List (List Nat)
  row_constraints : List (List Nat)
  col_constraints : List (List Nat)
  box_constraints : List (List Nat)
deriving DecidableEq, Repr

/-- Array read `patterns[d]`. -/
def patGet (l : List Pattern) (d : Nat) : Pattern := l.getD d Pattern.EMPTY

/-- Table read `t[i][j]`. -/
def tGet (t : List (List Nat)) (i j : Nat) : Nat := (t.getD i []).getD j 0

/-- Table write `t[i][j] = v`. -/
def tSet (t : List (List Nat)) (i j v : Nat) : List (List Nat) :=
  t.set i ((t.getD i []).set j v)

/-- Fresh logic machine where every digit is possible in every cell. -/
def Possibilities.new : Possibilities :=
  ⟨List.replicate 9 Pattern.FULL, [],
   List.replicate 9 (List.replicate 9 9), List.replicate 9 (List.replicate 9 9),
   List.replicate 9 (List.replicate 9 9), List.replicate 9 (List.replicate 9 9)⟩

/-- Row-column pairs of all cells in the box containing the given cell. -/
def box_cells (row col : Nat) : List (Nat × Nat) :=
  let gr := row / 3
  let gc := col / 3
  [(3 * gr, 3 * gc), (3 * gr, 3 * gc + 1), (3 * gr, 3 * gc + 2),
   (3 * gr + 1, 3 * gc), (3 * gr + 1, 3 * gc + 1), (3 * gr + 1, 3 * gc + 2),
   (3 * gr + 2, 3 * gc), (3 * gr + 2, 3 * gc + 1), (3 * gr + 2, 3 * gc + 2)]

/-- Push one pending elimination (Rust `Vec::push`; the stack grows at the
head so that `pop` is the head). -/
def enqueue (q : List (Nat × Nat × Nat)) (row col digit : Nat) : List (Nat × Nat × Nat) :=
  (row, col, digit) :: q

/-- Enqueue removing all other digits from a cell. -/
def enqueue_others (q : List (Nat × Nat × Nat)) (row col digit : Nat) :
    List (Nat × Nat × Nat) :=
  ((List.range 9).filter (fun d => d ≠ digit)).foldl (fun q d => enqueue q row col d) q

/-- Enqueue removing this digit from the rest of the row, column and box. -/
def enqueue_adjacent (q : List (Nat × Nat × Nat)) (row col digit : Nat) :
    List (Nat × Nat × Nat) :=
  let q := ((List.range 9).filter (fun oc => oc ≠ col)).foldl
    (fun q oc => enqueue q row oc digit) q
  let q := ((List.range 9).filter (fun orow => orow ≠ row)).foldl
    (fun q orow => enqueue q orow col digit) q
  ((box_cells row col).filter (fun rc => rc ≠ (row, col))).foldl
    (fun q rc => enqueue q rc.1 rc.2 digit) q

/-- Find the unique digit still possible in a cell. -/
def find_in_cell (p : Possibilities) (row col : Nat) : Nat :=
  ((List.range 9).find? (fun d => (patGet p.patterns d).has row col)).getD 0

/-- Find the column of the unique occurrence of a digit in a row. -/
def find_in_row (p : Possibilities) (row digit : Nat) : Nat :=
  ((List.range 9).find? (fun col => (patGet p.patterns digit).has row col)).getD 0

/-- Find the row of the unique occurrence of a digit in a column. -/
def find_in_col (p : Possibilities) (col digit : Nat) : Nat :=
  ((List.range 9).find? (fun row => (patGet p.patterns digit).has row col)).getD 0

/-- Find the cell of the unique occurrence of a digit in a box. -/
def find_in_box (p : Possibilities) (row col digit : Nat) : Nat × Nat :=
  ((box_cells row col).find? (fun rc => (patGet p.patterns digit).has rc.1 rc.2)).getD (0, 0)

/-- Cell-constraint stage of `eliminate`: decrement, fail at zero, cascade at one. -/
def elimCell (p : Possibilities) (row col : Nat) : Except ImpossiblePuzzle Possibilities :=
  let p := { p with
    cell_constraints := tSet p.cell_constraints row col (tGet p.cell_constraints row col - 1) }
  if tGet p.cell_constraints row col = 0 then .error ⟨⟩
  else if tGet p.cell_constraints row col = 1 then
    .ok { p with work_queue := enqueue_adjacent p.work_queue row col (find_in_cell p row col) }
  else .ok p

/-- Row-constraint stage of `eliminate`. -/
def elimRow (p : Possibilities) (row digit : Nat) : Except ImpossiblePuzzle Possibilities :=
  let p := { p with
    row_constraints := tSet p.row_constraints row digit (tGet p.row_constraints row digit - 1) }
  if tGet p.row_constraints row digit = 0 then .error ⟨⟩
  else if tGet p.row_constraints row digit = 1 then
    .ok { p with work_queue := enqueue_others p.work_queue row (find_in_row p row digit) digit }
  else .ok p

/-- Column-constraint stage of `eliminate`. -/
def elimCol (p : Possibilities) (col digit : Nat) : Except ImpossiblePuzzle Possibilities :=
  let p := { p with
    col_constraints := tSet p.col_constraints col digit (tGet p.col_constraints col digit - 1) }
  if tGet p.col_constraints col digit = 0 then .error ⟨⟩
  else if tGet p.col_constraints col digit = 1 then
    .ok { p with work_queue := enqueue_others p.work_queue (find_in_col p col digit) col digit }
  else .ok p

/-- Box-constraint stage of `eliminate`. -/
def elimBox (p : Possibilities) (row col digit : Nat) : Except ImpossiblePuzzle Possibilities :=
  let b := row / 3 * 3 + col / 3
  let p := { p with
    box_constraints := tSet p.box_constraints b digit (tGet p.box_constraints b digit - 1) }
  if tGet p.box_constraints b digit = 0 then .error ⟨⟩
  else if tGet p.box_constraints b digit = 1 then
    let rc := find_in_box p row col digit
    .ok { p with work_queue := enqueue_others p.work_queue rc.1 rc.2 digit }
  else .ok p

/-- Eliminate a digit from a cell, update the four constraint counters in
order (cell, row, column, box), failing the moment one reaches zero and
enqueueing cascade work when one reaches one.  Re-eliminating an absent
digit is a no-op. -/
def eliminate (p : Possibilities) (row col digit : Nat) :
    Except ImpossiblePuzzle Possibilities :=
  let op := (patGet p.patterns digit).remove row col
  if op.1 = false then .ok p
  else
    let p := { p with patterns := p.patterns.set digit op.2 }
    (elimCell p row col).bind fun p =>
      (elimRow p row digit).bind fun p =>
        (elimCol p col digit).bind fun p =>
          elimBox p row col digit

/-- Worklist loop, driven by fuel.  The zero-fuel/nonempty-queue branch is
unreachable for the fuel chosen in `Possibilities.work` (see the fuel lemmas
below); it must answer something, and answers the untaken error. -/
def workAux : Nat → Possibilities → Except ImpossiblePuzzle Possibilities
  | 0, p =>
    match p.work_queue with
    | [] => .ok p
    | _ :: _ => .error ⟨⟩
  | fuel + 1, p =>
    match p.work_queue with
    | [] => .ok p
    | (row, col, digit) :: rest =>
      match eliminate { p with work_queue := rest } row col digit with
      | .error e => .error e
      | .ok p2 => workAux fuel p2

/-- Count of the used bit positions of the three words (the worklist measure
counts all 96 word bits so that it shrinks on any clear). -/
def patBits (p : Pattern) : Nat :=
  (List.range 96).countP (fun i => (p.word (i / 32)).testBit (i % 32))

/-- Total live-bit count of the nine digit patterns. -/
def patsBits (l : List Pattern) : Nat :=
  ((List.range 9).map (fun d => patBits (patGet l d))).sum

/-- Decreasing measure of the worklist loop. -/
def measureP (p : Possibilities) : Nat :=
  53 * patsBits p.patterns + p.work_queue.length

/-- Run the work queue until empty.  The fuel `45792 + queue length` always
dominates `measureP` (since `patsBits ≤ 9 * 96`), so the loop always
terminates by draining the queue or hitting a contradiction. -/
def Possibilities.work (p : Possibilities) : Except ImpossiblePuzzle Possibilities :=
  workAux (45792 + p.work_queue.length) p

/-- Remove all other digits from this cell, and apply logic. -/
def Possibilities.set (p : Possibilities) (row col digit : Nat) :
    Except ImpossiblePuzzle Possibilities :=
  Possibilities.work
    { p with work_queue := enqueue_others p.work_queue row col (digit - 1) }

/-- Loop of `unique`: for each digit in turn, demand exactly one template
within the candidate pattern; `left` counts the digits still to process. -/
def uniqueLoop (p : Possibilities) : Nat → Solution → Option Solution
  | 0, sol => some sol
  | left + 1, sol =>
    let digit := 9 - (left + 1)
    match Template.within (patGet p.patterns digit) with
    | [] => none
    | [t] => uniqueLoop p left (sol.setT digit t)
    | _ :: _ :: _ => none

/-- If the solution is unique, return it. -/
def Possibilities.unique (p : Possibilities) : Option Solution :=
  (uniqueLoop p 9 Solution.default9).filter (fun s => s.is_valid)

/-- Prepare a puzzle from user input (9×9 grid of 0..9, row-major). -/
def prepare (input : List (List Nat)) : Except ImpossiblePuzzle Possibilities :=
  (List.range 9).foldlM
    (fun p row =>
      (List.range 9).foldlM
        (fun p col =>
          if 0 < (input.getD row []).getD col 0 then
            p.set row col ((input.getD row []).getD col 0)
          else .ok p)
        p)
    Possibilities.new

/-- Clue-insertion loop of `solve`: one `set` per nonzero cell of the flat
81-cell grid, stopping at the first contradiction. -/
def solveSets (puzzle : List Nat) : Except ImpossiblePuzzle Possibilities :=
  (List.range 81).foldlM
    (fun p cell =>
      if puzzle.getD cell 0 = 0 then .ok p
      else p.set (cell / 9) (cell % 9) (puzzle.getD cell 0))
    Possibilities.new

/-- Per-digit template lists before sorting. -/
def mkTemplates (poss : Possibilities) : List (Nat × List Template) :=
  (List.range 9).map (fun digit => (digit, Template.within (patGet poss.patterns digit)))

/-- Sort digits from most- to least-restricted (stable sort by list length,
as Rust `sort_by_key`). -/
def sortTemplates (l : List (Nat × List Template)) : List (Nat × List Template) :=
  l.mergeSort (fun a b => decide (a.2.length ≤ b.2.length))

mutual

/-- Backtracking search over per-digit template choices.  Mirrors the nested
recursion of Rust `search`: the outer match walks the digit list, the inner
loop walks one digit's candidates.  The scratch solution is threaded
explicitly (it is a `&mut` in Rust); recorded solutions are appended to
`out`. -/
def search (out : List Solution) (sol : Solution) (filled : Pattern)
    (templates : List (Nat × List Template)) (max_solutions : Nat) :
    List Solution × Solution :=
  match templates with
  | [] => (out ++ [sol], sol)
  | (digit, possible) :: rest =>
    searchLoop out sol filled digit possible rest max_solutions
termination_by (templates.length + 1, 0)

/-- Candidate loop of `search` for one digit: skip templates that intersect
`filled`, recurse on the rest of the digits, and stop as soon as the
recorded-solution count has reached `max_solutions`. -/
def searchLoop (out : List Solution) (sol : Solution) (filled : Pattern)
    (digit : Nat) (possible : List Template) (rest : List (Nat × List Template))
    (max_solutions : Nat) : List Solution × Solution :=
  match possible with
  | [] => (out, sol)
  | t :: ts =>
    if t.as_pattern.intersects filled then
      searchLoop out sol filled digit ts rest max_solutions
    else
      let r := search out (sol.setT digit t) (filled.lor t.as_pattern) rest max_solutions
      if max_solutions ≤ r.1.length then r
      else searchLoop r.1 r.2 filled digit ts rest max_solutions
termination_by (rest.length + 1, possible.length + 1)
decreasing_by
  all_goals simp_wf
  all_goals omega

end

/-- Solve a puzzle, stopping after a maximum number of solutions.  (The Rust
function finally formats each solution as a string; the formatting boundary
is out of scope and the recorded solutions themselves are returned.) -/
def solve (puzzle : List Nat) (max_solutions : Nat) : List Solution :=
  match solveSets puzzle with
  | .error _ => []
  | .ok poss =>
    (search [] Solution.default9 Pattern.EMPTY (sortTemplates (mkTemplates poss))
      max_solutions).1

/-- Extract the success state of a propagation run (used only to name
concrete witness states). -/
def okStateOf (e : Except ImpossiblePuzzle Possibilities) : Possibilities :=
  match e with
  | .ok p => p
  | .error _ => Possibilities.new

/-! ### Counting predicates and invariants used in the statements -/

/-- Number of cells of `p` in row `r`. -/
def rowCount (p : Pattern) (r : Nat) : Nat :=
  (List.range 9).countP (fun c => p.has r c)

/-- Number of cells of `p` in column `c`. -/
def colCount (p : Pattern) (c : Nat) : Nat :=
  (List.range 9).countP (fun r => p.has r c)

/-- Number of cells of `p` in box `b` (boxes indexed row-major). -/
def boxCount (p : Pattern) (b : Nat) : Nat :=
  (box_cells (b / 3 * 3) (b % 3 * 3)).countP (fun rc => p.has rc.1 rc.2)

/-- Total number of cells of `p` over the 81 board positions. -/
def cellsCount (p : Pattern) : Nat :=
  (List.range 81).countP (fun i => p.has (i / 9) (i % 9))

/-- A legal single-digit layout: one cell per row, per column and per box. -/
def Pattern.shape (p : Pattern) : Prop :=
  (∀ r, r < 9 → rowCount p r = 1) ∧ (∀ c, c < 9 → colCount p c = 1) ∧
    (∀ b, b < 9 → boxCount p b = 1)

instance (p : Pattern) : Decidable p.shape := by
  unfold Pattern.shape
  infer_instance

/-- Closed count of the `fill` tree: row `9 - left` admits
`(3 - row % 3) * (3 - row / 3)` choices. -/
def fillLen : Nat → Nat
  | 0 => 1
  | left + 1 => (3 - (9 - (left + 1)) % 3) * (3 - (9 - (left + 1)) / 3) * fillLen left

/-- Invariant of the `fill` recursion about to place `row`: the rows below
`row` hold exactly one cell each, the `cols`/`boxes` usage masks record the
columns and boxes consumed so far, bands before the current one are fully
used, later bands untouched, and every column triple holds one used column
per completed band plus one for the current band's box if that box is used. -/
def FillInv (row cols boxes : Nat) (build : Pattern) : Prop :=
  row ≤ 9 ∧ build.wf ∧
  (∀ r c, r < 9 → c < 9 → row ≤ r → build.has r c = false) ∧
  (∀ r, r < row → rowCount build r = 1) ∧
  (∀ c, c < 9 → colCount build c = (cols.testBit c).toNat) ∧
  (∀ b, b < 9 → boxCount build b = (boxes.testBit b).toNat) ∧
  (∀ c, 9 ≤ c → cols.testBit c = false) ∧
  (∀ b, 9 ≤ b → boxes.testBit b = false) ∧
  (∀ t bb, t < 3 → bb < 3 → bb < row / 3 → boxes.testBit (3 * bb + t) = true) ∧
  (∀ t bb, t < 3 → bb < 3 → row / 3 < bb → boxes.testBit (3 * bb + t) = false) ∧
  ((boxes.testBit (3 * (row / 3))).toNat + (boxes.testBit (3 * (row / 3) + 1)).toNat +
      (boxes.testBit (3 * (row / 3) + 2)).toNat = row % 3) ∧
  (∀ t, t < 3 → (cols.testBit (3 * t)).toNat + (cols.testBit (3 * t + 1)).toNat +
      (cols.testBit (3 * t + 2)).toNat = row / 3 + (boxes.testBit (3 * (row / 3) + t)).toNat)

/-- Live popcount of digit `d` candidates at cell `(r, c)`. -/
def cellLive (p : Possibilities) (r c : Nat) : Nat :=
  (List.range 9).countP (fun d => (patGet p.patterns d).has r c)

/-- Live popcount of digit `d` candidates in row `r`. -/
def rowLive (p : Possibilities) (r d : Nat) : Nat :=
  (List.range 9).countP (fun c => (patGet p.patterns d).has r c)

/-- Live popcount of digit `d` candidates in column `c`. -/
def colLive (p : Possibilities) (c d : Nat) : Nat :=
  (List.range 9).countP (fun r => (patGet p.patterns d).has r c)

/-- Live popcount of digit `d` candidates in box `b`. -/
def boxLive (p : Possibilities) (b d : Nat) : Nat :=
  (box_cells (b / 3 * 3) (b % 3 * 3)).countP (fun rc => (patGet p.patterns d).has rc.1 rc.2)

/-- Shape of the state's arrays: the `[Pattern; 9]` and `[[u8; 9]; 9]` sizes. -/
def TablesWF (p : Possibilities) : Prop :=
  p.patterns.length = 9 ∧
  p.cell_constraints.length = 9 ∧ (∀ r ∈ p.cell_constraints, r.length = 9) ∧
  p.row_constraints.length = 9 ∧ (∀ r ∈ p.row_constraints, r.length = 9) ∧
  p.col_constraints.length = 9 ∧ (∀ r ∈ p.col_constraints, r.length = 9) ∧
  p.box_constraints.length = 9 ∧ (∀ r ∈ p.box_constraints, r.length = 9)

/-- Every tracked counter equals the live popcount of its slice (C4). -/
def InvCounts (p : Possibilities) : Prop :=
  (∀ r c, r < 9 → c < 9 → tGet p.cell_constraints r c = cellLive p r c) ∧
  (∀ r d, r < 9 → d < 9 → tGet p.row_constraints r d = rowLive p r d) ∧
  (∀ c d, c < 9 → d < 9 → tGet p.col_constraints c d = colLive p c d) ∧
  (∀ b d, b < 9 → d < 9 → tGet p.box_constraints b d = boxLive p b d)

/-- Every cell counter is still positive. -/
def CellPos (p : Possibilities) : Prop :=
  ∀ r c, r < 9 → c < 9 → 1 ≤ tGet p.cell_constraints r c

/-- All queued eliminations address valid coordinates. -/
def QueueWF (p : Possibilities) : Prop :=
  ∀ x ∈ p.work_queue, x.1 < 9 ∧ x.2.1 < 9 ∧ x.2.2 < 9

/-- A cell already decided (counter 1) for digit `d` has `d` eliminated from
the rest of its row, except for eliminations still pending in the queue. -/
def I2row (p : Possibilities) : Prop :=
  ∀ r c d, r < 9 → c < 9 → d < 9 → tGet p.cell_constraints r c = 1 →
    (patGet p.patterns d).has r c = true →
    ∀ c2, c2 < 9 → c2 ≠ c →
      (patGet p.patterns d).has r c2 = false ∨ (r, c2, d) ∈ p.work_queue

/-- Bundle of propagation-state invariants preserved by every `Ok` step. -/
def GoodP (p : Possibilities) : Prop :=
  TablesWF p ∧ InvCounts p ∧ CellPos p ∧ QueueWF p ∧ I2row p

/-- States reachable from `new` by successful `set` calls with valid
arguments (rows and columns below 9, digits 1 to 9, as at every call site). -/
inductive ReachableOk : Possibilities → Prop where
  | base : ReachableOk Possibilities.new
  | step {p q : Possibilities} (row col digit : Nat) : ReachableOk p →
      row < 9 → col < 9 → 1 ≤ digit → digit ≤ 9 →
      p.set row col digit = .ok q → ReachableOk q

/-- The specification's notion of a valid solution: nine templates whose
patterns are pairwise disjoint and jointly cover all 81 cells. -/
def SolutionValidSpec (s : Solution) : Prop :=
  s.ts.length = 9 ∧
  (∀ d d2, d < 9 → d2 < 9 → d ≠ d2 →
    (s.get d).as_pattern.intersects (s.get d2).as_pattern = false) ∧
  (∀ r c, r < 9 → c < 9 → ∃ d, d < 9 ∧ (s.get d).as_pattern.has r c = true)

/-- Row-major flattening of a 9×9 grid into the 81-cell list `solve` takes. -/
def flattenGrid (input : List (List Nat)) : List Nat :=
  (List.range 81).map (fun i => (input.getD (i / 9) []).getD (i % 9) 0)

/-- A concrete fully-solved grid (row-major, all 81 clues). -/
def fullGridL : List Nat :=
  [5, 3, 4, 6, 7, 8, 9, 1, 2, 6, 7, 2, 1, 9, 5, 3, 4, 8, 1, 9, 8, 3, 4, 2, 5, 6, 7,
   8, 5, 9, 7, 6, 1, 4, 2, 3, 4, 2, 6, 8, 5, 3, 7, 9, 1, 7, 1, 3, 9, 2, 4, 8, 5, 6,
   9, 6, 1, 5, 3, 7, 2, 8, 4, 2, 8, 7, 4, 1, 9, 6, 3, 5, 3, 4, 5, 2, 8, 6, 1, 7, 9]

/-- The propagation fixpoint on `fullGridL`: each digit narrowed to its nine
cells, every counter 1, queue empty. -/
def solvedState : Possibilities :=
  ⟨[⟨266368, 16797697, 16392⟩, ⟨8390912, 2416050212, 2048⟩, ⟨2129922, 67142152, 320⟩,
    ⟨4259844, 1074003986, 516⟩, ⟨285229057, 34603264, 1152⟩, ⟨2181038600, 10485824, 8224⟩,
    ⟨1140851728, 134226944, 32770⟩, ⟨135397408, 537395328, 4097⟩, ⟨537403456, 4261888, 65552⟩],
   [],
   List.replicate 9 (List.replicate 9 1), List.replicate 9 (List.replicate 9 1),
   List.replicate 9 (List.replicate 9 1), List.replicate 9 (List.replicate 9 1)⟩

/-- A grid with digit 5 at both columns 0 and 3 of row 0 (scenario B). -/
def dupGrid : List (List Nat) := [[5, 0, 0, 5, 0, 0, 0, 0, 0]]


/-- Intermediate propagation states while `solveSets` inserts the 81 clues
of `fullGridL`, one state per processed cell (`fullS1` is the state after
cell 0, and the state after cell 80 is `solvedState`). -/

def fullS1 : Possibilities :=
  ⟨[⟨4294967294, 4294967295, 131071⟩,
    ⟨4294967294, 4294967295, 131071⟩,
    ⟨4294967294, 4294967295, 131071⟩,
    ⟨4294967294, 4294967295, 131071⟩,
    ⟨4158910465, 2143281135, 130815⟩,
    ⟨4294967294, 4294967295, 131071⟩,
    ⟨4294967294, 4294967295, 131071⟩,
    ⟨4294967294, 4294967295, 131071⟩,
    ⟨4294967294, 4294967295, 131071⟩], [],
   [[1, 8, 8, 8, 8, 8, 8, 8, 8], [8, 8, 8, 9, 9, 9, 9, 9, 9], [8, 8, 8, 9, 9, 9, 9, 9, 9], [8, 9, 9, 9, 9, 9, 9, 9, 9], [8, 9, 9, 9, 9, 9, 9, 9, 9], [8, 9, 9, 9, 9, 9, 9, 9, 9], [8, 9, 9, 9, 9, 9, 9, 9, 9], [8, 9, 9, 9, 9, 9, 9, 9, 9], [8, 9, 9, 9, 9, 9, 9, 9, 9]],
   [[8, 8, 8, 8, 1, 8, 8, 8, 8], [9, 9, 9, 9, 6, 9, 9, 9, 9], [9, 9, 9, 9, 6, 9, 9, 9, 9], [9, 9, 9, 9, 8, 9, 9, 9, 9], [9, 9, 9, 9, 8, 9, 9, 9, 9], [9, 9, 9, 9, 8, 9, 9, 9, 9], [9, 9, 9, 9, 8, 9, 9, 9, 9], [9, 9, 9, 9, 8, 9, 9, 9, 9], [9, 9, 9, 9, 8, 9, 9, 9, 9]],
   [[8, 8, 8, 8, 1, 8, 8, 8, 8], [9, 9, 9, 9, 6, 9, 9, 9, 9], [9, 9, 9, 9, 6, 9, 9, 9, 9], [9, 9, 9, 9, 8, 9, 9, 9, 9], [9, 9, 9, 9, 8, 9, 9, 9, 9], [9, 9, 9, 9, 8, 9, 9, 9, 9], [9, 9, 9, 9, 8, 9, 9, 9, 9], [9, 9, 9, 9, 8, 9, 9, 9, 9], [9, 9, 9, 9, 8, 9, 9, 9, 9]],
   [[8, 8, 8, 8, 1, 8, 8, 8, 8], [9, 9, 9, 9, 6, 9, 9, 9, 9], [9, 9, 9, 9, 6, 9, 9, 9, 9], [9, 9, 9, 9, 6, 9, 9, 9, 9], [9, 9, 9, 9, 9, 9, 9, 9, 9], [9, 9, 9, 9, 9, 9, 9, 9, 9], [9, 9, 9, 9, 6, 9, 9, 9, 9], [9, 9, 9, 9, 9, 9, 9, 9, 9], [9, 9, 9, 9, 9, 9, 9, 9, 9]]⟩

def fullS2 : Possibilities :=
  ⟨[⟨4294967292, 4294967295, 131071⟩,
    ⟨4294967292, 4294967295, 131071⟩,
    ⟨4024692738, 4286562271, 130558⟩,
    ⟨4294967292, 4294967295, 131071⟩,
    ⟨4158910465, 2143281135, 130815⟩,
    ⟨4294967292, 4294967295, 131071⟩,
    ⟨4294967292, 4294967295, 131071⟩,
    ⟨4294967292, 4294967295, 131071⟩,
    ⟨4294967292, 4294967295, 131071⟩], [],
   [[1, 1, 7, 7, 7, 7, 7, 7, 7], [7, 7, 7, 9, 9, 9, 9, 9, 9], [7, 7, 7, 9, 9, 9, 9, 9, 9], [8, 8, 9, 9, 9, 9, 9, 9, 9], [8, 8, 9, 9, 9, 9, 9, 9, 9], [8, 8, 9, 9, 9, 9, 9, 9, 9], [8, 8, 9, 9, 9, 9, 9, 9, 9], [8, 8, 9, 9, 9, 9, 9, 9, 9], [8, 8, 9, 9, 9, 9, 9, 9, 9]],
   [[7, 7, 1, 7, 1, 7, 7, 7, 7], [9, 9, 6, 9, 6, 9, 9, 9, 9], [9, 9, 6, 9, 6, 9, 9, 9, 9], [9, 9, 8, 9, 8, 9, 9, 9, 9], [9, 9, 8, 9, 8, 9, 9, 9, 9], [9, 9, 8, 9, 8, 9, 9, 9, 9], [9, 9, 8, 9, 8, 9, 9, 9, 9], [9, 9, 8, 9, 8, 9, 9, 9, 9], [9, 9, 8, 9, 8, 9, 9, 9, 9]],
   [[8, 8, 6, 8, 1, 8, 8, 8, 8], [8, 8, 1, 8, 6, 8, 8, 8, 8], [9, 9, 6, 9, 6, 9, 9, 9, 9], [9, 9, 8, 9, 8, 9, 9, 9, 9], [9, 9, 8, 9, 8, 9, 9, 9, 9], [9, 9, 8, 9, 8, 9, 9, 9, 9], [9, 9, 8, 9, 8, 9, 9, 9, 9], [9, 9, 8, 9, 8, 9, 9, 9, 9], [9, 9, 8, 9, 8, 9, 9, 9, 9]],
   [[7, 7, 1, 7, 1, 7, 7, 7, 7], [9, 9, 6, 9, 6, 9, 9, 9, 9], [9, 9, 6, 9, 6, 9, 9, 9, 9], [9, 9, 6, 9, 6, 9, 9, 9, 9], [9, 9, 9, 9, 9, 9, 9, 9, 9], [9, 9, 9, 9, 9, 9, 9, 9, 9], [9, 9, 6, 9, 6, 9, 9, 9, 9], [9, 9, 9, 9, 9, 9, 9, 9, 9], [9, 9, 9, 9, 9, 9, 9, 9, 9]]⟩

def fullS3 : Possibilities :=
  ⟨[⟨4294967288, 4294967295, 131071⟩,
    ⟨4294967288, 4294967295, 131071⟩,
    ⟨4024692738, 4286562271, 130558⟩,
    ⟨3756257284, 4278157247, 130045⟩,
    ⟨4158910465, 2143281135, 130815⟩,
    ⟨4294967288, 4294967295, 131071⟩,
    ⟨4294967288, 4294967295, 131071⟩,
    ⟨4294967288, 4294967295, 131071⟩,
    ⟨4294967288, 4294967295, 131071⟩], [],
   [[1, 1, 1, 6, 6, 6, 6, 6, 6], [6, 6, 6, 9, 9, 9, 9, 9, 9], [6, 6, 6, 9, 9, 9, 9, 9, 9], [8, 8, 8, 9, 9, 9, 9, 9, 9], [8, 8, 8, 9, 9, 9, 9, 9, 9], [8, 8, 8, 9, 9, 9, 9, 9, 9], [8, 8, 8, 9, 9, 9, 9, 9, 9], [8, 8, 8, 9, 9, 9, 9, 9, 9], [8, 8, 8, 9, 9, 9, 9, 9, 9]],
   [[6, 6, 1, 1, 1, 6, 6, 6, 6], [9, 9, 6, 6, 6, 9, 9, 9, 9], [9, 9, 6, 6, 6, 9, 9, 9, 9], [9, 9, 8, 8, 8, 9, 9, 9, 9], [9, 9, 8, 8, 8, 9, 9, 9, 9], [9, 9, 8, 8, 8, 9, 9, 9, 9], [9, 9, 8, 8, 8, 9, 9, 9, 9], [9, 9, 8, 8, 8, 9, 9, 9, 9], [9, 9, 8, 8, 8, 9, 9, 9, 9]],
   [[8, 8, 6, 6, 1, 8, 8, 8, 8], [8, 8, 1, 6, 6, 8, 8, 8, 8], [8, 8, 6, 1, 6, 8, 8, 8, 8], [9, 9, 8, 8, 8, 9, 9, 9, 9], [9, 9, 8, 8, 8, 9, 9, 9, 9], [9, 9, 8, 8, 8, 9, 9, 9, 9], [9, 9, 8, 8, 8, 9, 9, 9, 9], [9, 9, 8, 8, 8, 9, 9, 9, 9], [9, 9, 8, 8, 8, 9, 9, 9, 9]],
   [[6, 6, 1, 1, 1, 6, 6, 6, 6], [9, 9, 6, 6, 6, 9, 9, 9, 9], [9, 9, 6, 6, 6, 9, 9, 9, 9], [9, 9, 6, 6, 6, 9, 9, 9, 9], [9, 9, 9, 9, 9, 9, 9, 9, 9], [9, 9, 9, 9, 9, 9, 9, 9, 9], [9, 9, 6, 6, 6, 9, 9, 9, 9], [9, 9, 9, 9, 9, 9, 9, 9, 9], [9, 9, 9, 9, 9, 9, 9, 9, 9]]⟩

def fullS4 : Possibilities :=
  ⟨[⟨4294967280, 4294967295, 131071⟩,
    ⟨4294967280, 4294967295, 131071⟩,
    ⟨4024692738, 4286562271, 130558⟩,
    ⟨3756257284, 4278157247, 130045⟩,
    ⟨4158910465, 2143281135, 130815⟩,
    ⟨3206516232, 4261347199, 129019⟩,
    ⟨4294967280, 4294967295, 131071⟩,
    ⟨4294967280, 4294967295, 131071⟩,
    ⟨4294967280, 4294967295, 131071⟩], [],
   [[1, 1, 1, 1, 5, 5, 5, 5, 5], [6, 6, 6, 8, 8, 8, 9, 9, 9], [6, 6, 6, 8, 8, 8, 9, 9, 9], [8, 8, 8, 8, 9, 9, 9, 9, 9], [8, 8, 8, 8, 9, 9, 9, 9, 9], [8, 8, 8, 8, 9, 9, 9, 9, 9], [8, 8, 8, 8, 9, 9, 9, 9, 9], [8, 8, 8, 8, 9, 9, 9, 9, 9], [8, 8, 8, 8, 9, 9, 9, 9, 9]],
   [[5, 5, 1, 1, 1, 1, 5, 5, 5], [9, 9, 6, 6, 6, 6, 9, 9, 9], [9, 9, 6, 6, 6, 6, 9, 9, 9], [9, 9, 8, 8, 8, 8, 9, 9, 9], [9, 9, 8, 8, 8, 8, 9, 9, 9], [9, 9, 8, 8, 8, 8, 9, 9, 9], [9, 9, 8, 8, 8, 8, 9, 9, 9], [9, 9, 8, 8, 8, 8, 9, 9, 9], [9, 9, 8, 8, 8, 8, 9, 9, 9]],
   [[8, 8, 6, 6, 1, 8, 8, 8, 8], [8, 8, 1, 6, 6, 8, 8, 8, 8], [8, 8, 6, 1, 6, 8, 8, 8, 8], [8, 8, 8, 8, 8, 1, 8, 8, 8], [9, 9, 8, 8, 8, 6, 9, 9, 9], [9, 9, 8, 8, 8, 6, 9, 9, 9], [9, 9, 8, 8, 8, 8, 9, 9, 9], [9, 9, 8, 8, 8, 8, 9, 9, 9], [9, 9, 8, 8, 8, 8, 9, 9, 9]],
   [[6, 6, 1, 1, 1, 6, 6, 6, 6], [8, 8, 6, 6, 6, 1, 8, 8, 8], [9, 9, 6, 6, 6, 6, 9, 9, 9], [9, 9, 6, 6, 6, 9, 9, 9, 9], [9, 9, 9, 9, 9, 6, 9, 9, 9], [9, 9, 9, 9, 9, 9, 9, 9, 9], [9, 9, 6, 6, 6, 9, 9, 9, 9], [9, 9, 9, 9, 9, 6, 9, 9, 9], [9, 9, 9, 9, 9, 9, 9, 9, 9]]⟩

def fullS5 : Possibilities :=
  ⟨[⟨4294967264, 4294967295, 131071⟩,
    ⟨4294967264, 4294967295, 131071⟩,
    ⟨4024692738, 4286562271, 130558⟩,
    ⟨3756257284, 4278157247, 130045⟩,
    ⟨4158910465, 2143281135, 130815⟩,
    ⟨3206516232, 4261347199, 129019⟩,
    ⟨2132774416, 4227727103, 126967⟩,
    ⟨4294967264, 4294967295, 131071⟩,
    ⟨4294967264, 4294967295, 131071⟩], [],
   [[1, 1, 1, 1, 1, 4, 4, 4, 4], [6, 6, 6, 7, 7, 7, 9, 9, 9], [6, 6, 6, 7, 7, 7, 9, 9, 9], [8, 8, 8, 8, 8, 9, 9, 9, 9], [8, 8, 8, 8, 8, 9, 9, 9, 9], [8, 8, 8, 8, 8, 9, 9, 9, 9], [8, 8, 8, 8, 8, 9, 9, 9, 9], [8, 8, 8, 8, 8, 9, 9, 9, 9], [8, 8, 8, 8, 8, 9, 9, 9, 9]],
   [[4, 4, 1, 1, 1, 1, 1, 4, 4], [9, 9, 6, 6, 6, 6, 6, 9, 9], [9, 9, 6, 6, 6, 6, 6, 9, 9], [9, 9, 8, 8, 8, 8, 8, 9, 9], [9, 9, 8, 8, 8, 8, 8, 9, 9], [9, 9, 8, 8, 8, 8, 8, 9, 9], [9, 9, 8, 8, 8, 8, 8, 9, 9], [9, 9, 8, 8, 8, 8, 8, 9, 9], [9, 9, 8, 8, 8, 8, 8, 9, 9]],
   [[8, 8, 6, 6, 1, 8, 8, 8, 8], [8, 8, 1, 6, 6, 8, 8, 8, 8], [8, 8, 6, 1, 6, 8, 8, 8, 8], [8, 8, 8, 8, 8, 1, 6, 8, 8], [8, 8, 8, 8, 8, 6, 1, 8, 8], [9, 9, 8, 8, 8, 6, 6, 9, 9], [9, 9, 8, 8, 8, 8, 8, 9, 9], [9, 9, 8, 8, 8, 8, 8, 9, 9], [9, 9, 8, 8, 8, 8, 8, 9, 9]],
   [[6, 6, 1, 1, 1, 6, 6, 6, 6], [7, 7, 6, 6, 6, 1, 1, 7, 7], [9, 9, 6, 6, 6, 6, 6, 9, 9], [9, 9, 6, 6, 6, 9, 9, 9, 9], [9, 9, 9, 9, 9, 6, 6, 9, 9], [9, 9, 9, 9, 9, 9, 9, 9, 9], [9, 9, 6, 6, 6, 9, 9, 9, 9], [9, 9, 9, 9, 9, 6, 6, 9, 9], [9, 9, 9, 9, 9, 9, 9, 9, 9]]⟩

def fullS6 : Possibilities :=
  ⟨[⟨4294967232, 4294967295, 131071⟩,
    ⟨4294967232, 4294967295, 131071⟩,
    ⟨4024692738, 4286562271, 130558⟩,
    ⟨3756257284, 4278157247, 130045⟩,
    ⟨4158910465, 2143281135, 130815⟩,
    ⟨3206516232, 4261347199, 129019⟩,
    ⟨2132774416, 4227727103, 126967⟩,
    ⟨4280258080, 4160486910, 122863⟩,
    ⟨4294967232, 4294967295, 131071⟩], [],
   [[1, 1, 1, 1, 1, 1, 3, 3, 3], [6, 6, 6, 6, 6, 6, 9, 9, 9], [6, 6, 6, 6, 6, 6, 9, 9, 9], [8, 8, 8, 8, 8, 8, 9, 9, 9], [8, 8, 8, 8, 8, 8, 9, 9, 9], [8, 8, 8, 8, 8, 8, 9, 9, 9], [8, 8, 8, 8, 8, 8, 9, 9, 9], [8, 8, 8, 8, 8, 8, 9, 9, 9], [8, 8, 8, 8, 8, 8, 9, 9, 9]],
   [[3, 3, 1, 1, 1, 1, 1, 1, 3], [9, 9, 6, 6, 6, 6, 6, 6, 9], [9, 9, 6, 6, 6, 6, 6, 6, 9], [9, 9, 8, 8, 8, 8, 8, 8, 9], [9, 9, 8, 8, 8, 8, 8, 8, 9], [9, 9, 8, 8, 8, 8, 8, 8, 9], [9, 9, 8, 8, 8, 8, 8, 8, 9], [9, 9, 8, 8, 8, 8, 8, 8, 9], [9, 9, 8, 8, 8, 8, 8, 8, 9]],
   [[8, 8, 6, 6, 1, 8, 8, 8, 8], [8, 8, 1, 6, 6, 8, 8, 8, 8], [8, 8, 6, 1, 6, 8, 8, 8, 8], [8, 8, 8, 8, 8, 1, 6, 6, 8], [8, 8, 8, 8, 8, 6, 1, 6, 8], [8, 8, 8, 8, 8, 6, 6, 1, 8], [9, 9, 8, 8, 8, 8, 8, 8, 9], [9, 9, 8, 8, 8, 8, 8, 8, 9], [9, 9, 8, 8, 8, 8, 8, 8, 9]],
   [[6, 6, 1, 1, 1, 6, 6, 6, 6], [6, 6, 6, 6, 6, 1, 1, 1, 6], [9, 9, 6, 6, 6, 6, 6, 6, 9], [9, 9, 6, 6, 6, 9, 9, 9, 9], [9, 9, 9, 9, 9, 6, 6, 6, 9], [9, 9, 9, 9, 9, 9, 9, 9, 9], [9, 9, 6, 6, 6, 9, 9, 9, 9], [9, 9, 9, 9, 9, 6, 6, 6, 9], [9, 9, 9, 9, 9, 9, 9, 9, 9]]⟩

def fullS7 : Possibilities :=
  ⟨[⟨4294967168, 4294967295, 131071⟩,
    ⟨4294967168, 4294967295, 131071⟩,
    ⟨4024692738, 4286562271, 130558⟩,
    ⟨3756257284, 4278157247, 130045⟩,
    ⟨4158910465, 2143281135, 130815⟩,
    ⟨3206516232, 4261347199, 129019⟩,
    ⟨2132774416, 4227727103, 126967⟩,
    ⟨4280258080, 4160486910, 122863⟩,
    ⟨4177296960, 4026006525, 114655⟩], [],
   [[1, 1, 1, 1, 1, 1, 1, 2, 2], [6, 6, 6, 6, 6, 6, 8, 8, 8], [6, 6, 6, 6, 6, 6, 8, 8, 8], [8, 8, 8, 8, 8, 8, 8, 9, 9], [8, 8, 8, 8, 8, 8, 8, 9, 9], [8, 8, 8, 8, 8, 8, 8, 9, 9], [8, 8, 8, 8, 8, 8, 8, 9, 9], [8, 8, 8, 8, 8, 8, 8, 9, 9], [8, 8, 8, 8, 8, 8, 8, 9, 9]],
   [[2, 2, 1, 1, 1, 1, 1, 1, 1], [9, 9, 6, 6, 6, 6, 6, 6, 6], [9, 9, 6, 6, 6, 6, 6, 6, 6], [9, 9, 8, 8, 8, 8, 8, 8, 8], [9, 9, 8, 8, 8, 8, 8, 8, 8], [9, 9, 8, 8, 8, 8, 8, 8, 8], [9, 9, 8, 8, 8, 8, 8, 8, 8], [9, 9, 8, 8, 8, 8, 8, 8, 8], [9, 9, 8, 8, 8, 8, 8, 8, 8]],
   [[8, 8, 6, 6, 1, 8, 8, 8, 8], [8, 8, 1, 6, 6, 8, 8, 8, 8], [8, 8, 6, 1, 6, 8, 8, 8, 8], [8, 8, 8, 8, 8, 1, 6, 6, 8], [8, 8, 8, 8, 8, 6, 1, 6, 8], [8, 8, 8, 8, 8, 6, 6, 1, 8], [8, 8, 8, 8, 8, 8, 8, 8, 1], [9, 9, 8, 8, 8, 8, 8, 8, 6], [9, 9, 8, 8, 8, 8, 8, 8, 6]],
   [[6, 6, 1, 1, 1, 6, 6, 6, 6], [6, 6, 6, 6, 6, 1, 1, 1, 6], [8, 8, 6, 6, 6, 6, 6, 6, 1], [9, 9, 6, 6, 6, 9, 9, 9, 9], [9, 9, 9, 9, 9, 6, 6, 6, 9], [9, 9, 9, 9, 9, 9, 9, 9, 6], [9, 9, 6, 6, 6, 9, 9, 9, 9], [9, 9, 9, 9, 9, 6, 6, 6, 9], [9, 9, 9, 9, 9, 9, 9, 9, 6]]⟩

def fullS8 : Possibilities :=
  ⟨[⟨4177297024, 3757045755, 98239⟩,
    ⟨4177297152, 3219124215, 65407⟩,
    ⟨4024692738, 4286562271, 130558⟩,
    ⟨3756257284, 4278157247, 130045⟩,
    ⟨4158910465, 2143281135, 130815⟩,
    ⟨3206516232, 4261347199, 129019⟩,
    ⟨2132774416, 4227727103, 126967⟩,
    ⟨4280258080, 4160486910, 122863⟩,
    ⟨4177296960, 4026006525, 114655⟩], [],
   [[1, 1, 1, 1, 1, 1, 1, 1, 1], [6, 6, 6, 6, 6, 6, 6, 6, 6], [6, 6, 6, 6, 6, 6, 6, 6, 6], [8, 8, 8, 8, 8, 8, 8, 8, 8], [8, 8, 8, 8, 8, 8, 8, 8, 8], [8, 8, 8, 8, 8, 8, 8, 8, 8], [8, 8, 8, 8, 8, 8, 8, 8, 8], [8, 8, 8, 8, 8, 8, 8, 8, 8], [8, 8, 8, 8, 8, 8, 8, 8, 8]],
   [[1, 1, 1, 1, 1, 1, 1, 1, 1], [6, 6, 6, 6, 6, 6, 6, 6, 6], [6, 6, 6, 6, 6, 6, 6, 6, 6], [8, 8, 8, 8, 8, 8, 8, 8, 8], [8, 8, 8, 8, 8, 8, 8, 8, 8], [8, 8, 8, 8, 8, 8, 8, 8, 8], [8, 8, 8, 8, 8, 8, 8, 8, 8], [8, 8, 8, 8, 8, 8, 8, 8, 8], [8, 8, 8, 8, 8, 8, 8, 8, 8]],
   [[8, 8, 6, 6, 1, 8, 8, 8, 8], [8, 8, 1, 6, 6, 8, 8, 8, 8], [8, 8, 6, 1, 6, 8, 8, 8, 8], [8, 8, 8, 8, 8, 1, 6, 6, 8], [8, 8, 8, 8, 8, 6, 1, 6, 8], [8, 8, 8, 8, 8, 6, 6, 1, 8], [6, 6, 8, 8, 8, 8, 8, 8, 1], [1, 6, 8, 8, 8, 8, 8, 8, 6], [6, 1, 8, 8, 8, 8, 8, 8, 6]],
   [[6, 6, 1, 1, 1, 6, 6, 6, 6], [6, 6, 6, 6, 6, 1, 1, 1, 6], [1, 1, 6, 6, 6, 6, 6, 6, 1], [9, 9, 6, 6, 6, 9, 9, 9, 9], [9, 9, 9, 9, 9, 6, 6, 6, 9], [6, 6, 9, 9, 9, 9, 9, 9, 6], [9, 9, 6, 6, 6, 9, 9, 9, 9], [9, 9, 9, 9, 9, 6, 6, 6, 9], [6, 6, 9, 9, 9, 9, 9, 9, 6]]⟩

def fullS9 : Possibilities :=
  ⟨[⟨4177297024, 3757045755, 98239⟩,
    ⟨4177297152, 3219124215, 65407⟩,
    ⟨4024692738, 4286562271, 130558⟩,
    ⟨3756257284, 4278157247, 130045⟩,
    ⟨4158910465, 2143281135, 130815⟩,
    ⟨3206516232, 4261347199, 129019⟩,
    ⟨2132774416, 4227727103, 126967⟩,
    ⟨4280258080, 4160486910, 122863⟩,
    ⟨4177296960, 4026006525, 114655⟩], [],
   [[1, 1, 1, 1, 1, 1, 1, 1, 1], [6, 6, 6, 6, 6, 6, 6, 6, 6], [6, 6, 6, 6, 6, 6, 6, 6, 6], [8, 8, 8, 8, 8, 8, 8, 8, 8], [8, 8, 8, 8, 8, 8, 8, 8, 8], [8, 8, 8, 8, 8, 8, 8, 8, 8], [8, 8, 8, 8, 8, 8, 8, 8, 8], [8, 8, 8, 8, 8, 8, 8, 8, 8], [8, 8, 8, 8, 8, 8, 8, 8, 8]],
   [[1, 1, 1, 1, 1, 1, 1, 1, 1], [6, 6, 6, 6, 6, 6, 6, 6, 6], [6, 6, 6, 6, 6, 6, 6, 6, 6], [8, 8, 8, 8, 8, 8, 8, 8, 8], [8, 8, 8, 8, 8, 8, 8, 8, 8], [8, 8, 8, 8, 8, 8, 8, 8, 8], [8, 8, 8, 8, 8, 8, 8, 8, 8], [8, 8, 8, 8, 8, 8, 8, 8, 8], [8, 8, 8, 8, 8, 8, 8, 8, 8]],
   [[8, 8, 6, 6, 1, 8, 8, 8, 8], [8, 8, 1, 6, 6, 8, 8, 8, 8], [8, 8, 6, 1, 6, 8, 8, 8, 8], [8, 8, 8, 8, 8, 1, 6, 6, 8], [8, 8, 8, 8, 8, 6, 1, 6, 8], [8, 8, 8, 8, 8, 6, 6, 1, 8], [6, 6, 8, 8, 8, 8, 8, 8, 1], [1, 6, 8, 8, 8, 8, 8, 8, 6], [6, 1, 8, 8, 8, 8, 8, 8, 6]],
   [[6, 6, 1, 1, 1, 6, 6, 6, 6], [6, 6, 6, 6, 6, 1, 1, 1, 6], [1, 1, 6, 6, 6, 6, 6, 6, 1], [9, 9, 6, 6, 6, 9, 9, 9, 9], [9, 9, 9, 9, 9, 6, 6, 6, 9], [6, 6, 9, 9, 9, 9, 9, 9, 6], [9, 9, 6, 6, 6, 9, 9, 9, 9], [9, 9, 9, 9, 9, 6, 6, 6, 9], [6, 6, 9, 9, 9, 9, 9, 9, 6]]⟩

def fullS10 : Possibilities :=
  ⟨[⟨4177296512, 3757045755, 98239⟩,
    ⟨4177296640, 3219124215, 65407⟩,
    ⟨4024692738, 4286562271, 130558⟩,
    ⟨3756257284, 4278157247, 130045⟩,
    ⟨4158910465, 2143281135, 130815⟩,
    ⟨3070231048, 2109661039, 128763⟩,
    ⟨2132773904, 4227727103, 126967⟩,
    ⟨4280257568, 4160486910, 122863⟩,
    ⟨4177296448, 4026006525, 114655⟩], [],
   [[1, 1, 1, 1, 1, 1, 1, 1, 1], [1, 5, 5, 6, 6, 6, 5, 5, 5], [5, 5, 5, 6, 6, 6, 6, 6, 6], [7, 8, 8, 8, 8, 8, 8, 8, 8], [7, 8, 8, 8, 8, 8, 8, 8, 8], [7, 8, 8, 8, 8, 8, 8, 8, 8], [7, 8, 8, 8, 8, 8, 8, 8, 8], [7, 8, 8, 8, 8, 8, 8, 8, 8], [7, 8, 8, 8, 8, 8, 8, 8, 8]],
   [[1, 1, 1, 1, 1, 1, 1, 1, 1], [5, 5, 6, 6, 6, 1, 5, 5, 5], [6, 6, 6, 6, 6, 3, 6, 6, 6], [8, 8, 8, 8, 8, 7, 8, 8, 8], [8, 8, 8, 8, 8, 7, 8, 8, 8], [8, 8, 8, 8, 8, 7, 8, 8, 8], [8, 8, 8, 8, 8, 7, 8, 8, 8], [8, 8, 8, 8, 8, 7, 8, 8, 8], [8, 8, 8, 8, 8, 7, 8, 8, 8]],
   [[7, 7, 6, 6, 1, 1, 7, 7, 7], [8, 8, 1, 6, 6, 6, 8, 8, 8], [8, 8, 6, 1, 6, 6, 8, 8, 8], [8, 8, 8, 8, 8, 1, 6, 6, 8], [8, 8, 8, 8, 8, 6, 1, 6, 8], [8, 8, 8, 8, 8, 6, 6, 1, 8], [6, 6, 8, 8, 8, 7, 8, 8, 1], [1, 6, 8, 8, 8, 7, 8, 8, 6], [6, 1, 8, 8, 8, 7, 8, 8, 6]],
   [[5, 5, 1, 1, 1, 1, 5, 5, 5], [6, 6, 6, 6, 6, 1, 1, 1, 6], [1, 1, 6, 6, 6, 3, 6, 6, 1], [9, 9, 6, 6, 6, 6, 9, 9, 9], [9, 9, 9, 9, 9, 6, 6, 6, 9], [6, 6, 9, 9, 9, 9, 9, 9, 6], [9, 9, 6, 6, 6, 6, 9, 9, 9], [9, 9, 9, 9, 9, 6, 6, 6, 9], [6, 6, 9, 9, 9, 9, 9, 9, 6]]⟩

def fullS11 : Possibilities :=
  ⟨[⟨4177295488, 3757045755, 98239⟩,
    ⟨4177295616, 3219124215, 65407⟩,
    ⟨4024692738, 4286562271, 130558⟩,
    ⟨3756257284, 4278157247, 130045⟩,
    ⟨4158910465, 2143281135, 130815⟩,
    ⟨3070231048, 2109661039, 128763⟩,
    ⟨1862272016, 4219322079, 126454⟩,
    ⟨4280256544, 4160486910, 122863⟩,
    ⟨4177295424, 4026006525, 114655⟩], [],
   [[1, 1, 1, 1, 1, 1, 1, 1, 1], [1, 1, 4, 6, 6, 6, 4, 4, 4], [4, 4, 4, 6, 6, 6, 6, 6, 6], [7, 7, 8, 8, 8, 8, 8, 8, 8], [7, 7, 8, 8, 8, 8, 8, 8, 8], [7, 7, 8, 8, 8, 8, 8, 8, 8], [7, 7, 8, 8, 8, 8, 8, 8, 8], [7, 7, 8, 8, 8, 8, 8, 8, 8], [7, 7, 8, 8, 8, 8, 8, 8, 8]],
   [[1, 1, 1, 1, 1, 1, 1, 1, 1], [4, 4, 6, 6, 6, 1, 1, 4, 4], [6, 6, 6, 6, 6, 3, 3, 6, 6], [8, 8, 8, 8, 8, 7, 7, 8, 8], [8, 8, 8, 8, 8, 7, 7, 8, 8], [8, 8, 8, 8, 8, 7, 7, 8, 8], [8, 8, 8, 8, 8, 7, 7, 8, 8], [8, 8, 8, 8, 8, 7, 7, 8, 8], [8, 8, 8, 8, 8, 7, 7, 8, 8]],
   [[7, 7, 6, 6, 1, 1, 6, 7, 7], [7, 7, 1, 6, 6, 6, 1, 7, 7], [8, 8, 6, 1, 6, 6, 6, 8, 8], [8, 8, 8, 8, 8, 1, 6, 6, 8], [8, 8, 8, 8, 8, 6, 1, 6, 8], [8, 8, 8, 8, 8, 6, 6, 1, 8], [6, 6, 8, 8, 8, 7, 7, 8, 1], [1, 6, 8, 8, 8, 7, 7, 8, 6], [6, 1, 8, 8, 8, 7, 7, 8, 6]],
   [[4, 4, 1, 1, 1, 1, 1, 4, 4], [6, 6, 6, 6, 6, 1, 1, 1, 6], [1, 1, 6, 6, 6, 3, 3, 6, 1], [9, 9, 6, 6, 6, 6, 6, 9, 9], [9, 9, 9, 9, 9, 6, 6, 6, 9], [6, 6, 9, 9, 9, 9, 9, 9, 6], [9, 9, 6, 6, 6, 6, 6, 9, 9], [9, 9, 9, 9, 9, 6, 6, 6, 9], [6, 6, 9, 9, 9, 9, 9, 9, 6]]⟩

def fullS12 : Possibilities :=
  ⟨[⟨4177293440, 3757045755, 98239⟩,
    ⟨3638561024, 3202314167, 64381⟩,
    ⟨4024692738, 4286562271, 130558⟩,
    ⟨3756257284, 4278157247, 130045⟩,
    ⟨4158910465, 2143281135, 130815⟩,
    ⟨3070231048, 2109661039, 128763⟩,
    ⟨1862272016, 4219322079, 126454⟩,
    ⟨4280254496, 4160486910, 122863⟩,
    ⟨4177293376, 4026006525, 114655⟩], [],
   [[1, 1, 1, 1, 1, 1, 1, 1, 1], [1, 1, 1, 5, 5, 5, 4, 4, 4], [3, 3, 3, 6, 6, 6, 6, 6, 6], [7, 7, 7, 8, 8, 8, 8, 8, 8], [7, 7, 7, 8, 8, 8, 8, 8, 8], [7, 7, 7, 8, 8, 8, 8, 8, 8], [7, 7, 7, 8, 8, 8, 8, 8, 8], [7, 7, 7, 8, 8, 8, 8, 8, 8], [7, 7, 7, 8, 8, 8, 8, 8, 8]],
   [[1, 1, 1, 1, 1, 1, 1, 1, 1], [3, 1, 6, 6, 6, 1, 1, 3, 3], [6, 3, 6, 6, 6, 3, 3, 6, 6], [8, 7, 8, 8, 8, 7, 7, 8, 8], [8, 7, 8, 8, 8, 7, 7, 8, 8], [8, 7, 8, 8, 8, 7, 7, 8, 8], [8, 7, 8, 8, 8, 7, 7, 8, 8], [8, 7, 8, 8, 8, 7, 7, 8, 8], [8, 7, 8, 8, 8, 7, 7, 8, 8]],
   [[7, 6, 6, 6, 1, 1, 6, 7, 7], [7, 6, 1, 6, 6, 6, 1, 7, 7], [7, 1, 6, 1, 6, 6, 6, 7, 7], [8, 7, 8, 8, 8, 1, 6, 6, 8], [8, 7, 8, 8, 8, 6, 1, 6, 8], [8, 7, 8, 8, 8, 6, 6, 1, 8], [6, 6, 8, 8, 8, 7, 7, 8, 1], [1, 6, 8, 8, 8, 7, 7, 8, 6], [6, 1, 8, 8, 8, 7, 7, 8, 6]],
   [[3, 1, 1, 1, 1, 1, 1, 3, 3], [6, 3, 6, 6, 6, 1, 1, 1, 6], [1, 1, 6, 6, 6, 3, 3, 6, 1], [9, 6, 6, 6, 6, 6, 6, 9, 9], [9, 9, 9, 9, 9, 6, 6, 6, 9], [6, 6, 9, 9, 9, 9, 9, 9, 6], [9, 6, 6, 6, 6, 6, 6, 9, 9], [9, 9, 9, 9, 9, 6, 6, 6, 9], [6, 6, 9, 9, 9, 9, 9, 9, 6]]⟩

def fullS13 : Possibilities :=
  ⟨[⟨3088846976, 3723425659, 96187⟩,
    ⟨3638561024, 3202314167, 64381⟩,
    ⟨4024688642, 4286562271, 130558⟩,
    ⟨3756253188, 4278157247, 130045⟩,
    ⟨4158906369, 2143281135, 130815⟩,
    ⟨3070231048, 2109661039, 128763⟩,
    ⟨1862272016, 4219322079, 126454⟩,
    ⟨4280254496, 4160486910, 122863⟩,
    ⟨4177289280, 4026006525, 114655⟩], [],
   [[1, 1, 1, 1, 1, 1, 1, 1, 1], [1, 1, 1, 1, 4, 4, 4, 4, 4], [3, 3, 3, 5, 5, 5, 6, 6, 6], [7, 7, 7, 7, 8, 8, 8, 8, 8], [7, 7, 7, 7, 8, 8, 8, 8, 8], [7, 7, 7, 7, 8, 8, 8, 8, 8], [7, 7, 7, 7, 8, 8, 8, 8, 8], [7, 7, 7, 7, 8, 8, 8, 8, 8], [7, 7, 7, 7, 8, 8, 8, 8, 8]],
   [[1, 1, 1, 1, 1, 1, 1, 1, 1], [1, 1, 5, 5, 5, 1, 1, 3, 2], [3, 3, 6, 6, 6, 3, 3, 6, 6], [7, 7, 8, 8, 8, 7, 7, 8, 8], [7, 7, 8, 8, 8, 7, 7, 8, 8], [7, 7, 8, 8, 8, 7, 7, 8, 8], [7, 7, 8, 8, 8, 7, 7, 8, 8], [7, 7, 8, 8, 8, 7, 7, 8, 8], [7, 7, 8, 8, 8, 7, 7, 8, 8]],
   [[7, 6, 6, 6, 1, 1, 6, 7, 7], [7, 6, 1, 6, 6, 6, 1, 7, 7], [7, 1, 6, 1, 6, 6, 6, 7, 7], [1, 7, 7, 7, 7, 1, 6, 6, 7], [6, 7, 8, 8, 8, 6, 1, 6, 8], [6, 7, 8, 8, 8, 6, 6, 1, 8], [6, 6, 8, 8, 8, 7, 7, 8, 1], [1, 6, 8, 8, 8, 7, 7, 8, 6], [6, 1, 8, 8, 8, 7, 7, 8, 6]],
   [[3, 1, 1, 1, 1, 1, 1, 3, 3], [1, 3, 5, 5, 5, 1, 1, 1, 5], [1, 1, 6, 6, 6, 3, 3, 6, 1], [9, 6, 6, 6, 6, 6, 6, 9, 9], [6, 9, 9, 9, 9, 6, 6, 6, 9], [6, 6, 9, 9, 9, 9, 9, 9, 6], [9, 6, 6, 6, 6, 6, 6, 9, 9], [6, 9, 9, 9, 9, 6, 6, 6, 9], [6, 6, 9, 9, 9, 9, 9, 9, 6]]⟩

def fullS14 : Possibilities :=
  ⟨[⟨3088846976, 3723425659, 96187⟩,
    ⟨3638561024, 3202314167, 64381⟩,
    ⟨4024680450, 4286562271, 130558⟩,
    ⟨3756244996, 4278157247, 130045⟩,
    ⟨4158898177, 2143281135, 130815⟩,
    ⟨3070231048, 2109661039, 128763⟩,
    ⟨1862272016, 4219322079, 126454⟩,
    ⟨4280254496, 4160486910, 122863⟩,
    ⟨2015109184, 3958766333, 110551⟩], [],
   [[1, 1, 1, 1, 1, 1, 1, 1, 1], [1, 1, 1, 1, 1, 3, 4, 4, 4], [3, 3, 3, 4, 4, 4, 6, 6, 6], [7, 7, 7, 7, 7, 8, 8, 8, 8], [7, 7, 7, 7, 7, 8, 8, 8, 8], [7, 7, 7, 7, 7, 8, 8, 8, 8], [7, 7, 7, 7, 7, 8, 8, 8, 8], [7, 7, 7, 7, 7, 8, 8, 8, 8], [7, 7, 7, 7, 7, 8, 8, 8, 8]],
   [[1, 1, 1, 1, 1, 1, 1, 1, 1], [1, 1, 4, 4, 4, 1, 1, 3, 1], [3, 3, 6, 6, 6, 3, 3, 6, 3], [7, 7, 8, 8, 8, 7, 7, 8, 7], [7, 7, 8, 8, 8, 7, 7, 8, 7], [7, 7, 8, 8, 8, 7, 7, 8, 7], [7, 7, 8, 8, 8, 7, 7, 8, 7], [7, 7, 8, 8, 8, 7, 7, 8, 7], [7, 7, 8, 8, 8, 7, 7, 8, 7]],
   [[7, 6, 6, 6, 1, 1, 6, 7, 7], [7, 6, 1, 6, 6, 6, 1, 7, 7], [7, 1, 6, 1, 6, 6, 6, 7, 7], [1, 7, 7, 7, 7, 1, 6, 6, 6], [6, 7, 7, 7, 7, 6, 1, 6, 1], [6, 7, 8, 8, 8, 6, 6, 1, 6], [6, 6, 8, 8, 8, 7, 7, 8, 1], [1, 6, 8, 8, 8, 7, 7, 8, 6], [6, 1, 8, 8, 8, 7, 7, 8, 6]],
   [[3, 1, 1, 1, 1, 1, 1, 3, 3], [1, 3, 4, 4, 4, 1, 1, 1, 1], [1, 1, 6, 6, 6, 3, 3, 6, 1], [9, 6, 6, 6, 6, 6, 6, 9, 9], [6, 9, 9, 9, 9, 6, 6, 6, 6], [6, 6, 9, 9, 9, 9, 9, 9, 6], [9, 6, 6, 6, 6, 6, 6, 9, 9], [6, 9, 9, 9, 9, 6, 6, 6, 6], [6, 6, 9, 9, 9, 9, 9, 9, 6]]⟩

def fullS15 : Possibilities :=
  ⟨[⟨3088846976, 3723425659, 96187⟩,
    ⟨3638561024, 3202314167, 64381⟩,
    ⟨4024664066, 4286562271, 130558⟩,
    ⟨3756228612, 4278157247, 130045⟩,
    ⟨4143988737, 2008800750, 122607⟩,
    ⟨3070231048, 2109661039, 128763⟩,
    ⟨1862272016, 4219322079, 126454⟩,
    ⟨4280254496, 4160486910, 122863⟩,
    ⟨2015109184, 3958766333, 110551⟩], [],
   [[1, 1, 1, 1, 1, 1, 1, 1, 1], [1, 1, 1, 1, 1, 1, 3, 3, 3], [3, 3, 3, 3, 3, 3, 6, 6, 6], [7, 7, 7, 7, 7, 7, 8, 8, 8], [7, 7, 7, 7, 7, 7, 8, 8, 8], [7, 7, 7, 7, 7, 7, 8, 8, 8], [7, 7, 7, 7, 7, 7, 8, 8, 8], [7, 7, 7, 7, 7, 7, 8, 8, 8], [7, 7, 7, 7, 7, 7, 8, 8, 8]],
   [[1, 1, 1, 1, 1, 1, 1, 1, 1], [1, 1, 3, 3, 1, 1, 1, 3, 1], [3, 3, 6, 6, 3, 3, 3, 6, 3], [7, 7, 8, 8, 7, 7, 7, 8, 7], [7, 7, 8, 8, 7, 7, 7, 8, 7], [7, 7, 8, 8, 7, 7, 7, 8, 7], [7, 7, 8, 8, 7, 7, 7, 8, 7], [7, 7, 8, 8, 7, 7, 7, 8, 7], [7, 7, 8, 8, 7, 7, 7, 8, 7]],
   [[7, 6, 6, 6, 1, 1, 6, 7, 7], [7, 6, 1, 6, 6, 6, 1, 7, 7], [7, 1, 6, 1, 6, 6, 6, 7, 7], [1, 7, 7, 7, 6, 1, 6, 6, 6], [6, 7, 7, 7, 6, 6, 1, 6, 1], [6, 7, 7, 7, 1, 6, 6, 1, 6], [6, 6, 8, 8, 7, 7, 7, 8, 1], [1, 6, 8, 8, 7, 7, 7, 8, 6], [6, 1, 8, 8, 7, 7, 7, 8, 6]],
   [[3, 1, 1, 1, 1, 1, 1, 3, 3], [1, 3, 3, 3, 1, 1, 1, 1, 1], [1, 1, 6, 6, 3, 3, 3, 6, 1], [9, 6, 6, 6, 6, 6, 6, 9, 9], [6, 9, 9, 9, 6, 6, 6, 6, 6], [6, 6, 9, 9, 9, 9, 9, 9, 6], [9, 6, 6, 6, 6, 6, 6, 9, 9], [6, 9, 9, 9, 6, 6, 6, 6, 6], [6, 6, 9, 9, 9, 9, 9, 9, 6]]⟩

def fullS16 : Possibilities :=
  ⟨[⟨3088846976, 3723425659, 96187⟩,
    ⟨3638561024, 3202314167, 64381⟩,
    ⟨3907026946, 4017601501, 114142⟩,
    ⟨3756195844, 4278157247, 130045⟩,
    ⟨4143988737, 2008800750, 122607⟩,
    ⟨3070231048, 2109661039, 128763⟩,
    ⟨1862272016, 4219322079, 126454⟩,
    ⟨4280221728, 4160486910, 122863⟩,
    ⟨2015109184, 3958766333, 110551⟩], [],
   [[1, 1, 1, 1, 1, 1, 1, 1, 1], [1, 1, 1, 1, 1, 1, 1, 2, 2], [3, 3, 3, 3, 3, 3, 5, 5, 5], [7, 7, 7, 7, 7, 7, 7, 8, 8], [7, 7, 7, 7, 7, 7, 7, 8, 8], [7, 7, 7, 7, 7, 7, 7, 8, 8], [7, 7, 7, 7, 7, 7, 7, 8, 8], [7, 7, 7, 7, 7, 7, 7, 8, 8], [7, 7, 7, 7, 7, 7, 7, 8, 8]],
   [[1, 1, 1, 1, 1, 1, 1, 1, 1], [1, 1, 1, 2, 1, 1, 1, 2, 1], [3, 3, 3, 6, 3, 3, 3, 6, 3], [7, 7, 7, 8, 7, 7, 7, 8, 7], [7, 7, 7, 8, 7, 7, 7, 8, 7], [7, 7, 7, 8, 7, 7, 7, 8, 7], [7, 7, 7, 8, 7, 7, 7, 8, 7], [7, 7, 7, 8, 7, 7, 7, 8, 7], [7, 7, 7, 8, 7, 7, 7, 8, 7]],
   [[7, 6, 6, 6, 1, 1, 6, 7, 7], [7, 6, 1, 6, 6, 6, 1, 7, 7], [7, 1, 6, 1, 6, 6, 6, 7, 7], [1, 7, 7, 7, 6, 1, 6, 6, 6], [6, 7, 7, 7, 6, 6, 1, 6, 1], [6, 7, 7, 7, 1, 6, 6, 1, 6], [6, 6, 1, 7, 7, 7, 7, 7, 1], [1, 6, 6, 8, 7, 7, 7, 8, 6], [6, 1, 6, 8, 7, 7, 7, 8, 6]],
   [[3, 1, 1, 1, 1, 1, 1, 3, 3], [1, 3, 3, 3, 1, 1, 1, 1, 1], [1, 1, 1, 5, 3, 3, 3, 5, 1], [9, 6, 6, 6, 6, 6, 6, 9, 9], [6, 9, 9, 9, 6, 6, 6, 6, 6], [6, 6, 6, 9, 9, 9, 9, 9, 6], [9, 6, 6, 6, 6, 6, 6, 9, 9], [6, 9, 9, 9, 6, 6, 6, 6, 6], [6, 6, 6, 9, 9, 9, 9, 9, 6]]⟩

def fullS17 : Possibilities :=
  ⟨[⟨3088846976, 3723425659, 96187⟩,
    ⟨3638561024, 3202314167, 64381⟩,
    ⟨3907026946, 4017601501, 114142⟩,
    ⟨3638624260, 3740235707, 97213⟩,
    ⟨4143988737, 2008800750, 122607⟩,
    ⟨3070231048, 2109661039, 128763⟩,
    ⟨1862272016, 4219322079, 126454⟩,
    ⟨4162715680, 3084643830, 57199⟩,
    ⟨2015109184, 3958766333, 110551⟩], [],
   [[1, 1, 1, 1, 1, 1, 1, 1, 1], [1, 1, 1, 1, 1, 1, 1, 1, 1], [3, 3, 3, 3, 3, 3, 3, 3, 3], [7, 7, 7, 7, 7, 7, 7, 7, 7], [7, 7, 7, 7, 7, 7, 7, 7, 7], [7, 7, 7, 7, 7, 7, 7, 7, 7], [7, 7, 7, 7, 7, 7, 7, 7, 7], [7, 7, 7, 7, 7, 7, 7, 7, 7], [7, 7, 7, 7, 7, 7, 7, 7, 7]],
   [[1, 1, 1, 1, 1, 1, 1, 1, 1], [1, 1, 1, 1, 1, 1, 1, 1, 1], [3, 3, 3, 3, 3, 3, 3, 3, 3], [7, 7, 7, 7, 7, 7, 7, 7, 7], [7, 7, 7, 7, 7, 7, 7, 7, 7], [7, 7, 7, 7, 7, 7, 7, 7, 7], [7, 7, 7, 7, 7, 7, 7, 7, 7], [7, 7, 7, 7, 7, 7, 7, 7, 7], [7, 7, 7, 7, 7, 7, 7, 7, 7]],
   [[7, 6, 6, 6, 1, 1, 6, 7, 7], [7, 6, 1, 6, 6, 6, 1, 7, 7], [7, 1, 6, 1, 6, 6, 6, 7, 7], [1, 7, 7, 7, 6, 1, 6, 6, 6], [6, 7, 7, 7, 6, 6, 1, 6, 1], [6, 7, 7, 7, 1, 6, 6, 1, 6], [6, 6, 1, 6, 7, 7, 7, 6, 1], [1, 6, 6, 1, 7, 7, 7, 6, 6], [6, 1, 6, 6, 7, 7, 7, 1, 6]],
   [[3, 1, 1, 1, 1, 1, 1, 3, 3], [1, 3, 3, 3, 1, 1, 1, 1, 1], [1, 1, 1, 1, 3, 3, 3, 1, 1], [9, 6, 6, 6, 6, 6, 6, 9, 9], [6, 9, 9, 9, 6, 6, 6, 6, 6], [6, 6, 6, 6, 9, 9, 9, 6, 6], [9, 6, 6, 6, 6, 6, 6, 9, 9], [6, 9, 9, 9, 6, 6, 6, 6, 6], [6, 6, 6, 6, 9, 9, 9, 6, 6]]⟩

def fullS18 : Possibilities :=
  ⟨[⟨3088846976, 3723425659, 96187⟩,
    ⟨3638561024, 3202314167, 64381⟩,
    ⟨3907026946, 4017601501, 114142⟩,
    ⟨3638624260, 3740235707, 97213⟩,
    ⟨4143988737, 2008800750, 122607⟩,
    ⟨3070231048, 2109661039, 128763⟩,
    ⟨1862272016, 4219322079, 126454⟩,
    ⟨4162715680, 3084643830, 57199⟩,
    ⟨2015109184, 3958766333, 110551⟩], [],
   [[1, 1, 1, 1, 1, 1, 1, 1, 1], [1, 1, 1, 1, 1, 1, 1, 1, 1], [3, 3, 3, 3, 3, 3, 3, 3, 3], [7, 7, 7, 7, 7, 7, 7, 7, 7], [7, 7, 7, 7, 7, 7, 7, 7, 7], [7, 7, 7, 7, 7, 7, 7, 7, 7], [7, 7, 7, 7, 7, 7, 7, 7, 7], [7, 7, 7, 7, 7, 7, 7, 7, 7], [7, 7, 7, 7, 7, 7, 7, 7, 7]],
   [[1, 1, 1, 1, 1, 1, 1, 1, 1], [1, 1, 1, 1, 1, 1, 1, 1, 1], [3, 3, 3, 3, 3, 3, 3, 3, 3], [7, 7, 7, 7, 7, 7, 7, 7, 7], [7, 7, 7, 7, 7, 7, 7, 7, 7], [7, 7, 7, 7, 7, 7, 7, 7, 7], [7, 7, 7, 7, 7, 7, 7, 7, 7], [7, 7, 7, 7, 7, 7, 7, 7, 7], [7, 7, 7, 7, 7, 7, 7, 7, 7]],
   [[7, 6, 6, 6, 1, 1, 6, 7, 7], [7, 6, 1, 6, 6, 6, 1, 7, 7], [7, 1, 6, 1, 6, 6, 6, 7, 7], [1, 7, 7, 7, 6, 1, 6, 6, 6], [6, 7, 7, 7, 6, 6, 1, 6, 1], [6, 7, 7, 7, 1, 6, 6, 1, 6], [6, 6, 1, 6, 7, 7, 7, 6, 1], [1, 6, 6, 1, 7, 7, 7, 6, 6], [6, 1, 6, 6, 7, 7, 7, 1, 6]],
   [[3, 1, 1, 1, 1, 1, 1, 3, 3], [1, 3, 3, 3, 1, 1, 1, 1, 1], [1, 1, 1, 1, 3, 3, 3, 1, 1], [9, 6, 6, 6, 6, 6, 6, 9, 9], [6, 9, 9, 9, 6, 6, 6, 6, 6], [6, 6, 6, 6, 9, 9, 9, 6, 6], [9, 6, 6, 6, 6, 6, 6, 9, 9], [6, 9, 9, 9, 6, 6, 6, 6, 6], [6, 6, 6, 6, 9, 9, 9, 6, 6]]⟩

def fullS19 : Possibilities :=
  ⟨[⟨2953056384, 1571739499, 95931⟩,
    ⟨3638561024, 3202314167, 64381⟩,
    ⟨3907026946, 4017601501, 114142⟩,
    ⟨3638624260, 3740235707, 97213⟩,
    ⟨4143988737, 2008800750, 122607⟩,
    ⟨3070231048, 2109661039, 128763⟩,
    ⟨1862272016, 4219322079, 126454⟩,
    ⟨4162453536, 3084643830, 57199⟩,
    ⟨2014847040, 3958766333, 110551⟩], [],
   [[1, 1, 1, 1, 1, 1, 1, 1, 1], [1, 1, 1, 1, 1, 1, 1, 1, 1], [1, 2, 2, 3, 3, 3, 3, 3, 3], [6, 7, 7, 7, 7, 7, 7, 7, 7], [6, 7, 7, 7, 7, 7, 7, 7, 7], [6, 7, 7, 7, 7, 7, 7, 7, 7], [6, 7, 7, 7, 7, 7, 7, 7, 7], [6, 7, 7, 7, 7, 7, 7, 7, 7], [6, 7, 7, 7, 7, 7, 7, 7, 7]],
   [[1, 1, 1, 1, 1, 1, 1, 1, 1], [1, 1, 1, 1, 1, 1, 1, 1, 1], [1, 3, 3, 3, 3, 3, 3, 2, 2], [6, 7, 7, 7, 7, 7, 7, 7, 7], [6, 7, 7, 7, 7, 7, 7, 7, 7], [6, 7, 7, 7, 7, 7, 7, 7, 7], [6, 7, 7, 7, 7, 7, 7, 7, 7], [6, 7, 7, 7, 7, 7, 7, 7, 7], [6, 7, 7, 7, 7, 7, 7, 7, 7]],
   [[1, 6, 6, 6, 1, 1, 6, 6, 6], [6, 6, 1, 6, 6, 6, 1, 7, 7], [6, 1, 6, 1, 6, 6, 6, 7, 7], [1, 7, 7, 7, 6, 1, 6, 6, 6], [6, 7, 7, 7, 6, 6, 1, 6, 1], [6, 7, 7, 7, 1, 6, 6, 1, 6], [6, 6, 1, 6, 7, 7, 7, 6, 1], [1, 6, 6, 1, 7, 7, 7, 6, 6], [6, 1, 6, 6, 7, 7, 7, 1, 6]],
   [[1, 1, 1, 1, 1, 1, 1, 2, 2], [1, 3, 3, 3, 1, 1, 1, 1, 1], [1, 1, 1, 1, 3, 3, 3, 1, 1], [6, 6, 6, 6, 6, 6, 6, 9, 9], [6, 9, 9, 9, 6, 6, 6, 6, 6], [6, 6, 6, 6, 9, 9, 9, 6, 6], [6, 6, 6, 6, 6, 6, 6, 9, 9], [6, 9, 9, 9, 6, 6, 6, 6, 6], [6, 6, 6, 6, 9, 9, 9, 6, 6]]⟩

def fullS20 : Possibilities :=
  ⟨[⟨2953056384, 1571739499, 95931⟩,
    ⟨3638561024, 3202314167, 64381⟩,
    ⟨3907026946, 4017601501, 114142⟩,
    ⟨3638624260, 3740235707, 97213⟩,
    ⟨4143988737, 2008800750, 122607⟩,
    ⟨3070231048, 2109661039, 128763⟩,
    ⟨1862272016, 4219322079, 126454⟩,
    ⟨3625058336, 3067833782, 56173⟩,
    ⟨1745363008, 3950361309, 110038⟩], [],
   [[1, 1, 1, 1, 1, 1, 1, 1, 1], [1, 1, 1, 1, 1, 1, 1, 1, 1], [1, 1, 1, 3, 3, 3, 3, 3, 3], [6, 6, 6, 7, 7, 7, 7, 7, 7], [6, 6, 6, 7, 7, 7, 7, 7, 7], [6, 6, 6, 7, 7, 7, 7, 7, 7], [6, 6, 6, 7, 7, 7, 7, 7, 7], [6, 6, 6, 7, 7, 7, 7, 7, 7], [6, 6, 6, 7, 7, 7, 7, 7, 7]],
   [[1, 1, 1, 1, 1, 1, 1, 1, 1], [1, 1, 1, 1, 1, 1, 1, 1, 1], [1, 3, 3, 3, 3, 3, 3, 1, 1], [6, 7, 7, 7, 7, 7, 7, 6, 6], [6, 7, 7, 7, 7, 7, 7, 6, 6], [6, 7, 7, 7, 7, 7, 7, 6, 6], [6, 7, 7, 7, 7, 7, 7, 6, 6], [6, 7, 7, 7, 7, 7, 7, 6, 6], [6, 7, 7, 7, 7, 7, 7, 6, 6]],
   [[1, 6, 6, 6, 1, 1, 6, 6, 6], [6, 6, 1, 6, 6, 6, 1, 6, 1], [6, 1, 6, 1, 6, 6, 6, 1, 6], [1, 7, 7, 7, 6, 1, 6, 6, 6], [6, 7, 7, 7, 6, 6, 1, 6, 1], [6, 7, 7, 7, 1, 6, 6, 1, 6], [6, 6, 1, 6, 7, 7, 7, 6, 1], [1, 6, 6, 1, 7, 7, 7, 6, 6], [6, 1, 6, 6, 7, 7, 7, 1, 6]],
   [[1, 1, 1, 1, 1, 1, 1, 1, 1], [1, 3, 3, 3, 1, 1, 1, 1, 1], [1, 1, 1, 1, 3, 3, 3, 1, 1], [6, 6, 6, 6, 6, 6, 6, 6, 6], [6, 9, 9, 9, 6, 6, 6, 6, 6], [6, 6, 6, 6, 9, 9, 9, 6, 6], [6, 6, 6, 6, 6, 6, 6, 6, 6], [6, 9, 9, 9, 6, 6, 6, 6, 6], [6, 6, 6, 6, 9, 9, 9, 6, 6]]⟩

def fullS21 : Possibilities :=
  ⟨[⟨2953056384, 1571739499, 95931⟩,
    ⟨3638561024, 3202314167, 64381⟩,
    ⟨3907026946, 4017601501, 114142⟩,
    ⟨3638624260, 3740235707, 97213⟩,
    ⟨4143988737, 2008800750, 122607⟩,
    ⟨3070231048, 2109661039, 128763⟩,
    ⟨1862272016, 4219322079, 126454⟩,
    ⟨3625058336, 3067833782, 56173⟩,
    ⟨1745363008, 3950361309, 110038⟩], [],
   [[1, 1, 1, 1, 1, 1, 1, 1, 1], [1, 1, 1, 1, 1, 1, 1, 1, 1], [1, 1, 1, 3, 3, 3, 3, 3, 3], [6, 6, 6, 7, 7, 7, 7, 7, 7], [6, 6, 6, 7, 7, 7, 7, 7, 7], [6, 6, 6, 7, 7, 7, 7, 7, 7], [6, 6, 6, 7, 7, 7, 7, 7, 7], [6, 6, 6, 7, 7, 7, 7, 7, 7], [6, 6, 6, 7, 7, 7, 7, 7, 7]],
   [[1, 1, 1, 1, 1, 1, 1, 1, 1], [1, 1, 1, 1, 1, 1, 1, 1, 1], [1, 3, 3, 3, 3, 3, 3, 1, 1], [6, 7, 7, 7, 7, 7, 7, 6, 6], [6, 7, 7, 7, 7, 7, 7, 6, 6], [6, 7, 7, 7, 7, 7, 7, 6, 6], [6, 7, 7, 7, 7, 7, 7, 6, 6], [6, 7, 7, 7, 7, 7, 7, 6, 6], [6, 7, 7, 7, 7, 7, 7, 6, 6]],
   [[1, 6, 6, 6, 1, 1, 6, 6, 6], [6, 6, 1, 6, 6, 6, 1, 6, 1], [6, 1, 6, 1, 6, 6, 6, 1, 6], [1, 7, 7, 7, 6, 1, 6, 6, 6], [6, 7, 7, 7, 6, 6, 1, 6, 1], [6, 7, 7, 7, 1, 6, 6, 1, 6], [6, 6, 1, 6, 7, 7, 7, 6, 1], [1, 6, 6, 1, 7, 7, 7, 6, 6], [6, 1, 6, 6, 7, 7, 7, 1, 6]],
   [[1, 1, 1, 1, 1, 1, 1, 1, 1], [1, 3, 3, 3, 1, 1, 1, 1, 1], [1, 1, 1, 1, 3, 3, 3, 1, 1], [6, 6, 6, 6, 6, 6, 6, 6, 6], [6, 9, 9, 9, 6, 6, 6, 6, 6], [6, 6, 6, 6, 9, 9, 9, 6, 6], [6, 6, 6, 6, 6, 6, 6, 6, 6], [6, 9, 9, 9, 6, 6, 6, 6, 6], [6, 6, 6, 6, 9, 9, 9, 6, 6]]⟩

def fullS22 : Possibilities :=
  ⟨[⟨2953056384, 1571739499, 95931⟩,
    ⟨3636463872, 3202314167, 64381⟩,
    ⟨2820702210, 3983981405, 112090⟩,
    ⟨3636527108, 3740235707, 97213⟩,
    ⟨4143988737, 2008800750, 122607⟩,
    ⟨3070231048, 2109661039, 128763⟩,
    ⟨1862272016, 4219322079, 126454⟩,
    ⟨3625058336, 3067833782, 56173⟩,
    ⟨1745363008, 3950361309, 110038⟩], [],
   [[1, 1, 1, 1, 1, 1, 1, 1, 1], [1, 1, 1, 1, 1, 1, 1, 1, 1], [1, 1, 1, 1, 2, 2, 3, 3, 3], [6, 6, 6, 6, 7, 7, 7, 7, 7], [6, 6, 6, 6, 7, 7, 7, 7, 7], [6, 6, 6, 6, 7, 7, 7, 7, 7], [6, 6, 6, 6, 7, 7, 7, 7, 7], [6, 6, 6, 6, 7, 7, 7, 7, 7], [6, 6, 6, 6, 7, 7, 7, 7, 7]],
   [[1, 1, 1, 1, 1, 1, 1, 1, 1], [1, 1, 1, 1, 1, 1, 1, 1, 1], [1, 2, 1, 2, 3, 3, 3, 1, 1], [6, 7, 6, 7, 7, 7, 7, 6, 6], [6, 7, 6, 7, 7, 7, 7, 6, 6], [6, 7, 6, 7, 7, 7, 7, 6, 6], [6, 7, 6, 7, 7, 7, 7, 6, 6], [6, 7, 6, 7, 7, 7, 7, 6, 6], [6, 7, 6, 7, 7, 7, 7, 6, 6]],
   [[1, 6, 6, 6, 1, 1, 6, 6, 6], [6, 6, 1, 6, 6, 6, 1, 6, 1], [6, 1, 6, 1, 6, 6, 6, 1, 6], [1, 6, 1, 6, 6, 1, 6, 6, 6], [6, 7, 6, 7, 6, 6, 1, 6, 1], [6, 7, 6, 7, 1, 6, 6, 1, 6], [6, 6, 1, 6, 7, 7, 7, 6, 1], [1, 6, 6, 1, 7, 7, 7, 6, 6], [6, 1, 6, 6, 7, 7, 7, 1, 6]],
   [[1, 1, 1, 1, 1, 1, 1, 1, 1], [1, 2, 1, 2, 1, 1, 1, 1, 1], [1, 1, 1, 1, 3, 3, 3, 1, 1], [6, 6, 6, 6, 6, 6, 6, 6, 6], [6, 9, 6, 9, 6, 6, 6, 6, 6], [6, 6, 6, 6, 9, 9, 9, 6, 6], [6, 6, 6, 6, 6, 6, 6, 6, 6], [6, 9, 6, 9, 6, 6, 6, 6, 6], [6, 6, 6, 6, 9, 9, 9, 6, 6]]⟩

def fullS23 : Possibilities :=
  ⟨[⟨2953056384, 1571739499, 95931⟩,
    ⟨3632269568, 3067833782, 56173⟩,
    ⟨2820702210, 3983981405, 112090⟩,
    ⟨1480654852, 3672995515, 93109⟩,
    ⟨4143988737, 2008800750, 122607⟩,
    ⟨3070231048, 2109661039, 128763⟩,
    ⟨1862272016, 4219322079, 126454⟩,
    ⟨3625058336, 3067833782, 56173⟩,
    ⟨1745363008, 3950361309, 110038⟩], [],
   [[1, 1, 1, 1, 1, 1, 1, 1, 1], [1, 1, 1, 1, 1, 1, 1, 1, 1], [1, 1, 1, 1, 1, 1, 3, 3, 3], [6, 6, 6, 6, 6, 6, 7, 7, 7], [6, 6, 6, 6, 6, 6, 7, 7, 7], [6, 6, 6, 6, 6, 6, 7, 7, 7], [6, 6, 6, 6, 6, 6, 7, 7, 7], [6, 6, 6, 6, 6, 6, 7, 7, 7], [6, 6, 6, 6, 6, 6, 7, 7, 7]],
   [[1, 1, 1, 1, 1, 1, 1, 1, 1], [1, 1, 1, 1, 1, 1, 1, 1, 1], [1, 1, 1, 1, 3, 3, 3, 1, 1], [6, 6, 6, 6, 7, 7, 7, 6, 6], [6, 6, 6, 6, 7, 7, 7, 6, 6], [6, 6, 6, 6, 7, 7, 7, 6, 6], [6, 6, 6, 6, 7, 7, 7, 6, 6], [6, 6, 6, 6, 7, 7, 7, 6, 6], [6, 6, 6, 6, 7, 7, 7, 6, 6]],
   [[1, 6, 6, 6, 1, 1, 6, 6, 6], [6, 6, 1, 6, 6, 6, 1, 6, 1], [6, 1, 6, 1, 6, 6, 6, 1, 6], [1, 6, 1, 6, 6, 1, 6, 6, 6], [6, 6, 6, 1, 6, 6, 1, 6, 1], [6, 1, 6, 6, 1, 6, 6, 1, 6], [6, 6, 1, 6, 7, 7, 7, 6, 1], [1, 6, 6, 1, 7, 7, 7, 6, 6], [6, 1, 6, 6, 7, 7, 7, 1, 6]],
   [[1, 1, 1, 1, 1, 1, 1, 1, 1], [1, 1, 1, 1, 1, 1, 1, 1, 1], [1, 1, 1, 1, 3, 3, 3, 1, 1], [6, 6, 6, 6, 6, 6, 6, 6, 6], [6, 6, 6, 6, 6, 6, 6, 6, 6], [6, 6, 6, 6, 9, 9, 9, 6, 6], [6, 6, 6, 6, 6, 6, 6, 6, 6], [6, 6, 6, 6, 6, 6, 6, 6, 6], [6, 6, 6, 6, 9, 9, 9, 6, 6]]⟩

def fullS24 : Possibilities :=
  ⟨[⟨2953056384, 1571739499, 95931⟩,
    ⟨3632269568, 3067833782, 56173⟩,
    ⟨2820702210, 3983981405, 112090⟩,
    ⟨1480654852, 3672995515, 93109⟩,
    ⟨4143988737, 2008800750, 122607⟩,
    ⟨3070231048, 2109661039, 128763⟩,
    ⟨1862272016, 4219322079, 126454⟩,
    ⟨3625058336, 3067833782, 56173⟩,
    ⟨1745363008, 3950361309, 110038⟩], [],
   [[1, 1, 1, 1, 1, 1, 1, 1, 1], [1, 1, 1, 1, 1, 1, 1, 1, 1], [1, 1, 1, 1, 1, 1, 3, 3, 3], [6, 6, 6, 6, 6, 6, 7, 7, 7], [6, 6, 6, 6, 6, 6, 7, 7, 7], [6, 6, 6, 6, 6, 6, 7, 7, 7], [6, 6, 6, 6, 6, 6, 7, 7, 7], [6, 6, 6, 6, 6, 6, 7, 7, 7], [6, 6, 6, 6, 6, 6, 7, 7, 7]],
   [[1, 1, 1, 1, 1, 1, 1, 1, 1], [1, 1, 1, 1, 1, 1, 1, 1, 1], [1, 1, 1, 1, 3, 3, 3, 1, 1], [6, 6, 6, 6, 7, 7, 7, 6, 6], [6, 6, 6, 6, 7, 7, 7, 6, 6], [6, 6, 6, 6, 7, 7, 7, 6, 6], [6, 6, 6, 6, 7, 7, 7, 6, 6], [6, 6, 6, 6, 7, 7, 7, 6, 6], [6, 6, 6, 6, 7, 7, 7, 6, 6]],
   [[1, 6, 6, 6, 1, 1, 6, 6, 6], [6, 6, 1, 6, 6, 6, 1, 6, 1], [6, 1, 6, 1, 6, 6, 6, 1, 6], [1, 6, 1, 6, 6, 1, 6, 6, 6], [6, 6, 6, 1, 6, 6, 1, 6, 1], [6, 1, 6, 6, 1, 6, 6, 1, 6], [6, 6, 1, 6, 7, 7, 7, 6, 1], [1, 6, 6, 1, 7, 7, 7, 6, 6], [6, 1, 6, 6, 7, 7, 7, 1, 6]],
   [[1, 1, 1, 1, 1, 1, 1, 1, 1], [1, 1, 1, 1, 1, 1, 1, 1, 1], [1, 1, 1, 1, 3, 3, 3, 1, 1], [6, 6, 6, 6, 6, 6, 6, 6, 6], [6, 6, 6, 6, 6, 6, 6, 6, 6], [6, 6, 6, 6, 9, 9, 9, 6, 6], [6, 6, 6, 6, 6, 6, 6, 6, 6], [6, 6, 6, 6, 6, 6, 6, 6, 6], [6, 6, 6, 6, 9, 9, 9, 6, 6]]⟩

def fullS25 : Possibilities :=
  ⟨[⟨2953056384, 1571739499, 95931⟩,
    ⟨3632269568, 3067833782, 56173⟩,
    ⟨2820702210, 3983981405, 112090⟩,
    ⟨1480654852, 3672995515, 93109⟩,
    ⟨4043325441, 1739839980, 106191⟩,
    ⟨3053453832, 2109661039, 128763⟩,
    ⟨1845494800, 4219322079, 126454⟩,
    ⟨3625058336, 3067833782, 56173⟩,
    ⟨1745363008, 3950361309, 110038⟩], [],
   [[1, 1, 1, 1, 1, 1, 1, 1, 1], [1, 1, 1, 1, 1, 1, 1, 1, 1], [1, 1, 1, 1, 1, 1, 1, 2, 2], [6, 6, 6, 6, 6, 6, 6, 7, 7], [6, 6, 6, 6, 6, 6, 6, 7, 7], [6, 6, 6, 6, 6, 6, 6, 7, 7], [6, 6, 6, 6, 6, 6, 6, 7, 7], [6, 6, 6, 6, 6, 6, 6, 7, 7], [6, 6, 6, 6, 6, 6, 6, 7, 7]],
   [[1, 1, 1, 1, 1, 1, 1, 1, 1], [1, 1, 1, 1, 1, 1, 1, 1, 1], [1, 1, 1, 1, 1, 2, 2, 1, 1], [6, 6, 6, 6, 6, 7, 7, 6, 6], [6, 6, 6, 6, 6, 7, 7, 6, 6], [6, 6, 6, 6, 6, 7, 7, 6, 6], [6, 6, 6, 6, 6, 7, 7, 6, 6], [6, 6, 6, 6, 6, 7, 7, 6, 6], [6, 6, 6, 6, 6, 7, 7, 6, 6]],
   [[1, 6, 6, 6, 1, 1, 6, 6, 6], [6, 6, 1, 6, 6, 6, 1, 6, 1], [6, 1, 6, 1, 6, 6, 6, 1, 6], [1, 6, 1, 6, 6, 1, 6, 6, 6], [6, 6, 6, 1, 6, 6, 1, 6, 1], [6, 1, 6, 6, 1, 6, 6, 1, 6], [6, 6, 1, 6, 1, 6, 6, 6, 1], [1, 6, 6, 1, 6, 7, 7, 6, 6], [6, 1, 6, 6, 6, 7, 7, 1, 6]],
   [[1, 1, 1, 1, 1, 1, 1, 1, 1], [1, 1, 1, 1, 1, 1, 1, 1, 1], [1, 1, 1, 1, 1, 2, 2, 1, 1], [6, 6, 6, 6, 6, 6, 6, 6, 6], [6, 6, 6, 6, 6, 6, 6, 6, 6], [6, 6, 6, 6, 6, 9, 9, 6, 6], [6, 6, 6, 6, 6, 6, 6, 6, 6], [6, 6, 6, 6, 6, 6, 6, 6, 6], [6, 6, 6, 6, 6, 9, 9, 6, 6]]⟩

def fullS26 : Possibilities :=
  ⟨[⟨2953056384, 1571739499, 95931⟩,
    ⟨3632269568, 3067833782, 56173⟩,
    ⟨2820702210, 3983981405, 112090⟩,
    ⟨1480654852, 3672995515, 93109⟩,
    ⟨4043325441, 1739839980, 106191⟩,
    ⟨2986344968, 1571739499, 95931⟩,
    ⟨1811940368, 3143478999, 60790⟩,
    ⟨3625058336, 3067833782, 56173⟩,
    ⟨1745363008, 3950361309, 110038⟩], [],
   [[1, 1, 1, 1, 1, 1, 1, 1, 1], [1, 1, 1, 1, 1, 1, 1, 1, 1], [1, 1, 1, 1, 1, 1, 1, 1, 1], [6, 6, 6, 6, 6, 6, 6, 6, 6], [6, 6, 6, 6, 6, 6, 6, 6, 6], [6, 6, 6, 6, 6, 6, 6, 6, 6], [6, 6, 6, 6, 6, 6, 6, 6, 6], [6, 6, 6, 6, 6, 6, 6, 6, 6], [6, 6, 6, 6, 6, 6, 6, 6, 6]],
   [[1, 1, 1, 1, 1, 1, 1, 1, 1], [1, 1, 1, 1, 1, 1, 1, 1, 1], [1, 1, 1, 1, 1, 1, 1, 1, 1], [6, 6, 6, 6, 6, 6, 6, 6, 6], [6, 6, 6, 6, 6, 6, 6, 6, 6], [6, 6, 6, 6, 6, 6, 6, 6, 6], [6, 6, 6, 6, 6, 6, 6, 6, 6], [6, 6, 6, 6, 6, 6, 6, 6, 6], [6, 6, 6, 6, 6, 6, 6, 6, 6]],
   [[1, 6, 6, 6, 1, 1, 6, 6, 6], [6, 6, 1, 6, 6, 6, 1, 6, 1], [6, 1, 6, 1, 6, 6, 6, 1, 6], [1, 6, 1, 6, 6, 1, 6, 6, 6], [6, 6, 6, 1, 6, 6, 1, 6, 1], [6, 1, 6, 6, 1, 6, 6, 1, 6], [6, 6, 1, 6, 1, 6, 6, 6, 1], [1, 6, 6, 1, 6, 1, 6, 6, 6], [6, 1, 6, 6, 6, 6, 1, 1, 6]],
   [[1, 1, 1, 1, 1, 1, 1, 1, 1], [1, 1, 1, 1, 1, 1, 1, 1, 1], [1, 1, 1, 1, 1, 1, 1, 1, 1], [6, 6, 6, 6, 6, 6, 6, 6, 6], [6, 6, 6, 6, 6, 6, 6, 6, 6], [6, 6, 6, 6, 6, 6, 6, 6, 6], [6, 6, 6, 6, 6, 6, 6, 6, 6], [6, 6, 6, 6, 6, 6, 6, 6, 6], [6, 6, 6, 6, 6, 6, 6, 6, 6]]⟩

def fullS27 : Possibilities :=
  ⟨[⟨2953056384, 1571739499, 95931⟩,
    ⟨3632269568, 3067833782, 56173⟩,
    ⟨2820702210, 3983981405, 112090⟩,
    ⟨1480654852, 3672995515, 93109⟩,
    ⟨4043325441, 1739839980, 106191⟩,
    ⟨2986344968, 1571739499, 95931⟩,
    ⟨1811940368, 3143478999, 60790⟩,
    ⟨3625058336, 3067833782, 56173⟩,
    ⟨1745363008, 3950361309, 110038⟩], [],
   [[1, 1, 1, 1, 1, 1, 1, 1, 1], [1, 1, 1, 1, 1, 1, 1, 1, 1], [1, 1, 1, 1, 1, 1, 1, 1, 1], [6, 6, 6, 6, 6, 6, 6, 6, 6], [6, 6, 6, 6, 6, 6, 6, 6, 6], [6, 6, 6, 6, 6, 6, 6, 6, 6], [6, 6, 6, 6, 6, 6, 6, 6, 6], [6, 6, 6, 6, 6, 6, 6, 6, 6], [6, 6, 6, 6, 6, 6, 6, 6, 6]],
   [[1, 1, 1, 1, 1, 1, 1, 1, 1], [1, 1, 1, 1, 1, 1, 1, 1, 1], [1, 1, 1, 1, 1, 1, 1, 1, 1], [6, 6, 6, 6, 6, 6, 6, 6, 6], [6, 6, 6, 6, 6, 6, 6, 6, 6], [6, 6, 6, 6, 6, 6, 6, 6, 6], [6, 6, 6, 6, 6, 6, 6, 6, 6], [6, 6, 6, 6, 6, 6, 6, 6, 6], [6, 6, 6, 6, 6, 6, 6, 6, 6]],
   [[1, 6, 6, 6, 1, 1, 6, 6, 6], [6, 6, 1, 6, 6, 6, 1, 6, 1], [6, 1, 6, 1, 6, 6, 6, 1, 6], [1, 6, 1, 6, 6, 1, 6, 6, 6], [6, 6, 6, 1, 6, 6, 1, 6, 1], [6, 1, 6, 6, 1, 6, 6, 1, 6], [6, 6, 1, 6, 1, 6, 6, 6, 1], [1, 6, 6, 1, 6, 1, 6, 6, 6], [6, 1, 6, 6, 6, 6, 1, 1, 6]],
   [[1, 1, 1, 1, 1, 1, 1, 1, 1], [1, 1, 1, 1, 1, 1, 1, 1, 1], [1, 1, 1, 1, 1, 1, 1, 1, 1], [6, 6, 6, 6, 6, 6, 6, 6, 6], [6, 6, 6, 6, 6, 6, 6, 6, 6], [6, 6, 6, 6, 6, 6, 6, 6, 6], [6, 6, 6, 6, 6, 6, 6, 6, 6], [6, 6, 6, 6, 6, 6, 6, 6, 6], [6, 6, 6, 6, 6, 6, 6, 6, 6]]⟩

def fullS28 : Possibilities :=
  ⟨[⟨2953056384, 1571739499, 95931⟩,
    ⟨3498051840, 3067833782, 56173⟩,
    ⟨2686484482, 3983981405, 112090⟩,
    ⟨1346437124, 3672995515, 93109⟩,
    ⟨4043325441, 1739839980, 106191⟩,
    ⟨2986344968, 1571739499, 95931⟩,
    ⟨1677722640, 3143478999, 60790⟩,
    ⟨135397408, 916131200, 55917⟩,
    ⟨1611145280, 3950361309, 110038⟩], [],
   [[1, 1, 1, 1, 1, 1, 1, 1, 1], [1, 1, 1, 1, 1, 1, 1, 1, 1], [1, 1, 1, 1, 1, 1, 1, 1, 1], [1, 5, 6, 5, 5, 6, 5, 5, 6], [5, 5, 6, 6, 6, 6, 6, 6, 6], [5, 5, 6, 6, 6, 6, 6, 6, 6], [5, 6, 6, 6, 6, 6, 6, 6, 6], [5, 6, 6, 6, 6, 6, 6, 6, 6], [5, 6, 6, 6, 6, 6, 6, 6, 6]],
   [[1, 1, 1, 1, 1, 1, 1, 1, 1], [1, 1, 1, 1, 1, 1, 1, 1, 1], [1, 1, 1, 1, 1, 1, 1, 1, 1], [6, 5, 5, 5, 6, 6, 5, 1, 5], [6, 6, 6, 6, 6, 6, 6, 4, 6], [6, 6, 6, 6, 6, 6, 6, 4, 6], [6, 6, 6, 6, 6, 6, 6, 5, 6], [6, 6, 6, 6, 6, 6, 6, 5, 6], [6, 6, 6, 6, 6, 6, 6, 5, 6]],
   [[1, 5, 5, 5, 1, 1, 5, 1, 5], [6, 6, 1, 6, 6, 6, 1, 3, 1], [6, 1, 6, 1, 6, 6, 6, 1, 6], [1, 6, 1, 6, 6, 1, 6, 5, 6], [6, 6, 6, 1, 6, 6, 1, 5, 1], [6, 1, 6, 6, 1, 6, 6, 1, 6], [6, 6, 1, 6, 1, 6, 6, 5, 1], [1, 6, 6, 1, 6, 1, 6, 5, 6], [6, 1, 6, 6, 6, 6, 1, 1, 6]],
   [[1, 1, 1, 1, 1, 1, 1, 1, 1], [1, 1, 1, 1, 1, 1, 1, 1, 1], [1, 1, 1, 1, 1, 1, 1, 1, 1], [6, 5, 5, 5, 6, 6, 5, 1, 5], [6, 6, 6, 6, 6, 6, 6, 4, 6], [6, 6, 6, 6, 6, 6, 6, 4, 6], [6, 6, 6, 6, 6, 6, 6, 3, 6], [6, 6, 6, 6, 6, 6, 6, 6, 6], [6, 6, 6, 6, 6, 6, 6, 6, 6]]⟩

def fullS29 : Possibilities :=
  ⟨[⟨2684620928, 1571739499, 95931⟩,
    ⟨3229616384, 3067833782, 56173⟩,
    ⟨2686484482, 3983981405, 112090⟩,
    ⟨1078001668, 3672995515, 93109⟩,
    ⟨285229057, 1731402112, 105678⟩,
    ⟨2717909512, 1571739499, 95931⟩,
    ⟨1677722640, 3143478999, 60790⟩,
    ⟨135397408, 916131200, 55917⟩,
    ⟨1611145280, 3950361309, 110038⟩], [],
   [[1, 1, 1, 1, 1, 1, 1, 1, 1], [1, 1, 1, 1, 1, 1, 1, 1, 1], [1, 1, 1, 1, 1, 1, 1, 1, 1], [1, 1, 5, 4, 4, 6, 5, 4, 5], [5, 4, 5, 6, 6, 6, 6, 6, 6], [5, 4, 5, 6, 6, 6, 6, 6, 6], [5, 5, 6, 6, 6, 6, 6, 6, 6], [5, 5, 6, 6, 6, 6, 6, 6, 6], [5, 5, 6, 6, 6, 6, 6, 6, 6]],
   [[1, 1, 1, 1, 1, 1, 1, 1, 1], [1, 1, 1, 1, 1, 1, 1, 1, 1], [1, 1, 1, 1, 1, 1, 1, 1, 1], [5, 4, 5, 4, 1, 5, 5, 1, 5], [6, 6, 6, 6, 4, 6, 6, 4, 6], [6, 6, 6, 6, 4, 6, 6, 4, 6], [6, 6, 6, 6, 5, 6, 6, 5, 6], [6, 6, 6, 6, 5, 6, 6, 5, 6], [6, 6, 6, 6, 5, 6, 6, 5, 6]],
   [[1, 5, 5, 5, 1, 1, 5, 1, 5], [5, 5, 1, 5, 1, 5, 1, 3, 1], [6, 1, 6, 1, 3, 6, 6, 1, 6], [1, 6, 1, 6, 5, 1, 6, 5, 6], [6, 6, 6, 1, 5, 6, 1, 5, 1], [6, 1, 6, 6, 1, 6, 6, 1, 6], [6, 6, 1, 6, 1, 6, 6, 5, 1], [1, 6, 6, 1, 5, 1, 6, 5, 6], [6, 1, 6, 6, 5, 6, 1, 1, 6]],
   [[1, 1, 1, 1, 1, 1, 1, 1, 1], [1, 1, 1, 1, 1, 1, 1, 1, 1], [1, 1, 1, 1, 1, 1, 1, 1, 1], [5, 4, 5, 4, 1, 5, 5, 1, 5], [6, 6, 6, 6, 4, 6, 6, 4, 6], [6, 6, 6, 6, 4, 6, 6, 4, 6], [6, 6, 6, 6, 3, 6, 6, 3, 6], [6, 6, 6, 6, 6, 6, 6, 6, 6], [6, 6, 6, 6, 6, 6, 6, 6, 6]]⟩

def fullS30 : Possibilities :=
  ⟨[⟨2147750016, 1571739499, 95931⟩,
    ⟨3229616384, 3067833782, 56173⟩,
    ⟨2149613570, 3983981405, 112090⟩,
    ⟨1078001668, 3672995515, 93109⟩,
    ⟨285229057, 1731402112, 105678⟩,
    ⟨2181038600, 1571739499, 95931⟩,
    ⟨1140851728, 3143478999, 60790⟩,
    ⟨135397408, 916131200, 55917⟩,
    ⟨537403456, 3933543040, 109012⟩], [],
   [[1, 1, 1, 1, 1, 1, 1, 1, 1], [1, 1, 1, 1, 1, 1, 1, 1, 1], [1, 1, 1, 1, 1, 1, 1, 1, 1], [1, 1, 1, 3, 4, 5, 5, 3, 4], [4, 4, 4, 6, 6, 6, 6, 6, 6], [4, 4, 4, 6, 6, 6, 6, 6, 6], [5, 5, 5, 6, 6, 6, 6, 6, 6], [5, 5, 5, 6, 6, 6, 6, 6, 6], [5, 5, 5, 6, 6, 6, 6, 6, 6]],
   [[1, 1, 1, 1, 1, 1, 1, 1, 1], [1, 1, 1, 1, 1, 1, 1, 1, 1], [1, 1, 1, 1, 1, 1, 1, 1, 1], [4, 4, 4, 4, 1, 4, 4, 1, 1], [6, 6, 6, 6, 4, 6, 6, 4, 4], [6, 6, 6, 6, 4, 6, 6, 4, 4], [6, 6, 6, 6, 5, 6, 6, 5, 5], [6, 6, 6, 6, 5, 6, 6, 5, 5], [6, 6, 6, 6, 5, 6, 6, 5, 5]],
   [[1, 5, 5, 5, 1, 1, 5, 1, 3], [5, 5, 1, 5, 1, 5, 1, 3, 1], [5, 1, 5, 1, 3, 5, 5, 1, 1], [1, 6, 1, 6, 5, 1, 6, 5, 5], [6, 6, 6, 1, 5, 6, 1, 5, 1], [6, 1, 6, 6, 1, 6, 6, 1, 5], [6, 6, 1, 6, 1, 6, 6, 5, 1], [1, 6, 6, 1, 5, 1, 6, 5, 5], [6, 1, 6, 6, 5, 6, 1, 1, 5]],
   [[1, 1, 1, 1, 1, 1, 1, 1, 1], [1, 1, 1, 1, 1, 1, 1, 1, 1], [1, 1, 1, 1, 1, 1, 1, 1, 1], [4, 4, 4, 4, 1, 4, 4, 1, 1], [6, 6, 6, 6, 4, 6, 6, 4, 4], [6, 6, 6, 6, 4, 6, 6, 4, 4], [6, 6, 6, 6, 3, 6, 6, 3, 3], [6, 6, 6, 6, 6, 6, 6, 6, 6], [6, 6, 6, 6, 6, 6, 6, 6, 6]]⟩

def fullS31 : Possibilities :=
  ⟨[⟨2147750016, 1571739499, 95931⟩,
    ⟨2155874560, 3067833782, 56173⟩,
    ⟨2149613570, 3983981405, 112090⟩,
    ⟨4259844, 3672995515, 93109⟩,
    ⟨285229057, 1731402112, 105678⟩,
    ⟨2181038600, 1571739499, 95931⟩,
    ⟨1140851728, 3109596240, 58738⟩,
    ⟨135397408, 916131200, 55917⟩,
    ⟨537403456, 3933543040, 109012⟩], [],
   [[1, 1, 1, 1, 1, 1, 1, 1, 1], [1, 1, 1, 1, 1, 1, 1, 1, 1], [1, 1, 1, 1, 1, 1, 1, 1, 1], [1, 1, 1, 1, 4, 4, 4, 2, 4], [4, 4, 4, 5, 6, 5, 6, 6, 6], [4, 4, 4, 5, 6, 5, 6, 6, 6], [5, 5, 5, 5, 6, 6, 6, 6, 6], [5, 5, 5, 5, 6, 6, 6, 6, 6], [5, 5, 5, 5, 6, 6, 6, 6, 6]],
   [[1, 1, 1, 1, 1, 1, 1, 1, 1], [1, 1, 1, 1, 1, 1, 1, 1, 1], [1, 1, 1, 1, 1, 1, 1, 1, 1], [4, 3, 4, 3, 1, 4, 1, 1, 1], [6, 6, 6, 6, 4, 6, 4, 4, 4], [6, 6, 6, 6, 4, 6, 4, 4, 4], [6, 6, 6, 6, 5, 6, 5, 5, 5], [6, 6, 6, 6, 5, 6, 5, 5, 5], [6, 6, 6, 6, 5, 6, 5, 5, 5]],
   [[1, 5, 5, 5, 1, 1, 5, 1, 3], [5, 5, 1, 5, 1, 5, 1, 3, 1], [5, 1, 5, 1, 3, 5, 5, 1, 1], [1, 5, 1, 5, 5, 1, 1, 5, 5], [6, 6, 6, 1, 5, 6, 1, 5, 1], [6, 1, 6, 6, 1, 6, 3, 1, 5], [6, 6, 1, 6, 1, 6, 5, 5, 1], [1, 6, 6, 1, 5, 1, 5, 5, 5], [6, 1, 6, 6, 5, 6, 1, 1, 5]],
   [[1, 1, 1, 1, 1, 1, 1, 1, 1], [1, 1, 1, 1, 1, 1, 1, 1, 1], [1, 1, 1, 1, 1, 1, 1, 1, 1], [4, 4, 4, 4, 1, 4, 4, 1, 1], [6, 5, 6, 5, 4, 6, 1, 4, 4], [6, 6, 6, 6, 4, 6, 4, 4, 4], [6, 6, 6, 6, 3, 6, 6, 3, 3], [6, 6, 6, 6, 6, 6, 3, 6, 6], [6, 6, 6, 6, 6, 6, 6, 6, 6]]⟩

def fullS32 : Possibilities :=
  ⟨[⟨266368, 1571739499, 95931⟩,
    ⟨8390912, 3067833782, 56173⟩,
    ⟨2129922, 3983981405, 112090⟩,
    ⟨4259844, 3672995515, 93109⟩,
    ⟨285229057, 1731402112, 105678⟩,
    ⟨2181038600, 1504236640, 91827⟩,
    ⟨1140851728, 3109596240, 58738⟩,
    ⟨135397408, 916131200, 55917⟩,
    ⟨537403456, 3933543040, 109012⟩], [],
   [[1, 1, 1, 1, 1, 1, 1, 1, 1], [1, 1, 1, 1, 1, 1, 1, 1, 1], [1, 1, 1, 1, 1, 1, 1, 1, 1], [1, 1, 1, 1, 1, 3, 3, 2, 3], [4, 4, 4, 5, 5, 4, 6, 6, 6], [4, 4, 4, 5, 5, 4, 6, 6, 6], [5, 5, 5, 5, 5, 6, 6, 6, 6], [5, 5, 5, 5, 5, 6, 6, 6, 6], [5, 5, 5, 5, 5, 6, 6, 6, 6]],
   [[1, 1, 1, 1, 1, 1, 1, 1, 1], [1, 1, 1, 1, 1, 1, 1, 1, 1], [1, 1, 1, 1, 1, 1, 1, 1, 1], [3, 2, 3, 3, 1, 1, 1, 1, 1], [6, 6, 6, 6, 4, 4, 4, 4, 4], [6, 6, 6, 6, 4, 4, 4, 4, 4], [6, 6, 6, 6, 5, 5, 5, 5, 5], [6, 6, 6, 6, 5, 5, 5, 5, 5], [6, 6, 6, 6, 5, 5, 5, 5, 5]],
   [[1, 5, 5, 5, 1, 1, 5, 1, 3], [5, 5, 1, 5, 1, 5, 1, 3, 1], [5, 1, 5, 1, 3, 5, 5, 1, 1], [1, 5, 1, 5, 5, 1, 1, 5, 5], [5, 5, 5, 1, 5, 1, 1, 5, 1], [6, 1, 6, 6, 1, 3, 3, 1, 5], [6, 6, 1, 6, 1, 5, 5, 5, 1], [1, 6, 6, 1, 5, 1, 5, 5, 5], [6, 1, 6, 6, 5, 5, 1, 1, 5]],
   [[1, 1, 1, 1, 1, 1, 1, 1, 1], [1, 1, 1, 1, 1, 1, 1, 1, 1], [1, 1, 1, 1, 1, 1, 1, 1, 1], [4, 4, 4, 4, 1, 4, 4, 1, 1], [5, 4, 5, 5, 4, 1, 1, 4, 4], [6, 6, 6, 6, 4, 4, 4, 4, 4], [6, 6, 6, 6, 3, 6, 6, 3, 3], [6, 6, 6, 6, 6, 3, 3, 6, 6], [6, 6, 6, 6, 6, 6, 6, 6, 6]]⟩

def fullS33 : Possibilities :=
  ⟨[⟨266368, 1437127777, 87723⟩,
    ⟨8390912, 3067833782, 56173⟩,
    ⟨2129922, 3983981404, 112090⟩,
    ⟨4259844, 3672995514, 93109⟩,
    ⟨285229057, 1731402112, 105678⟩,
    ⟨2181038600, 1504236640, 91827⟩,
    ⟨1140851728, 3109596240, 58738⟩,
    ⟨135397408, 916131200, 55917⟩,
    ⟨537403456, 3933543040, 109012⟩], [],
   [[1, 1, 1, 1, 1, 1, 1, 1, 1], [1, 1, 1, 1, 1, 1, 1, 1, 1], [1, 1, 1, 1, 1, 1, 1, 1, 1], [1, 1, 1, 1, 1, 1, 2, 2, 2], [4, 4, 4, 5, 4, 3, 6, 6, 6], [4, 4, 4, 5, 4, 3, 6, 6, 6], [5, 5, 5, 5, 5, 5, 6, 6, 6], [5, 5, 5, 5, 5, 5, 6, 6, 6], [5, 5, 5, 5, 5, 5, 6, 6, 6]],
   [[1, 1, 1, 1, 1, 1, 1, 1, 1], [1, 1, 1, 1, 1, 1, 1, 1, 1], [1, 1, 1, 1, 1, 1, 1, 1, 1], [1, 2, 2, 2, 1, 1, 1, 1, 1], [4, 6, 6, 6, 4, 4, 4, 4, 4], [4, 6, 6, 6, 4, 4, 4, 4, 4], [5, 6, 6, 6, 5, 5, 5, 5, 5], [5, 6, 6, 6, 5, 5, 5, 5, 5], [5, 6, 6, 6, 5, 5, 5, 5, 5]],
   [[1, 5, 5, 5, 1, 1, 5, 1, 3], [5, 5, 1, 5, 1, 5, 1, 3, 1], [5, 1, 5, 1, 3, 5, 5, 1, 1], [1, 5, 1, 5, 5, 1, 1, 5, 5], [3, 5, 5, 1, 5, 1, 1, 5, 1], [1, 1, 5, 5, 1, 3, 3, 1, 5], [5, 6, 1, 6, 1, 5, 5, 5, 1], [1, 6, 6, 1, 5, 1, 5, 5, 5], [5, 1, 6, 6, 5, 5, 1, 1, 5]],
   [[1, 1, 1, 1, 1, 1, 1, 1, 1], [1, 1, 1, 1, 1, 1, 1, 1, 1], [1, 1, 1, 1, 1, 1, 1, 1, 1], [4, 4, 4, 4, 1, 4, 4, 1, 1], [1, 4, 4, 4, 4, 1, 1, 4, 4], [4, 6, 6, 6, 4, 4, 4, 4, 4], [6, 6, 6, 6, 3, 6, 6, 3, 3], [3, 6, 6, 6, 6, 3, 3, 6, 6], [6, 6, 6, 6, 6, 6, 6, 6, 6]]⟩

def fullS34 : Possibilities :=
  ⟨[⟨266368, 1437127777, 87723⟩,
    ⟨8390912, 2529386932, 23341⟩,
    ⟨2129922, 2907087704, 46426⟩,
    ⟨4259844, 3401933490, 76693⟩,
    ⟨285229057, 1731402112, 105678⟩,
    ⟨2181038600, 1504236640, 91827⟩,
    ⟨1140851728, 3109596240, 58738⟩,
    ⟨135397408, 916131200, 55917⟩,
    ⟨537403456, 3933543040, 109012⟩], [],
   [[1, 1, 1, 1, 1, 1, 1, 1, 1], [1, 1, 1, 1, 1, 1, 1, 1, 1], [1, 1, 1, 1, 1, 1, 1, 1, 1], [1, 1, 1, 1, 1, 1, 1, 1, 1], [4, 4, 4, 5, 4, 3, 4, 4, 4], [4, 4, 4, 5, 4, 3, 4, 4, 4], [5, 5, 5, 5, 5, 5, 5, 5, 5], [5, 5, 5, 5, 5, 5, 5, 5, 5], [5, 5, 5, 5, 5, 5, 5, 5, 5]],
   [[1, 1, 1, 1, 1, 1, 1, 1, 1], [1, 1, 1, 1, 1, 1, 1, 1, 1], [1, 1, 1, 1, 1, 1, 1, 1, 1], [1, 1, 1, 1, 1, 1, 1, 1, 1], [4, 4, 4, 4, 4, 4, 4, 4, 4], [4, 4, 4, 4, 4, 4, 4, 4, 4], [5, 5, 5, 5, 5, 5, 5, 5, 5], [5, 5, 5, 5, 5, 5, 5, 5, 5], [5, 5, 5, 5, 5, 5, 5, 5, 5]],
   [[1, 5, 5, 5, 1, 1, 5, 1, 3], [5, 5, 1, 5, 1, 5, 1, 3, 1], [5, 1, 5, 1, 3, 5, 5, 1, 1], [1, 5, 1, 5, 5, 1, 1, 5, 5], [3, 5, 5, 1, 5, 1, 1, 5, 1], [1, 1, 5, 5, 1, 3, 3, 1, 5], [5, 3, 1, 1, 1, 5, 5, 5, 1], [1, 1, 3, 1, 5, 1, 5, 5, 5], [5, 1, 1, 3, 5, 5, 1, 1, 5]],
   [[1, 1, 1, 1, 1, 1, 1, 1, 1], [1, 1, 1, 1, 1, 1, 1, 1, 1], [1, 1, 1, 1, 1, 1, 1, 1, 1], [4, 4, 4, 4, 1, 4, 4, 1, 1], [1, 4, 4, 4, 4, 1, 1, 4, 4], [4, 1, 1, 1, 4, 4, 4, 4, 4], [6, 6, 6, 6, 3, 6, 6, 3, 3], [3, 6, 6, 6, 6, 3, 3, 6, 6], [6, 3, 3, 3, 6, 6, 6, 6, 6]]⟩

def fullS35 : Possibilities :=
  ⟨[⟨266368, 1437127777, 87723⟩,
    ⟨8390912, 2529386932, 23341⟩,
    ⟨2129922, 2907087704, 46426⟩,
    ⟨4259844, 3401933490, 76693⟩,
    ⟨285229057, 1731402112, 105678⟩,
    ⟨2181038600, 1504236640, 91827⟩,
    ⟨1140851728, 3109596240, 58738⟩,
    ⟨135397408, 916131200, 55917⟩,
    ⟨537403456, 3933543040, 109012⟩], [],
   [[1, 1, 1, 1, 1, 1, 1, 1, 1], [1, 1, 1, 1, 1, 1, 1, 1, 1], [1, 1, 1, 1, 1, 1, 1, 1, 1], [1, 1, 1, 1, 1, 1, 1, 1, 1], [4, 4, 4, 5, 4, 3, 4, 4, 4], [4, 4, 4, 5, 4, 3, 4, 4, 4], [5, 5, 5, 5, 5, 5, 5, 5, 5], [5, 5, 5, 5, 5, 5, 5, 5, 5], [5, 5, 5, 5, 5, 5, 5, 5, 5]],
   [[1, 1, 1, 1, 1, 1, 1, 1, 1], [1, 1, 1, 1, 1, 1, 1, 1, 1], [1, 1, 1, 1, 1, 1, 1, 1, 1], [1, 1, 1, 1, 1, 1, 1, 1, 1], [4, 4, 4, 4, 4, 4, 4, 4, 4], [4, 4, 4, 4, 4, 4, 4, 4, 4], [5, 5, 5, 5, 5, 5, 5, 5, 5], [5, 5, 5, 5, 5, 5, 5, 5, 5], [5, 5, 5, 5, 5, 5, 5, 5, 5]],
   [[1, 5, 5, 5, 1, 1, 5, 1, 3], [5, 5, 1, 5, 1, 5, 1, 3, 1], [5, 1, 5, 1, 3, 5, 5, 1, 1], [1, 5, 1, 5, 5, 1, 1, 5, 5], [3, 5, 5, 1, 5, 1, 1, 5, 1], [1, 1, 5, 5, 1, 3, 3, 1, 5], [5, 3, 1, 1, 1, 5, 5, 5, 1], [1, 1, 3, 1, 5, 1, 5, 5, 5], [5, 1, 1, 3, 5, 5, 1, 1, 5]],
   [[1, 1, 1, 1, 1, 1, 1, 1, 1], [1, 1, 1, 1, 1, 1, 1, 1, 1], [1, 1, 1, 1, 1, 1, 1, 1, 1], [4, 4, 4, 4, 1, 4, 4, 1, 1], [1, 4, 4, 4, 4, 1, 1, 4, 4], [4, 1, 1, 1, 4, 4, 4, 4, 4], [6, 6, 6, 6, 3, 6, 6, 3, 3], [3, 6, 6, 6, 6, 3, 3, 6, 6], [6, 3, 3, 3, 6, 6, 6, 6, 6]]⟩

def fullS36 : Possibilities :=
  ⟨[⟨266368, 1437127777, 87723⟩,
    ⟨8390912, 2529386932, 23341⟩,
    ⟨2129922, 2907087704, 46426⟩,
    ⟨4259844, 3401933490, 76693⟩,
    ⟨285229057, 1731402112, 105678⟩,
    ⟨2181038600, 1504236640, 91827⟩,
    ⟨1140851728, 3109596240, 58738⟩,
    ⟨135397408, 916131200, 55917⟩,
    ⟨537403456, 3933543040, 109012⟩], [],
   [[1, 1, 1, 1, 1, 1, 1, 1, 1], [1, 1, 1, 1, 1, 1, 1, 1, 1], [1, 1, 1, 1, 1, 1, 1, 1, 1], [1, 1, 1, 1, 1, 1, 1, 1, 1], [4, 4, 4, 5, 4, 3, 4, 4, 4], [4, 4, 4, 5, 4, 3, 4, 4, 4], [5, 5, 5, 5, 5, 5, 5, 5, 5], [5, 5, 5, 5, 5, 5, 5, 5, 5], [5, 5, 5, 5, 5, 5, 5, 5, 5]],
   [[1, 1, 1, 1, 1, 1, 1, 1, 1], [1, 1, 1, 1, 1, 1, 1, 1, 1], [1, 1, 1, 1, 1, 1, 1, 1, 1], [1, 1, 1, 1, 1, 1, 1, 1, 1], [4, 4, 4, 4, 4, 4, 4, 4, 4], [4, 4, 4, 4, 4, 4, 4, 4, 4], [5, 5, 5, 5, 5, 5, 5, 5, 5], [5, 5, 5, 5, 5, 5, 5, 5, 5], [5, 5, 5, 5, 5, 5, 5, 5, 5]],
   [[1, 5, 5, 5, 1, 1, 5, 1, 3], [5, 5, 1, 5, 1, 5, 1, 3, 1], [5, 1, 5, 1, 3, 5, 5, 1, 1], [1, 5, 1, 5, 5, 1, 1, 5, 5], [3, 5, 5, 1, 5, 1, 1, 5, 1], [1, 1, 5, 5, 1, 3, 3, 1, 5], [5, 3, 1, 1, 1, 5, 5, 5, 1], [1, 1, 3, 1, 5, 1, 5, 5, 5], [5, 1, 1, 3, 5, 5, 1, 1, 5]],
   [[1, 1, 1, 1, 1, 1, 1, 1, 1], [1, 1, 1, 1, 1, 1, 1, 1, 1], [1, 1, 1, 1, 1, 1, 1, 1, 1], [4, 4, 4, 4, 1, 4, 4, 1, 1], [1, 4, 4, 4, 4, 1, 1, 4, 4], [4, 1, 1, 1, 4, 4, 4, 4, 4], [6, 6, 6, 6, 3, 6, 6, 3, 3], [3, 6, 6, 6, 6, 3, 3, 6, 6], [6, 3, 3, 3, 6, 6, 6, 6, 6]]⟩

def fullS37 : Possibilities :=
  ⟨[⟨266368, 1437127777, 87723⟩,
    ⟨8390912, 2529386916, 23341⟩,
    ⟨2129922, 2907087688, 46426⟩,
    ⟨4259844, 1250230290, 76437⟩,
    ⟨285229057, 1731402112, 105678⟩,
    ⟨2181038600, 1504236640, 91827⟩,
    ⟨1140851728, 3109596224, 58738⟩,
    ⟨135397408, 916131200, 55917⟩,
    ⟨537403456, 3933543040, 109012⟩], [],
   [[1, 1, 1, 1, 1, 1, 1, 1, 1], [1, 1, 1, 1, 1, 1, 1, 1, 1], [1, 1, 1, 1, 1, 1, 1, 1, 1], [1, 1, 1, 1, 1, 1, 1, 1, 1], [1, 3, 4, 4, 4, 2, 4, 4, 4], [3, 3, 4, 5, 4, 3, 4, 4, 4], [4, 5, 5, 5, 5, 5, 5, 5, 5], [4, 5, 5, 5, 5, 5, 5, 5, 5], [4, 5, 5, 5, 5, 5, 5, 5, 5]],
   [[1, 1, 1, 1, 1, 1, 1, 1, 1], [1, 1, 1, 1, 1, 1, 1, 1, 1], [1, 1, 1, 1, 1, 1, 1, 1, 1], [1, 1, 1, 1, 1, 1, 1, 1, 1], [4, 3, 3, 1, 4, 4, 3, 4, 4], [4, 4, 4, 2, 4, 4, 4, 4, 4], [5, 5, 5, 4, 5, 5, 5, 5, 5], [5, 5, 5, 4, 5, 5, 5, 5, 5], [5, 5, 5, 4, 5, 5, 5, 5, 5]],
   [[1, 4, 4, 1, 1, 1, 4, 1, 3], [5, 5, 1, 3, 1, 5, 1, 3, 1], [5, 1, 5, 1, 3, 5, 5, 1, 1], [1, 5, 1, 4, 5, 1, 1, 5, 5], [3, 5, 5, 1, 5, 1, 1, 5, 1], [1, 1, 5, 4, 1, 3, 3, 1, 5], [5, 3, 1, 1, 1, 5, 5, 5, 1], [1, 1, 3, 1, 5, 1, 5, 5, 5], [5, 1, 1, 3, 5, 5, 1, 1, 5]],
   [[1, 1, 1, 1, 1, 1, 1, 1, 1], [1, 1, 1, 1, 1, 1, 1, 1, 1], [1, 1, 1, 1, 1, 1, 1, 1, 1], [4, 3, 3, 1, 1, 4, 3, 1, 1], [1, 4, 4, 2, 4, 1, 1, 4, 4], [4, 1, 1, 1, 4, 4, 4, 4, 4], [6, 6, 6, 3, 3, 6, 6, 3, 3], [3, 6, 6, 6, 6, 3, 3, 6, 6], [6, 3, 3, 3, 6, 6, 6, 6, 6]]⟩

def fullS38 : Possibilities :=
  ⟨[⟨266368, 1437127745, 87723⟩,
    ⟨8390912, 2520973348, 22828⟩,
    ⟨2129922, 2907087688, 46426⟩,
    ⟨4259844, 1250230290, 76437⟩,
    ⟨285229057, 1731402112, 105678⟩,
    ⟨2181038600, 1504236608, 91827⟩,
    ⟨1140851728, 3109596224, 58738⟩,
    ⟨135397408, 916131200, 55917⟩,
    ⟨537403456, 3933543040, 109012⟩], [],
   [[1, 1, 1, 1, 1, 1, 1, 1, 1], [1, 1, 1, 1, 1, 1, 1, 1, 1], [1, 1, 1, 1, 1, 1, 1, 1, 1], [1, 1, 1, 1, 1, 1, 1, 1, 1], [1, 1, 4, 3, 3, 2, 4, 4, 4], [2, 2, 4, 5, 4, 3, 4, 4, 4], [4, 4, 5, 5, 5, 5, 5, 5, 5], [4, 4, 5, 5, 5, 5, 5, 5, 5], [4, 4, 5, 5, 5, 5, 5, 5, 5]],
   [[1, 1, 1, 1, 1, 1, 1, 1, 1], [1, 1, 1, 1, 1, 1, 1, 1, 1], [1, 1, 1, 1, 1, 1, 1, 1, 1], [1, 1, 1, 1, 1, 1, 1, 1, 1], [3, 1, 3, 1, 4, 3, 3, 4, 4], [4, 2, 4, 2, 4, 4, 4, 4, 4], [5, 4, 5, 4, 5, 5, 5, 5, 5], [5, 4, 5, 4, 5, 5, 5, 5, 5], [5, 4, 5, 4, 5, 5, 5, 5, 5]],
   [[1, 3, 4, 1, 1, 1, 4, 1, 3], [4, 1, 1, 3, 1, 4, 1, 3, 1], [5, 1, 5, 1, 3, 5, 5, 1, 1], [1, 4, 1, 4, 5, 1, 1, 5, 5], [3, 4, 5, 1, 5, 1, 1, 5, 1], [1, 1, 5, 4, 1, 3, 3, 1, 5], [5, 3, 1, 1, 1, 5, 5, 5, 1], [1, 1, 3, 1, 5, 1, 5, 5, 5], [5, 1, 1, 3, 5, 5, 1, 1, 5]],
   [[1, 1, 1, 1, 1, 1, 1, 1, 1], [1, 1, 1, 1, 1, 1, 1, 1, 1], [1, 1, 1, 1, 1, 1, 1, 1, 1], [3, 1, 3, 1, 1, 3, 3, 1, 1], [1, 2, 4, 2, 4, 1, 1, 4, 4], [4, 1, 1, 1, 4, 4, 4, 4, 4], [6, 3, 6, 3, 3, 6, 6, 3, 3], [3, 6, 6, 6, 6, 3, 3, 6, 6], [6, 3, 3, 3, 6, 6, 6, 6, 6]]⟩

def fullS39 : Possibilities :=
  ⟨[⟨266368, 1426084865, 87210⟩,
    ⟨8390912, 2520973348, 22828⟩,
    ⟨2129922, 2907087624, 46426⟩,
    ⟨4259844, 1250230290, 76437⟩,
    ⟨285229057, 1731402112, 105678⟩,
    ⟨2181038600, 1487405120, 90801⟩,
    ⟨1140851728, 3109596160, 58738⟩,
    ⟨135397408, 916131200, 55917⟩,
    ⟨537403456, 3933543040, 109012⟩], [],
   [[1, 1, 1, 1, 1, 1, 1, 1, 1], [1, 1, 1, 1, 1, 1, 1, 1, 1], [1, 1, 1, 1, 1, 1, 1, 1, 1], [1, 1, 1, 1, 1, 1, 1, 1, 1], [1, 1, 1, 3, 3, 2, 3, 4, 3], [2, 1, 2, 5, 4, 3, 3, 4, 3], [4, 3, 4, 5, 5, 5, 5, 5, 5], [4, 3, 4, 5, 5, 5, 5, 5, 5], [4, 3, 4, 5, 5, 5, 5, 5, 5]],
   [[1, 1, 1, 1, 1, 1, 1, 1, 1], [1, 1, 1, 1, 1, 1, 1, 1, 1], [1, 1, 1, 1, 1, 1, 1, 1, 1], [1, 1, 1, 1, 1, 1, 1, 1, 1], [2, 1, 2, 1, 4, 1, 2, 4, 4], [1, 2, 4, 2, 4, 2, 4, 4, 4], [4, 4, 5, 4, 5, 4, 5, 5, 5], [4, 4, 5, 4, 5, 4, 5, 5, 5], [4, 4, 5, 4, 5, 4, 5, 5, 5]],
   [[1, 3, 4, 1, 1, 1, 4, 1, 3], [1, 1, 1, 3, 1, 3, 1, 3, 1], [3, 1, 4, 1, 3, 1, 4, 1, 1], [1, 4, 1, 4, 5, 1, 1, 5, 5], [3, 4, 5, 1, 5, 1, 1, 5, 1], [1, 1, 5, 4, 1, 3, 3, 1, 5], [4, 3, 1, 1, 1, 4, 5, 5, 1], [1, 1, 3, 1, 5, 1, 5, 5, 5], [4, 1, 1, 3, 5, 4, 1, 1, 5]],
   [[1, 1, 1, 1, 1, 1, 1, 1, 1], [1, 1, 1, 1, 1, 1, 1, 1, 1], [1, 1, 1, 1, 1, 1, 1, 1, 1], [1, 1, 2, 1, 1, 1, 2, 1, 1], [1, 2, 4, 2, 4, 1, 1, 4, 4], [2, 1, 1, 1, 4, 2, 4, 4, 4], [3, 3, 6, 3, 3, 3, 6, 3, 3], [3, 6, 6, 6, 6, 3, 3, 6, 6], [6, 3, 3, 3, 6, 6, 6, 6, 6]]⟩

def fullS40 : Possibilities :=
  ⟨[⟨266368, 1426084865, 87210⟩,
    ⟨8390912, 2520973348, 22828⟩,
    ⟨2129922, 2907087624, 46426⟩,
    ⟨4259844, 1250230290, 76437⟩,
    ⟨285229057, 1731401984, 105678⟩,
    ⟨2181038600, 1487405120, 90801⟩,
    ⟨1140851728, 3109596160, 58738⟩,
    ⟨135397408, 882376832, 53865⟩,
    ⟨537403456, 3933542912, 109012⟩], [],
   [[1, 1, 1, 1, 1, 1, 1, 1, 1], [1, 1, 1, 1, 1, 1, 1, 1, 1], [1, 1, 1, 1, 1, 1, 1, 1, 1], [1, 1, 1, 1, 1, 1, 1, 1, 1], [1, 1, 1, 1, 2, 2, 2, 3, 3], [2, 1, 2, 4, 3, 3, 3, 4, 3], [4, 3, 4, 4, 5, 5, 5, 5, 5], [4, 3, 4, 4, 5, 5, 5, 5, 5], [4, 3, 4, 4, 5, 5, 5, 5, 5]],
   [[1, 1, 1, 1, 1, 1, 1, 1, 1], [1, 1, 1, 1, 1, 1, 1, 1, 1], [1, 1, 1, 1, 1, 1, 1, 1, 1], [1, 1, 1, 1, 1, 1, 1, 1, 1], [2, 1, 2, 1, 3, 1, 2, 1, 3], [1, 2, 4, 2, 4, 2, 4, 2, 4], [4, 4, 5, 4, 5, 4, 5, 4, 5], [4, 4, 5, 4, 5, 4, 5, 4, 5], [4, 4, 5, 4, 5, 4, 5, 4, 5]],
   [[1, 3, 4, 1, 1, 1, 4, 1, 3], [1, 1, 1, 3, 1, 3, 1, 3, 1], [3, 1, 4, 1, 3, 1, 4, 1, 1], [1, 4, 1, 4, 4, 1, 1, 1, 4], [3, 4, 5, 1, 5, 1, 1, 3, 1], [1, 1, 5, 4, 1, 3, 3, 1, 5], [4, 3, 1, 1, 1, 4, 5, 4, 1], [1, 1, 3, 1, 5, 1, 5, 4, 5], [4, 1, 1, 3, 5, 4, 1, 1, 5]],
   [[1, 1, 1, 1, 1, 1, 1, 1, 1], [1, 1, 1, 1, 1, 1, 1, 1, 1], [1, 1, 1, 1, 1, 1, 1, 1, 1], [1, 1, 2, 1, 1, 1, 2, 1, 1], [1, 2, 4, 2, 3, 1, 1, 1, 3], [2, 1, 1, 1, 4, 2, 4, 2, 4], [3, 3, 6, 3, 3, 3, 6, 3, 3], [3, 6, 6, 6, 6, 3, 3, 3, 6], [6, 3, 3, 3, 6, 6, 6, 6, 6]]⟩

def fullS41 : Possibilities :=
  ⟨[⟨266368, 1426084865, 87210⟩,
    ⟨8390912, 2453798948, 18724⟩,
    ⟨2129922, 2772476424, 38218⟩,
    ⟨4259844, 1250230290, 76437⟩,
    ⟨285229057, 1664090368, 101574⟩,
    ⟨2181038600, 1487405120, 90801⟩,
    ⟨1140851728, 3109596160, 58738⟩,
    ⟨135397408, 882376832, 53865⟩,
    ⟨537403456, 3933542400, 109012⟩], [],
   [[1, 1, 1, 1, 1, 1, 1, 1, 1], [1, 1, 1, 1, 1, 1, 1, 1, 1], [1, 1, 1, 1, 1, 1, 1, 1, 1], [1, 1, 1, 1, 1, 1, 1, 1, 1], [1, 1, 1, 1, 1, 1, 2, 2, 2], [2, 1, 2, 2, 1, 2, 3, 4, 3], [4, 3, 4, 4, 3, 4, 5, 5, 5], [4, 3, 4, 4, 3, 4, 5, 5, 5], [4, 3, 4, 4, 3, 4, 5, 5, 5]],
   [[1, 1, 1, 1, 1, 1, 1, 1, 1], [1, 1, 1, 1, 1, 1, 1, 1, 1], [1, 1, 1, 1, 1, 1, 1, 1, 1], [1, 1, 1, 1, 1, 1, 1, 1, 1], [2, 1, 1, 1, 1, 1, 2, 1, 2], [1, 1, 2, 2, 2, 2, 4, 2, 4], [4, 3, 4, 4, 4, 4, 5, 4, 5], [4, 3, 4, 4, 4, 4, 5, 4, 5], [4, 3, 4, 4, 4, 4, 5, 4, 5]],
   [[1, 3, 4, 1, 1, 1, 4, 1, 3], [1, 1, 1, 3, 1, 3, 1, 3, 1], [3, 1, 4, 1, 3, 1, 4, 1, 1], [1, 3, 1, 4, 3, 1, 1, 1, 4], [3, 1, 3, 1, 1, 1, 1, 3, 1], [1, 1, 1, 4, 1, 3, 3, 1, 4], [4, 3, 1, 1, 1, 4, 5, 4, 1], [1, 1, 3, 1, 4, 1, 5, 4, 5], [4, 1, 1, 3, 4, 4, 1, 1, 5]],
   [[1, 1, 1, 1, 1, 1, 1, 1, 1], [1, 1, 1, 1, 1, 1, 1, 1, 1], [1, 1, 1, 1, 1, 1, 1, 1, 1], [1, 1, 2, 1, 1, 1, 2, 1, 1], [1, 1, 1, 2, 1, 1, 1, 1, 2], [2, 1, 1, 1, 2, 2, 4, 2, 4], [3, 3, 6, 3, 3, 3, 6, 3, 3], [3, 3, 3, 6, 3, 3, 3, 3, 6], [6, 3, 3, 3, 6, 6, 6, 6, 6]]⟩

def fullS42 : Possibilities :=
  ⟨[⟨266368, 1426084865, 87210⟩,
    ⟨8390912, 2453798948, 18724⟩,
    ⟨2129922, 2772476424, 38218⟩,
    ⟨4259844, 1250230290, 76437⟩,
    ⟨285229057, 1664090368, 101574⟩,
    ⟨2181038600, 1487405120, 90801⟩,
    ⟨1140851728, 3109596160, 58738⟩,
    ⟨135397408, 882376832, 53865⟩,
    ⟨537403456, 3933542400, 109012⟩], [],
   [[1, 1, 1, 1, 1, 1, 1, 1, 1], [1, 1, 1, 1, 1, 1, 1, 1, 1], [1, 1, 1, 1, 1, 1, 1, 1, 1], [1, 1, 1, 1, 1, 1, 1, 1, 1], [1, 1, 1, 1, 1, 1, 2, 2, 2], [2, 1, 2, 2, 1, 2, 3, 4, 3], [4, 3, 4, 4, 3, 4, 5, 5, 5], [4, 3, 4, 4, 3, 4, 5, 5, 5], [4, 3, 4, 4, 3, 4, 5, 5, 5]],
   [[1, 1, 1, 1, 1, 1, 1, 1, 1], [1, 1, 1, 1, 1, 1, 1, 1, 1], [1, 1, 1, 1, 1, 1, 1, 1, 1], [1, 1, 1, 1, 1, 1, 1, 1, 1], [2, 1, 1, 1, 1, 1, 2, 1, 2], [1, 1, 2, 2, 2, 2, 4, 2, 4], [4, 3, 4, 4, 4, 4, 5, 4, 5], [4, 3, 4, 4, 4, 4, 5, 4, 5], [4, 3, 4, 4, 4, 4, 5, 4, 5]],
   [[1, 3, 4, 1, 1, 1, 4, 1, 3], [1, 1, 1, 3, 1, 3, 1, 3, 1], [3, 1, 4, 1, 3, 1, 4, 1, 1], [1, 3, 1, 4, 3, 1, 1, 1, 4], [3, 1, 3, 1, 1, 1, 1, 3, 1], [1, 1, 1, 4, 1, 3, 3, 1, 4], [4, 3, 1, 1, 1, 4, 5, 4, 1], [1, 1, 3, 1, 4, 1, 5, 4, 5], [4, 1, 1, 3, 4, 4, 1, 1, 5]],
   [[1, 1, 1, 1, 1, 1, 1, 1, 1], [1, 1, 1, 1, 1, 1, 1, 1, 1], [1, 1, 1, 1, 1, 1, 1, 1, 1], [1, 1, 2, 1, 1, 1, 2, 1, 1], [1, 1, 1, 2, 1, 1, 1, 1, 2], [2, 1, 1, 1, 2, 2, 4, 2, 4], [3, 3, 6, 3, 3, 3, 6, 3, 3], [3, 3, 3, 6, 3, 3, 3, 3, 6], [6, 3, 3, 3, 6, 6, 6, 6, 6]]⟩

def fullS43 : Possibilities :=
  ⟨[⟨266368, 352342017, 21546⟩,
    ⟨8390912, 2453798948, 18724⟩,
    ⟨2129922, 2772476424, 38218⟩,
    ⟨4259844, 1250230290, 76437⟩,
    ⟨285229057, 1664090368, 101574⟩,
    ⟨2181038600, 1487405120, 90801⟩,
    ⟨1140851728, 2839585792, 42322⟩,
    ⟨135397408, 882376832, 53865⟩,
    ⟨537403456, 3393521664, 76180⟩], [],
   [[1, 1, 1, 1, 1, 1, 1, 1, 1], [1, 1, 1, 1, 1, 1, 1, 1, 1], [1, 1, 1, 1, 1, 1, 1, 1, 1], [1, 1, 1, 1, 1, 1, 1, 1, 1], [1, 1, 1, 1, 1, 1, 1, 1, 1], [2, 1, 2, 2, 1, 2, 2, 2, 2], [4, 3, 4, 4, 3, 4, 4, 4, 4], [4, 3, 4, 4, 3, 4, 4, 4, 4], [4, 3, 4, 4, 3, 4, 4, 4, 4]],
   [[1, 1, 1, 1, 1, 1, 1, 1, 1], [1, 1, 1, 1, 1, 1, 1, 1, 1], [1, 1, 1, 1, 1, 1, 1, 1, 1], [1, 1, 1, 1, 1, 1, 1, 1, 1], [1, 1, 1, 1, 1, 1, 1, 1, 1], [1, 1, 2, 2, 2, 2, 2, 2, 2], [3, 3, 4, 4, 4, 4, 4, 4, 4], [3, 3, 4, 4, 4, 4, 4, 4, 4], [3, 3, 4, 4, 4, 4, 4, 4, 4]],
   [[1, 3, 4, 1, 1, 1, 4, 1, 3], [1, 1, 1, 3, 1, 3, 1, 3, 1], [3, 1, 4, 1, 3, 1, 4, 1, 1], [1, 3, 1, 4, 3, 1, 1, 1, 4], [3, 1, 3, 1, 1, 1, 1, 3, 1], [1, 1, 1, 4, 1, 3, 3, 1, 4], [3, 3, 1, 1, 1, 4, 1, 4, 1], [1, 1, 3, 1, 4, 1, 3, 4, 1], [1, 1, 1, 3, 4, 4, 1, 1, 3]],
   [[1, 1, 1, 1, 1, 1, 1, 1, 1], [1, 1, 1, 1, 1, 1, 1, 1, 1], [1, 1, 1, 1, 1, 1, 1, 1, 1], [1, 1, 2, 1, 1, 1, 2, 1, 1], [1, 1, 1, 2, 1, 1, 1, 1, 2], [1, 1, 1, 1, 2, 2, 1, 2, 1], [3, 3, 6, 3, 3, 3, 6, 3, 3], [3, 3, 3, 6, 3, 3, 3, 3, 6], [3, 3, 3, 3, 6, 6, 3, 6, 3]]⟩

def fullS44 : Possibilities :=
  ⟨[⟨266368, 352342017, 21546⟩,
    ⟨8390912, 2453798948, 18724⟩,
    ⟨2129922, 2772476424, 38218⟩,
    ⟨4259844, 1250230290, 76437⟩,
    ⟨285229057, 1664090368, 101574⟩,
    ⟨2181038600, 1487405120, 90801⟩,
    ⟨1140851728, 2839585792, 42322⟩,
    ⟨135397408, 882376832, 53865⟩,
    ⟨537403456, 3393521664, 76180⟩], [],
   [[1, 1, 1, 1, 1, 1, 1, 1, 1], [1, 1, 1, 1, 1, 1, 1, 1, 1], [1, 1, 1, 1, 1, 1, 1, 1, 1], [1, 1, 1, 1, 1, 1, 1, 1, 1], [1, 1, 1, 1, 1, 1, 1, 1, 1], [2, 1, 2, 2, 1, 2, 2, 2, 2], [4, 3, 4, 4, 3, 4, 4, 4, 4], [4, 3, 4, 4, 3, 4, 4, 4, 4], [4, 3, 4, 4, 3, 4, 4, 4, 4]],
   [[1, 1, 1, 1, 1, 1, 1, 1, 1], [1, 1, 1, 1, 1, 1, 1, 1, 1], [1, 1, 1, 1, 1, 1, 1, 1, 1], [1, 1, 1, 1, 1, 1, 1, 1, 1], [1, 1, 1, 1, 1, 1, 1, 1, 1], [1, 1, 2, 2, 2, 2, 2, 2, 2], [3, 3, 4, 4, 4, 4, 4, 4, 4], [3, 3, 4, 4, 4, 4, 4, 4, 4], [3, 3, 4, 4, 4, 4, 4, 4, 4]],
   [[1, 3, 4, 1, 1, 1, 4, 1, 3], [1, 1, 1, 3, 1, 3, 1, 3, 1], [3, 1, 4, 1, 3, 1, 4, 1, 1], [1, 3, 1, 4, 3, 1, 1, 1, 4], [3, 1, 3, 1, 1, 1, 1, 3, 1], [1, 1, 1, 4, 1, 3, 3, 1, 4], [3, 3, 1, 1, 1, 4, 1, 4, 1], [1, 1, 3, 1, 4, 1, 3, 4, 1], [1, 1, 1, 3, 4, 4, 1, 1, 3]],
   [[1, 1, 1, 1, 1, 1, 1, 1, 1], [1, 1, 1, 1, 1, 1, 1, 1, 1], [1, 1, 1, 1, 1, 1, 1, 1, 1], [1, 1, 2, 1, 1, 1, 2, 1, 1], [1, 1, 1, 2, 1, 1, 1, 1, 2], [1, 1, 1, 1, 2, 2, 1, 2, 1], [3, 3, 6, 3, 3, 3, 6, 3, 3], [3, 3, 3, 6, 3, 3, 3, 3, 6], [3, 3, 3, 3, 6, 6, 3, 6, 3]]⟩

def fullS45 : Possibilities :=
  ⟨[⟨266368, 352342017, 21546⟩,
    ⟨8390912, 2453798948, 18724⟩,
    ⟨2129922, 2772476424, 38218⟩,
    ⟨4259844, 1250230290, 76437⟩,
    ⟨285229057, 1664090368, 101574⟩,
    ⟨2181038600, 1487405120, 90801⟩,
    ⟨1140851728, 2839585792, 42322⟩,
    ⟨135397408, 882376832, 53865⟩,
    ⟨537403456, 3393521664, 76180⟩], [],
   [[1, 1, 1, 1, 1, 1, 1, 1, 1], [1, 1, 1, 1, 1, 1, 1, 1, 1], [1, 1, 1, 1, 1, 1, 1, 1, 1], [1, 1, 1, 1, 1, 1, 1, 1, 1], [1, 1, 1, 1, 1, 1, 1, 1, 1], [2, 1, 2, 2, 1, 2, 2, 2, 2], [4, 3, 4, 4, 3, 4, 4, 4, 4], [4, 3, 4, 4, 3, 4, 4, 4, 4], [4, 3, 4, 4, 3, 4, 4, 4, 4]],
   [[1, 1, 1, 1, 1, 1, 1, 1, 1], [1, 1, 1, 1, 1, 1, 1, 1, 1], [1, 1, 1, 1, 1, 1, 1, 1, 1], [1, 1, 1, 1, 1, 1, 1, 1, 1], [1, 1, 1, 1, 1, 1, 1, 1, 1], [1, 1, 2, 2, 2, 2, 2, 2, 2], [3, 3, 4, 4, 4, 4, 4, 4, 4], [3, 3, 4, 4, 4, 4, 4, 4, 4], [3, 3, 4, 4, 4, 4, 4, 4, 4]],
   [[1, 3, 4, 1, 1, 1, 4, 1, 3], [1, 1, 1, 3, 1, 3, 1, 3, 1], [3, 1, 4, 1, 3, 1, 4, 1, 1], [1, 3, 1, 4, 3, 1, 1, 1, 4], [3, 1, 3, 1, 1, 1, 1, 3, 1], [1, 1, 1, 4, 1, 3, 3, 1, 4], [3, 3, 1, 1, 1, 4, 1, 4, 1], [1, 1, 3, 1, 4, 1, 3, 4, 1], [1, 1, 1, 3, 4, 4, 1, 1, 3]],
   [[1, 1, 1, 1, 1, 1, 1, 1, 1], [1, 1, 1, 1, 1, 1, 1, 1, 1], [1, 1, 1, 1, 1, 1, 1, 1, 1], [1, 1, 2, 1, 1, 1, 2, 1, 1], [1, 1, 1, 2, 1, 1, 1, 1, 2], [1, 1, 1, 1, 2, 2, 1, 2, 1], [3, 3, 6, 3, 3, 3, 6, 3, 3], [3, 3, 3, 6, 3, 3, 3, 3, 6], [3, 3, 3, 3, 6, 6, 3, 6, 3]]⟩

def fullS46 : Possibilities :=
  ⟨[⟨266368, 352342017, 21546⟩,
    ⟨8390912, 2453798948, 18724⟩,
    ⟨2129922, 2755691016, 37192⟩,
    ⟨4259844, 1250230290, 76437⟩,
    ⟨285229057, 1664090368, 101574⟩,
    ⟨2181038600, 1487405120, 90801⟩,
    ⟨1140851728, 687875072, 42066⟩,
    ⟨135397408, 882376832, 53865⟩,
    ⟨537403456, 3393521664, 76180⟩], [],
   [[1, 1, 1, 1, 1, 1, 1, 1, 1], [1, 1, 1, 1, 1, 1, 1, 1, 1], [1, 1, 1, 1, 1, 1, 1, 1, 1], [1, 1, 1, 1, 1, 1, 1, 1, 1], [1, 1, 1, 1, 1, 1, 1, 1, 1], [1, 1, 1, 2, 1, 2, 2, 2, 2], [3, 3, 3, 4, 3, 4, 4, 4, 4], [3, 3, 3, 4, 3, 4, 4, 4, 4], [3, 3, 3, 4, 3, 4, 4, 4, 4]],
   [[1, 1, 1, 1, 1, 1, 1, 1, 1], [1, 1, 1, 1, 1, 1, 1, 1, 1], [1, 1, 1, 1, 1, 1, 1, 1, 1], [1, 1, 1, 1, 1, 1, 1, 1, 1], [1, 1, 1, 1, 1, 1, 1, 1, 1], [1, 1, 1, 2, 2, 2, 1, 2, 2], [3, 3, 3, 4, 4, 4, 3, 4, 4], [3, 3, 3, 4, 4, 4, 3, 4, 4], [3, 3, 3, 4, 4, 4, 3, 4, 4]],
   [[1, 3, 3, 1, 1, 1, 1, 1, 3], [1, 1, 1, 3, 1, 3, 1, 3, 1], [3, 1, 1, 1, 3, 1, 3, 1, 1], [1, 3, 1, 4, 3, 1, 1, 1, 4], [3, 1, 3, 1, 1, 1, 1, 3, 1], [1, 1, 1, 4, 1, 3, 3, 1, 4], [3, 3, 1, 1, 1, 4, 1, 4, 1], [1, 1, 3, 1, 4, 1, 3, 4, 1], [1, 1, 1, 3, 4, 4, 1, 1, 3]],
   [[1, 1, 1, 1, 1, 1, 1, 1, 1], [1, 1, 1, 1, 1, 1, 1, 1, 1], [1, 1, 1, 1, 1, 1, 1, 1, 1], [1, 1, 1, 1, 1, 1, 1, 1, 1], [1, 1, 1, 2, 1, 1, 1, 1, 2], [1, 1, 1, 1, 2, 2, 1, 2, 1], [3, 3, 3, 3, 3, 3, 3, 3, 3], [3, 3, 3, 6, 3, 3, 3, 3, 6], [3, 3, 3, 3, 6, 6, 3, 6, 3]]⟩

def fullS47 : Possibilities :=
  ⟨[⟨266368, 352342017, 21546⟩,
    ⟨8390912, 2453798948, 18724⟩,
    ⟨2129922, 2755691016, 37192⟩,
    ⟨4259844, 1250230290, 76437⟩,
    ⟨285229057, 1664090368, 101574⟩,
    ⟨2181038600, 1487405120, 90801⟩,
    ⟨1140851728, 687875072, 42066⟩,
    ⟨135397408, 882376832, 53865⟩,
    ⟨537403456, 3393521664, 76180⟩], [],
   [[1, 1, 1, 1, 1, 1, 1, 1, 1], [1, 1, 1, 1, 1, 1, 1, 1, 1], [1, 1, 1, 1, 1, 1, 1, 1, 1], [1, 1, 1, 1, 1, 1, 1, 1, 1], [1, 1, 1, 1, 1, 1, 1, 1, 1], [1, 1, 1, 2, 1, 2, 2, 2, 2], [3, 3, 3, 4, 3, 4, 4, 4, 4], [3, 3, 3, 4, 3, 4, 4, 4, 4], [3, 3, 3, 4, 3, 4, 4, 4, 4]],
   [[1, 1, 1, 1, 1, 1, 1, 1, 1], [1, 1, 1, 1, 1, 1, 1, 1, 1], [1, 1, 1, 1, 1, 1, 1, 1, 1], [1, 1, 1, 1, 1, 1, 1, 1, 1], [1, 1, 1, 1, 1, 1, 1, 1, 1], [1, 1, 1, 2, 2, 2, 1, 2, 2], [3, 3, 3, 4, 4, 4, 3, 4, 4], [3, 3, 3, 4, 4, 4, 3, 4, 4], [3, 3, 3, 4, 4, 4, 3, 4, 4]],
   [[1, 3, 3, 1, 1, 1, 1, 1, 3], [1, 1, 1, 3, 1, 3, 1, 3, 1], [3, 1, 1, 1, 3, 1, 3, 1, 1], [1, 3, 1, 4, 3, 1, 1, 1, 4], [3, 1, 3, 1, 1, 1, 1, 3, 1], [1, 1, 1, 4, 1, 3, 3, 1, 4], [3, 3, 1, 1, 1, 4, 1, 4, 1], [1, 1, 3, 1, 4, 1, 3, 4, 1], [1, 1, 1, 3, 4, 4, 1, 1, 3]],
   [[1, 1, 1, 1, 1, 1, 1, 1, 1], [1, 1, 1, 1, 1, 1, 1, 1, 1], [1, 1, 1, 1, 1, 1, 1, 1, 1], [1, 1, 1, 1, 1, 1, 1, 1, 1], [1, 1, 1, 2, 1, 1, 1, 1, 2], [1, 1, 1, 1, 2, 2, 1, 2, 1], [3, 3, 3, 3, 3, 3, 3, 3, 3], [3, 3, 3, 6, 3, 3, 3, 3, 6], [3, 3, 3, 3, 6, 6, 3, 6, 3]]⟩

def fullS48 : Possibilities :=
  ⟨[⟨266368, 352342017, 21546⟩,
    ⟨8390912, 2453798948, 18724⟩,
    ⟨2129922, 2755691016, 37192⟩,
    ⟨4259844, 1250230290, 76437⟩,
    ⟨285229057, 1664090368, 101574⟩,
    ⟨2181038600, 1487405120, 90801⟩,
    ⟨1140851728, 687875072, 42066⟩,
    ⟨135397408, 882376832, 53865⟩,
    ⟨537403456, 3393521664, 76180⟩], [],
   [[1, 1, 1, 1, 1, 1, 1, 1, 1], [1, 1, 1, 1, 1, 1, 1, 1, 1], [1, 1, 1, 1, 1, 1, 1, 1, 1], [1, 1, 1, 1, 1, 1, 1, 1, 1], [1, 1, 1, 1, 1, 1, 1, 1, 1], [1, 1, 1, 2, 1, 2, 2, 2, 2], [3, 3, 3, 4, 3, 4, 4, 4, 4], [3, 3, 3, 4, 3, 4, 4, 4, 4], [3, 3, 3, 4, 3, 4, 4, 4, 4]],
   [[1, 1, 1, 1, 1, 1, 1, 1, 1], [1, 1, 1, 1, 1, 1, 1, 1, 1], [1, 1, 1, 1, 1, 1, 1, 1, 1], [1, 1, 1, 1, 1, 1, 1, 1, 1], [1, 1, 1, 1, 1, 1, 1, 1, 1], [1, 1, 1, 2, 2, 2, 1, 2, 2], [3, 3, 3, 4, 4, 4, 3, 4, 4], [3, 3, 3, 4, 4, 4, 3, 4, 4], [3, 3, 3, 4, 4, 4, 3, 4, 4]],
   [[1, 3, 3, 1, 1, 1, 1, 1, 3], [1, 1, 1, 3, 1, 3, 1, 3, 1], [3, 1, 1, 1, 3, 1, 3, 1, 1], [1, 3, 1, 4, 3, 1, 1, 1, 4], [3, 1, 3, 1, 1, 1, 1, 3, 1], [1, 1, 1, 4, 1, 3, 3, 1, 4], [3, 3, 1, 1, 1, 4, 1, 4, 1], [1, 1, 3, 1, 4, 1, 3, 4, 1], [1, 1, 1, 3, 4, 4, 1, 1, 3]],
   [[1, 1, 1, 1, 1, 1, 1, 1, 1], [1, 1, 1, 1, 1, 1, 1, 1, 1], [1, 1, 1, 1, 1, 1, 1, 1, 1], [1, 1, 1, 1, 1, 1, 1, 1, 1], [1, 1, 1, 2, 1, 1, 1, 1, 2], [1, 1, 1, 1, 2, 2, 1, 2, 1], [3, 3, 3, 3, 3, 3, 3, 3, 3], [3, 3, 3, 6, 3, 3, 3, 3, 6], [3, 3, 3, 3, 6, 6, 3, 6, 3]]⟩

def fullS49 : Possibilities :=
  ⟨[⟨266368, 352342017, 21546⟩,
    ⟨8390912, 2453798948, 18724⟩,
    ⟨2129922, 2755691016, 37192⟩,
    ⟨4259844, 1115947026, 68229⟩,
    ⟨285229057, 1664090368, 101574⟩,
    ⟨2181038600, 1487405120, 90801⟩,
    ⟨1140851728, 687875072, 42066⟩,
    ⟨135397408, 882376832, 53865⟩,
    ⟨537403456, 3359705088, 74128⟩], [],
   [[1, 1, 1, 1, 1, 1, 1, 1, 1], [1, 1, 1, 1, 1, 1, 1, 1, 1], [1, 1, 1, 1, 1, 1, 1, 1, 1], [1, 1, 1, 1, 1, 1, 1, 1, 1], [1, 1, 1, 1, 1, 1, 1, 1, 1], [1, 1, 1, 1, 1, 1, 2, 2, 2], [3, 3, 3, 3, 3, 3, 4, 4, 4], [3, 3, 3, 3, 3, 3, 4, 4, 4], [3, 3, 3, 3, 3, 3, 4, 4, 4]],
   [[1, 1, 1, 1, 1, 1, 1, 1, 1], [1, 1, 1, 1, 1, 1, 1, 1, 1], [1, 1, 1, 1, 1, 1, 1, 1, 1], [1, 1, 1, 1, 1, 1, 1, 1, 1], [1, 1, 1, 1, 1, 1, 1, 1, 1], [1, 1, 1, 1, 2, 2, 1, 2, 1], [3, 3, 3, 3, 4, 4, 3, 4, 3], [3, 3, 3, 3, 4, 4, 3, 4, 3], [3, 3, 3, 3, 4, 4, 3, 4, 3]],
   [[1, 3, 3, 1, 1, 1, 1, 1, 3], [1, 1, 1, 3, 1, 3, 1, 3, 1], [3, 1, 1, 1, 3, 1, 3, 1, 1], [1, 3, 1, 3, 3, 1, 1, 1, 1], [3, 1, 3, 1, 1, 1, 1, 3, 1], [1, 1, 1, 1, 1, 3, 3, 1, 3], [3, 3, 1, 1, 1, 4, 1, 4, 1], [1, 1, 3, 1, 4, 1, 3, 4, 1], [1, 1, 1, 3, 4, 4, 1, 1, 3]],
   [[1, 1, 1, 1, 1, 1, 1, 1, 1], [1, 1, 1, 1, 1, 1, 1, 1, 1], [1, 1, 1, 1, 1, 1, 1, 1, 1], [1, 1, 1, 1, 1, 1, 1, 1, 1], [1, 1, 1, 1, 1, 1, 1, 1, 1], [1, 1, 1, 1, 2, 2, 1, 2, 1], [3, 3, 3, 3, 3, 3, 3, 3, 3], [3, 3, 3, 3, 3, 3, 3, 3, 3], [3, 3, 3, 3, 6, 6, 3, 6, 3]]⟩

def fullS50 : Possibilities :=
  ⟨[⟨266368, 352342017, 21546⟩,
    ⟨8390912, 2453798948, 18724⟩,
    ⟨2129922, 2755691016, 37192⟩,
    ⟨4259844, 1115947026, 68229⟩,
    ⟨285229057, 1664090368, 101574⟩,
    ⟨2181038600, 1487405120, 90801⟩,
    ⟨1140851728, 687875072, 42066⟩,
    ⟨135397408, 882376832, 53865⟩,
    ⟨537403456, 3359705088, 74128⟩], [],
   [[1, 1, 1, 1, 1, 1, 1, 1, 1], [1, 1, 1, 1, 1, 1, 1, 1, 1], [1, 1, 1, 1, 1, 1, 1, 1, 1], [1, 1, 1, 1, 1, 1, 1, 1, 1], [1, 1, 1, 1, 1, 1, 1, 1, 1], [1, 1, 1, 1, 1, 1, 2, 2, 2], [3, 3, 3, 3, 3, 3, 4, 4, 4], [3, 3, 3, 3, 3, 3, 4, 4, 4], [3, 3, 3, 3, 3, 3, 4, 4, 4]],
   [[1, 1, 1, 1, 1, 1, 1, 1, 1], [1, 1, 1, 1, 1, 1, 1, 1, 1], [1, 1, 1, 1, 1, 1, 1, 1, 1], [1, 1, 1, 1, 1, 1, 1, 1, 1], [1, 1, 1, 1, 1, 1, 1, 1, 1], [1, 1, 1, 1, 2, 2, 1, 2, 1], [3, 3, 3, 3, 4, 4, 3, 4, 3], [3, 3, 3, 3, 4, 4, 3, 4, 3], [3, 3, 3, 3, 4, 4, 3, 4, 3]],
   [[1, 3, 3, 1, 1, 1, 1, 1, 3], [1, 1, 1, 3, 1, 3, 1, 3, 1], [3, 1, 1, 1, 3, 1, 3, 1, 1], [1, 3, 1, 3, 3, 1, 1, 1, 1], [3, 1, 3, 1, 1, 1, 1, 3, 1], [1, 1, 1, 1, 1, 3, 3, 1, 3], [3, 3, 1, 1, 1, 4, 1, 4, 1], [1, 1, 3, 1, 4, 1, 3, 4, 1], [1, 1, 1, 3, 4, 4, 1, 1, 3]],
   [[1, 1, 1, 1, 1, 1, 1, 1, 1], [1, 1, 1, 1, 1, 1, 1, 1, 1], [1, 1, 1, 1, 1, 1, 1, 1, 1], [1, 1, 1, 1, 1, 1, 1, 1, 1], [1, 1, 1, 1, 1, 1, 1, 1, 1], [1, 1, 1, 1, 2, 2, 1, 2, 1], [3, 3, 3, 3, 3, 3, 3, 3, 3], [3, 3, 3, 3, 3, 3, 3, 3, 3], [3, 3, 3, 3, 6, 6, 3, 6, 3]]⟩

def fullS51 : Possibilities :=
  ⟨[⟨266368, 352342017, 21546⟩,
    ⟨8390912, 2453798948, 18724⟩,
    ⟨2129922, 2755691016, 37192⟩,
    ⟨4259844, 1115947026, 68229⟩,
    ⟨285229057, 1664090368, 101574⟩,
    ⟨2181038600, 1487405120, 90801⟩,
    ⟨1140851728, 687875072, 42066⟩,
    ⟨135397408, 882376832, 53865⟩,
    ⟨537403456, 3359705088, 74128⟩], [],
   [[1, 1, 1, 1, 1, 1, 1, 1, 1], [1, 1, 1, 1, 1, 1, 1, 1, 1], [1, 1, 1, 1, 1, 1, 1, 1, 1], [1, 1, 1, 1, 1, 1, 1, 1, 1], [1, 1, 1, 1, 1, 1, 1, 1, 1], [1, 1, 1, 1, 1, 1, 2, 2, 2], [3, 3, 3, 3, 3, 3, 4, 4, 4], [3, 3, 3, 3, 3, 3, 4, 4, 4], [3, 3, 3, 3, 3, 3, 4, 4, 4]],
   [[1, 1, 1, 1, 1, 1, 1, 1, 1], [1, 1, 1, 1, 1, 1, 1, 1, 1], [1, 1, 1, 1, 1, 1, 1, 1, 1], [1, 1, 1, 1, 1, 1, 1, 1, 1], [1, 1, 1, 1, 1, 1, 1, 1, 1], [1, 1, 1, 1, 2, 2, 1, 2, 1], [3, 3, 3, 3, 4, 4, 3, 4, 3], [3, 3, 3, 3, 4, 4, 3, 4, 3], [3, 3, 3, 3, 4, 4, 3, 4, 3]],
   [[1, 3, 3, 1, 1, 1, 1, 1, 3], [1, 1, 1, 3, 1, 3, 1, 3, 1], [3, 1, 1, 1, 3, 1, 3, 1, 1], [1, 3, 1, 3, 3, 1, 1, 1, 1], [3, 1, 3, 1, 1, 1, 1, 3, 1], [1, 1, 1, 1, 1, 3, 3, 1, 3], [3, 3, 1, 1, 1, 4, 1, 4, 1], [1, 1, 3, 1, 4, 1, 3, 4, 1], [1, 1, 1, 3, 4, 4, 1, 1, 3]],
   [[1, 1, 1, 1, 1, 1, 1, 1, 1], [1, 1, 1, 1, 1, 1, 1, 1, 1], [1, 1, 1, 1, 1, 1, 1, 1, 1], [1, 1, 1, 1, 1, 1, 1, 1, 1], [1, 1, 1, 1, 1, 1, 1, 1, 1], [1, 1, 1, 1, 2, 2, 1, 2, 1], [3, 3, 3, 3, 3, 3, 3, 3, 3], [3, 3, 3, 3, 3, 3, 3, 3, 3], [3, 3, 3, 3, 6, 6, 3, 6, 3]]⟩

def fullS52 : Possibilities :=
  ⟨[⟨266368, 352342017, 21546⟩,
    ⟨8390912, 2453798948, 18724⟩,
    ⟨2129922, 2755691016, 37192⟩,
    ⟨4259844, 1115947026, 68229⟩,
    ⟨285229057, 1125122304, 68742⟩,
    ⟨2181038600, 413139008, 25137⟩,
    ⟨1140851728, 687875072, 42066⟩,
    ⟨135397408, 612892800, 37449⟩,
    ⟨537403456, 3359705088, 74128⟩], [],
   [[1, 1, 1, 1, 1, 1, 1, 1, 1], [1, 1, 1, 1, 1, 1, 1, 1, 1], [1, 1, 1, 1, 1, 1, 1, 1, 1], [1, 1, 1, 1, 1, 1, 1, 1, 1], [1, 1, 1, 1, 1, 1, 1, 1, 1], [1, 1, 1, 1, 1, 1, 1, 1, 1], [3, 3, 3, 3, 3, 3, 3, 3, 3], [3, 3, 3, 3, 3, 3, 3, 3, 3], [3, 3, 3, 3, 3, 3, 3, 3, 3]],
   [[1, 1, 1, 1, 1, 1, 1, 1, 1], [1, 1, 1, 1, 1, 1, 1, 1, 1], [1, 1, 1, 1, 1, 1, 1, 1, 1], [1, 1, 1, 1, 1, 1, 1, 1, 1], [1, 1, 1, 1, 1, 1, 1, 1, 1], [1, 1, 1, 1, 1, 1, 1, 1, 1], [3, 3, 3, 3, 3, 3, 3, 3, 3], [3, 3, 3, 3, 3, 3, 3, 3, 3], [3, 3, 3, 3, 3, 3, 3, 3, 3]],
   [[1, 3, 3, 1, 1, 1, 1, 1, 3], [1, 1, 1, 3, 1, 3, 1, 3, 1], [3, 1, 1, 1, 3, 1, 3, 1, 1], [1, 3, 1, 3, 3, 1, 1, 1, 1], [3, 1, 3, 1, 1, 1, 1, 3, 1], [1, 1, 1, 1, 1, 3, 3, 1, 3], [3, 3, 1, 1, 1, 3, 1, 1, 1], [1, 1, 3, 1, 1, 1, 3, 3, 1], [1, 1, 1, 3, 3, 1, 1, 1, 3]],
   [[1, 1, 1, 1, 1, 1, 1, 1, 1], [1, 1, 1, 1, 1, 1, 1, 1, 1], [1, 1, 1, 1, 1, 1, 1, 1, 1], [1, 1, 1, 1, 1, 1, 1, 1, 1], [1, 1, 1, 1, 1, 1, 1, 1, 1], [1, 1, 1, 1, 1, 1, 1, 1, 1], [3, 3, 3, 3, 3, 3, 3, 3, 3], [3, 3, 3, 3, 3, 3, 3, 3, 3], [3, 3, 3, 3, 3, 3, 3, 3, 3]]⟩

def fullS53 : Possibilities :=
  ⟨[⟨266368, 352342017, 21546⟩,
    ⟨8390912, 2453798948, 18724⟩,
    ⟨2129922, 2755691016, 37192⟩,
    ⟨4259844, 1115947026, 68229⟩,
    ⟨285229057, 1125122304, 68742⟩,
    ⟨2181038600, 413139008, 25137⟩,
    ⟨1140851728, 687875072, 42066⟩,
    ⟨135397408, 612892800, 37449⟩,
    ⟨537403456, 3359705088, 74128⟩], [],
   [[1, 1, 1, 1, 1, 1, 1, 1, 1], [1, 1, 1, 1, 1, 1, 1, 1, 1], [1, 1, 1, 1, 1, 1, 1, 1, 1], [1, 1, 1, 1, 1, 1, 1, 1, 1], [1, 1, 1, 1, 1, 1, 1, 1, 1], [1, 1, 1, 1, 1, 1, 1, 1, 1], [3, 3, 3, 3, 3, 3, 3, 3, 3], [3, 3, 3, 3, 3, 3, 3, 3, 3], [3, 3, 3, 3, 3, 3, 3, 3, 3]],
   [[1, 1, 1, 1, 1, 1, 1, 1, 1], [1, 1, 1, 1, 1, 1, 1, 1, 1], [1, 1, 1, 1, 1, 1, 1, 1, 1], [1, 1, 1, 1, 1, 1, 1, 1, 1], [1, 1, 1, 1, 1, 1, 1, 1, 1], [1, 1, 1, 1, 1, 1, 1, 1, 1], [3, 3, 3, 3, 3, 3, 3, 3, 3], [3, 3, 3, 3, 3, 3, 3, 3, 3], [3, 3, 3, 3, 3, 3, 3, 3, 3]],
   [[1, 3, 3, 1, 1, 1, 1, 1, 3], [1, 1, 1, 3, 1, 3, 1, 3, 1], [3, 1, 1, 1, 3, 1, 3, 1, 1], [1, 3, 1, 3, 3, 1, 1, 1, 1], [3, 1, 3, 1, 1, 1, 1, 3, 1], [1, 1, 1, 1, 1, 3, 3, 1, 3], [3, 3, 1, 1, 1, 3, 1, 1, 1], [1, 1, 3, 1, 1, 1, 3, 3, 1], [1, 1, 1, 3, 3, 1, 1, 1, 3]],
   [[1, 1, 1, 1, 1, 1, 1, 1, 1], [1, 1, 1, 1, 1, 1, 1, 1, 1], [1, 1, 1, 1, 1, 1, 1, 1, 1], [1, 1, 1, 1, 1, 1, 1, 1, 1], [1, 1, 1, 1, 1, 1, 1, 1, 1], [1, 1, 1, 1, 1, 1, 1, 1, 1], [3, 3, 3, 3, 3, 3, 3, 3, 3], [3, 3, 3, 3, 3, 3, 3, 3, 3], [3, 3, 3, 3, 3, 3, 3, 3, 3]]⟩

def fullS54 : Possibilities :=
  ⟨[⟨266368, 352342017, 21546⟩,
    ⟨8390912, 2453798948, 18724⟩,
    ⟨2129922, 2755691016, 37192⟩,
    ⟨4259844, 1115947026, 68229⟩,
    ⟨285229057, 1125122304, 68742⟩,
    ⟨2181038600, 413139008, 25137⟩,
    ⟨1140851728, 687875072, 42066⟩,
    ⟨135397408, 612892800, 37449⟩,
    ⟨537403456, 3359705088, 74128⟩], [],
   [[1, 1, 1, 1, 1, 1, 1, 1, 1], [1, 1, 1, 1, 1, 1, 1, 1, 1], [1, 1, 1, 1, 1, 1, 1, 1, 1], [1, 1, 1, 1, 1, 1, 1, 1, 1], [1, 1, 1, 1, 1, 1, 1, 1, 1], [1, 1, 1, 1, 1, 1, 1, 1, 1], [3, 3, 3, 3, 3, 3, 3, 3, 3], [3, 3, 3, 3, 3, 3, 3, 3, 3], [3, 3, 3, 3, 3, 3, 3, 3, 3]],
   [[1, 1, 1, 1, 1, 1, 1, 1, 1], [1, 1, 1, 1, 1, 1, 1, 1, 1], [1, 1, 1, 1, 1, 1, 1, 1, 1], [1, 1, 1, 1, 1, 1, 1, 1, 1], [1, 1, 1, 1, 1, 1, 1, 1, 1], [1, 1, 1, 1, 1, 1, 1, 1, 1], [3, 3, 3, 3, 3, 3, 3, 3, 3], [3, 3, 3, 3, 3, 3, 3, 3, 3], [3, 3, 3, 3, 3, 3, 3, 3, 3]],
   [[1, 3, 3, 1, 1, 1, 1, 1, 3], [1, 1, 1, 3, 1, 3, 1, 3, 1], [3, 1, 1, 1, 3, 1, 3, 1, 1], [1, 3, 1, 3, 3, 1, 1, 1, 1], [3, 1, 3, 1, 1, 1, 1, 3, 1], [1, 1, 1, 1, 1, 3, 3, 1, 3], [3, 3, 1, 1, 1, 3, 1, 1, 1], [1, 1, 3, 1, 1, 1, 3, 3, 1], [1, 1, 1, 3, 3, 1, 1, 1, 3]],
   [[1, 1, 1, 1, 1, 1, 1, 1, 1], [1, 1, 1, 1, 1, 1, 1, 1, 1], [1, 1, 1, 1, 1, 1, 1, 1, 1], [1, 1, 1, 1, 1, 1, 1, 1, 1], [1, 1, 1, 1, 1, 1, 1, 1, 1], [1, 1, 1, 1, 1, 1, 1, 1, 1], [3, 3, 3, 3, 3, 3, 3, 3, 3], [3, 3, 3, 3, 3, 3, 3, 3, 3], [3, 3, 3, 3, 3, 3, 3, 3, 3]]⟩

def fullS55 : Possibilities :=
  ⟨[⟨266368, 352342017, 21546⟩,
    ⟨8390912, 2449604644, 18724⟩,
    ⟨2129922, 2751496712, 37192⟩,
    ⟨4259844, 1115947026, 68229⟩,
    ⟨285229057, 1125122304, 68742⟩,
    ⟨2181038600, 413139008, 25137⟩,
    ⟨1140851728, 687875072, 42066⟩,
    ⟨135397408, 612892800, 37449⟩,
    ⟨537403456, 4261888, 73872⟩], [],
   [[1, 1, 1, 1, 1, 1, 1, 1, 1], [1, 1, 1, 1, 1, 1, 1, 1, 1], [1, 1, 1, 1, 1, 1, 1, 1, 1], [1, 1, 1, 1, 1, 1, 1, 1, 1], [1, 1, 1, 1, 1, 1, 1, 1, 1], [1, 1, 1, 1, 1, 1, 1, 1, 1], [1, 3, 3, 3, 3, 2, 3, 3, 2], [2, 3, 3, 3, 3, 3, 3, 3, 3], [2, 3, 3, 3, 3, 3, 3, 3, 3]],
   [[1, 1, 1, 1, 1, 1, 1, 1, 1], [1, 1, 1, 1, 1, 1, 1, 1, 1], [1, 1, 1, 1, 1, 1, 1, 1, 1], [1, 1, 1, 1, 1, 1, 1, 1, 1], [1, 1, 1, 1, 1, 1, 1, 1, 1], [1, 1, 1, 1, 1, 1, 1, 1, 1], [3, 2, 2, 3, 3, 3, 3, 3, 1], [3, 3, 3, 3, 3, 3, 3, 3, 2], [3, 3, 3, 3, 3, 3, 3, 3, 2]],
   [[1, 2, 2, 1, 1, 1, 1, 1, 1], [1, 1, 1, 3, 1, 3, 1, 3, 1], [3, 1, 1, 1, 3, 1, 3, 1, 1], [1, 3, 1, 3, 3, 1, 1, 1, 1], [3, 1, 3, 1, 1, 1, 1, 3, 1], [1, 1, 1, 1, 1, 3, 3, 1, 2], [3, 3, 1, 1, 1, 3, 1, 1, 1], [1, 1, 3, 1, 1, 1, 3, 3, 1], [1, 1, 1, 3, 3, 1, 1, 1, 2]],
   [[1, 1, 1, 1, 1, 1, 1, 1, 1], [1, 1, 1, 1, 1, 1, 1, 1, 1], [1, 1, 1, 1, 1, 1, 1, 1, 1], [1, 1, 1, 1, 1, 1, 1, 1, 1], [1, 1, 1, 1, 1, 1, 1, 1, 1], [1, 1, 1, 1, 1, 1, 1, 1, 1], [3, 2, 2, 3, 3, 3, 3, 3, 1], [3, 3, 3, 3, 3, 3, 3, 3, 2], [3, 3, 3, 3, 3, 3, 3, 3, 2]]⟩

def fullS56 : Possibilities :=
  ⟨[⟨266368, 352342017, 21546⟩,
    ⟨8390912, 2449604644, 18724⟩,
    ⟨2129922, 2751496712, 37192⟩,
    ⟨4259844, 1107558418, 68229⟩,
    ⟨285229057, 1125122304, 68742⟩,
    ⟨2181038600, 10485824, 24624⟩,
    ⟨1140851728, 134226944, 33858⟩,
    ⟨135397408, 604504192, 37449⟩,
    ⟨537403456, 4261888, 73872⟩], [],
   [[1, 1, 1, 1, 1, 1, 1, 1, 1], [1, 1, 1, 1, 1, 1, 1, 1, 1], [1, 1, 1, 1, 1, 1, 1, 1, 1], [1, 1, 1, 1, 1, 1, 1, 1, 1], [1, 1, 1, 1, 1, 1, 1, 1, 1], [1, 1, 1, 1, 1, 1, 1, 1, 1], [1, 1, 2, 3, 3, 1, 2, 2, 2], [2, 2, 3, 3, 3, 2, 3, 3, 3], [2, 2, 3, 3, 3, 2, 3, 3, 3]],
   [[1, 1, 1, 1, 1, 1, 1, 1, 1], [1, 1, 1, 1, 1, 1, 1, 1, 1], [1, 1, 1, 1, 1, 1, 1, 1, 1], [1, 1, 1, 1, 1, 1, 1, 1, 1], [1, 1, 1, 1, 1, 1, 1, 1, 1], [1, 1, 1, 1, 1, 1, 1, 1, 1], [3, 2, 2, 2, 3, 1, 1, 2, 1], [3, 3, 3, 3, 3, 2, 2, 3, 2], [3, 3, 3, 3, 3, 2, 2, 3, 2]],
   [[1, 2, 2, 1, 1, 1, 1, 1, 1], [1, 1, 1, 2, 1, 1, 1, 2, 1], [3, 1, 1, 1, 3, 1, 2, 1, 1], [1, 3, 1, 3, 3, 1, 1, 1, 1], [3, 1, 3, 1, 1, 1, 1, 3, 1], [1, 1, 1, 1, 1, 2, 1, 1, 2], [3, 3, 1, 1, 1, 2, 1, 1, 1], [1, 1, 3, 1, 1, 1, 2, 3, 1], [1, 1, 1, 3, 3, 1, 1, 1, 2]],
   [[1, 1, 1, 1, 1, 1, 1, 1, 1], [1, 1, 1, 1, 1, 1, 1, 1, 1], [1, 1, 1, 1, 1, 1, 1, 1, 1], [1, 1, 1, 1, 1, 1, 1, 1, 1], [1, 1, 1, 1, 1, 1, 1, 1, 1], [1, 1, 1, 1, 1, 1, 1, 1, 1], [3, 2, 2, 2, 3, 1, 2, 2, 1], [3, 3, 3, 3, 3, 2, 1, 3, 2], [3, 3, 3, 3, 3, 2, 2, 3, 2]]⟩

def fullS57 : Possibilities :=
  ⟨[⟨266368, 16797697, 20520⟩,
    ⟨8390912, 2416050212, 2308⟩,
    ⟨2129922, 2751496712, 37192⟩,
    ⟨4259844, 1107558418, 68229⟩,
    ⟨285229057, 1108345088, 68742⟩,
    ⟨2181038600, 10485824, 24624⟩,
    ⟨1140851728, 134226944, 33858⟩,
    ⟨135397408, 604504192, 37449⟩,
    ⟨537403456, 4261888, 73872⟩], [],
   [[1, 1, 1, 1, 1, 1, 1, 1, 1], [1, 1, 1, 1, 1, 1, 1, 1, 1], [1, 1, 1, 1, 1, 1, 1, 1, 1], [1, 1, 1, 1, 1, 1, 1, 1, 1], [1, 1, 1, 1, 1, 1, 1, 1, 1], [1, 1, 1, 1, 1, 1, 1, 1, 1], [1, 1, 1, 2, 2, 1, 1, 2, 2], [2, 2, 2, 3, 3, 2, 2, 3, 3], [2, 2, 2, 3, 3, 2, 2, 3, 3]],
   [[1, 1, 1, 1, 1, 1, 1, 1, 1], [1, 1, 1, 1, 1, 1, 1, 1, 1], [1, 1, 1, 1, 1, 1, 1, 1, 1], [1, 1, 1, 1, 1, 1, 1, 1, 1], [1, 1, 1, 1, 1, 1, 1, 1, 1], [1, 1, 1, 1, 1, 1, 1, 1, 1], [1, 1, 2, 2, 2, 1, 1, 2, 1], [2, 2, 3, 3, 3, 2, 2, 3, 2], [2, 2, 3, 3, 3, 2, 2, 3, 2]],
   [[1, 2, 2, 1, 1, 1, 1, 1, 1], [1, 1, 1, 2, 1, 1, 1, 2, 1], [1, 1, 1, 1, 2, 1, 2, 1, 1], [1, 2, 1, 3, 3, 1, 1, 1, 1], [2, 1, 3, 1, 1, 1, 1, 3, 1], [1, 1, 1, 1, 1, 2, 1, 1, 2], [2, 1, 1, 1, 1, 2, 1, 1, 1], [1, 1, 3, 1, 1, 1, 2, 3, 1], [1, 1, 1, 3, 3, 1, 1, 1, 2]],
   [[1, 1, 1, 1, 1, 1, 1, 1, 1], [1, 1, 1, 1, 1, 1, 1, 1, 1], [1, 1, 1, 1, 1, 1, 1, 1, 1], [1, 1, 1, 1, 1, 1, 1, 1, 1], [1, 1, 1, 1, 1, 1, 1, 1, 1], [1, 1, 1, 1, 1, 1, 1, 1, 1], [1, 2, 2, 2, 2, 1, 2, 2, 1], [2, 2, 3, 3, 3, 2, 1, 3, 2], [2, 1, 3, 3, 3, 2, 2, 3, 2]]⟩

def fullS58 : Possibilities :=
  ⟨[⟨266368, 16797697, 20520⟩,
    ⟨8390912, 2416050212, 2308⟩,
    ⟨2129922, 2751496712, 37192⟩,
    ⟨4259844, 1074003986, 2565⟩,
    ⟨285229057, 34603264, 66690⟩,
    ⟨2181038600, 10485824, 24624⟩,
    ⟨1140851728, 134226944, 33858⟩,
    ⟨135397408, 604504192, 37449⟩,
    ⟨537403456, 4261888, 73872⟩], [],
   [[1, 1, 1, 1, 1, 1, 1, 1, 1], [1, 1, 1, 1, 1, 1, 1, 1, 1], [1, 1, 1, 1, 1, 1, 1, 1, 1], [1, 1, 1, 1, 1, 1, 1, 1, 1], [1, 1, 1, 1, 1, 1, 1, 1, 1], [1, 1, 1, 1, 1, 1, 1, 1, 1], [1, 1, 1, 1, 2, 1, 1, 2, 1], [2, 2, 2, 2, 3, 2, 2, 3, 2], [2, 2, 2, 2, 3, 2, 2, 3, 2]],
   [[1, 1, 1, 1, 1, 1, 1, 1, 1], [1, 1, 1, 1, 1, 1, 1, 1, 1], [1, 1, 1, 1, 1, 1, 1, 1, 1], [1, 1, 1, 1, 1, 1, 1, 1, 1], [1, 1, 1, 1, 1, 1, 1, 1, 1], [1, 1, 1, 1, 1, 1, 1, 1, 1], [1, 1, 2, 1, 1, 1, 1, 2, 1], [2, 2, 3, 2, 2, 2, 2, 3, 2], [2, 2, 3, 2, 2, 2, 2, 3, 2]],
   [[1, 2, 2, 1, 1, 1, 1, 1, 1], [1, 1, 1, 2, 1, 1, 1, 2, 1], [1, 1, 1, 1, 2, 1, 2, 1, 1], [1, 2, 1, 2, 1, 1, 1, 1, 1], [2, 1, 3, 1, 1, 1, 1, 3, 1], [1, 1, 1, 1, 1, 2, 1, 1, 2], [2, 1, 1, 1, 1, 2, 1, 1, 1], [1, 1, 3, 1, 1, 1, 2, 3, 1], [1, 1, 1, 1, 2, 1, 1, 1, 2]],
   [[1, 1, 1, 1, 1, 1, 1, 1, 1], [1, 1, 1, 1, 1, 1, 1, 1, 1], [1, 1, 1, 1, 1, 1, 1, 1, 1], [1, 1, 1, 1, 1, 1, 1, 1, 1], [1, 1, 1, 1, 1, 1, 1, 1, 1], [1, 1, 1, 1, 1, 1, 1, 1, 1], [1, 2, 2, 2, 2, 1, 2, 2, 1], [2, 2, 3, 2, 1, 2, 1, 3, 2], [2, 1, 3, 1, 2, 2, 2, 3, 2]]⟩

def fullS59 : Possibilities :=
  ⟨[⟨266368, 16797697, 20520⟩,
    ⟨8390912, 2416050212, 2308⟩,
    ⟨2129922, 2214625800, 33088⟩,
    ⟨4259844, 1074003986, 2565⟩,
    ⟨285229057, 34603264, 66690⟩,
    ⟨2181038600, 10485824, 24624⟩,
    ⟨1140851728, 134226944, 33858⟩,
    ⟨135397408, 537395328, 4617⟩,
    ⟨537403456, 4261888, 73872⟩], [],
   [[1, 1, 1, 1, 1, 1, 1, 1, 1], [1, 1, 1, 1, 1, 1, 1, 1, 1], [1, 1, 1, 1, 1, 1, 1, 1, 1], [1, 1, 1, 1, 1, 1, 1, 1, 1], [1, 1, 1, 1, 1, 1, 1, 1, 1], [1, 1, 1, 1, 1, 1, 1, 1, 1], [1, 1, 1, 1, 1, 1, 1, 1, 1], [2, 2, 2, 2, 2, 2, 2, 2, 2], [2, 2, 2, 2, 2, 2, 2, 2, 2]],
   [[1, 1, 1, 1, 1, 1, 1, 1, 1], [1, 1, 1, 1, 1, 1, 1, 1, 1], [1, 1, 1, 1, 1, 1, 1, 1, 1], [1, 1, 1, 1, 1, 1, 1, 1, 1], [1, 1, 1, 1, 1, 1, 1, 1, 1], [1, 1, 1, 1, 1, 1, 1, 1, 1], [1, 1, 1, 1, 1, 1, 1, 1, 1], [2, 2, 2, 2, 2, 2, 2, 2, 2], [2, 2, 2, 2, 2, 2, 2, 2, 2]],
   [[1, 2, 2, 1, 1, 1, 1, 1, 1], [1, 1, 1, 2, 1, 1, 1, 2, 1], [1, 1, 1, 1, 2, 1, 2, 1, 1], [1, 2, 1, 2, 1, 1, 1, 1, 1], [2, 1, 1, 1, 1, 1, 1, 2, 1], [1, 1, 1, 1, 1, 2, 1, 1, 2], [2, 1, 1, 1, 1, 2, 1, 1, 1], [1, 1, 2, 1, 1, 1, 2, 1, 1], [1, 1, 1, 1, 2, 1, 1, 1, 2]],
   [[1, 1, 1, 1, 1, 1, 1, 1, 1], [1, 1, 1, 1, 1, 1, 1, 1, 1], [1, 1, 1, 1, 1, 1, 1, 1, 1], [1, 1, 1, 1, 1, 1, 1, 1, 1], [1, 1, 1, 1, 1, 1, 1, 1, 1], [1, 1, 1, 1, 1, 1, 1, 1, 1], [1, 2, 2, 2, 2, 1, 2, 2, 1], [2, 2, 1, 2, 1, 2, 1, 2, 2], [2, 1, 2, 1, 2, 2, 2, 1, 2]]⟩

def fullS60 : Possibilities :=
  ⟨[⟨266368, 16797697, 20520⟩,
    ⟨8390912, 2416050212, 2308⟩,
    ⟨2129922, 2214625800, 33088⟩,
    ⟨4259844, 1074003986, 2565⟩,
    ⟨285229057, 34603264, 66690⟩,
    ⟨2181038600, 10485824, 24624⟩,
    ⟨1140851728, 134226944, 33858⟩,
    ⟨135397408, 537395328, 4617⟩,
    ⟨537403456, 4261888, 73872⟩], [],
   [[1, 1, 1, 1, 1, 1, 1, 1, 1], [1, 1, 1, 1, 1, 1, 1, 1, 1], [1, 1, 1, 1, 1, 1, 1, 1, 1], [1, 1, 1, 1, 1, 1, 1, 1, 1], [1, 1, 1, 1, 1, 1, 1, 1, 1], [1, 1, 1, 1, 1, 1, 1, 1, 1], [1, 1, 1, 1, 1, 1, 1, 1, 1], [2, 2, 2, 2, 2, 2, 2, 2, 2], [2, 2, 2, 2, 2, 2, 2, 2, 2]],
   [[1, 1, 1, 1, 1, 1, 1, 1, 1], [1, 1, 1, 1, 1, 1, 1, 1, 1], [1, 1, 1, 1, 1, 1, 1, 1, 1], [1, 1, 1, 1, 1, 1, 1, 1, 1], [1, 1, 1, 1, 1, 1, 1, 1, 1], [1, 1, 1, 1, 1, 1, 1, 1, 1], [1, 1, 1, 1, 1, 1, 1, 1, 1], [2, 2, 2, 2, 2, 2, 2, 2, 2], [2, 2, 2, 2, 2, 2, 2, 2, 2]],
   [[1, 2, 2, 1, 1, 1, 1, 1, 1], [1, 1, 1, 2, 1, 1, 1, 2, 1], [1, 1, 1, 1, 2, 1, 2, 1, 1], [1, 2, 1, 2, 1, 1, 1, 1, 1], [2, 1, 1, 1, 1, 1, 1, 2, 1], [1, 1, 1, 1, 1, 2, 1, 1, 2], [2, 1, 1, 1, 1, 2, 1, 1, 1], [1, 1, 2, 1, 1, 1, 2, 1, 1], [1, 1, 1, 1, 2, 1, 1, 1, 2]],
   [[1, 1, 1, 1, 1, 1, 1, 1, 1], [1, 1, 1, 1, 1, 1, 1, 1, 1], [1, 1, 1, 1, 1, 1, 1, 1, 1], [1, 1, 1, 1, 1, 1, 1, 1, 1], [1, 1, 1, 1, 1, 1, 1, 1, 1], [1, 1, 1, 1, 1, 1, 1, 1, 1], [1, 2, 2, 2, 2, 1, 2, 2, 1], [2, 2, 1, 2, 1, 2, 1, 2, 2], [2, 1, 2, 1, 2, 2, 2, 1, 2]]⟩

def fullS61 : Possibilities :=
  ⟨[⟨266368, 16797697, 20520⟩,
    ⟨8390912, 2416050212, 2308⟩,
    ⟨2129922, 2214625800, 33088⟩,
    ⟨4259844, 1074003986, 2565⟩,
    ⟨285229057, 34603264, 66690⟩,
    ⟨2181038600, 10485824, 24624⟩,
    ⟨1140851728, 134226944, 33858⟩,
    ⟨135397408, 537395328, 4617⟩,
    ⟨537403456, 4261888, 73872⟩], [],
   [[1, 1, 1, 1, 1, 1, 1, 1, 1], [1, 1, 1, 1, 1, 1, 1, 1, 1], [1, 1, 1, 1, 1, 1, 1, 1, 1], [1, 1, 1, 1, 1, 1, 1, 1, 1], [1, 1, 1, 1, 1, 1, 1, 1, 1], [1, 1, 1, 1, 1, 1, 1, 1, 1], [1, 1, 1, 1, 1, 1, 1, 1, 1], [2, 2, 2, 2, 2, 2, 2, 2, 2], [2, 2, 2, 2, 2, 2, 2, 2, 2]],
   [[1, 1, 1, 1, 1, 1, 1, 1, 1], [1, 1, 1, 1, 1, 1, 1, 1, 1], [1, 1, 1, 1, 1, 1, 1, 1, 1], [1, 1, 1, 1, 1, 1, 1, 1, 1], [1, 1, 1, 1, 1, 1, 1, 1, 1], [1, 1, 1, 1, 1, 1, 1, 1, 1], [1, 1, 1, 1, 1, 1, 1, 1, 1], [2, 2, 2, 2, 2, 2, 2, 2, 2], [2, 2, 2, 2, 2, 2, 2, 2, 2]],
   [[1, 2, 2, 1, 1, 1, 1, 1, 1], [1, 1, 1, 2, 1, 1, 1, 2, 1], [1, 1, 1, 1, 2, 1, 2, 1, 1], [1, 2, 1, 2, 1, 1, 1, 1, 1], [2, 1, 1, 1, 1, 1, 1, 2, 1], [1, 1, 1, 1, 1, 2, 1, 1, 2], [2, 1, 1, 1, 1, 2, 1, 1, 1], [1, 1, 2, 1, 1, 1, 2, 1, 1], [1, 1, 1, 1, 2, 1, 1, 1, 2]],
   [[1, 1, 1, 1, 1, 1, 1, 1, 1], [1, 1, 1, 1, 1, 1, 1, 1, 1], [1, 1, 1, 1, 1, 1, 1, 1, 1], [1, 1, 1, 1, 1, 1, 1, 1, 1], [1, 1, 1, 1, 1, 1, 1, 1, 1], [1, 1, 1, 1, 1, 1, 1, 1, 1], [1, 2, 2, 2, 2, 1, 2, 2, 1], [2, 2, 1, 2, 1, 2, 1, 2, 2], [2, 1, 2, 1, 2, 2, 2, 1, 2]]⟩

def fullS62 : Possibilities :=
  ⟨[⟨266368, 16797697, 20520⟩,
    ⟨8390912, 2416050212, 2308⟩,
    ⟨2129922, 2214625800, 33088⟩,
    ⟨4259844, 1074003986, 2565⟩,
    ⟨285229057, 34603264, 66690⟩,
    ⟨2181038600, 10485824, 24624⟩,
    ⟨1140851728, 134226944, 33858⟩,
    ⟨135397408, 537395328, 4617⟩,
    ⟨537403456, 4261888, 73872⟩], [],
   [[1, 1, 1, 1, 1, 1, 1, 1, 1], [1, 1, 1, 1, 1, 1, 1, 1, 1], [1, 1, 1, 1, 1, 1, 1, 1, 1], [1, 1, 1, 1, 1, 1, 1, 1, 1], [1, 1, 1, 1, 1, 1, 1, 1, 1], [1, 1, 1, 1, 1, 1, 1, 1, 1], [1, 1, 1, 1, 1, 1, 1, 1, 1], [2, 2, 2, 2, 2, 2, 2, 2, 2], [2, 2, 2, 2, 2, 2, 2, 2, 2]],
   [[1, 1, 1, 1, 1, 1, 1, 1, 1], [1, 1, 1, 1, 1, 1, 1, 1, 1], [1, 1, 1, 1, 1, 1, 1, 1, 1], [1, 1, 1, 1, 1, 1, 1, 1, 1], [1, 1, 1, 1, 1, 1, 1, 1, 1], [1, 1, 1, 1, 1, 1, 1, 1, 1], [1, 1, 1, 1, 1, 1, 1, 1, 1], [2, 2, 2, 2, 2, 2, 2, 2, 2], [2, 2, 2, 2, 2, 2, 2, 2, 2]],
   [[1, 2, 2, 1, 1, 1, 1, 1, 1], [1, 1, 1, 2, 1, 1, 1, 2, 1], [1, 1, 1, 1, 2, 1, 2, 1, 1], [1, 2, 1, 2, 1, 1, 1, 1, 1], [2, 1, 1, 1, 1, 1, 1, 2, 1], [1, 1, 1, 1, 1, 2, 1, 1, 2], [2, 1, 1, 1, 1, 2, 1, 1, 1], [1, 1, 2, 1, 1, 1, 2, 1, 1], [1, 1, 1, 1, 2, 1, 1, 1, 2]],
   [[1, 1, 1, 1, 1, 1, 1, 1, 1], [1, 1, 1, 1, 1, 1, 1, 1, 1], [1, 1, 1, 1, 1, 1, 1, 1, 1], [1, 1, 1, 1, 1, 1, 1, 1, 1], [1, 1, 1, 1, 1, 1, 1, 1, 1], [1, 1, 1, 1, 1, 1, 1, 1, 1], [1, 2, 2, 2, 2, 1, 2, 2, 1], [2, 2, 1, 2, 1, 2, 1, 2, 2], [2, 1, 2, 1, 2, 2, 2, 1, 2]]⟩

def fullS63 : Possibilities :=
  ⟨[⟨266368, 16797697, 20520⟩,
    ⟨8390912, 2416050212, 2308⟩,
    ⟨2129922, 2214625800, 33088⟩,
    ⟨4259844, 1074003986, 2565⟩,
    ⟨285229057, 34603264, 66690⟩,
    ⟨2181038600, 10485824, 24624⟩,
    ⟨1140851728, 134226944, 33858⟩,
    ⟨135397408, 537395328, 4617⟩,
    ⟨537403456, 4261888, 73872⟩], [],
   [[1, 1, 1, 1, 1, 1, 1, 1, 1], [1, 1, 1, 1, 1, 1, 1, 1, 1], [1, 1, 1, 1, 1, 1, 1, 1, 1], [1, 1, 1, 1, 1, 1, 1, 1, 1], [1, 1, 1, 1, 1, 1, 1, 1, 1], [1, 1, 1, 1, 1, 1, 1, 1, 1], [1, 1, 1, 1, 1, 1, 1, 1, 1], [2, 2, 2, 2, 2, 2, 2, 2, 2], [2, 2, 2, 2, 2, 2, 2, 2, 2]],
   [[1, 1, 1, 1, 1, 1, 1, 1, 1], [1, 1, 1, 1, 1, 1, 1, 1, 1], [1, 1, 1, 1, 1, 1, 1, 1, 1], [1, 1, 1, 1, 1, 1, 1, 1, 1], [1, 1, 1, 1, 1, 1, 1, 1, 1], [1, 1, 1, 1, 1, 1, 1, 1, 1], [1, 1, 1, 1, 1, 1, 1, 1, 1], [2, 2, 2, 2, 2, 2, 2, 2, 2], [2, 2, 2, 2, 2, 2, 2, 2, 2]],
   [[1, 2, 2, 1, 1, 1, 1, 1, 1], [1, 1, 1, 2, 1, 1, 1, 2, 1], [1, 1, 1, 1, 2, 1, 2, 1, 1], [1, 2, 1, 2, 1, 1, 1, 1, 1], [2, 1, 1, 1, 1, 1, 1, 2, 1], [1, 1, 1, 1, 1, 2, 1, 1, 2], [2, 1, 1, 1, 1, 2, 1, 1, 1], [1, 1, 2, 1, 1, 1, 2, 1, 1], [1, 1, 1, 1, 2, 1, 1, 1, 2]],
   [[1, 1, 1, 1, 1, 1, 1, 1, 1], [1, 1, 1, 1, 1, 1, 1, 1, 1], [1, 1, 1, 1, 1, 1, 1, 1, 1], [1, 1, 1, 1, 1, 1, 1, 1, 1], [1, 1, 1, 1, 1, 1, 1, 1, 1], [1, 1, 1, 1, 1, 1, 1, 1, 1], [1, 2, 2, 2, 2, 1, 2, 2, 1], [2, 2, 1, 2, 1, 2, 1, 2, 2], [2, 1, 2, 1, 2, 2, 2, 1, 2]]⟩

def fullS64 : Possibilities :=
  ⟨[⟨266368, 16797697, 16392⟩,
    ⟨8390912, 2416050212, 2048⟩,
    ⟨2129922, 67142152, 320⟩,
    ⟨4259844, 1074003986, 516⟩,
    ⟨285229057, 34603264, 1152⟩,
    ⟨2181038600, 10485824, 8224⟩,
    ⟨1140851728, 134226944, 32770⟩,
    ⟨135397408, 537395328, 4097⟩,
    ⟨537403456, 4261888, 65552⟩], [],
   [[1, 1, 1, 1, 1, 1, 1, 1, 1], [1, 1, 1, 1, 1, 1, 1, 1, 1], [1, 1, 1, 1, 1, 1, 1, 1, 1], [1, 1, 1, 1, 1, 1, 1, 1, 1], [1, 1, 1, 1, 1, 1, 1, 1, 1], [1, 1, 1, 1, 1, 1, 1, 1, 1], [1, 1, 1, 1, 1, 1, 1, 1, 1], [1, 1, 1, 1, 1, 1, 1, 1, 1], [1, 1, 1, 1, 1, 1, 1, 1, 1]],
   [[1, 1, 1, 1, 1, 1, 1, 1, 1], [1, 1, 1, 1, 1, 1, 1, 1, 1], [1, 1, 1, 1, 1, 1, 1, 1, 1], [1, 1, 1, 1, 1, 1, 1, 1, 1], [1, 1, 1, 1, 1, 1, 1, 1, 1], [1, 1, 1, 1, 1, 1, 1, 1, 1], [1, 1, 1, 1, 1, 1, 1, 1, 1], [1, 1, 1, 1, 1, 1, 1, 1, 1], [1, 1, 1, 1, 1, 1, 1, 1, 1]],
   [[1, 1, 1, 1, 1, 1, 1, 1, 1], [1, 1, 1, 1, 1, 1, 1, 1, 1], [1, 1, 1, 1, 1, 1, 1, 1, 1], [1, 1, 1, 1, 1, 1, 1, 1, 1], [1, 1, 1, 1, 1, 1, 1, 1, 1], [1, 1, 1, 1, 1, 1, 1, 1, 1], [1, 1, 1, 1, 1, 1, 1, 1, 1], [1, 1, 1, 1, 1, 1, 1, 1, 1], [1, 1, 1, 1, 1, 1, 1, 1, 1]],
   [[1, 1, 1, 1, 1, 1, 1, 1, 1], [1, 1, 1, 1, 1, 1, 1, 1, 1], [1, 1, 1, 1, 1, 1, 1, 1, 1], [1, 1, 1, 1, 1, 1, 1, 1, 1], [1, 1, 1, 1, 1, 1, 1, 1, 1], [1, 1, 1, 1, 1, 1, 1, 1, 1], [1, 1, 1, 1, 1, 1, 1, 1, 1], [1, 1, 1, 1, 1, 1, 1, 1, 1], [1, 1, 1, 1, 1, 1, 1, 1, 1]]⟩

def fullS65 : Possibilities :=
  ⟨[⟨266368, 16797697, 16392⟩,
    ⟨8390912, 2416050212, 2048⟩,
    ⟨2129922, 67142152, 320⟩,
    ⟨4259844, 1074003986, 516⟩,
    ⟨285229057, 34603264, 1152⟩,
    ⟨2181038600, 10485824, 8224⟩,
    ⟨1140851728, 134226944, 32770⟩,
    ⟨135397408, 537395328, 4097⟩,
    ⟨537403456, 4261888, 65552⟩], [],
   [[1, 1, 1, 1, 1, 1, 1, 1, 1], [1, 1, 1, 1, 1, 1, 1, 1, 1], [1, 1, 1, 1, 1, 1, 1, 1, 1], [1, 1, 1, 1, 1, 1, 1, 1, 1], [1, 1, 1, 1, 1, 1, 1, 1, 1], [1, 1, 1, 1, 1, 1, 1, 1, 1], [1, 1, 1, 1, 1, 1, 1, 1, 1], [1, 1, 1, 1, 1, 1, 1, 1, 1], [1, 1, 1, 1, 1, 1, 1, 1, 1]],
   [[1, 1, 1, 1, 1, 1, 1, 1, 1], [1, 1, 1, 1, 1, 1, 1, 1, 1], [1, 1, 1, 1, 1, 1, 1, 1, 1], [1, 1, 1, 1, 1, 1, 1, 1, 1], [1, 1, 1, 1, 1, 1, 1, 1, 1], [1, 1, 1, 1, 1, 1, 1, 1, 1], [1, 1, 1, 1, 1, 1, 1, 1, 1], [1, 1, 1, 1, 1, 1, 1, 1, 1], [1, 1, 1, 1, 1, 1, 1, 1, 1]],
   [[1, 1, 1, 1, 1, 1, 1, 1, 1], [1, 1, 1, 1, 1, 1, 1, 1, 1], [1, 1, 1, 1, 1, 1, 1, 1, 1], [1, 1, 1, 1, 1, 1, 1, 1, 1], [1, 1, 1, 1, 1, 1, 1, 1, 1], [1, 1, 1, 1, 1, 1, 1, 1, 1], [1, 1, 1, 1, 1, 1, 1, 1, 1], [1, 1, 1, 1, 1, 1, 1, 1, 1], [1, 1, 1, 1, 1, 1, 1, 1, 1]],
   [[1, 1, 1, 1, 1, 1, 1, 1, 1], [1, 1, 1, 1, 1, 1, 1, 1, 1], [1, 1, 1, 1, 1, 1, 1, 1, 1], [1, 1, 1, 1, 1, 1, 1, 1, 1], [1, 1, 1, 1, 1, 1, 1, 1, 1], [1, 1, 1, 1, 1, 1, 1, 1, 1], [1, 1, 1, 1, 1, 1, 1, 1, 1], [1, 1, 1, 1, 1, 1, 1, 1, 1], [1, 1, 1, 1, 1, 1, 1, 1, 1]]⟩

def fullS66 : Possibilities :=
  ⟨[⟨266368, 16797697, 16392⟩,
    ⟨8390912, 2416050212, 2048⟩,
    ⟨2129922, 67142152, 320⟩,
    ⟨4259844, 1074003986, 516⟩,
    ⟨285229057, 34603264, 1152⟩,
    ⟨2181038600, 10485824, 8224⟩,
    ⟨1140851728, 134226944, 32770⟩,
    ⟨135397408, 537395328, 4097⟩,
    ⟨537403456, 4261888, 65552⟩], [],
   [[1, 1, 1, 1, 1, 1, 1, 1, 1], [1, 1, 1, 1, 1, 1, 1, 1, 1], [1, 1, 1, 1, 1, 1, 1, 1, 1], [1, 1, 1, 1, 1, 1, 1, 1, 1], [1, 1, 1, 1, 1, 1, 1, 1, 1], [1, 1, 1, 1, 1, 1, 1, 1, 1], [1, 1, 1, 1, 1, 1, 1, 1, 1], [1, 1, 1, 1, 1, 1, 1, 1, 1], [1, 1, 1, 1, 1, 1, 1, 1, 1]],
   [[1, 1, 1, 1, 1, 1, 1, 1, 1], [1, 1, 1, 1, 1, 1, 1, 1, 1], [1, 1, 1, 1, 1, 1, 1, 1, 1], [1, 1, 1, 1, 1, 1, 1, 1, 1], [1, 1, 1, 1, 1, 1, 1, 1, 1], [1, 1, 1, 1, 1, 1, 1, 1, 1], [1, 1, 1, 1, 1, 1, 1, 1, 1], [1, 1, 1, 1, 1, 1, 1, 1, 1], [1, 1, 1, 1, 1, 1, 1, 1, 1]],
   [[1, 1, 1, 1, 1, 1, 1, 1, 1], [1, 1, 1, 1, 1, 1, 1, 1, 1], [1, 1, 1, 1, 1, 1, 1, 1, 1], [1, 1, 1, 1, 1, 1, 1, 1, 1], [1, 1, 1, 1, 1, 1, 1, 1, 1], [1, 1, 1, 1, 1, 1, 1, 1, 1], [1, 1, 1, 1, 1, 1, 1, 1, 1], [1, 1, 1, 1, 1, 1, 1, 1, 1], [1, 1, 1, 1, 1, 1, 1, 1, 1]],
   [[1, 1, 1, 1, 1, 1, 1, 1, 1], [1, 1, 1, 1, 1, 1, 1, 1, 1], [1, 1, 1, 1, 1, 1, 1, 1, 1], [1, 1, 1, 1, 1, 1, 1, 1, 1], [1, 1, 1, 1, 1, 1, 1, 1, 1], [1, 1, 1, 1, 1, 1, 1, 1, 1], [1, 1, 1, 1, 1, 1, 1, 1, 1], [1, 1, 1, 1, 1, 1, 1, 1, 1], [1, 1, 1, 1, 1, 1, 1, 1, 1]]⟩

def fullS67 : Possibilities :=
  ⟨[⟨266368, 16797697, 16392⟩,
    ⟨8390912, 2416050212, 2048⟩,
    ⟨2129922, 67142152, 320⟩,
    ⟨4259844, 1074003986, 516⟩,
    ⟨285229057, 34603264, 1152⟩,
    ⟨2181038600, 10485824, 8224⟩,
    ⟨1140851728, 134226944, 32770⟩,
    ⟨135397408, 537395328, 4097⟩,
    ⟨537403456, 4261888, 65552⟩], [],
   [[1, 1, 1, 1, 1, 1, 1, 1, 1], [1, 1, 1, 1, 1, 1, 1, 1, 1], [1, 1, 1, 1, 1, 1, 1, 1, 1], [1, 1, 1, 1, 1, 1, 1, 1, 1], [1, 1, 1, 1, 1, 1, 1, 1, 1], [1, 1, 1, 1, 1, 1, 1, 1, 1], [1, 1, 1, 1, 1, 1, 1, 1, 1], [1, 1, 1, 1, 1, 1, 1, 1, 1], [1, 1, 1, 1, 1, 1, 1, 1, 1]],
   [[1, 1, 1, 1, 1, 1, 1, 1, 1], [1, 1, 1, 1, 1, 1, 1, 1, 1], [1, 1, 1, 1, 1, 1, 1, 1, 1], [1, 1, 1, 1, 1, 1, 1, 1, 1], [1, 1, 1, 1, 1, 1, 1, 1, 1], [1, 1, 1, 1, 1, 1, 1, 1, 1], [1, 1, 1, 1, 1, 1, 1, 1, 1], [1, 1, 1, 1, 1, 1, 1, 1, 1], [1, 1, 1, 1, 1, 1, 1, 1, 1]],
   [[1, 1, 1, 1, 1, 1, 1, 1, 1], [1, 1, 1, 1, 1, 1, 1, 1, 1], [1, 1, 1, 1, 1, 1, 1, 1, 1], [1, 1, 1, 1, 1, 1, 1, 1, 1], [1, 1, 1, 1, 1, 1, 1, 1, 1], [1, 1, 1, 1, 1, 1, 1, 1, 1], [1, 1, 1, 1, 1, 1, 1, 1, 1], [1, 1, 1, 1, 1, 1, 1, 1, 1], [1, 1, 1, 1, 1, 1, 1, 1, 1]],
   [[1, 1, 1, 1, 1, 1, 1, 1, 1], [1, 1, 1, 1, 1, 1, 1, 1, 1], [1, 1, 1, 1, 1, 1, 1, 1, 1], [1, 1, 1, 1, 1, 1, 1, 1, 1], [1, 1, 1, 1, 1, 1, 1, 1, 1], [1, 1, 1, 1, 1, 1, 1, 1, 1], [1, 1, 1, 1, 1, 1, 1, 1, 1], [1, 1, 1, 1, 1, 1, 1, 1, 1], [1, 1, 1, 1, 1, 1, 1, 1, 1]]⟩

def fullS68 : Possibilities :=
  ⟨[⟨266368, 16797697, 16392⟩,
    ⟨8390912, 2416050212, 2048⟩,
    ⟨2129922, 67142152, 320⟩,
    ⟨4259844, 1074003986, 516⟩,
    ⟨285229057, 34603264, 1152⟩,
    ⟨2181038600, 10485824, 8224⟩,
    ⟨1140851728, 134226944, 32770⟩,
    ⟨135397408, 537395328, 4097⟩,
    ⟨537403456, 4261888, 65552⟩], [],
   [[1, 1, 1, 1, 1, 1, 1, 1, 1], [1, 1, 1, 1, 1, 1, 1, 1, 1], [1, 1, 1, 1, 1, 1, 1, 1, 1], [1, 1, 1, 1, 1, 1, 1, 1, 1], [1, 1, 1, 1, 1, 1, 1, 1, 1], [1, 1, 1, 1, 1, 1, 1, 1, 1], [1, 1, 1, 1, 1, 1, 1, 1, 1], [1, 1, 1, 1, 1, 1, 1, 1, 1], [1, 1, 1, 1, 1, 1, 1, 1, 1]],
   [[1, 1, 1, 1, 1, 1, 1, 1, 1], [1, 1, 1, 1, 1, 1, 1, 1, 1], [1, 1, 1, 1, 1, 1, 1, 1, 1], [1, 1, 1, 1, 1, 1, 1, 1, 1], [1, 1, 1, 1, 1, 1, 1, 1, 1], [1, 1, 1, 1, 1, 1, 1, 1, 1], [1, 1, 1, 1, 1, 1, 1, 1, 1], [1, 1, 1, 1, 1, 1, 1, 1, 1], [1, 1, 1, 1, 1, 1, 1, 1, 1]],
   [[1, 1, 1, 1, 1, 1, 1, 1, 1], [1, 1, 1, 1, 1, 1, 1, 1, 1], [1, 1, 1, 1, 1, 1, 1, 1, 1], [1, 1, 1, 1, 1, 1, 1, 1, 1], [1, 1, 1, 1, 1, 1, 1, 1, 1], [1, 1, 1, 1, 1, 1, 1, 1, 1], [1, 1, 1, 1, 1, 1, 1, 1, 1], [1, 1, 1, 1, 1, 1, 1, 1, 1], [1, 1, 1, 1, 1, 1, 1, 1, 1]],
   [[1, 1, 1, 1, 1, 1, 1, 1, 1], [1, 1, 1, 1, 1, 1, 1, 1, 1], [1, 1, 1, 1, 1, 1, 1, 1, 1], [1, 1, 1, 1, 1, 1, 1, 1, 1], [1, 1, 1, 1, 1, 1, 1, 1, 1], [1, 1, 1, 1, 1, 1, 1, 1, 1], [1, 1, 1, 1, 1, 1, 1, 1, 1], [1, 1, 1, 1, 1, 1, 1, 1, 1], [1, 1, 1, 1, 1, 1, 1, 1, 1]]⟩

def fullS69 : Possibilities :=
  ⟨[⟨266368, 16797697, 16392⟩,
    ⟨8390912, 2416050212, 2048⟩,
    ⟨2129922, 67142152, 320⟩,
    ⟨4259844, 1074003986, 516⟩,
    ⟨285229057, 34603264, 1152⟩,
    ⟨2181038600, 10485824, 8224⟩,
    ⟨1140851728, 134226944, 32770⟩,
    ⟨135397408, 537395328, 4097⟩,
    ⟨537403456, 4261888, 65552⟩], [],
   [[1, 1, 1, 1, 1, 1, 1, 1, 1], [1, 1, 1, 1, 1, 1, 1, 1, 1], [1, 1, 1, 1, 1, 1, 1, 1, 1], [1, 1, 1, 1, 1, 1, 1, 1, 1], [1, 1, 1, 1, 1, 1, 1, 1, 1], [1, 1, 1, 1, 1, 1, 1, 1, 1], [1, 1, 1, 1, 1, 1, 1, 1, 1], [1, 1, 1, 1, 1, 1, 1, 1, 1], [1, 1, 1, 1, 1, 1, 1, 1, 1]],
   [[1, 1, 1, 1, 1, 1, 1, 1, 1], [1, 1, 1, 1, 1, 1, 1, 1, 1], [1, 1, 1, 1, 1, 1, 1, 1, 1], [1, 1, 1, 1, 1, 1, 1, 1, 1], [1, 1, 1, 1, 1, 1, 1, 1, 1], [1, 1, 1, 1, 1, 1, 1, 1, 1], [1, 1, 1, 1, 1, 1, 1, 1, 1], [1, 1, 1, 1, 1, 1, 1, 1, 1], [1, 1, 1, 1, 1, 1, 1, 1, 1]],
   [[1, 1, 1, 1, 1, 1, 1, 1, 1], [1, 1, 1, 1, 1, 1, 1, 1, 1], [1, 1, 1, 1, 1, 1, 1, 1, 1], [1, 1, 1, 1, 1, 1, 1, 1, 1], [1, 1, 1, 1, 1, 1, 1, 1, 1], [1, 1, 1, 1, 1, 1, 1, 1, 1], [1, 1, 1, 1, 1, 1, 1, 1, 1], [1, 1, 1, 1, 1, 1, 1, 1, 1], [1, 1, 1, 1, 1, 1, 1, 1, 1]],
   [[1, 1, 1, 1, 1, 1, 1, 1, 1], [1, 1, 1, 1, 1, 1, 1, 1, 1], [1, 1, 1, 1, 1, 1, 1, 1, 1], [1, 1, 1, 1, 1, 1, 1, 1, 1], [1, 1, 1, 1, 1, 1, 1, 1, 1], [1, 1, 1, 1, 1, 1, 1, 1, 1], [1, 1, 1, 1, 1, 1, 1, 1, 1], [1, 1, 1, 1, 1, 1, 1, 1, 1], [1, 1, 1, 1, 1, 1, 1, 1, 1]]⟩

def fullS70 : Possibilities :=
  ⟨[⟨266368, 16797697, 16392⟩,
    ⟨8390912, 2416050212, 2048⟩,
    ⟨2129922, 67142152, 320⟩,
    ⟨4259844, 1074003986, 516⟩,
    ⟨285229057, 34603264, 1152⟩,
    ⟨2181038600, 10485824, 8224⟩,
    ⟨1140851728, 134226944, 32770⟩,
    ⟨135397408, 537395328, 4097⟩,
    ⟨537403456, 4261888, 65552⟩], [],
   [[1, 1, 1, 1, 1, 1, 1, 1, 1], [1, 1, 1, 1, 1, 1, 1, 1, 1], [1, 1, 1, 1, 1, 1, 1, 1, 1], [1, 1, 1, 1, 1, 1, 1, 1, 1], [1, 1, 1, 1, 1, 1, 1, 1, 1], [1, 1, 1, 1, 1, 1, 1, 1, 1], [1, 1, 1, 1, 1, 1, 1, 1, 1], [1, 1, 1, 1, 1, 1, 1, 1, 1], [1, 1, 1, 1, 1, 1, 1, 1, 1]],
   [[1, 1, 1, 1, 1, 1, 1, 1, 1], [1, 1, 1, 1, 1, 1, 1, 1, 1], [1, 1, 1, 1, 1, 1, 1, 1, 1], [1, 1, 1, 1, 1, 1, 1, 1, 1], [1, 1, 1, 1, 1, 1, 1, 1, 1], [1, 1, 1, 1, 1, 1, 1, 1, 1], [1, 1, 1, 1, 1, 1, 1, 1, 1], [1, 1, 1, 1, 1, 1, 1, 1, 1], [1, 1, 1, 1, 1, 1, 1, 1, 1]],
   [[1, 1, 1, 1, 1, 1, 1, 1, 1], [1, 1, 1, 1, 1, 1, 1, 1, 1], [1, 1, 1, 1, 1, 1, 1, 1, 1], [1, 1, 1, 1, 1, 1, 1, 1, 1], [1, 1, 1, 1, 1, 1, 1, 1, 1], [1, 1, 1, 1, 1, 1, 1, 1, 1], [1, 1, 1, 1, 1, 1, 1, 1, 1], [1, 1, 1, 1, 1, 1, 1, 1, 1], [1, 1, 1, 1, 1, 1, 1, 1, 1]],
   [[1, 1, 1, 1, 1, 1, 1, 1, 1], [1, 1, 1, 1, 1, 1, 1, 1, 1], [1, 1, 1, 1, 1, 1, 1, 1, 1], [1, 1, 1, 1, 1, 1, 1, 1, 1], [1, 1, 1, 1, 1, 1, 1, 1, 1], [1, 1, 1, 1, 1, 1, 1, 1, 1], [1, 1, 1, 1, 1, 1, 1, 1, 1], [1, 1, 1, 1, 1, 1, 1, 1, 1], [1, 1, 1, 1, 1, 1, 1, 1, 1]]⟩

def fullS71 : Possibilities :=
  ⟨[⟨266368, 16797697, 16392⟩,
    ⟨8390912, 2416050212, 2048⟩,
    ⟨2129922, 67142152, 320⟩,
    ⟨4259844, 1074003986, 516⟩,
    ⟨285229057, 34603264, 1152⟩,
    ⟨2181038600, 10485824, 8224⟩,
    ⟨1140851728, 134226944, 32770⟩,
    ⟨135397408, 537395328, 4097⟩,
    ⟨537403456, 4261888, 65552⟩], [],
   [[1, 1, 1, 1, 1, 1, 1, 1, 1], [1, 1, 1, 1, 1, 1, 1, 1, 1], [1, 1, 1, 1, 1, 1, 1, 1, 1], [1, 1, 1, 1, 1, 1, 1, 1, 1], [1, 1, 1, 1, 1, 1, 1, 1, 1], [1, 1, 1, 1, 1, 1, 1, 1, 1], [1, 1, 1, 1, 1, 1, 1, 1, 1], [1, 1, 1, 1, 1, 1, 1, 1, 1], [1, 1, 1, 1, 1, 1, 1, 1, 1]],
   [[1, 1, 1, 1, 1, 1, 1, 1, 1], [1, 1, 1, 1, 1, 1, 1, 1, 1], [1, 1, 1, 1, 1, 1, 1, 1, 1], [1, 1, 1, 1, 1, 1, 1, 1, 1], [1, 1, 1, 1, 1, 1, 1, 1, 1], [1, 1, 1, 1, 1, 1, 1, 1, 1], [1, 1, 1, 1, 1, 1, 1, 1, 1], [1, 1, 1, 1, 1, 1, 1, 1, 1], [1, 1, 1, 1, 1, 1, 1, 1, 1]],
   [[1, 1, 1, 1, 1, 1, 1, 1, 1], [1, 1, 1, 1, 1, 1, 1, 1, 1], [1, 1, 1, 1, 1, 1, 1, 1, 1], [1, 1, 1, 1, 1, 1, 1, 1, 1], [1, 1, 1, 1, 1, 1, 1, 1, 1], [1, 1, 1, 1, 1, 1, 1, 1, 1], [1, 1, 1, 1, 1, 1, 1, 1, 1], [1, 1, 1, 1, 1, 1, 1, 1, 1], [1, 1, 1, 1, 1, 1, 1, 1, 1]],
   [[1, 1, 1, 1, 1, 1, 1, 1, 1], [1, 1, 1, 1, 1, 1, 1, 1, 1], [1, 1, 1, 1, 1, 1, 1, 1, 1], [1, 1, 1, 1, 1, 1, 1, 1, 1], [1, 1, 1, 1, 1, 1, 1, 1, 1], [1, 1, 1, 1, 1, 1, 1, 1, 1], [1, 1, 1, 1, 1, 1, 1, 1, 1], [1, 1, 1, 1, 1, 1, 1, 1, 1], [1, 1, 1, 1, 1, 1, 1, 1, 1]]⟩

def fullS72 : Possibilities :=
  ⟨[⟨266368, 16797697, 16392⟩,
    ⟨8390912, 2416050212, 2048⟩,
    ⟨2129922, 67142152, 320⟩,
    ⟨4259844, 1074003986, 516⟩,
    ⟨285229057, 34603264, 1152⟩,
    ⟨2181038600, 10485824, 8224⟩,
    ⟨1140851728, 134226944, 32770⟩,
    ⟨135397408, 537395328, 4097⟩,
    ⟨537403456, 4261888, 65552⟩], [],
   [[1, 1, 1, 1, 1, 1, 1, 1, 1], [1, 1, 1, 1, 1, 1, 1, 1, 1], [1, 1, 1, 1, 1, 1, 1, 1, 1], [1, 1, 1, 1, 1, 1, 1, 1, 1], [1, 1, 1, 1, 1, 1, 1, 1, 1], [1, 1, 1, 1, 1, 1, 1, 1, 1], [1, 1, 1, 1, 1, 1, 1, 1, 1], [1, 1, 1, 1, 1, 1, 1, 1, 1], [1, 1, 1, 1, 1, 1, 1, 1, 1]],
   [[1, 1, 1, 1, 1, 1, 1, 1, 1], [1, 1, 1, 1, 1, 1, 1, 1, 1], [1, 1, 1, 1, 1, 1, 1, 1, 1], [1, 1, 1, 1, 1, 1, 1, 1, 1], [1, 1, 1, 1, 1, 1, 1, 1, 1], [1, 1, 1, 1, 1, 1, 1, 1, 1], [1, 1, 1, 1, 1, 1, 1, 1, 1], [1, 1, 1, 1, 1, 1, 1, 1, 1], [1, 1, 1, 1, 1, 1, 1, 1, 1]],
   [[1, 1, 1, 1, 1, 1, 1, 1, 1], [1, 1, 1, 1, 1, 1, 1, 1, 1], [1, 1, 1, 1, 1, 1, 1, 1, 1], [1, 1, 1, 1, 1, 1, 1, 1, 1], [1, 1, 1, 1, 1, 1, 1, 1, 1], [1, 1, 1, 1, 1, 1, 1, 1, 1], [1, 1, 1, 1, 1, 1, 1, 1, 1], [1, 1, 1, 1, 1, 1, 1, 1, 1], [1, 1, 1, 1, 1, 1, 1, 1, 1]],
   [[1, 1, 1, 1, 1, 1, 1, 1, 1], [1, 1, 1, 1, 1, 1, 1, 1, 1], [1, 1, 1, 1, 1, 1, 1, 1, 1], [1, 1, 1, 1, 1, 1, 1, 1, 1], [1, 1, 1, 1, 1, 1, 1, 1, 1], [1, 1, 1, 1, 1, 1, 1, 1, 1], [1, 1, 1, 1, 1, 1, 1, 1, 1], [1, 1, 1, 1, 1, 1, 1, 1, 1], [1, 1, 1, 1, 1, 1, 1, 1, 1]]⟩

def fullS73 : Possibilities :=
  ⟨[⟨266368, 16797697, 16392⟩,
    ⟨8390912, 2416050212, 2048⟩,
    ⟨2129922, 67142152, 320⟩,
    ⟨4259844, 1074003986, 516⟩,
    ⟨285229057, 34603264, 1152⟩,
    ⟨2181038600, 10485824, 8224⟩,
    ⟨1140851728, 134226944, 32770⟩,
    ⟨135397408, 537395328, 4097⟩,
    ⟨537403456, 4261888, 65552⟩], [],
   [[1, 1, 1, 1, 1, 1, 1, 1, 1], [1, 1, 1, 1, 1, 1, 1, 1, 1], [1, 1, 1, 1, 1, 1, 1, 1, 1], [1, 1, 1, 1, 1, 1, 1, 1, 1], [1, 1, 1, 1, 1, 1, 1, 1, 1], [1, 1, 1, 1, 1, 1, 1, 1, 1], [1, 1, 1, 1, 1, 1, 1, 1, 1], [1, 1, 1, 1, 1, 1, 1, 1, 1], [1, 1, 1, 1, 1, 1, 1, 1, 1]],
   [[1, 1, 1, 1, 1, 1, 1, 1, 1], [1, 1, 1, 1, 1, 1, 1, 1, 1], [1, 1, 1, 1, 1, 1, 1, 1, 1], [1, 1, 1, 1, 1, 1, 1, 1, 1], [1, 1, 1, 1, 1, 1, 1, 1, 1], [1, 1, 1, 1, 1, 1, 1, 1, 1], [1, 1, 1, 1, 1, 1, 1, 1, 1], [1, 1, 1, 1, 1, 1, 1, 1, 1], [1, 1, 1, 1, 1, 1, 1, 1, 1]],
   [[1, 1, 1, 1, 1, 1, 1, 1, 1], [1, 1, 1, 1, 1, 1, 1, 1, 1], [1, 1, 1, 1, 1, 1, 1, 1, 1], [1, 1, 1, 1, 1, 1, 1, 1, 1], [1, 1, 1, 1, 1, 1, 1, 1, 1], [1, 1, 1, 1, 1, 1, 1, 1, 1], [1, 1, 1, 1, 1, 1, 1, 1, 1], [1, 1, 1, 1, 1, 1, 1, 1, 1], [1, 1, 1, 1, 1, 1, 1, 1, 1]],
   [[1, 1, 1, 1, 1, 1, 1, 1, 1], [1, 1, 1, 1, 1, 1, 1, 1, 1], [1, 1, 1, 1, 1, 1, 1, 1, 1], [1, 1, 1, 1, 1, 1, 1, 1, 1], [1, 1, 1, 1, 1, 1, 1, 1, 1], [1, 1, 1, 1, 1, 1, 1, 1, 1], [1, 1, 1, 1, 1, 1, 1, 1, 1], [1, 1, 1, 1, 1, 1, 1, 1, 1], [1, 1, 1, 1, 1, 1, 1, 1, 1]]⟩

def fullS74 : Possibilities :=
  ⟨[⟨266368, 16797697, 16392⟩,
    ⟨8390912, 2416050212, 2048⟩,
    ⟨2129922, 67142152, 320⟩,
    ⟨4259844, 1074003986, 516⟩,
    ⟨285229057, 34603264, 1152⟩,
    ⟨2181038600, 10485824, 8224⟩,
    ⟨1140851728, 134226944, 32770⟩,
    ⟨135397408, 537395328, 4097⟩,
    ⟨537403456, 4261888, 65552⟩], [],
   [[1, 1, 1, 1, 1, 1, 1, 1, 1], [1, 1, 1, 1, 1, 1, 1, 1, 1], [1, 1, 1, 1, 1, 1, 1, 1, 1], [1, 1, 1, 1, 1, 1, 1, 1, 1], [1, 1, 1, 1, 1, 1, 1, 1, 1], [1, 1, 1, 1, 1, 1, 1, 1, 1], [1, 1, 1, 1, 1, 1, 1, 1, 1], [1, 1, 1, 1, 1, 1, 1, 1, 1], [1, 1, 1, 1, 1, 1, 1, 1, 1]],
   [[1, 1, 1, 1, 1, 1, 1, 1, 1], [1, 1, 1, 1, 1, 1, 1, 1, 1], [1, 1, 1, 1, 1, 1, 1, 1, 1], [1, 1, 1, 1, 1, 1, 1, 1, 1], [1, 1, 1, 1, 1, 1, 1, 1, 1], [1, 1, 1, 1, 1, 1, 1, 1, 1], [1, 1, 1, 1, 1, 1, 1, 1, 1], [1, 1, 1, 1, 1, 1, 1, 1, 1], [1, 1, 1, 1, 1, 1, 1, 1, 1]],
   [[1, 1, 1, 1, 1, 1, 1, 1, 1], [1, 1, 1, 1, 1, 1, 1, 1, 1], [1, 1, 1, 1, 1, 1, 1, 1, 1], [1, 1, 1, 1, 1, 1, 1, 1, 1], [1, 1, 1, 1, 1, 1, 1, 1, 1], [1, 1, 1, 1, 1, 1, 1, 1, 1], [1, 1, 1, 1, 1, 1, 1, 1, 1], [1, 1, 1, 1, 1, 1, 1, 1, 1], [1, 1, 1, 1, 1, 1, 1, 1, 1]],
   [[1, 1, 1, 1, 1, 1, 1, 1, 1], [1, 1, 1, 1, 1, 1, 1, 1, 1], [1, 1, 1, 1, 1, 1, 1, 1, 1], [1, 1, 1, 1, 1, 1, 1, 1, 1], [1, 1, 1, 1, 1, 1, 1, 1, 1], [1, 1, 1, 1, 1, 1, 1, 1, 1], [1, 1, 1, 1, 1, 1, 1, 1, 1], [1, 1, 1, 1, 1, 1, 1, 1, 1], [1, 1, 1, 1, 1, 1, 1, 1, 1]]⟩

def fullS75 : Possibilities :=
  ⟨[⟨266368, 16797697, 16392⟩,
    ⟨8390912, 2416050212, 2048⟩,
    ⟨2129922, 67142152, 320⟩,
    ⟨4259844, 1074003986, 516⟩,
    ⟨285229057, 34603264, 1152⟩,
    ⟨2181038600, 10485824, 8224⟩,
    ⟨1140851728, 134226944, 32770⟩,
    ⟨135397408, 537395328, 4097⟩,
    ⟨537403456, 4261888, 65552⟩], [],
   [[1, 1, 1, 1, 1, 1, 1, 1, 1], [1, 1, 1, 1, 1, 1, 1, 1, 1], [1, 1, 1, 1, 1, 1, 1, 1, 1], [1, 1, 1, 1, 1, 1, 1, 1, 1], [1, 1, 1, 1, 1, 1, 1, 1, 1], [1, 1, 1, 1, 1, 1, 1, 1, 1], [1, 1, 1, 1, 1, 1, 1, 1, 1], [1, 1, 1, 1, 1, 1, 1, 1, 1], [1, 1, 1, 1, 1, 1, 1, 1, 1]],
   [[1, 1, 1, 1, 1, 1, 1, 1, 1], [1, 1, 1, 1, 1, 1, 1, 1, 1], [1, 1, 1, 1, 1, 1, 1, 1, 1], [1, 1, 1, 1, 1, 1, 1, 1, 1], [1, 1, 1, 1, 1, 1, 1, 1, 1], [1, 1, 1, 1, 1, 1, 1, 1, 1], [1, 1, 1, 1, 1, 1, 1, 1, 1], [1, 1, 1, 1, 1, 1, 1, 1, 1], [1, 1, 1, 1, 1, 1, 1, 1, 1]],
   [[1, 1, 1, 1, 1, 1, 1, 1, 1], [1, 1, 1, 1, 1, 1, 1, 1, 1], [1, 1, 1, 1, 1, 1, 1, 1, 1], [1, 1, 1, 1, 1, 1, 1, 1, 1], [1, 1, 1, 1, 1, 1, 1, 1, 1], [1, 1, 1, 1, 1, 1, 1, 1, 1], [1, 1, 1, 1, 1, 1, 1, 1, 1], [1, 1, 1, 1, 1, 1, 1, 1, 1], [1, 1, 1, 1, 1, 1, 1, 1, 1]],
   [[1, 1, 1, 1, 1, 1, 1, 1, 1], [1, 1, 1, 1, 1, 1, 1, 1, 1], [1, 1, 1, 1, 1, 1, 1, 1, 1], [1, 1, 1, 1, 1, 1, 1, 1, 1], [1, 1, 1, 1, 1, 1, 1, 1, 1], [1, 1, 1, 1, 1, 1, 1, 1, 1], [1, 1, 1, 1, 1, 1, 1, 1, 1], [1, 1, 1, 1, 1, 1, 1, 1, 1], [1, 1, 1, 1, 1, 1, 1, 1, 1]]⟩

def fullS76 : Possibilities :=
  ⟨[⟨266368, 16797697, 16392⟩,
    ⟨8390912, 2416050212, 2048⟩,
    ⟨2129922, 67142152, 320⟩,
    ⟨4259844, 1074003986, 516⟩,
    ⟨285229057, 34603264, 1152⟩,
    ⟨2181038600, 10485824, 8224⟩,
    ⟨1140851728, 134226944, 32770⟩,
    ⟨135397408, 537395328, 4097⟩,
    ⟨537403456, 4261888, 65552⟩], [],
   [[1, 1, 1, 1, 1, 1, 1, 1, 1], [1, 1, 1, 1, 1, 1, 1, 1, 1], [1, 1, 1, 1, 1, 1, 1, 1, 1], [1, 1, 1, 1, 1, 1, 1, 1, 1], [1, 1, 1, 1, 1, 1, 1, 1, 1], [1, 1, 1, 1, 1, 1, 1, 1, 1], [1, 1, 1, 1, 1, 1, 1, 1, 1], [1, 1, 1, 1, 1, 1, 1, 1, 1], [1, 1, 1, 1, 1, 1, 1, 1, 1]],
   [[1, 1, 1, 1, 1, 1, 1, 1, 1], [1, 1, 1, 1, 1, 1, 1, 1, 1], [1, 1, 1, 1, 1, 1, 1, 1, 1], [1, 1, 1, 1, 1, 1, 1, 1, 1], [1, 1, 1, 1, 1, 1, 1, 1, 1], [1, 1, 1, 1, 1, 1, 1, 1, 1], [1, 1, 1, 1, 1, 1, 1, 1, 1], [1, 1, 1, 1, 1, 1, 1, 1, 1], [1, 1, 1, 1, 1, 1, 1, 1, 1]],
   [[1, 1, 1, 1, 1, 1, 1, 1, 1], [1, 1, 1, 1, 1, 1, 1, 1, 1], [1, 1, 1, 1, 1, 1, 1, 1, 1], [1, 1, 1, 1, 1, 1, 1, 1, 1], [1, 1, 1, 1, 1, 1, 1, 1, 1], [1, 1, 1, 1, 1, 1, 1, 1, 1], [1, 1, 1, 1, 1, 1, 1, 1, 1], [1, 1, 1, 1, 1, 1, 1, 1, 1], [1, 1, 1, 1, 1, 1, 1, 1, 1]],
   [[1, 1, 1, 1, 1, 1, 1, 1, 1], [1, 1, 1, 1, 1, 1, 1, 1, 1], [1, 1, 1, 1, 1, 1, 1, 1, 1], [1, 1, 1, 1, 1, 1, 1, 1, 1], [1, 1, 1, 1, 1, 1, 1, 1, 1], [1, 1, 1, 1, 1, 1, 1, 1, 1], [1, 1, 1, 1, 1, 1, 1, 1, 1], [1, 1, 1, 1, 1, 1, 1, 1, 1], [1, 1, 1, 1, 1, 1, 1, 1, 1]]⟩

def fullS77 : Possibilities :=
  ⟨[⟨266368, 16797697, 16392⟩,
    ⟨8390912, 2416050212, 2048⟩,
    ⟨2129922, 67142152, 320⟩,
    ⟨4259844, 1074003986, 516⟩,
    ⟨285229057, 34603264, 1152⟩,
    ⟨2181038600, 10485824, 8224⟩,
    ⟨1140851728, 134226944, 32770⟩,
    ⟨135397408, 537395328, 4097⟩,
    ⟨537403456, 4261888, 65552⟩], [],
   [[1, 1, 1, 1, 1, 1, 1, 1, 1], [1, 1, 1, 1, 1, 1, 1, 1, 1], [1, 1, 1, 1, 1, 1, 1, 1, 1], [1, 1, 1, 1, 1, 1, 1, 1, 1], [1, 1, 1, 1, 1, 1, 1, 1, 1], [1, 1, 1, 1, 1, 1, 1, 1, 1], [1, 1, 1, 1, 1, 1, 1, 1, 1], [1, 1, 1, 1, 1, 1, 1, 1, 1], [1, 1, 1, 1, 1, 1, 1, 1, 1]],
   [[1, 1, 1, 1, 1, 1, 1, 1, 1], [1, 1, 1, 1, 1, 1, 1, 1, 1], [1, 1, 1, 1, 1, 1, 1, 1, 1], [1, 1, 1, 1, 1, 1, 1, 1, 1], [1, 1, 1, 1, 1, 1, 1, 1, 1], [1, 1, 1, 1, 1, 1, 1, 1, 1], [1, 1, 1, 1, 1, 1, 1, 1, 1], [1, 1, 1, 1, 1, 1, 1, 1, 1], [1, 1, 1, 1, 1, 1, 1, 1, 1]],
   [[1, 1, 1, 1, 1, 1, 1, 1, 1], [1, 1, 1, 1, 1, 1, 1, 1, 1], [1, 1, 1, 1, 1, 1, 1, 1, 1], [1, 1, 1, 1, 1, 1, 1, 1, 1], [1, 1, 1, 1, 1, 1, 1, 1, 1], [1, 1, 1, 1, 1, 1, 1, 1, 1], [1, 1, 1, 1, 1, 1, 1, 1, 1], [1, 1, 1, 1, 1, 1, 1, 1, 1], [1, 1, 1, 1, 1, 1, 1, 1, 1]],
   [[1, 1, 1, 1, 1, 1, 1, 1, 1], [1, 1, 1, 1, 1, 1, 1, 1, 1], [1, 1, 1, 1, 1, 1, 1, 1, 1], [1, 1, 1, 1, 1, 1, 1, 1, 1], [1, 1, 1, 1, 1, 1, 1, 1, 1], [1, 1, 1, 1, 1, 1, 1, 1, 1], [1, 1, 1, 1, 1, 1, 1, 1, 1], [1, 1, 1, 1, 1, 1, 1, 1, 1], [1, 1, 1, 1, 1, 1, 1, 1, 1]]⟩

def fullS78 : Possibilities :=
  ⟨[⟨266368, 16797697, 16392⟩,
    ⟨8390912, 2416050212, 2048⟩,
    ⟨2129922, 67142152, 320⟩,
    ⟨4259844, 1074003986, 516⟩,
    ⟨285229057, 34603264, 1152⟩,
    ⟨2181038600, 10485824, 8224⟩,
    ⟨1140851728, 134226944, 32770⟩,
    ⟨135397408, 537395328, 4097⟩,
    ⟨537403456, 4261888, 65552⟩], [],
   [[1, 1, 1, 1, 1, 1, 1, 1, 1], [1, 1, 1, 1, 1, 1, 1, 1, 1], [1, 1, 1, 1, 1, 1, 1, 1, 1], [1, 1, 1, 1, 1, 1, 1, 1, 1], [1, 1, 1, 1, 1, 1, 1, 1, 1], [1, 1, 1, 1, 1, 1, 1, 1, 1], [1, 1, 1, 1, 1, 1, 1, 1, 1], [1, 1, 1, 1, 1, 1, 1, 1, 1], [1, 1, 1, 1, 1, 1, 1, 1, 1]],
   [[1, 1, 1, 1, 1, 1, 1, 1, 1], [1, 1, 1, 1, 1, 1, 1, 1, 1], [1, 1, 1, 1, 1, 1, 1, 1, 1], [1, 1, 1, 1, 1, 1, 1, 1, 1], [1, 1, 1, 1, 1, 1, 1, 1, 1], [1, 1, 1, 1, 1, 1, 1, 1, 1], [1, 1, 1, 1, 1, 1, 1, 1, 1], [1, 1, 1, 1, 1, 1, 1, 1, 1], [1, 1, 1, 1, 1, 1, 1, 1, 1]],
   [[1, 1, 1, 1, 1, 1, 1, 1, 1], [1, 1, 1, 1, 1, 1, 1, 1, 1], [1, 1, 1, 1, 1, 1, 1, 1, 1], [1, 1, 1, 1, 1, 1, 1, 1, 1], [1, 1, 1, 1, 1, 1, 1, 1, 1], [1, 1, 1, 1, 1, 1, 1, 1, 1], [1, 1, 1, 1, 1, 1, 1, 1, 1], [1, 1, 1, 1, 1, 1, 1, 1, 1], [1, 1, 1, 1, 1, 1, 1, 1, 1]],
   [[1, 1, 1, 1, 1, 1, 1, 1, 1], [1, 1, 1, 1, 1, 1, 1, 1, 1], [1, 1, 1, 1, 1, 1, 1, 1, 1], [1, 1, 1, 1, 1, 1, 1, 1, 1], [1, 1, 1, 1, 1, 1, 1, 1, 1], [1, 1, 1, 1, 1, 1, 1, 1, 1], [1, 1, 1, 1, 1, 1, 1, 1, 1], [1, 1, 1, 1, 1, 1, 1, 1, 1], [1, 1, 1, 1, 1, 1, 1, 1, 1]]⟩

def fullS79 : Possibilities :=
  ⟨[⟨266368, 16797697, 16392⟩,
    ⟨8390912, 2416050212, 2048⟩,
    ⟨2129922, 67142152, 320⟩,
    ⟨4259844, 1074003986, 516⟩,
    ⟨285229057, 34603264, 1152⟩,
    ⟨2181038600, 10485824, 8224⟩,
    ⟨1140851728, 134226944, 32770⟩,
    ⟨135397408, 537395328, 4097⟩,
    ⟨537403456, 4261888, 65552⟩], [],
   [[1, 1, 1, 1, 1, 1, 1, 1, 1], [1, 1, 1, 1, 1, 1, 1, 1, 1], [1, 1, 1, 1, 1, 1, 1, 1, 1], [1, 1, 1, 1, 1, 1, 1, 1, 1], [1, 1, 1, 1, 1, 1, 1, 1, 1], [1, 1, 1, 1, 1, 1, 1, 1, 1], [1, 1, 1, 1, 1, 1, 1, 1, 1], [1, 1, 1, 1, 1, 1, 1, 1, 1], [1, 1, 1, 1, 1, 1, 1, 1, 1]],
   [[1, 1, 1, 1, 1, 1, 1, 1, 1], [1, 1, 1, 1, 1, 1, 1, 1, 1], [1, 1, 1, 1, 1, 1, 1, 1, 1], [1, 1, 1, 1, 1, 1, 1, 1, 1], [1, 1, 1, 1, 1, 1, 1, 1, 1], [1, 1, 1, 1, 1, 1, 1, 1, 1], [1, 1, 1, 1, 1, 1, 1, 1, 1], [1, 1, 1, 1, 1, 1, 1, 1, 1], [1, 1, 1, 1, 1, 1, 1, 1, 1]],
   [[1, 1, 1, 1, 1, 1, 1, 1, 1], [1, 1, 1, 1, 1, 1, 1, 1, 1], [1, 1, 1, 1, 1, 1, 1, 1, 1], [1, 1, 1, 1, 1, 1, 1, 1, 1], [1, 1, 1, 1, 1, 1, 1, 1, 1], [1, 1, 1, 1, 1, 1, 1, 1, 1], [1, 1, 1, 1, 1, 1, 1, 1, 1], [1, 1, 1, 1, 1, 1, 1, 1, 1], [1, 1, 1, 1, 1, 1, 1, 1, 1]],
   [[1, 1, 1, 1, 1, 1, 1, 1, 1], [1, 1, 1, 1, 1, 1, 1, 1, 1], [1, 1, 1, 1, 1, 1, 1, 1, 1], [1, 1, 1, 1, 1, 1, 1, 1, 1], [1, 1, 1, 1, 1, 1, 1, 1, 1], [1, 1, 1, 1, 1, 1, 1, 1, 1], [1, 1, 1, 1, 1, 1, 1, 1, 1], [1, 1, 1, 1, 1, 1, 1, 1, 1], [1, 1, 1, 1, 1, 1, 1, 1, 1]]⟩

def fullS80 : Possibilities :=
  ⟨[⟨266368, 16797697, 16392⟩,
    ⟨8390912, 2416050212, 2048⟩,
    ⟨2129922, 67142152, 320⟩,
    ⟨4259844, 1074003986, 516⟩,
    ⟨285229057, 34603264, 1152⟩,
    ⟨2181038600, 10485824, 8224⟩,
    ⟨1140851728, 134226944, 32770⟩,
    ⟨135397408, 537395328, 4097⟩,
    ⟨537403456, 4261888, 65552⟩], [],
   [[1, 1, 1, 1, 1, 1, 1, 1, 1], [1, 1, 1, 1, 1, 1, 1, 1, 1], [1, 1, 1, 1, 1, 1, 1, 1, 1], [1, 1, 1, 1, 1, 1, 1, 1, 1], [1, 1, 1, 1, 1, 1, 1, 1, 1], [1, 1, 1, 1, 1, 1, 1, 1, 1], [1, 1, 1, 1, 1, 1, 1, 1, 1], [1, 1, 1, 1, 1, 1, 1, 1, 1], [1, 1, 1, 1, 1, 1, 1, 1, 1]],
   [[1, 1, 1, 1, 1, 1, 1, 1, 1], [1, 1, 1, 1, 1, 1, 1, 1, 1], [1, 1, 1, 1, 1, 1, 1, 1, 1], [1, 1, 1, 1, 1, 1, 1, 1, 1], [1, 1, 1, 1, 1, 1, 1, 1, 1], [1, 1, 1, 1, 1, 1, 1, 1, 1], [1, 1, 1, 1, 1, 1, 1, 1, 1], [1, 1, 1, 1, 1, 1, 1, 1, 1], [1, 1, 1, 1, 1, 1, 1, 1, 1]],
   [[1, 1, 1, 1, 1, 1, 1, 1, 1], [1, 1, 1, 1, 1, 1, 1, 1, 1], [1, 1, 1, 1, 1, 1, 1, 1, 1], [1, 1, 1, 1, 1, 1, 1, 1, 1], [1, 1, 1, 1, 1, 1, 1, 1, 1], [1, 1, 1, 1, 1, 1, 1, 1, 1], [1, 1, 1, 1, 1, 1, 1, 1, 1], [1, 1, 1, 1, 1, 1, 1, 1, 1], [1, 1, 1, 1, 1, 1, 1, 1, 1]],
   [[1, 1, 1, 1, 1, 1, 1, 1, 1], [1, 1, 1, 1, 1, 1, 1, 1, 1], [1, 1, 1, 1, 1, 1, 1, 1, 1], [1, 1, 1, 1, 1, 1, 1, 1, 1], [1, 1, 1, 1, 1, 1, 1, 1, 1], [1, 1, 1, 1, 1, 1, 1, 1, 1], [1, 1, 1, 1, 1, 1, 1, 1, 1], [1, 1, 1, 1, 1, 1, 1, 1, 1], [1, 1, 1, 1, 1, 1, 1, 1, 1]]⟩

/-- The propagation state after forcing digit 1 at cell (0,0) of a fresh
machine (concrete witness state for the idempotence claim). -/
def idemS : Possibilities :=
  ⟨[⟨4158910465, 2143281135, 130815⟩,
    ⟨4294967294, 4294967295, 131071⟩,
    ⟨4294967294, 4294967295, 131071⟩,
    ⟨4294967294, 4294967295, 131071⟩,
    ⟨4294967294, 4294967295, 131071⟩,
    ⟨4294967294, 4294967295, 131071⟩,
    ⟨4294967294, 4294967295, 131071⟩,
    ⟨4294967294, 4294967295, 131071⟩,
    ⟨4294967294, 4294967295, 131071⟩], [],
   [[1, 8, 8, 8, 8, 8, 8, 8, 8], [8, 8, 8, 9, 9, 9, 9, 9, 9], [8, 8, 8, 9, 9, 9, 9, 9, 9], [8, 9, 9, 9, 9, 9, 9, 9, 9], [8, 9, 9, 9, 9, 9, 9, 9, 9], [8, 9, 9, 9, 9, 9, 9, 9, 9], [8, 9, 9, 9, 9, 9, 9, 9, 9], [8, 9, 9, 9, 9, 9, 9, 9, 9], [8, 9, 9, 9, 9, 9, 9, 9, 9]],
   [[1, 8, 8, 8, 8, 8, 8, 8, 8], [6, 9, 9, 9, 9, 9, 9, 9, 9], [6, 9, 9, 9, 9, 9, 9, 9, 9], [8, 9, 9, 9, 9, 9, 9, 9, 9], [8, 9, 9, 9, 9, 9, 9, 9, 9], [8, 9, 9, 9, 9, 9, 9, 9, 9], [8, 9, 9, 9, 9, 9, 9, 9, 9], [8, 9, 9, 9, 9, 9, 9, 9, 9], [8, 9, 9, 9, 9, 9, 9, 9, 9]],
   [[1, 8, 8, 8, 8, 8, 8, 8, 8], [6, 9, 9, 9, 9, 9, 9, 9, 9], [6, 9, 9, 9, 9, 9, 9, 9, 9], [8, 9, 9, 9, 9, 9, 9, 9, 9], [8, 9, 9, 9, 9, 9, 9, 9, 9], [8, 9, 9, 9, 9, 9, 9, 9, 9], [8, 9, 9, 9, 9, 9, 9, 9, 9], [8, 9, 9, 9, 9, 9, 9, 9, 9], [8, 9, 9, 9, 9, 9, 9, 9, 9]],
   [[1, 8, 8, 8, 8, 8, 8, 8, 8], [6, 9, 9, 9, 9, 9, 9, 9, 9], [6, 9, 9, 9, 9, 9, 9, 9, 9], [6, 9, 9, 9, 9, 9, 9, 9, 9], [9, 9, 9, 9, 9, 9, 9, 9, 9], [9, 9, 9, 9, 9, 9, 9, 9, 9], [6, 9, 9, 9, 9, 9, 9, 9, 9], [9, 9, 9, 9, 9, 9, 9, 9, 9], [9, 9, 9, 9, 9, 9, 9, 9, 9]]⟩

/-! ### Word-level facts about `Pattern` operations -/

theorem Pattern.word_setWord_self (p : Pattern) (i v : Nat) :
    (p.setWord i v).word i = v := by
  unfold Pattern.setWord Pattern.word
  split_ifs <;> simp_all

theorem Pattern.word_setWord_ne (p : Pattern) {i j : Nat} (v : Nat)
    (hi : i < 3) (hj : j < 3) (h : i ≠ j) :
    (p.setWord i v).word j = p.word j := by
  unfold Pattern.setWord Pattern.word
  interval_cases i <;> interval_cases j <;> simp_all

theorem Pattern.word_setWord_cases (p : Pattern) (i j v : Nat) :
    ((p.setWord i v).word j = v ∧ p.word j = p.word i) ∨
      (p.setWord i v).word j = p.word j := by
  unfold Pattern.setWord Pattern.word
  split_ifs <;> simp_all

theorem Pattern.word_lor (p q : Pattern) (i : Nat) :
    (p.lor q).word i = p.word i ||| q.word i := by
  unfold Pattern.lor Pattern.word
  split_ifs <;> rfl

theorem Pattern.word_land (p q : Pattern) (i : Nat) :
    (p.land q).word i = p.word i &&& q.word i := by
  unfold Pattern.land Pattern.word
  split_ifs <;> rfl

theorem Pattern.has_eq_testBit (p : Pattern) (row col : Nat) :
    p.has row col = (p.word ((9 * row + col) / 32)).testBit ((9 * row + col) % 32) := by
  unfold Pattern.has
  rw [Nat.one_shiftLeft, Nat.and_two_pow]
  cases h : (p.word ((9 * row + col) / 32)).testBit ((9 * row + col) % 32) <;>
    simp [h, Nat.pos_iff_ne_zero, Nat.pow_eq_zero]

theorem Pattern.has_lor (p q : Pattern) (row col : Nat) :
    (p.lor q).has row col = (p.has row col || q.has row col) := by
  simp [Pattern.has_eq_testBit, Pattern.word_lor, Nat.testBit_lor]

theorem Pattern.has_land (p q : Pattern) (row col : Nat) :
    (p.land q).has row col = (p.has row col && q.has row col) := by
  simp [Pattern.has_eq_testBit, Pattern.word_land, Nat.testBit_land]

theorem Pattern.has_withCell_self (p : Pattern) (row col : Nat) :
    (p.withCell row col).has row col = true := by
  unfold Pattern.withCell
  rw [Pattern.has_eq_testBit, Pattern.word_setWord_self]
  simp [Nat.testBit_lor, Nat.one_shiftLeft, Nat.testBit_two_pow]

theorem Pattern.has_withCell_of_ne (p : Pattern) {row col r c : Nat}
    (hrow : row < 9) (hcol : col < 9) (hr : r < 9) (hc : c < 9)
    (hne : ¬(r = row ∧ c = col)) :
    (p.withCell row col).has r c = p.has r c := by
  simp only [Pattern.has_eq_testBit, Pattern.withCell]
  by_cases hw : (9 * r + c) / 32 = (9 * row + col) / 32
  · rw [hw, Pattern.word_setWord_self]
    have hk : (9 * row + col) % 32 ≠ (9 * r + c) % 32 := by omega
    simp [Nat.testBit_lor, Nat.one_shiftLeft, Nat.testBit_two_pow, hk, ← hw]
  · rw [Pattern.word_setWord_ne _ _ (by omega) (by omega) fun hh => hw hh.symm]

theorem Pattern.remove_fst (p : Pattern) (row col : Nat) :
    (p.remove row col).1 = p.has row col := rfl

theorem Pattern.mask_testBit (kk j : Nat) (hkk : kk < 32) :
    ((1 <<< kk) ^^^ 0xFFFFFFFF).testBit j = (decide (j < 32) && !decide (kk = j)) := by
  rw [Nat.one_shiftLeft]
  rw [show (0xFFFFFFFF : Nat) = 2 ^ 32 - 1 from rfl]
  rw [Nat.testBit_xor, Nat.testBit_two_pow, Nat.testBit_two_pow_sub_one]
  by_cases h1 : kk = j <;> by_cases h2 : j < 32 <;> simp_all

theorem Pattern.has_remove_self (p : Pattern) (row col : Nat) :
    (p.remove row col).2.has row col = false := by
  unfold Pattern.remove
  rw [Pattern.has_eq_testBit, Pattern.word_setWord_self]
  rw [Nat.testBit_land, Pattern.mask_testBit _ _ (Nat.mod_lt _ (by omega))]
  simp

theorem Pattern.has_remove_of_ne (p : Pattern) {row col r c : Nat}
    (hrow : row < 9) (hcol : col < 9) (hr : r < 9) (hc : c < 9)
    (hne : ¬(r = row ∧ c = col)) :
    (p.remove row col).2.has r c = p.has r c := by
  simp only [Pattern.has_eq_testBit, Pattern.remove]
  by_cases hw : (9 * r + c) / 32 = (9 * row + col) / 32
  · rw [hw, Pattern.word_setWord_self]
    rw [Nat.testBit_land, Pattern.mask_testBit _ _ (Nat.mod_lt _ (by omega))]
    have hk : ¬((9 * row + col) % 32 = (9 * r + c) % 32) := by omega
    have hlt : (9 * r + c) % 32 < 32 := Nat.mod_lt _ (by omega)
    simp [hk, hlt, ← hw]
  · rw [Pattern.word_setWord_ne _ _ (by omega) (by omega) fun hh => hw hh.symm]

theorem Pattern.has_remove_mono (p : Pattern) {row col r c : Nat}
    (h : (p.remove row col).2.has r c = true) : p.has r c = true := by
  unfold Pattern.remove at h
  rw [Pattern.has_eq_testBit] at h ⊢
  rcases Pattern.word_setWord_cases p ((9 * row + col) / 32) ((9 * r + c) / 32)
    (p.word ((9 * row + col) / 32) &&& (1 <<< ((9 * row + col) % 32) ^^^ 0xFFFFFFFF)) with
    ⟨h1, h2⟩ | h1
  · rw [h1, Nat.testBit_land] at h
    rw [h2]
    exact (Bool.and_eq_true_iff.mp h).1
  · rwa [h1] at h

theorem Pattern.subset_has (p q : Pattern) {row col : Nat}
    (hsub : p.is_subset q = true) (h : p.has row col = true) : q.has row col = true := by
  unfold Pattern.is_subset at hsub
  have heq : p.land q = p := beq_iff_eq.mp hsub
  have hword : ∀ i, p.word i &&& q.word i = p.word i := fun i => by
    rw [← Pattern.word_land, heq]
  rw [Pattern.has_eq_testBit] at h ⊢
  have htb := congrArg (fun w => w.testBit ((9 * row + col) % 32))
    (hword ((9 * row + col) / 32))
  simp only [Nat.testBit_land] at htb
  rw [h] at htb
  simpa using htb.symm

theorem Pattern.subset_refl (p : Pattern) : p.is_subset p = true := by
  unfold Pattern.is_subset Pattern.land
  simp [Nat.and_self]

theorem nat_lor_eq_zero_iff (x y : Nat) : x ||| y = 0 ↔ x = 0 ∧ y = 0 := by
  constructor
  · intro h
    constructor <;>
      · apply Nat.eq_of_testBit_eq
        intro i
        have hb := congrArg (fun w => Nat.testBit w i) h
        simp only [Nat.testBit_lor, Nat.zero_testBit] at hb ⊢
        cases hx : x.testBit i <;> cases hy : y.testBit i <;> simp_all
  · rintro ⟨hx, hy⟩
    simp [hx, hy]

theorem Pattern.not_has_of_intersects_eq_false (p q : Pattern) {row col : Nat}
    (hint : p.intersects q = false) (h : p.has row col = true) :
    q.has row col = false := by
  unfold Pattern.intersects at hint
  have heq : p.land q = Pattern.EMPTY := by
    simpa using hint
  have hword : p.word ((9 * row + col) / 32) &&& q.word ((9 * row + col) / 32) = 0 := by
    rw [← Pattern.word_land, heq]
    unfold Pattern.EMPTY Pattern.word
    split_ifs <;> rfl
  rw [Pattern.has_eq_testBit] at h ⊢
  have htb := congrArg (fun w => Nat.testBit w ((9 * row + col) % 32)) hword
  simp only [Nat.testBit_land, Nat.zero_testBit] at htb
  rw [h] at htb
  simpa using htb

theorem Pattern.intersects_comm (p q : Pattern) : p.intersects q = q.intersects p := by
  unfold Pattern.intersects Pattern.land
  rw [Nat.and_comm p.w0, Nat.and_comm p.w1, Nat.and_comm p.w2]

theorem Pattern.intersects_eq_true_iff (p q : Pattern) :
    p.intersects q = true ↔ ¬(p.land q = Pattern.EMPTY) := by
  unfold Pattern.intersects
  simp [bne_iff_ne]

theorem Pattern.intersects_lor (p q s : Pattern) :
    p.intersects (q.lor s) = (p.intersects q || p.intersects s) := by
  rw [Bool.eq_iff_iff]
  rw [Bool.or_eq_true, Pattern.intersects_eq_true_iff, Pattern.intersects_eq_true_iff,
    Pattern.intersects_eq_true_iff]
  unfold Pattern.land Pattern.lor Pattern.EMPTY
  simp only [Pattern.mk.injEq, Nat.and_or_distrib_left, nat_lor_eq_zero_iff]
  tauto

theorem Pattern.intersects_EMPTY (p : Pattern) : p.intersects Pattern.EMPTY = false := by
  unfold Pattern.intersects Pattern.land Pattern.EMPTY
  simp

/-! ### C7: reachable patterns never set bits beyond position 80 -/

theorem Pattern.wf_withCell {p : Pattern} (h : p.wf) {row col : Nat}
    (hrow : row < 9) (hcol : col < 9) : (p.withCell row col).wf := by
  obtain ⟨h0, h1, h2⟩ := h
  have hidx : 9 * row + col ≤ 80 := by omega
  unfold Pattern.withCell Pattern.setWord
  rw [Nat.one_shiftLeft]
  split_ifs with ha hb
  · have hv : p.word ((9 * row + col) / 32) = p.w0 := by unfold Pattern.word; simp [ha]
    exact ⟨by
      show p.word _ ||| _ < _
      rw [hv]
      exact Nat.or_lt_two_pow h0 (Nat.pow_lt_pow_right (by omega) (by omega)), h1, h2⟩
  · have hv : p.word ((9 * row + col) / 32) = p.w1 := by unfold Pattern.word; simp [ha, hb]
    exact ⟨h0, by
      show p.word _ ||| _ < _
      rw [hv]
      exact Nat.or_lt_two_pow h1 (Nat.pow_lt_pow_right (by omega) (by omega)), h2⟩
  · have hv : p.word ((9 * row + col) / 32) = p.w2 := by unfold Pattern.word; simp [ha, hb]
    have hk : (9 * row + col) % 32 < 17 := by omega
    exact ⟨h0, h1, by
      show p.word _ ||| _ < _
      rw [hv]
      exact Nat.or_lt_two_pow h2 (Nat.pow_lt_pow_right (by omega) hk)⟩

theorem Pattern.wf_remove {p : Pattern} (h : p.wf) (row col : Nat) :
    (p.remove row col).2.wf := by
  obtain ⟨h0, h1, h2⟩ := h
  unfold Pattern.remove Pattern.setWord
  split_ifs
  · exact ⟨Nat.lt_of_le_of_lt Nat.and_le_left (by
      show p.word _ < _
      unfold Pattern.word
      simp_all), h1, h2⟩
  · exact ⟨h0, Nat.lt_of_le_of_lt Nat.and_le_left (by
      show p.word _ < _
      unfold Pattern.word
      simp_all), h2⟩
  · exact ⟨h0, h1, Nat.lt_of_le_of_lt Nat.and_le_left (by
      show p.word _ < _
      unfold Pattern.word
      simp_all)⟩

theorem Pattern.wf_land {p q : Pattern} (h : p.wf) : (p.land q).wf := by
  obtain ⟨h0, h1, h2⟩ := h
  exact ⟨Nat.lt_of_le_of_lt Nat.and_le_left h0,
    Nat.lt_of_le_of_lt Nat.and_le_left h1,
    Nat.lt_of_le_of_lt Nat.and_le_left h2⟩

theorem Pattern.wf_lor {p q : Pattern} (hp : p.wf) (hq : q.wf) : (p.lor q).wf :=
  ⟨Nat.or_lt_two_pow hp.1 hq.1, Nat.or_lt_two_pow hp.2.1 hq.2.1,
    Nat.or_lt_two_pow hp.2.2 hq.2.2⟩

theorem Pattern.wf_compl {p : Pattern} (h : p.wf) : p.compl.wf := by
  obtain ⟨h0, h1, h2⟩ := h
  exact ⟨Nat.xor_lt_two_pow h0 (by norm_num), Nat.xor_lt_two_pow h1 (by norm_num),
    Nat.xor_lt_two_pow h2 (by norm_num)⟩

/-- C7: every `Pattern` reachable from `EMPTY` or `FULL` through the defined
operations keeps its words inside `u32` and all bits beyond position 80 zero
(the third word stays below `2^17`); in particular the complement masks the
unused high bits so the universe stays exactly 81 positions. -/
theorem pattern_reachable_wf {p : Pattern} (h : PatternReachable p) : p.wf := by
  induction h with
  | empty => exact (by decide : Pattern.EMPTY.wf)
  | full => exact (by decide : Pattern.FULL.wf)
  | ofRemove p row col _ hr hc ih => exact Pattern.wf_remove ih row col
  | ofWith p row col _ hr hc ih => exact Pattern.wf_withCell ih hr hc
  | ofAnd p q _ _ ihp ihq => exact Pattern.wf_land ihp
  | ofOr p q _ _ ihp ihq => exact Pattern.wf_lor ihp ihq
  | ofCompl p _ ih => exact Pattern.wf_compl ih

/-- Witness for C7 at a concrete reachable pattern. -/
theorem pattern_reachable_wf_witness :
    PatternReachable ((Pattern.FULL.compl).withCell 0 0) ∧
      ((Pattern.FULL.compl).withCell 0 0).wf := by
  have hreach : PatternReachable ((Pattern.FULL.compl).withCell 0 0) :=
    PatternReachable.ofWith _ 0 0 (PatternReachable.ofCompl _ PatternReachable.full)
      (by norm_num) (by norm_num)
  exact ⟨hreach, pattern_reachable_wf hreach⟩

/-! ### Generic counting helpers -/

theorem countP_eq_one_of_unique {α : Type} {l : List α} {f : α → Bool} {x : α}
    (hnd : l.Nodup) (hx : x ∈ l) (hfx : f x = true)
    (hother : ∀ y ∈ l, y ≠ x → f y = false) : l.countP f = 1 := by
  induction l with
  | nil => cases hx
  | cons a t ih =>
    have hat : a ∉ t := (List.nodup_cons.mp hnd).1
    have hndt : t.Nodup := (List.nodup_cons.mp hnd).2
    rw [List.countP_cons]
    rcases List.mem_cons.mp hx with hax | hxt
    · have hz : t.countP f = 0 := List.countP_eq_zero.mpr (fun y hy => by
        have hyx : y ≠ x := fun hh => hat ((hh.trans hax) ▸ hy)
        simp [hother y (List.mem_cons_of_mem _ hy) hyx])
      rw [hz, ← hax, hfx]
      rfl
    · have hax2 : a ≠ x := fun hh => hat (hh ▸ hxt)
      have hfa : f a = false := hother a (List.mem_cons_self a t) hax2
      rw [hfa, ih hndt hxt (fun y hy hyx => hother y (List.mem_cons_of_mem _ hy) hyx)]
      rfl

theorem countP_succ_flip {α : Type} {l : List α} {f g : α → Bool} {x : α}
    (hnd : l.Nodup) (hx : x ∈ l) (hfx : f x = false) (hgx : g x = true)
    (hagree : ∀ y ∈ l, y ≠ x → f y = g y) : l.countP g = l.countP f + 1 := by
  induction l with
  | nil => cases hx
  | cons a t ih =>
    have hat : a ∉ t := (List.nodup_cons.mp hnd).1
    have hndt : t.Nodup := (List.nodup_cons.mp hnd).2
    rw [List.countP_cons, List.countP_cons]
    rcases List.mem_cons.mp hx with hax | hxt
    · have hcong : t.countP g = t.countP f := List.countP_congr (fun y hy => by
        have hyx : y ≠ x := fun hh => hat ((hh.trans hax) ▸ hy)
        rw [hagree y (List.mem_cons_of_mem _ hy) hyx])
      rw [hax] at hfx hgx
      rw [hfx, hgx, hcong]
      simp
    · have hax2 : a ≠ x := fun hh => hat (hh ▸ hxt)
      have hfa : f a = g a := hagree a (List.mem_cons_self a t) hax2
      rw [← hfa, ih hndt hxt (fun y hy hyx => hagree y (List.mem_cons_of_mem _ hy) hyx)]
      omega

theorem countP_unique_val {α : Type} {l : List α} {f : α → Bool}
    (h : l.countP f = 1) : ∃ x, x ∈ l ∧ f x = true ∧ ∀ y ∈ l, f y = true → y = x := by
  induction l with
  | nil => simp [List.countP_nil] at h
  | cons a t ih =>
    rw [List.countP_cons] at h
    by_cases hfa : f a = true
    · rw [hfa] at h
      simp only [if_true] at h
      have hz : t.countP f = 0 := by omega
      refine ⟨a, List.mem_cons_self a t, hfa, ?_⟩
      intro y hy hfy
      rcases List.mem_cons.mp hy with rfl | hyt
      · rfl
      · exact absurd hfy (by simpa using List.countP_eq_zero.mp hz y hyt)
    · have hfa2 : f a = false := by simpa using hfa
      rw [hfa2] at h
      simp only [Bool.false_eq_true, if_false, Nat.add_zero] at h
      obtain ⟨x, hx, hfx, huniq⟩ := ih h
      refine ⟨x, List.mem_cons_of_mem _ hx, hfx, ?_⟩
      intro y hy hfy
      rcases List.mem_cons.mp hy with rfl | hyt
      · exact absurd hfy hfa
      · exact huniq y hyt hfy

theorem find?_eq_some_of_unique {α : Type} {l : List α} {f : α → Bool} {x : α}
    (hx : x ∈ l) (hfx : f x = true) (huniq : ∀ y ∈ l, f y = true → y = x) :
    l.find? f = some x := by
  induction l with
  | nil => cases hx
  | cons a t ih =>
    by_cases hfa : f a = true
    · have : a = x := huniq a (List.mem_cons_self a t) hfa
      subst this
      simp [List.find?_cons, hfa]
    · have hxt : x ∈ t := by
        rcases List.mem_cons.mp hx with rfl | hxt
        · exact absurd hfx hfa
        · exact hxt
      rw [List.find?_cons]
      simp only [Bool.not_eq_true] at hfa
      rw [hfa]
      exact ih hxt (fun y hy hfy => huniq y (List.mem_cons_of_mem _ hy) hfy)

/-! ### The catalog: agreement and distinctness of `fill` output -/

theorem Pattern.has_EMPTY (r c : Nat) : Pattern.EMPTY.has r c = false := by
  unfold Pattern.has Pattern.EMPTY Pattern.word
  split_ifs <;> simp

theorem fill_mem_agree :
    ∀ (left : Nat) (build : Pattern) (cols boxes : Nat) (p : Pattern),
      p ∈ fill build cols boxes left →
      ∀ r c, r < 9 - left → c < 9 → p.has r c = build.has r c := by
  intro left
  induction left with
  | zero =>
    intro build cols boxes p hp r c hr hc
    simp [fill] at hp
    subst hp
    rfl
  | succ left ih =>
    intro build cols boxes p hp r c hr hc
    simp only [fill, List.mem_flatMap, List.mem_range] at hp
    obtain ⟨col, hcol, hin⟩ := hp
    split_ifs at hin with hvalid
    · rw [ih _ _ _ p hin r c (by omega) hc]
      exact Pattern.has_withCell_of_ne build (by omega) (by omega) (by omega) hc
        (by omega)
    · cases hin

theorem fill_nodup :
    ∀ (left : Nat) (build : Pattern) (cols boxes : Nat), left ≤ 9 →
      (∀ r c, r < 9 → c < 9 → 9 - left ≤ r → build.has r c = false) →
      (fill build cols boxes left).Nodup := by
  intro left
  induction left with
  | zero =>
    intro build cols boxes _ _
    simp [fill]
  | succ left ih =>
    intro build cols boxes hle hempty
    simp only [fill]
    rw [List.nodup_flatMap]
    constructor
    · intro col hcol
      split_ifs with hvalid
      · refine ih _ _ _ (by omega) ?_
        intro r c hrb hcb hr
        rw [Pattern.has_withCell_of_ne build (by omega) (by
          simpa using List.mem_range.mp hcol) hrb hcb (by omega)]
        exact hempty r c hrb hcb (by omega)
      · simp
    · rw [List.pairwise_iff_forall_sublist]
      intro col1 col2 hsub
      have hlt : col1 < col2 := by
        have := List.Pairwise.sublist hsub (List.pairwise_lt_range 9)
        exact List.rel_of_pairwise_cons this (List.mem_cons_self _ _)
      have hc1 : col1 < 9 := by
        have := hsub.subset (List.mem_cons_self _ _)
        simpa using this
      have hc2 : col2 < 9 := by
        have := hsub.subset (List.mem_cons_of_mem _ (List.mem_cons_self _ _))
        simpa using this
      simp only [Function.onFun]
      split_ifs with hv1 hv2 hv2
      · intro p hp1 hp2
        have h1 : p.has (9 - (left + 1)) col1 = true := by
          rw [fill_mem_agree left _ _ _ p hp1 _ col1 (by omega) hc1]
          exact Pattern.has_withCell_self build _ col1
        have h2 : p.has (9 - (left + 1)) col1 = false := by
          rw [fill_mem_agree left _ _ _ p hp2 _ col1 (by omega) hc1]
          rw [Pattern.has_withCell_of_ne build (by omega) hc2 (by omega) hc1
            (by omega)]
          exact hempty _ col1 (by omega) hc1 (by omega)
        rw [h1] at h2
        cases h2
      · intro p hp1 hp2
        cases hp2
      · intro p hp1
        cases hp1
      · intro p hp1
        cases hp1

/-! ### Mask and box-cell helpers -/

theorem shiftLeft_and_eq_zero_iff (k m : Nat) :
    ((1 <<< k) &&& m = 0) ↔ m.testBit k = false := by
  rw [Nat.one_shiftLeft, Nat.two_pow_and]
  cases h : m.testBit k <;> simp [h, Nat.pos_iff_ne_zero, Nat.pow_eq_zero]

theorem testBit_or_shiftLeft (m k j : Nat) :
    (m ||| (1 <<< k)).testBit j = (m.testBit j || decide (k = j)) := by
  rw [Nat.testBit_lor, Nat.one_shiftLeft, Nat.testBit_two_pow]

theorem box_cells_coords {a b : Nat} :
    ∀ rc ∈ box_cells a b, rc.1 / 3 = a / 3 ∧ rc.2 / 3 = b / 3 := by
  intro rc hrc
  simp only [box_cells, List.mem_cons, List.not_mem_nil, or_false] at hrc
  rcases hrc with h | h | h | h | h | h | h | h | h <;> subst h <;>
    exact ⟨by omega, by omega⟩

theorem box_cells_bounds {a b : Nat} (ha : a < 9) (hb : b < 9) :
    ∀ rc ∈ box_cells a b, rc.1 < 9 ∧ rc.2 < 9 := by
  intro rc hrc
  simp only [box_cells, List.mem_cons, List.not_mem_nil, or_false] at hrc
  rcases hrc with h | h | h | h | h | h | h | h | h <;> subst h <;>
    exact ⟨by omega, by omega⟩

theorem mem_box_cells_self (row col : Nat) :
    (row, col) ∈ box_cells row col := by
  simp only [box_cells, List.mem_cons, List.not_mem_nil, or_false, Prod.mk.injEq]
  omega

theorem box_cells_nodup (a b : Nat) : (box_cells a b).Nodup := by
  simp [box_cells, Prod.ext_iff]

theorem box_cells_congr {a b a2 b2 : Nat} (ha : a / 3 = a2 / 3) (hb : b / 3 = b2 / 3) :
    box_cells a b = box_cells a2 b2 := by
  simp [box_cells, ha, hb]

theorem bool_sum_two {b0 b1 b2 : Bool} (h : b0.toNat + b1.toNat + b2.toNat = 2) :
    (b0 = false → b1 = true ∧ b2 = true) ∧ (b1 = false → b0 = true ∧ b2 = true) ∧
      (b2 = false → b0 = true ∧ b1 = true) := by
  revert h
  cases b0 <;> cases b1 <;> cases b2 <;> decide

theorem or_decide_triple_sum {m k a0 a1 a2 : Nat}
    (hk : k = a0 ∨ k = a1 ∨ k = a2) (h01 : a0 ≠ a1) (h02 : a0 ≠ a2) (h12 : a1 ≠ a2)
    (hfree : m.testBit k = false) :
    (m.testBit a0 || decide (k = a0)).toNat + (m.testBit a1 || decide (k = a1)).toNat +
        (m.testBit a2 || decide (k = a2)).toNat =
      (m.testBit a0).toNat + (m.testBit a1).toNat + (m.testBit a2).toNat + 1 := by
  rcases hk with h | h | h
  · have hf : m.testBit a0 = false := by rw [← h]; exact hfree
    have d0 : decide (k = a0) = true := by simp [h]
    have d1 : decide (k = a1) = false := by simp [h]; omega
    have d2 : decide (k = a2) = false := by simp [h]; omega
    rw [hf, d0, d1, d2]
    simp only [Bool.false_or, Bool.or_false, Bool.or_true, Bool.toNat_true, Bool.toNat_false]
    omega
  · have hf : m.testBit a1 = false := by rw [← h]; exact hfree
    have d0 : decide (k = a0) = false := by simp [h]; omega
    have d1 : decide (k = a1) = true := by simp [h]
    have d2 : decide (k = a2) = false := by simp [h]; omega
    rw [hf, d0, d1, d2]
    simp only [Bool.false_or, Bool.or_false, Bool.or_true, Bool.toNat_true, Bool.toNat_false]
    try omega
  · have hf : m.testBit a2 = false := by rw [← h]; exact hfree
    have d0 : decide (k = a0) = false := by simp [h]; omega
    have d1 : decide (k = a1) = false := by simp [h]; omega
    have d2 : decide (k = a2) = true := by simp [h]
    rw [hf, d0, d1, d2]
    simp only [Bool.false_or, Bool.or_false, Bool.or_true, Bool.toNat_true, Bool.toNat_false]
    try omega

theorem fillInv_step {row cols boxes : Nat} {build : Pattern}
    (hinv : FillInv row cols boxes build) (hrow : row < 9) {col : Nat} (hcol : col < 9)
    (hc : (1 <<< col) &&& cols = 0) (hb : (1 <<< (row / 3 * 3 + col / 3)) &&& boxes = 0) :
    FillInv (row + 1) (cols ||| (1 <<< col)) (boxes ||| (1 <<< (row / 3 * 3 + col / 3)))
      (build.withCell row col) := by
  obtain ⟨h9, hwf, hA, hB, hC, hD, hGc, hGb, hE1, hE2, hE3, hF⟩ := hinv
  have hcfree : cols.testBit col = false := (shiftLeft_and_eq_zero_iff _ _).mp hc
  have hbfree : boxes.testBit (row / 3 * 3 + col / 3) = false :=
    (shiftLeft_and_eq_zero_iff _ _).mp hb
  have hbfree2 : boxes.testBit (3 * (row / 3) + col / 3) = false := by
    rw [show 3 * (row / 3) + col / 3 = row / 3 * 3 + col / 3 by ring]
    exact hbfree
  have hcolsBit : ∀ j, (cols ||| 1 <<< col).testBit j =
      (cols.testBit j || decide (col = j)) := fun j => testBit_or_shiftLeft _ _ _
  have hboxBit : ∀ j, (boxes ||| 1 <<< (row / 3 * 3 + col / 3)).testBit j =
      (boxes.testBit j || decide (row / 3 * 3 + col / 3 = j)) :=
    fun j => testBit_or_shiftLeft _ _ _
  have hOtherTrue : row % 3 = 2 → ∀ t, t < 3 → t ≠ col / 3 →
      boxes.testBit (3 * (row / 3) + t) = true := by
    intro h2 t ht htne
    rw [h2] at hE3
    have hkey := bool_sum_two hE3
    have hc3 : col / 3 = 0 ∨ col / 3 = 1 ∨ col / 3 = 2 := by omega
    rcases hc3 with h3 | h3 | h3 <;> rw [h3] at hbfree2 htne
    · have hq := hkey.1 (by simpa using hbfree2)
      interval_cases t
      · omega
      · exact hq.1
      · exact hq.2
    · have hq := hkey.2.1 hbfree2
      interval_cases t
      · simpa using hq.1
      · omega
      · exact hq.2
    · have hq := hkey.2.2 hbfree2
      interval_cases t
      · simpa using hq.1
      · exact hq.2
      · omega
  refine ⟨by omega, Pattern.wf_withCell hwf hrow hcol, ?_, ?_, ?_, ?_, ?_, ?_, ?_, ?_, ?_, ?_⟩
  · -- rows at or above row+1 still empty
    intro r c2 hr hc2 hge
    rw [Pattern.has_withCell_of_ne build hrow hcol hr hc2 (by omega)]
    exact hA r c2 hr hc2 (by omega)
  · -- rows below row+1 have one cell
    intro r hr
    by_cases hreq : r = row
    · subst hreq
      unfold rowCount
      refine countP_eq_one_of_unique (List.nodup_range 9) (List.mem_range.mpr hcol)
        (Pattern.has_withCell_self build r col) ?_
      intro y hy hyne
      rw [Pattern.has_withCell_of_ne build hrow hcol hrow (List.mem_range.mp hy)
        (by simp [hyne])]
      exact hA r y hrow (List.mem_range.mp hy) (by omega)
    · unfold rowCount
      rw [List.countP_congr (fun c2 hc2 => by
        rw [Pattern.has_withCell_of_ne build hrow hcol (by omega)
          (List.mem_range.mp hc2) (by omega)])]
      exact hB r (by omega)
  · -- column counts match the new mask
    intro c2 hc2
    rw [hcolsBit]
    by_cases hceq : c2 = col
    · subst hceq
      unfold colCount
      have hstep : (List.range 9).countP (fun r => (build.withCell row c2).has r c2) =
          (List.range 9).countP (fun r => build.has r c2) + 1 := by
        refine countP_succ_flip (List.nodup_range 9) (List.mem_range.mpr hrow)
          (hA row c2 hrow hc2 (by omega)) (Pattern.has_withCell_self build row c2) ?_
        intro y hy hyne
        rw [Pattern.has_withCell_of_ne build hrow hc2 (List.mem_range.mp hy) hc2
          (by simp [hyne])]
      rw [hstep]
      have hcc := hC c2 hc2
      unfold colCount at hcc
      rw [hcc, hcfree]
      simp
    · have hdec : ¬(col = c2) := fun hh => hceq hh.symm
      unfold colCount
      rw [List.countP_congr (fun r hr => by
        rw [Pattern.has_withCell_of_ne build hrow hcol (List.mem_range.mp hr) hc2
          (by omega)])]
      have hcc := hC c2 hc2
      unfold colCount at hcc
      rw [hcc]
      simp [hdec]
  · -- box counts match the new mask
    intro b hbb
    rw [hboxBit]
    by_cases hbeq : b = row / 3 * 3 + col / 3
    · subst hbeq
      unfold boxCount
      rw [@box_cells_congr ((row / 3 * 3 + col / 3) / 3 * 3) ((row / 3 * 3 + col / 3) % 3 * 3)
        row col (by omega) (by omega)]
      have hstep : (box_cells row col).countP
            (fun rc => (build.withCell row col).has rc.1 rc.2) =
          (box_cells row col).countP (fun rc => build.has rc.1 rc.2) + 1 := by
        refine countP_succ_flip (box_cells_nodup row col) (mem_box_cells_self row col)
          (hA row col hrow hcol (by omega)) (Pattern.has_withCell_self build row col) ?_
        intro y hy hyne
        obtain ⟨hy1, hy2⟩ := box_cells_bounds hrow hcol y hy
        refine (Pattern.has_withCell_of_ne build hrow hcol hy1 hy2 ?_).symm
        intro ⟨ha1, ha2⟩
        exact hyne (Prod.ext ha1 ha2)
      rw [hstep]
      have hdd := hD (row / 3 * 3 + col / 3) hbb
      unfold boxCount at hdd
      rw [@box_cells_congr ((row / 3 * 3 + col / 3) / 3 * 3) ((row / 3 * 3 + col / 3) % 3 * 3)
        row col (by omega) (by omega)] at hdd
      rw [hdd, hbfree]
      simp
    · have hdec : ¬(row / 3 * 3 + col / 3 = b) := fun hh => hbeq hh.symm
      unfold boxCount
      rw [List.countP_congr (fun rc hrc => by
        obtain ⟨hrc1, hrc2⟩ := box_cells_coords rc hrc
        obtain ⟨hb1, hb2⟩ := box_cells_bounds (a := b / 3 * 3) (b := b % 3 * 3)
          (by omega) (by omega) rc hrc
        rw [Pattern.has_withCell_of_ne build hrow hcol hb1 hb2 (by
          intro ⟨ha1, ha2⟩
          apply hdec
          omega)])]
      have hdd := hD b hbb
      unfold boxCount at hdd
      rw [hdd]
      simp [hdec]
  · -- col mask bits at 9 and beyond are clear
    intro c2 hc2
    rw [hcolsBit, hGc c2 hc2]
    simp
    omega
  · -- box mask bits at 9 and beyond are clear
    intro b hbb
    rw [hboxBit, hGb b hbb]
    simp
    omega
  · -- bands before the current one fully used
    intro t bb ht hbb hlt
    rw [hboxBit]
    by_cases hbo : bb < row / 3
    · rw [hE1 t bb ht hbb hbo]
      simp
    · have h2 : row % 3 = 2 ∧ bb = row / 3 := by omega
      by_cases hteq : t = col / 3
      · have hxx : row / 3 * 3 + col / 3 = 3 * bb + t := by omega
        simp [hxx]
      · rw [show 3 * bb + t = 3 * (row / 3) + t by omega]
        rw [hOtherTrue h2.1 t ht hteq]
        simp
  · -- bands after the current one untouched
    intro t bb ht hbb hgt
    rw [hboxBit]
    have hne : ¬(row / 3 * 3 + col / 3 = 3 * bb + t) := by omega
    rw [hE2 t bb ht hbb (by omega)]
    simp [hne]
  · -- current band box count
    rw [hboxBit, hboxBit, hboxBit]
    by_cases hband : row % 3 = 2
    · have hdiv : (row + 1) / 3 = row / 3 + 1 := by omega
      rw [hdiv]
      have hzt : ∀ t2, t2 < 3 → boxes.testBit (3 * (row / 3 + 1) + t2) = false := by
        intro t2 ht2
        by_cases hb2 : row / 3 + 1 < 3
        · exact hE2 t2 (row / 3 + 1) ht2 hb2 (by omega)
        · exact hGb _ (by omega)
      have hz0 : boxes.testBit (3 * (row / 3 + 1)) = false := by
        simpa using hzt 0 (by omega)
      have hne0 : ¬(row / 3 * 3 + col / 3 = 3 * (row / 3 + 1)) := by omega
      have hne1 : ¬(row / 3 * 3 + col / 3 = 3 * (row / 3 + 1) + 1) := by omega
      have hne2 : ¬(row / 3 * 3 + col / 3 = 3 * (row / 3 + 1) + 2) := by omega
      rw [hz0, hzt 1 (by omega), hzt 2 (by omega),
        decide_eq_false hne0, decide_eq_false hne1, decide_eq_false hne2]
      simp only [Bool.or_false, Bool.toNat_false]
      omega
    · have hdiv : (row + 1) / 3 = row / 3 := by omega
      rw [hdiv]
      rw [or_decide_triple_sum (m := boxes) (k := row / 3 * 3 + col / 3)
        (by omega) (by omega) (by omega) (by omega) hbfree]
      omega
  · -- per-triple column usage
    intro t ht
    rw [hcolsBit, hcolsBit, hcolsBit, hboxBit]
    by_cases hteq : t = col / 3
    · -- the new column lands in this triple, and the new box is this band's box t
      rw [or_decide_triple_sum (m := cols) (k := col)
        (by omega) (by omega) (by omega) (by omega) hcfree]
      have hsum := hF t ht
      by_cases hband : row % 3 = 2
      · have hdiv : (row + 1) / 3 = row / 3 + 1 := by omega
        rw [hdiv]
        have hzt : boxes.testBit (3 * (row / 3 + 1) + t) = false := by
          by_cases hb2 : row / 3 + 1 < 3
          · exact hE2 t (row / 3 + 1) ht hb2 (by omega)
          · exact hGb _ (by omega)
        have hnet : ¬(row / 3 * 3 + col / 3 = 3 * (row / 3 + 1) + t) := by omega
        rw [hzt, decide_eq_false hnet]
        simp only [Bool.or_false, Bool.toNat_false, Nat.add_zero]
        rw [show 3 * (row / 3) + t = 3 * (row / 3) + col / 3 by omega] at hsum
        rw [hbfree2] at hsum
        simp only [Bool.toNat_false, Nat.add_zero] at hsum
        omega
      · have hdiv : (row + 1) / 3 = row / 3 := by omega
        rw [hdiv]
        rw [show 3 * (row / 3) + t = 3 * (row / 3) + col / 3 by omega] at hsum ⊢
        rw [hbfree2] at hsum
        rw [hbfree2, decide_eq_true
          (show row / 3 * 3 + col / 3 = 3 * (row / 3) + col / 3 by omega)]
        simp only [Bool.false_or, Bool.toNat_true, Bool.toNat_false, Nat.add_zero] at hsum ⊢
        omega
    · -- the new column is outside this triple
      have hn0 : ¬(col = 3 * t) := by omega
      have hn1 : ¬(col = 3 * t + 1) := by omega
      have hn2 : ¬(col = 3 * t + 2) := by omega
      by_cases hband : row % 3 = 2
      · have hdiv : (row + 1) / 3 = row / 3 + 1 := by omega
        rw [hdiv]
        have hzt : boxes.testBit (3 * (row / 3 + 1) + t) = false := by
          by_cases hb2 : row / 3 + 1 < 3
          · exact hE2 t (row / 3 + 1) ht hb2 (by omega)
          · exact hGb _ (by omega)
        have hnet : ¬(row / 3 * 3 + col / 3 = 3 * (row / 3 + 1) + t) := by omega
        have hbt : boxes.testBit (3 * (row / 3) + t) = true := hOtherTrue hband t ht hteq
        have hsum := hF t ht
        rw [hbt] at hsum
        simp only [Bool.toNat_true] at hsum
        rw [hzt, decide_eq_false hnet, decide_eq_false hn0, decide_eq_false hn1,
          decide_eq_false hn2]
        simp only [Bool.or_false, Bool.toNat_false, Nat.add_zero]
        omega
      · have hdiv : (row + 1) / 3 = row / 3 := by omega
        rw [hdiv]
        have hnet : ¬(row / 3 * 3 + col / 3 = 3 * (row / 3) + t) := by omega
        rw [decide_eq_false hnet, decide_eq_false hn0, decide_eq_false hn1,
          decide_eq_false hn2]
        simp only [Bool.or_false, Bool.toNat_false, Nat.add_zero]
        exact hF t ht

theorem bool_sum_three {b0 b1 b2 : Bool} (h : b0.toNat + b1.toNat + b2.toNat = 3) :
    b0 = true ∧ b1 = true ∧ b2 = true := by
  revert h
  cases b0 <;> cases b1 <;> cases b2 <;> decide

theorem fillInv_zero : FillInv 0 0 0 Pattern.EMPTY := by
  refine ⟨by omega, by decide, ?_, ?_, ?_, ?_, ?_, ?_, ?_, ?_, ?_, ?_⟩
  · intro r c _ _ _
    exact Pattern.has_EMPTY r c
  · intro r hr
    omega
  · intro c _
    unfold colCount
    rw [List.countP_eq_zero.mpr (fun r _ => by simp [Pattern.has_EMPTY])]
    simp
  · intro b _
    unfold boxCount
    rw [List.countP_eq_zero.mpr (fun rc _ => by simp [Pattern.has_EMPTY])]
    simp
  · intro c _
    exact Nat.zero_testBit c
  · intro b _
    exact Nat.zero_testBit b
  · intro t bb _ _ h
    omega
  · intro t bb _ _ _
    exact Nat.zero_testBit _
  · simp [Nat.zero_testBit]
  · intro t _
    simp [Nat.zero_testBit]

/-- Every pattern produced by `fill` from an invariant-satisfying state has
the template shape and is well formed. -/
theorem fill_mem_shape :
    ∀ left, left ≤ 9 → ∀ build cols boxes, FillInv (9 - left) cols boxes build →
      ∀ p ∈ fill build cols boxes left, p.shape ∧ p.wf := by
  intro left
  induction left with
  | zero =>
    intro _ build cols boxes hinv p hp
    simp [fill] at hp
    subst hp
    obtain ⟨h9, hwf, hA, hB, hC, hD, hGc, hGb, hE1, hE2, hE3, hF⟩ := hinv
    simp only [Nat.sub_zero] at hB hE1 hF
    refine ⟨⟨fun r hr => hB r hr, ?_, ?_⟩, hwf⟩
    · intro c hc
      have hsum := hF (c / 3) (by omega)
      have hbb : boxes.testBit (3 * (9 / 3) + c / 3) = false := hGb _ (by omega)
      rw [hbb] at hsum
      simp only [Bool.toNat_false, Nat.add_zero] at hsum
      norm_num at hsum
      have hall := bool_sum_three hsum
      have hceq : c = 3 * (c / 3) ∨ c = 3 * (c / 3) + 1 ∨ c = 3 * (c / 3) + 2 := by omega
      have hbit : cols.testBit c = true := by
        rcases hceq with h | h | h <;> rw [h]
        · exact hall.1
        · exact hall.2.1
        · exact hall.2.2
      rw [hC c hc, hbit]
      rfl
    · intro b hb
      have hbit : boxes.testBit b = true := by
        have := hE1 (b % 3) (b / 3) (by omega) (by omega) (by omega)
        rwa [show 3 * (b / 3) + b % 3 = b by omega] at this
      rw [hD b hb, hbit]
      rfl
  | succ left ih =>
    intro hle build cols boxes hinv p hp
    simp only [fill, List.mem_flatMap, List.mem_range] at hp
    obtain ⟨col, hcol, hin⟩ := hp
    split_ifs at hin with hvalid
    · rw [Bool.and_eq_true] at hvalid
      have hv1 : (1 <<< col) &&& cols = 0 := of_decide_eq_true hvalid.1
      have hv2 : (1 <<< ((9 - (left + 1)) / 3 * 3 + col / 3)) &&& boxes = 0 :=
        of_decide_eq_true hvalid.2
      refine ih (by omega) _ _ _ ?_ p hin
      have h91 : 9 - left = (9 - (left + 1)) + 1 := by omega
      rw [h91]
      exact fillInv_step hinv (by omega) hcol hv1 hv2
    · cases hin

theorem ite_valid_eq (k bx K cols boxes : Nat) :
    (if (decide ((1 <<< k) &&& cols = 0) && decide ((1 <<< bx) &&& boxes = 0)) = true
      then K else 0) = (!cols.testBit k && !boxes.testBit bx).toNat * K := by
  by_cases h1 : cols.testBit k = true <;> by_cases h2 : boxes.testBit bx = true <;>
    simp [h1, h2, shiftLeft_and_eq_zero_iff]

theorem triple_toNat_mul {c0 c1 c2 B : Bool} {band K : Nat}
    (hsum : c0.toNat + c1.toNat + c2.toNat = band + B.toNat) (hband : band ≤ 3) :
    (!c0 && !B).toNat * K + (!c1 && !B).toNat * K + (!c2 && !B).toNat * K =
      (1 - B.toNat) * (3 - band) * K := by
  interval_cases band <;> cases B <;> cases c0 <;> cases c1 <;> cases c2 <;>
    simp_all <;> try omega

theorem band_total {B0 B1 B2 : Bool} {j band K : Nat}
    (hj : B0.toNat + B1.toNat + B2.toNat = j) (hband : band ≤ 2) :
    (1 - B0.toNat) * (3 - band) * K + (1 - B1.toNat) * (3 - band) * K +
        (1 - B2.toNat) * (3 - band) * K = (3 - j) * (3 - band) * K := by
  subst hj
  interval_cases band <;> cases B0 <;> cases B1 <;> cases B2 <;>
    (try simp) <;> (try ring)

theorem fill_length :
    ∀ left, left ≤ 9 → ∀ build cols boxes, FillInv (9 - left) cols boxes build →
      (fill build cols boxes left).length = fillLen left := by
  intro left
  induction left with
  | zero =>
    intro _ build cols boxes _
    simp [fill, fillLen]
  | succ left ih =>
    intro hle build cols boxes hinv
    have hrow9 : 9 - (left + 1) < 9 := by omega
    have hstepInv : ∀ col, col < 9 →
        ((1 <<< col) &&& cols = 0) → ((1 <<< ((9 - (left + 1)) / 3 * 3 + col / 3)) &&& boxes = 0) →
        FillInv (9 - left) (cols ||| (1 <<< col))
          (boxes ||| (1 <<< ((9 - (left + 1)) / 3 * 3 + col / 3))) (build.withCell (9 - (left + 1)) col) := by
      intro col hcol hv1 hv2
      have h91 : 9 - left = (9 - (left + 1)) + 1 := by omega
      rw [h91]
      exact fillInv_step hinv hrow9 hcol hv1 hv2
    simp only [fill]
    rw [List.length_flatMap]
    rw [List.map_congr_left (fun col hcol => by
      show _ = if (decide ((1 <<< col) &&& cols = 0) &&
          decide ((1 <<< ((9 - (left + 1)) / 3 * 3 + col / 3)) &&& boxes = 0)) = true
        then fillLen left else 0
      simp only [Function.comp]
      split_ifs with hv
      · rw [Bool.and_eq_true] at hv
        exact ih (by omega) _ _ _ (hstepInv col (List.mem_range.mp hcol)
          (of_decide_eq_true hv.1) (of_decide_eq_true hv.2))
      · rfl)]
    obtain ⟨h9, hwf, hA, hB, hC, hD, hGc, hGb, hE1, hE2, hE3, hF⟩ := hinv
    have hrange : List.range 9 = [0, 1, 2, 3, 4, 5, 6, 7, 8] := by rfl
    rw [hrange]
    simp only [List.map_cons, List.map_nil, List.sum_cons, List.sum_nil, Nat.add_zero]
    rw [ite_valid_eq, ite_valid_eq, ite_valid_eq, ite_valid_eq, ite_valid_eq,
      ite_valid_eq, ite_valid_eq, ite_valid_eq, ite_valid_eq]
    simp only [show (0 : Nat) / 3 = 0 from rfl, show (1 : Nat) / 3 = 0 from rfl,
      show (2 : Nat) / 3 = 0 from rfl, show (3 : Nat) / 3 = 1 from rfl,
      show (4 : Nat) / 3 = 1 from rfl, show (5 : Nat) / 3 = 1 from rfl,
      show (6 : Nat) / 3 = 2 from rfl, show (7 : Nat) / 3 = 2 from rfl,
      show (8 : Nat) / 3 = 2 from rfl, Nat.add_zero]
    have hmc : (9 - (left + 1)) / 3 * 3 = 3 * ((9 - (left + 1)) / 3) := by ring
    rw [hmc]
    have ht0 : (!cols.testBit 0 && !boxes.testBit (3 * ((9 - (left + 1)) / 3))).toNat * fillLen left +
          (!cols.testBit 1 && !boxes.testBit (3 * ((9 - (left + 1)) / 3))).toNat * fillLen left +
          (!cols.testBit 2 && !boxes.testBit (3 * ((9 - (left + 1)) / 3))).toNat * fillLen left =
        (1 - (boxes.testBit (3 * ((9 - (left + 1)) / 3))).toNat) * (3 - (9 - (left + 1)) / 3) *
          fillLen left := by
      refine triple_toNat_mul ?_ (by omega)
      have := hF 0 (by omega)
      simpa using this
    have ht1 : (!cols.testBit 3 && !boxes.testBit (3 * ((9 - (left + 1)) / 3) + 1)).toNat * fillLen left +
          (!cols.testBit 4 && !boxes.testBit (3 * ((9 - (left + 1)) / 3) + 1)).toNat * fillLen left +
          (!cols.testBit 5 && !boxes.testBit (3 * ((9 - (left + 1)) / 3) + 1)).toNat * fillLen left =
        (1 - (boxes.testBit (3 * ((9 - (left + 1)) / 3) + 1)).toNat) * (3 - (9 - (left + 1)) / 3) *
          fillLen left := by
      refine triple_toNat_mul ?_ (by omega)
      have := hF 1 (by omega)
      simpa using this
    have ht2 : (!cols.testBit 6 && !boxes.testBit (3 * ((9 - (left + 1)) / 3) + 2)).toNat * fillLen left +
          (!cols.testBit 7 && !boxes.testBit (3 * ((9 - (left + 1)) / 3) + 2)).toNat * fillLen left +
          (!cols.testBit 8 && !boxes.testBit (3 * ((9 - (left + 1)) / 3) + 2)).toNat * fillLen left =
        (1 - (boxes.testBit (3 * ((9 - (left + 1)) / 3) + 2)).toNat) * (3 - (9 - (left + 1)) / 3) *
          fillLen left := by
      refine triple_toNat_mul ?_ (by omega)
      have := hF 2 (by omega)
      simpa using this
    calc _ = (1 - (boxes.testBit (3 * ((9 - (left + 1)) / 3))).toNat) * (3 - (9 - (left + 1)) / 3) *
          fillLen left +
        (1 - (boxes.testBit (3 * ((9 - (left + 1)) / 3) + 1)).toNat) * (3 - (9 - (left + 1)) / 3) *
          fillLen left +
        (1 - (boxes.testBit (3 * ((9 - (left + 1)) / 3) + 2)).toNat) * (3 - (9 - (left + 1)) / 3) *
          fillLen left := by
          rw [← ht0, ← ht1, ← ht2]
          ring
      _ = (3 - (9 - (left + 1)) % 3) * (3 - (9 - (left + 1)) / 3) * fillLen left :=
          band_total hE3 (by omega)
      _ = fillLen (left + 1) := by rw [fillLen]

theorem fillInv_start : FillInv (9 - 9) 0 0 Pattern.EMPTY := fillInv_zero

theorem template_all_length : Template.all.length = 46656 := by
  rw [Template.all, fill_length 9 (by omega) _ _ _ fillInv_start]
  rfl

theorem template_all_nodup : Template.all.Nodup := by
  rw [Template.all]
  exact fill_nodup 9 _ _ _ (by omega) (fun r c _ _ _ => Pattern.has_EMPTY r c)

theorem template_all_shape : ∀ p ∈ Template.all, p.shape ∧ p.wf := by
  rw [Template.all]
  exact fill_mem_shape 9 (by omega) _ _ _ fillInv_start

theorem countP_enumFrom {α : Type} (f : α → Bool) :
    ∀ (l : List α) (n : Nat),
      (List.enumFrom n l).countP (fun ip => f ip.2) = l.countP f := by
  intro l
  induction l with
  | nil => intro n; rfl
  | cons a as ih =>
    intro n
    simp only [List.enumFrom, List.countP_cons, ih]

theorem within_length (p : Pattern) :
    (Template.within p).length = Template.all.countP (fun q => q.is_subset p) := by
  rw [Template.within, List.length_map, ← List.countP_eq_length_filter, List.enum]
  exact countP_enumFrom (fun q => q.is_subset p) Template.all 0

theorem mem_within_iff (p : Pattern) (t : Template) :
    t ∈ Template.within p ↔
      t.idx < Template.all.length ∧
        (Template.all.getD t.idx Pattern.EMPTY).is_subset p = true := by
  obtain ⟨i⟩ := t
  rw [Template.within]
  constructor
  · intro h
    obtain ⟨ip, hip, hmk⟩ := List.mem_map.mp h
    obtain ⟨hmem, hsub⟩ := List.mem_filter.mp hip
    have hidx : ip.1 = i := congrArg Template.idx hmk
    have hget : Template.all[ip.1]? = some ip.2 := List.mem_enum_iff_getElem?.mp hmem
    obtain ⟨hlt, hval⟩ := List.getElem?_eq_some.mp hget
    rw [hidx] at hlt
    refine ⟨hlt, ?_⟩
    rw [List.getD_eq_getElem Template.all Pattern.EMPTY hlt]
    have : Template.all[i] = ip.2 := by
      subst hidx
      exact hval
    rw [this]
    exact hsub
  · rintro ⟨hlt, hsub⟩
    refine List.mem_map.mpr ⟨(i, Template.all.getD i Pattern.EMPTY), ?_, rfl⟩
    refine List.mem_filter.mpr ⟨?_, hsub⟩
    refine List.mem_enum_iff_getElem?.mpr ?_
    rw [List.getElem?_eq_getElem hlt, List.getD_eq_getElem Template.all Pattern.EMPTY hlt]

theorem enum_nodup {α : Type} (l : List α) : l.enum.Nodup := by
  have h : (l.enum.map Prod.fst).Nodup := by
    rw [List.enum_map_fst]
    exact List.nodup_range l.length
  exact h.of_map Prod.fst

theorem within_nodup (p : Pattern) : (Template.within p).Nodup := by
  rw [Template.within]
  apply List.Nodup.map_on
  · intro x hx y hy hmk
    have h1 : x.1 = y.1 := congrArg Template.idx hmk
    have hx2 : Template.all[x.1]? = some x.2 :=
      List.mem_enum_iff_getElem?.mp (List.mem_filter.mp hx).1
    have hy2 : Template.all[y.1]? = some y.2 :=
      List.mem_enum_iff_getElem?.mp (List.mem_filter.mp hy).1
    rw [h1] at hx2
    rw [hx2] at hy2
    exact Prod.ext h1 (Option.some.inj hy2)
  · exact List.Nodup.filter _ (enum_nodup Template.all)

/-- C6: `Template::within p` yields exactly the templates whose catalog
pattern is a subset of `p` — a template is in the list iff its index is a
catalog index whose pattern is a subset of `p` — and each occurs exactly
once (the list has no duplicates). -/
theorem within_spec (p : Pattern) :
    (∀ t : Template, t ∈ Template.within p ↔
        t.idx < Template.all.length ∧ t.as_pattern.is_subset p = true) ∧
      (Template.within p).Nodup :=
  ⟨fun t => mem_within_iff p t, within_nodup p⟩

theorem getD_mem_of_lt {α : Type} {l : List α} {d : α} {i : Nat} (h : i < l.length) :
    l.getD i d ∈ l := by
  rw [List.getD_eq_getElem l d h]
  exact List.getElem_mem h

theorem nat_and_two_pow_sub_one {w n : Nat} (h : w < 2 ^ n) :
    w &&& (2 ^ n - 1) = w := by
  apply Nat.eq_of_testBit_eq
  intro j
  rw [Nat.testBit_and, Nat.testBit_two_pow_sub_one]
  by_cases hj : j < n
  · simp [hj]
  · have hw : w.testBit j = false :=
      Nat.testBit_lt_two_pow
        (lt_of_lt_of_le h (Nat.pow_le_pow_right (by omega) (by omega)))
    simp [hw]

theorem Pattern.is_subset_FULL {p : Pattern} (h : p.wf) :
    p.is_subset Pattern.FULL = true := by
  obtain ⟨hw0, hw1, hw2⟩ := h
  have hland : p.land Pattern.FULL = p := by
    obtain ⟨w0, w1, w2⟩ := p
    simp only [Pattern.land, Pattern.FULL, Pattern.mk.injEq]
    refine ⟨?_, ?_, ?_⟩
    · exact show w0 &&& (2 ^ 32 - 1) = w0 from nat_and_two_pow_sub_one hw0
    · exact show w1 &&& (2 ^ 32 - 1) = w1 from nat_and_two_pow_sub_one hw1
    · exact show w2 &&& (2 ^ 17 - 1) = w2 from nat_and_two_pow_sub_one hw2
  rw [Pattern.is_subset, hland]
  exact beq_self_eq_true p

/-- C10: every template produced by `Template::within`, as well as the
default template `Template(0)`, wraps an index strictly below 46656 and
within the catalog's length, so `as_pattern`'s table lookup is in bounds. -/
theorem within_index_bounds (p : Pattern) (t : Template)
    (h : t ∈ Template.within p ∨ t = Template.mk 0) :
    t.idx < 46656 ∧ t.idx < Template.all.length := by
  rcases h with h | h
  · have hm := (mem_within_iff p t).mp h
    exact ⟨template_all_length ▸ hm.1, hm.1⟩
  · subst h
    refine ⟨by decide, ?_⟩
    rw [template_all_length]
    decide

theorem mk_zero_mem_within_FULL : Template.mk 0 ∈ Template.within Pattern.FULL := by
  have hlen : 0 < Template.all.length := by
    rw [template_all_length]
    omega
  refine (mem_within_iff Pattern.FULL (Template.mk 0)).mpr ⟨hlen, ?_⟩
  exact Pattern.is_subset_FULL (template_all_shape _ (getD_mem_of_lt hlen)).2

/-- Witness for C10: `Template(0)` is produced by `within(FULL)`, and the
claim theorem bounds its index. -/
theorem within_index_bounds_witness :
    (Template.mk 0).idx < 46656 ∧ (Template.mk 0).idx < Template.all.length :=
  within_index_bounds Pattern.FULL (Template.mk 0) (Or.inl mk_zero_mem_within_FULL)

theorem countP_flatMap {α β : Type} (l : List α) (f : α → List β) (g : β → Bool) :
    (l.flatMap f).countP g = (l.map (fun a => (f a).countP g)).sum := by
  induction l with
  | nil => rfl
  | cons a as ih => simp [List.flatMap_cons, List.countP_append, ih]

theorem range81_eq : List.range 81 =
    (List.range 9).flatMap (fun r => (List.range 9).map (fun c => 9 * r + c)) := by
  rfl

theorem cellsCount_eq_nine {p : Pattern} (hshape : p.shape) : cellsCount p = 9 := by
  rw [cellsCount, range81_eq, countP_flatMap]
  have hmap : (List.range 9).map
      (fun r => ((List.range 9).map (fun c => 9 * r + c)).countP
        (fun i => p.has (i / 9) (i % 9)))
      = (List.range 9).map (fun _ => 1) := by
    apply List.map_congr_left
    intro r hr
    have hr9 := List.mem_range.mp hr
    rw [List.countP_map]
    have hcong : (List.range 9).countP
        ((fun i => p.has (i / 9) (i % 9)) ∘ fun c => 9 * r + c)
        = (List.range 9).countP (fun c => p.has r c) := by
      apply List.countP_congr
      intro c hc
      have hc9 := List.mem_range.mp hc
      have hd : (9 * r + c) / 9 = r := by omega
      have hm : (9 * r + c) % 9 = c := by omega
      simp only [Function.comp, hd, hm]
    rw [hcong]
    exact hshape.1 r hr9
  rw [hmap]
  rfl

/-- C2: the template catalog has exactly 46656 entries, pairwise distinct,
and every entry has exactly nine cells — one per row, one per column and
one per 3×3 box. -/
theorem template_catalog_spec :
    Template.all.length = 46656 ∧ Template.all.Nodup ∧
      ∀ p ∈ Template.all, cellsCount p = 9 ∧
        (∀ r, r < 9 → rowCount p r = 1) ∧ (∀ c, c < 9 → colCount p c = 1) ∧
          (∀ b, b < 9 → boxCount p b = 1) := by
  refine ⟨template_all_length, template_all_nodup, ?_⟩
  intro p hp
  obtain ⟨hs, -⟩ := template_all_shape p hp
  exact ⟨cellsCount_eq_nine hs, hs.1, hs.2.1, hs.2.2⟩

/-- Witness for C2 at a concrete catalog entry (the first one). -/
theorem template_catalog_spec_witness :
    cellsCount (Template.all.getD 0 Pattern.EMPTY) = 9 :=
  (template_catalog_spec.2.2 _
    (getD_mem_of_lt (by rw [template_all_length]; omega))).1

/-! ### `Solution::is_valid` and `Possibilities::unique` (claim C5) -/

theorem isValidAux_true_iff : ∀ (ts : List Template) (filled : Pattern),
    isValidAux ts filled = true ↔
      ((∀ t ∈ ts, t.as_pattern.intersects filled = false) ∧
        (ts.map Template.as_pattern).Pairwise (fun a b => a.intersects b = false)) := by
  intro ts
  induction ts with
  | nil =>
    intro filled
    simp [isValidAux]
  | cons t rest ih =>
    intro filled
    rw [isValidAux]
    by_cases hint : t.as_pattern.intersects filled = true
    · rw [if_pos hint]
      constructor
      · intro hF
        exact absurd hF (by simp)
      · rintro ⟨hall, -⟩
        have := hall t (List.mem_cons_self t rest)
        rw [this] at hint
        cases hint
    · rw [if_neg hint, ih]
      have hintf : t.as_pattern.intersects filled = false := by
        cases h : t.as_pattern.intersects filled
        · rfl
        · exact absurd h hint
      constructor
      · rintro ⟨hall, hpw⟩
        refine ⟨?_, ?_⟩
        · intro u hu
          rcases List.mem_cons.mp hu with h | h
          · rw [h]
            exact hintf
          · have hlor := hall u h
            rw [Pattern.intersects_lor] at hlor
            exact (Bool.or_eq_false_iff.mp hlor).1
        · rw [List.map_cons, List.pairwise_cons]
          refine ⟨?_, hpw⟩
          intro b hb
          obtain ⟨u, hu, hub⟩ := List.mem_map.mp hb
          have hlor := hall u hu
          rw [Pattern.intersects_lor] at hlor
          rw [← hub, Pattern.intersects_comm]
          exact (Bool.or_eq_false_iff.mp hlor).2
      · rintro ⟨hall, hpw⟩
        rw [List.map_cons, List.pairwise_cons] at hpw
        refine ⟨?_, hpw.2⟩
        intro u hu
        rw [Pattern.intersects_lor]
        refine Bool.or_eq_false_iff.mpr ⟨hall u (List.mem_cons_of_mem t hu), ?_⟩
        have := hpw.1 u.as_pattern (List.mem_map_of_mem Template.as_pattern hu)
        rw [Pattern.intersects_comm]
        exact this

theorem is_valid_iff_pairwise (s : Solution) :
    s.is_valid = true ↔
      (s.ts.map Template.as_pattern).Pairwise (fun a b => a.intersects b = false) := by
  rw [Solution.is_valid, isValidAux_true_iff]
  simp [Pattern.intersects_EMPTY]

theorem solution_get_eq_getElem {s : Solution} {d : Nat} (h : d < s.ts.length) :
    s.get d = s.ts[d] := by
  rw [Solution.get]
  exact List.getD_eq_getElem s.ts (Template.mk 0) h

theorem pairwise_map_iff_indexed {s : Solution} (hlen : s.ts.length = 9) :
    (s.ts.map Template.as_pattern).Pairwise (fun a b => a.intersects b = false) ↔
      (∀ d d2, d < 9 → d2 < 9 → d ≠ d2 →
        (s.get d).as_pattern.intersects (s.get d2).as_pattern = false) := by
  rw [List.pairwise_iff_getElem]
  have hmlen : (s.ts.map Template.as_pattern).length = 9 := by
    rw [List.length_map, hlen]
  have hval : ∀ d, ∀ hd : d < (s.ts.map Template.as_pattern).length,
      (s.ts.map Template.as_pattern)[d] = (s.get d).as_pattern := by
    intro d hd
    have hd9 : d < s.ts.length := by
      rw [List.length_map] at hd
      exact hd
    rw [List.getElem_map, solution_get_eq_getElem hd9]
  constructor
  · intro h d d2 hd hd2 hne
    rcases Nat.lt_or_ge d d2 with hlt | hge
    · have := h d d2 (by omega) (by omega) hlt
      rw [hval d (by omega), hval d2 (by omega)] at this
      exact this
    · have hlt : d2 < d := by omega
      have := h d2 d (by omega) (by omega) hlt
      rw [hval d2 (by omega), hval d (by omega)] at this
      rw [Pattern.intersects_comm]
      exact this
  · intro h i j hi hj hij
    have hi9 : i < 9 := by omega
    have hj9 : j < 9 := by omega
    rw [hval i (by omega), hval j (by omega)]
    exact h i j hi9 hj9 (by omega)

theorem coverage_of_disjoint_shapes {s : Solution}
    (hshape : ∀ d, d < 9 → (s.get d).as_pattern.shape)
    (hdisj : ∀ d d2, d < 9 → d2 < 9 → d ≠ d2 →
      (s.get d).as_pattern.intersects (s.get d2).as_pattern = false) :
    ∀ r c, r < 9 → c < 9 → ∃ d, d < 9 ∧ (s.get d).as_pattern.has r c = true := by
  intro r c hr hc
  have hex : ∀ d : Fin 9, ∃ cd : Fin 9, (s.get d.val).as_pattern.has r cd.val = true := by
    intro d
    have h1 : rowCount (s.get d.val).as_pattern r = 1 := (hshape d.val d.isLt).1 r hr
    have hpos : 0 < (List.range 9).countP (fun c2 => (s.get d.val).as_pattern.has r c2) := by
      have : rowCount (s.get d.val).as_pattern r =
          (List.range 9).countP (fun c2 => (s.get d.val).as_pattern.has r c2) := rfl
      omega
    obtain ⟨c2, hc2, hhas⟩ := List.countP_pos_iff.mp hpos
    exact ⟨⟨c2, List.mem_range.mp hc2⟩, hhas⟩
  choose g hg using hex
  have hinj : Function.Injective g := by
    intro d1 d2 heq
    by_contra hne
    have hdne : d1.val ≠ d2.val := fun hv => hne (Fin.ext hv)
    have h1 := hg d1
    have h2 := hg d2
    rw [heq] at h1
    have hfalse := Pattern.not_has_of_intersects_eq_false _ _
      (hdisj d1.val d2.val d1.isLt d2.isLt hdne) h1
    rw [hfalse] at h2
    cases h2
  have hsurj : Function.Surjective g := Finite.injective_iff_surjective.mp hinj
  obtain ⟨d, hd⟩ := hsurj ⟨c, hc⟩
  refine ⟨d.val, d.isLt, ?_⟩
  have := hg d
  rw [hd] at this
  exact this

theorem setT_length (s : Solution) (d : Nat) (t : Template) :
    (s.setT d t).ts.length = s.ts.length := by
  rw [Solution.setT]
  exact List.length_set s.ts d t

theorem get_setT_self {s : Solution} {d : Nat} (h : d < s.ts.length) (t : Template) :
    (s.setT d t).get d = t := by
  rw [Solution.setT, Solution.get]
  have hlt : d < (s.ts.set d t).length := by
    rw [List.length_set]
    exact h
  rw [List.getD_eq_getElem _ _ hlt]
  exact List.getElem_set_self hlt

theorem get_setT_ne (s : Solution) {d d2 : Nat} (h : d ≠ d2) (t : Template) :
    (s.setT d t).get d2 = s.get d2 := by
  rw [Solution.setT, Solution.get, Solution.get]
  rw [List.getD_eq_getElem?_getD, List.getD_eq_getElem?_getD]
  rw [List.getElem?_set_ne h]

theorem uniqueLoop_some_char (p : Possibilities) :
    ∀ left, left ≤ 9 → ∀ sol s, sol.ts.length = 9 →
      uniqueLoop p left sol = some s →
        s.ts.length = 9 ∧
        (∀ d, 9 - left ≤ d → d < 9 → Template.within (patGet p.patterns d) = [s.get d]) ∧
        (∀ d2, d2 < 9 - left ∨ 9 ≤ d2 → s.get d2 = sol.get d2) := by
  intro left
  induction left with
  | zero =>
    intro _ sol s hlen h
    replace h : some sol = some s := h
    injection h with h
    subst h
    exact ⟨hlen, fun d h1 h2 => absurd h1 (by omega), fun d2 _ => rfl⟩
  | succ left ih =>
    intro hle sol s hlen h
    simp only [uniqueLoop] at h
    cases hw : Template.within (patGet p.patterns (9 - (left + 1))) with
    | nil =>
      rw [hw] at h
      cases h
    | cons t ts =>
      cases ts with
      | nil =>
        rw [hw] at h
        replace h : uniqueLoop p left (sol.setT (9 - (left + 1)) t) = some s := h
        have hlen' : (sol.setT (9 - (left + 1)) t).ts.length = 9 := by
          rw [setT_length]
          exact hlen
        obtain ⟨hs, hmid, hlow⟩ := ih (by omega) _ s hlen' h
        have hgetdig : s.get (9 - (left + 1)) = t := by
          have h1 := hlow (9 - (left + 1)) (Or.inl (by omega))
          rw [h1]
          exact get_setT_self (by omega) t
        refine ⟨hs, ?_, ?_⟩
        · intro d hd1 hd2
          rcases Nat.eq_or_lt_of_le hd1 with heq | hlt
          · rw [← heq, hw, hgetdig]
          · exact hmid d (by omega) hd2
        · intro d2 hd2
          have hne : 9 - (left + 1) ≠ d2 := by
            rcases hd2 with h9 | h9 <;> omega
          have h1 := hlow d2 (by rcases hd2 with h9 | h9; exact Or.inl (by omega); exact Or.inr h9)
          rw [h1]
          exact get_setT_ne sol hne t
      | cons t2 ts2 =>
        rw [hw] at h
        cases h

theorem uniqueLoop_complete (p : Possibilities) :
    ∀ left, left ≤ 9 → ∀ sol : Solution,
      (∀ d, 9 - left ≤ d → d < 9 → ∃ t, Template.within (patGet p.patterns d) = [t]) →
      ∃ s, uniqueLoop p left sol = some s := by
  intro left
  induction left with
  | zero =>
    intro _ sol _
    exact ⟨sol, rfl⟩
  | succ left ih =>
    intro hle sol hex
    obtain ⟨t, ht⟩ := hex (9 - (left + 1)) (by omega) (by omega)
    obtain ⟨s, hs⟩ := ih (by omega) (sol.setT (9 - (left + 1)) t)
      (fun d h1 h2 => hex d (by omega) h2)
    refine ⟨s, ?_⟩
    simp only [uniqueLoop]
    rw [ht]
    exact hs

/-- C5: `Possibilities::unique` returns `some s` exactly when, for every
digit, the catalog templates inside that digit's candidate pattern are
exactly the one template recorded in `s`, and `s` is globally valid —
pairwise disjoint patterns that jointly cover all 81 cells. -/
theorem unique_spec (p : Possibilities) (s : Solution) :
    p.unique = some s ↔
      ((∀ d, d < 9 → Template.within (patGet p.patterns d) = [s.get d]) ∧
        SolutionValidSpec s) := by
  rw [Possibilities.unique]
  constructor
  · intro h
    obtain ⟨hmem, hvalid⟩ := Option.filter_eq_some.mp h
    have hloop : uniqueLoop p 9 Solution.default9 = some s := Option.mem_def.mp hmem
    obtain ⟨hlen, hmid, -⟩ := uniqueLoop_some_char p 9 (by omega) Solution.default9 s
      (by simp [Solution.default9]) hloop
    have hwithin : ∀ d, d < 9 → Template.within (patGet p.patterns d) = [s.get d] :=
      fun d hd => hmid d (by omega) hd
    refine ⟨hwithin, ?_⟩
    have hshape : ∀ d, d < 9 → (s.get d).as_pattern.shape := by
      intro d hd
      have hmemw : s.get d ∈ Template.within (patGet p.patterns d) := by
        rw [hwithin d hd]
        exact List.mem_singleton_self _
      have hidx := (mem_within_iff _ _).mp hmemw
      have hmem2 : (s.get d).as_pattern ∈ Template.all := getD_mem_of_lt hidx.1
      exact (template_all_shape _ hmem2).1
    have hdisj := (pairwise_map_iff_indexed hlen).mp ((is_valid_iff_pairwise s).mp hvalid)
    exact ⟨hlen, hdisj, coverage_of_disjoint_shapes hshape hdisj⟩
  · rintro ⟨hwithin, hlen, hdisj, hcov⟩
    obtain ⟨s', hs'⟩ := uniqueLoop_complete p 9 (le_refl 9) Solution.default9
      (fun d _ hd => ⟨s.get d, hwithin d hd⟩)
    obtain ⟨hlen', hmid', hrest'⟩ := uniqueLoop_some_char p 9 (by omega) Solution.default9 s'
      (by simp [Solution.default9]) hs'
    have hss : s' = s := by
      have hget : ∀ d, s'.get d = s.get d := by
        intro d
        by_cases hd : d < 9
        · have h1 := hmid' d (by omega) hd
          have h2 := hwithin d hd
          rw [h1] at h2
          simp only [List.cons.injEq, and_true] at h2
          exact h2
        · have h1 := hrest' d (Or.inr (by omega))
          rw [h1, Solution.get, Solution.get]
          rw [List.getD_eq_default _ _ (by simp [Solution.default9]; omega),
            List.getD_eq_default _ _ (by omega)]
      obtain ⟨ts'⟩ := s'
      obtain ⟨ts⟩ := s
      congr 1
      refine List.ext_getElem (by rw [hlen', hlen]) ?_
      intro n h1 h2
      have := hget n
      rw [Solution.get, Solution.get, List.getD_eq_getElem _ _ h1,
        List.getD_eq_getElem _ _ h2] at this
      exact this
    rw [hs', hss]
    have hvalid : s.is_valid = true :=
      (is_valid_iff_pairwise s).mpr ((pairwise_map_iff_indexed hlen).mpr hdisj)
    simp [Option.filter, hvalid]

/-! ### Rigidity: a shape pattern has no proper shape subpattern -/

theorem shape_subset_eq {p q : Pattern} (hp : p.shape) (hq : q.shape)
    (hpw : p.wf) (hqw : q.wf) (hsub : p.is_subset q = true) : p = q := by
  have hpoint : ∀ r c, r < 9 → c < 9 → p.has r c = q.has r c := by
    intro r c hr hc
    by_cases hpc : p.has r c = true
    · rw [hpc, Pattern.subset_has p q hsub hpc]
    · have hpcf : p.has r c = false := by
        cases h : p.has r c
        · rfl
        · exact absurd h hpc
      have hp1 : (List.range 9).countP (fun c2 => p.has r c2) = 1 := hp.1 r hr
      have hq1 : (List.range 9).countP (fun c2 => q.has r c2) = 1 := hq.1 r hr
      obtain ⟨cp, hcpmem, hcpt, hcpu⟩ := countP_unique_val hp1
      obtain ⟨cq, hcqmem, hcqt, hcqu⟩ := countP_unique_val hq1
      have hqcp : q.has r cp = true := Pattern.subset_has p q hsub hcpt
      have hcez : cp = cq := hcqu cp hcpmem hqcp
      have hqf : q.has r c = false := by
        cases h : q.has r c
        · rfl
        · exfalso
          have hc9 : c ∈ List.range 9 := List.mem_range.mpr hc
          have hccq : c = cq := hcqu c hc9 h
          have hccp : c = cp := by
            rw [hccq]
            exact hcez.symm
          rw [hccp, hcpt] at hpcf
          cases hpcf
      rw [hpcf, hqf]
  have hw : ∀ i, i < 81 → ∀ pp : Pattern,
      pp.has (i / 9) (i % 9) = (pp.word (i / 32)).testBit (i % 32) := by
    intro i _ pp
    have h9 : 9 * (i / 9) + i % 9 = i := by omega
    rw [Pattern.has_eq_testBit, h9]
  obtain ⟨pw0, pw1, pw2⟩ := hpw
  obtain ⟨qw0, qw1, qw2⟩ := hqw
  obtain ⟨p0, p1, p2⟩ := p
  obtain ⟨q0, q1, q2⟩ := q
  simp only [Pattern.mk.injEq]
  refine ⟨?_, ?_, ?_⟩
  · apply Nat.eq_of_testBit_eq
    intro j
    by_cases hj : j < 32
    · have hhp := hw j (by omega) ⟨p0, p1, p2⟩
      have hhq := hw j (by omega) ⟨q0, q1, q2⟩
      have hpq := hpoint (j / 9) (j % 9) (by omega) (by omega)
      rw [hhp, hhq] at hpq
      have hj0 : j / 32 = 0 := by omega
      have hjm : j % 32 = j := by omega
      rw [hj0, hjm] at hpq
      exact hpq
    · have h1 : p0.testBit j = false :=
        Nat.testBit_lt_two_pow
          (lt_of_lt_of_le pw0 (Nat.pow_le_pow_right (by omega) (by omega)))
      have h2 : q0.testBit j = false :=
        Nat.testBit_lt_two_pow
          (lt_of_lt_of_le qw0 (Nat.pow_le_pow_right (by omega) (by omega)))
      rw [h1, h2]
  · apply Nat.eq_of_testBit_eq
    intro j
    by_cases hj : j < 32
    · have hhp := hw (32 + j) (by omega) ⟨p0, p1, p2⟩
      have hhq := hw (32 + j) (by omega) ⟨q0, q1, q2⟩
      have hpq := hpoint ((32 + j) / 9) ((32 + j) % 9) (by omega) (by omega)
      rw [hhp, hhq] at hpq
      have hj0 : (32 + j) / 32 = 1 := by omega
      have hjm : (32 + j) % 32 = j := by omega
      rw [hj0, hjm] at hpq
      exact hpq
    · have h1 : p1.testBit j = false :=
        Nat.testBit_lt_two_pow
          (lt_of_lt_of_le pw1 (Nat.pow_le_pow_right (by omega) (by omega)))
      have h2 : q1.testBit j = false :=
        Nat.testBit_lt_two_pow
          (lt_of_lt_of_le qw1 (Nat.pow_le_pow_right (by omega) (by omega)))
      rw [h1, h2]
  · apply Nat.eq_of_testBit_eq
    intro j
    by_cases hj : j < 17
    · have hhp := hw (64 + j) (by omega) ⟨p0, p1, p2⟩
      have hhq := hw (64 + j) (by omega) ⟨q0, q1, q2⟩
      have hpq := hpoint ((64 + j) / 9) ((64 + j) % 9) (by omega) (by omega)
      rw [hhp, hhq] at hpq
      have hj0 : (64 + j) / 32 = 2 := by omega
      have hjm : (64 + j) % 32 = j := by omega
      rw [hj0, hjm] at hpq
      exact hpq
    · have h1 : p2.testBit j = false :=
        Nat.testBit_lt_two_pow
          (lt_of_lt_of_le pw2 (Nat.pow_le_pow_right (by omega) (by omega)))
      have h2 : q2.testBit j = false :=
        Nat.testBit_lt_two_pow
          (lt_of_lt_of_le qw2 (Nat.pow_le_pow_right (by omega) (by omega)))
      rw [h1, h2]

theorem within_singleton {p : Pattern} (hmem : p ∈ Template.all) :
    ∃ t : Template, Template.within p = [t] ∧ t.as_pattern = p := by
  obtain ⟨hps, hpw⟩ := template_all_shape p hmem
  have hcount : Template.all.countP (fun q => q.is_subset p) = 1 := by
    apply @countP_eq_one_of_unique Pattern Template.all (fun q => q.is_subset p) p
      template_all_nodup hmem (Pattern.subset_refl p)
    intro q hq hqp
    cases h : q.is_subset p
    · rfl
    · exfalso
      obtain ⟨hqs, hqw⟩ := template_all_shape q hq
      exact hqp (shape_subset_eq hqs hps hqw hpw h)
  have hlen : (Template.within p).length = 1 := by
    rw [within_length, hcount]
  obtain ⟨t, ht⟩ := List.length_eq_one.mp hlen
  refine ⟨t, ht, ?_⟩
  have htm : t ∈ Template.within p := by
    rw [ht]
    exact List.mem_singleton_self t
  obtain ⟨hidx, hsub⟩ := (mem_within_iff p t).mp htm
  have hmem2 : t.as_pattern ∈ Template.all := getD_mem_of_lt hidx
  obtain ⟨hts, htw⟩ := template_all_shape _ hmem2
  exact shape_subset_eq hts hps htw hpw hsub

/-! ### Concrete catalog membership by following the `fill` recursion -/

theorem fill_mem_zero (build : Pattern) (cols boxes : Nat) :
    build ∈ fill build cols boxes 0 :=
  List.mem_singleton_self build

theorem fill_mem_step {left : Nat} {build : Pattern} {cols boxes : Nat} {col : Nat}
    (hcol : col < 9)
    (hv1 : (1 <<< col) &&& cols = 0)
    (hv2 : (1 <<< ((9 - (left + 1)) / 3 * 3 + col / 3)) &&& boxes = 0)
    {p : Pattern}
    (hmem : p ∈ fill (build.withCell (9 - (left + 1)) col) (cols ||| (1 <<< col))
      (boxes ||| (1 <<< ((9 - (left + 1)) / 3 * 3 + col / 3))) left) :
    p ∈ fill build cols boxes (left + 1) := by
  simp only [fill, List.mem_flatMap, List.mem_range]
  refine ⟨col, hcol, ?_⟩
  have hc : (decide ((1 <<< col) &&& cols = 0) &&
      decide ((1 <<< ((9 - (left + 1)) / 3 * 3 + col / 3)) &&& boxes = 0)) = true := by
    rw [Bool.and_eq_true]
    exact ⟨decide_eq_true hv1, decide_eq_true hv2⟩
  rw [if_pos hc]
  exact hmem

/-! ### The backtracking search (claims C1 and C3) -/

theorem search_nil_eq (out : List Solution) (sol : Solution) (filled : Pattern) (m : Nat) :
    search out sol filled [] m = (out ++ [sol], sol) := by
  rw [search]

theorem search_cons_eq (out : List Solution) (sol : Solution) (filled : Pattern)
    (digit : Nat) (possible : List Template) (rest : List (Nat × List Template)) (m : Nat) :
    search out sol filled ((digit, possible) :: rest) m =
      searchLoop out sol filled digit possible rest m := by
  rw [search]

theorem searchLoop_nil_eq (out : List Solution) (sol : Solution) (filled : Pattern)
    (digit : Nat) (rest : List (Nat × List Template)) (m : Nat) :
    searchLoop out sol filled digit [] rest m = (out, sol) := by
  rw [searchLoop]

theorem searchLoop_cons_eq (out : List Solution) (sol : Solution) (filled : Pattern)
    (digit : Nat) (t : Template) (ts : List Template)
    (rest : List (Nat × List Template)) (m : Nat) :
    searchLoop out sol filled digit (t :: ts) rest m =
      if t.as_pattern.intersects filled then searchLoop out sol filled digit ts rest m
      else
        if m ≤ (search out (sol.setT digit t) (filled.lor t.as_pattern) rest m).1.length then
          search out (sol.setT digit t) (filled.lor t.as_pattern) rest m
        else
          searchLoop (search out (sol.setT digit t) (filled.lor t.as_pattern) rest m).1
            (search out (sol.setT digit t) (filled.lor t.as_pattern) rest m).2
            filled digit ts rest m := by
  rw [searchLoop]

theorem nat_and_eq_zero_of_subset {a q f : Nat} (hq : q &&& f = q) (ha : a &&& f = 0) :
    a &&& q = 0 := by
  apply Nat.eq_of_testBit_eq
  intro j
  have h1 := congrArg (fun w => w.testBit j) hq
  have h2 := congrArg (fun w => w.testBit j) ha
  simp only [Nat.testBit_and, Nat.zero_testBit] at h1 h2 ⊢
  cases hqa : q.testBit j <;> cases haa : a.testBit j <;> simp_all

theorem nat_and_or_absorb {q f : Nat} (x : Nat) (h : q &&& f = q) : q &&& (f ||| x) = q := by
  apply Nat.eq_of_testBit_eq
  intro j
  have h1 := congrArg (fun w => w.testBit j) h
  simp only [Nat.testBit_and, Nat.testBit_or] at h1 ⊢
  cases hq : q.testBit j <;> cases hf : f.testBit j <;> simp_all

theorem nat_and_or_self (x f : Nat) : x &&& (f ||| x) = x := by
  apply Nat.eq_of_testBit_eq
  intro j
  simp only [Nat.testBit_and, Nat.testBit_or]
  cases hx : x.testBit j <;> simp

theorem Pattern.intersects_false_of_subset {t q f : Pattern}
    (hsub : q.is_subset f = true) (hint : t.intersects f = false) :
    t.intersects q = false := by
  rw [Pattern.is_subset, beq_iff_eq] at hsub
  have h0 : q.w0 &&& f.w0 = q.w0 := congrArg Pattern.w0 hsub
  have h1 : q.w1 &&& f.w1 = q.w1 := congrArg Pattern.w1 hsub
  have h2 : q.w2 &&& f.w2 = q.w2 := congrArg Pattern.w2 hsub
  have hE : t.land f = Pattern.EMPTY := by
    rw [Pattern.intersects] at hint
    simpa using hint
  have e0 : t.w0 &&& f.w0 = 0 := congrArg Pattern.w0 hE
  have e1 : t.w1 &&& f.w1 = 0 := congrArg Pattern.w1 hE
  have e2 : t.w2 &&& f.w2 = 0 := congrArg Pattern.w2 hE
  have hq : t.land q = Pattern.EMPTY := by
    rw [Pattern.land, Pattern.EMPTY]
    simp only [Pattern.mk.injEq]
    exact ⟨nat_and_eq_zero_of_subset h0 e0, nat_and_eq_zero_of_subset h1 e1,
      nat_and_eq_zero_of_subset h2 e2⟩
  rw [Pattern.intersects]
  simp [hq]

theorem Pattern.is_subset_lor_left {q f : Pattern} (x : Pattern)
    (h : q.is_subset f = true) : q.is_subset (f.lor x) = true := by
  rw [Pattern.is_subset, beq_iff_eq] at h
  rw [Pattern.is_subset, beq_iff_eq, Pattern.lor, Pattern.land]
  have h0 : q.w0 &&& f.w0 = q.w0 := congrArg Pattern.w0 h
  have h1 : q.w1 &&& f.w1 = q.w1 := congrArg Pattern.w1 h
  have h2 : q.w2 &&& f.w2 = q.w2 := congrArg Pattern.w2 h
  cases q
  simp only [Pattern.mk.injEq]
  exact ⟨nat_and_or_absorb _ h0, nat_and_or_absorb _ h1, nat_and_or_absorb _ h2⟩

theorem Pattern.is_subset_lor_self (x f : Pattern) : x.is_subset (f.lor x) = true := by
  rw [Pattern.is_subset, beq_iff_eq, Pattern.lor, Pattern.land]
  cases x
  simp only [Pattern.mk.injEq]
  exact ⟨nat_and_or_self _ _, nat_and_or_self _ _, nat_and_or_self _ _⟩

mutual

theorem search_scratch (out : List Solution) (sol : Solution) (filled : Pattern)
    (templates : List (Nat × List Template)) (m : Nat) :
    (search out sol filled templates m).2.ts.length = sol.ts.length ∧
      ∀ d, d ∉ templates.map Prod.fst →
        (search out sol filled templates m).2.get d = sol.get d :=
  match templates with
  | [] => by
    rw [search_nil_eq]
    exact ⟨rfl, fun d _ => rfl⟩
  | (digit, possible) :: rest => by
    rw [search_cons_eq]
    have h := searchLoop_scratch out sol filled digit possible rest m
    exact ⟨h.1, fun d hd => h.2 d (by simpa using hd)⟩
termination_by (templates.length + 1, 0)

theorem searchLoop_scratch (out : List Solution) (sol : Solution) (filled : Pattern)
    (digit : Nat) (possible : List Template) (rest : List (Nat × List Template)) (m : Nat) :
    (searchLoop out sol filled digit possible rest m).2.ts.length = sol.ts.length ∧
      ∀ d, d ∉ digit :: rest.map Prod.fst →
        (searchLoop out sol filled digit possible rest m).2.get d = sol.get d :=
  match possible with
  | [] => by
    rw [searchLoop_nil_eq]
    exact ⟨rfl, fun d _ => rfl⟩
  | t :: ts => by
    rw [searchLoop_cons_eq]
    split_ifs with hint hcap
    · exact searchLoop_scratch out sol filled digit ts rest m
    · obtain ⟨hlen, hagree⟩ :=
        search_scratch out (sol.setT digit t) (filled.lor t.as_pattern) rest m
      refine ⟨by rw [hlen, setT_length], ?_⟩
      intro d hd
      have hdd : d ≠ digit ∧ d ∉ rest.map Prod.fst := by
        simp only [List.mem_cons, not_or] at hd
        exact hd
      rw [hagree d hdd.2]
      exact get_setT_ne sol (Ne.symm hdd.1) t
    · obtain ⟨hlen1, hagree1⟩ :=
        search_scratch out (sol.setT digit t) (filled.lor t.as_pattern) rest m
      obtain ⟨hlen2, hagree2⟩ :=
        searchLoop_scratch
          (search out (sol.setT digit t) (filled.lor t.as_pattern) rest m).1
          (search out (sol.setT digit t) (filled.lor t.as_pattern) rest m).2
          filled digit ts rest m
      refine ⟨by rw [hlen2, hlen1, setT_length], ?_⟩
      intro d hd
      have hdd : d ≠ digit ∧ d ∉ rest.map Prod.fst := by
        simp only [List.mem_cons, not_or] at hd
        exact hd
      rw [hagree2 d hd, hagree1 d hdd.2]
      exact get_setT_ne sol (Ne.symm hdd.1) t
termination_by (rest.length + 1, possible.length + 1)
decreasing_by
  all_goals simp_wf
  all_goals omega

end

mutual

theorem search_length_le (out : List Solution) (sol : Solution) (filled : Pattern)
    (templates : List (Nat × List Template)) (m : Nat) :
    (search out sol filled templates m).1.length ≤ max m (out.length + 1) :=
  match templates with
  | [] => by
    rw [search_nil_eq]
    simp only [List.length_append, List.length_cons, List.length_nil]
    exact le_trans (by omega) (Nat.le_max_right m (out.length + 1))
  | (digit, possible) :: rest => by
    rw [search_cons_eq]
    exact searchLoop_length_le out sol filled digit possible rest m
termination_by (templates.length + 1, 0)

theorem searchLoop_length_le (out : List Solution) (sol : Solution) (filled : Pattern)
    (digit : Nat) (possible : List Template) (rest : List (Nat × List Template)) (m : Nat) :
    (searchLoop out sol filled digit possible rest m).1.length ≤ max m (out.length + 1) :=
  match possible with
  | [] => by
    rw [searchLoop_nil_eq]
    exact le_trans (Nat.le_succ out.length) (Nat.le_max_right m (out.length + 1))
  | t :: ts => by
    rw [searchLoop_cons_eq]
    split_ifs with hint hcap
    · exact searchLoop_length_le out sol filled digit ts rest m
    · exact search_length_le out (sol.setT digit t) (filled.lor t.as_pattern) rest m
    · have hr := search_length_le out (sol.setT digit t) (filled.lor t.as_pattern) rest m
      have hrec := searchLoop_length_le
        (search out (sol.setT digit t) (filled.lor t.as_pattern) rest m).1
        (search out (sol.setT digit t) (filled.lor t.as_pattern) rest m).2
        filled digit ts rest m
      have hmax : max m
          ((search out (sol.setT digit t) (filled.lor t.as_pattern) rest m).1.length + 1) = m :=
        Nat.max_eq_left (by omega)
      rw [hmax] at hrec
      exact le_trans hrec (Nat.le_max_left _ _)
termination_by (rest.length + 1, possible.length + 1)
decreasing_by
  all_goals simp_wf
  all_goals omega

end

mutual

theorem search_sound (out : List Solution) (sol : Solution) (filled : Pattern)
    (templates : List (Nat × List Template)) (m : Nat) (fixed : List Nat)
    (h1 : sol.ts.length = 9)
    (h2 : ∀ dp ∈ templates, ∀ t ∈ dp.2, t.idx < Template.all.length)
    (h3 : (templates.map Prod.fst ++ fixed).Perm (List.range 9))
    (h4 : ∀ d ∈ fixed, (sol.get d).as_pattern.shape ∧ (sol.get d).as_pattern.wf)
    (h5 : fixed.Pairwise (fun d d2 =>
      (sol.get d).as_pattern.intersects (sol.get d2).as_pattern = false))
    (h6 : ∀ d ∈ fixed, (sol.get d).as_pattern.is_subset filled = true) :
    ∀ s ∈ (search out sol filled templates m).1, s ∈ out ∨ SolutionValidSpec s :=
  match templates with
  | [] => by
    rw [search_nil_eq]
    intro s hs
    rcases List.mem_append.mp hs with h | h
    · exact Or.inl h
    · right
      have hsol : s = sol := by simpa using h
      subst hsol
      have hperm : fixed.Perm (List.range 9) := by simpa using h3
      have hmemf : ∀ d, d < 9 → d ∈ fixed := fun d hd =>
        hperm.mem_iff.mpr (List.mem_range.mpr hd)
      have hsymm : Symmetric (fun d d2 =>
          (s.get d).as_pattern.intersects (s.get d2).as_pattern = false) := by
        intro x y hxy
        rw [Pattern.intersects_comm]
        exact hxy
      have hdisj : ∀ d d2, d < 9 → d2 < 9 → d ≠ d2 →
          (s.get d).as_pattern.intersects (s.get d2).as_pattern = false := by
        intro d d2 hd hd2 hne
        exact List.Pairwise.forall hsymm h5 (hmemf d hd) (hmemf d2 hd2) hne
      exact ⟨h1, hdisj,
        coverage_of_disjoint_shapes (fun d hd => (h4 d (hmemf d hd)).1) hdisj⟩
  | (digit, possible) :: rest => by
    rw [search_cons_eq]
    exact searchLoop_sound out sol filled digit possible rest m fixed h1
      (fun t ht => h2 (digit, possible) (List.mem_cons_self _ _) t ht)
      (fun dp hdp t ht => h2 dp (List.mem_cons_of_mem _ hdp) t ht)
      (by simpa using h3) h4 h5 h6
termination_by (templates.length + 1, 0)

theorem searchLoop_sound (out : List Solution) (sol : Solution) (filled : Pattern)
    (digit : Nat) (possible : List Template) (rest : List (Nat × List Template))
    (m : Nat) (fixed : List Nat)
    (h1 : sol.ts.length = 9)
    (h2p : ∀ t ∈ possible, t.idx < Template.all.length)
    (h2r : ∀ dp ∈ rest, ∀ t ∈ dp.2, t.idx < Template.all.length)
    (h3 : (digit :: (rest.map Prod.fst ++ fixed)).Perm (List.range 9))
    (h4 : ∀ d ∈ fixed, (sol.get d).as_pattern.shape ∧ (sol.get d).as_pattern.wf)
    (h5 : fixed.Pairwise (fun d d2 =>
      (sol.get d).as_pattern.intersects (sol.get d2).as_pattern = false))
    (h6 : ∀ d ∈ fixed, (sol.get d).as_pattern.is_subset filled = true) :
    ∀ s ∈ (searchLoop out sol filled digit possible rest m).1,
      s ∈ out ∨ SolutionValidSpec s :=
  match possible with
  | [] => by
    rw [searchLoop_nil_eq]
    exact fun s hs => Or.inl hs
  | t :: ts => by
    rw [searchLoop_cons_eq]
    have hnodup : (digit :: (rest.map Prod.fst ++ fixed)).Nodup :=
      h3.nodup_iff.mpr (List.nodup_range 9)
    have hdignin : digit ∉ rest.map Prod.fst ++ fixed := (List.nodup_cons.mp hnodup).1
    have hdigfix : digit ∉ fixed := fun hf =>
      hdignin (List.mem_append.mpr (Or.inr hf))
    have hdisjkeys : ∀ d ∈ fixed, d ∉ rest.map Prod.fst := by
      intro d hdf hdr
      exact (List.disjoint_of_nodup_append (List.nodup_cons.mp hnodup).2) hdr hdf
    have hdig9 : digit < 9 := by
      have : digit ∈ List.range 9 := h3.mem_iff.mp (List.mem_cons_self _ _)
      exact List.mem_range.mp this
    split_ifs with hint hcap
    · exact searchLoop_sound out sol filled digit ts rest m fixed h1
        (fun u hu => h2p u (List.mem_cons_of_mem _ hu)) h2r h3 h4 h5 h6
    · -- took template t and the solution cap was reached: result is the inner search
      have hintf : t.as_pattern.intersects filled = false := by
        simpa using hint
      have htidx : t.idx < Template.all.length := h2p t (List.mem_cons_self _ _)
      have htpat : t.as_pattern.shape ∧ t.as_pattern.wf :=
        template_all_shape _ (getD_mem_of_lt htidx)
      have hgetdig : (sol.setT digit t).get digit = t := get_setT_self (by omega) t
      have hgetfix : ∀ d ∈ fixed, (sol.setT digit t).get d = sol.get d := fun d hd =>
        get_setT_ne sol (fun hh => hdigfix (by rw [hh]; exact hd)) t
      have H3 : (rest.map Prod.fst ++ (digit :: fixed)).Perm (List.range 9) :=
        List.perm_middle.trans h3
      have H4 : ∀ d ∈ digit :: fixed,
          ((sol.setT digit t).get d).as_pattern.shape ∧
            ((sol.setT digit t).get d).as_pattern.wf := by
        intro d hd
        rcases List.mem_cons.mp hd with rfl | hdf
        · rw [hgetdig]
          exact htpat
        · rw [hgetfix d hdf]
          exact h4 d hdf
      have H5 : (digit :: fixed).Pairwise (fun d d2 =>
          ((sol.setT digit t).get d).as_pattern.intersects
            ((sol.setT digit t).get d2).as_pattern = false) := by
        rw [List.pairwise_cons]
        constructor
        · intro d hdf
          rw [hgetdig, hgetfix d hdf]
          exact Pattern.intersects_false_of_subset (h6 d hdf) hintf
        · refine List.Pairwise.imp_of_mem ?_ h5
          intro a b ha hb hab
          rw [hgetfix a ha, hgetfix b hb]
          exact hab
      have H6 : ∀ d ∈ digit :: fixed,
          ((sol.setT digit t).get d).as_pattern.is_subset (filled.lor t.as_pattern) = true := by
        intro d hd
        rcases List.mem_cons.mp hd with rfl | hdf
        · rw [hgetdig]
          exact Pattern.is_subset_lor_self _ _
        · rw [hgetfix d hdf]
          exact Pattern.is_subset_lor_left _ (h6 d hdf)
      exact search_sound out (sol.setT digit t) (filled.lor t.as_pattern) rest m
        (digit :: fixed) (by rw [setT_length]; exact h1) h2r H3 H4 H5 H6
    · -- kept exploring further candidates after the inner search
      have hintf : t.as_pattern.intersects filled = false := by
        simpa using hint
      have htidx : t.idx < Template.all.length := h2p t (List.mem_cons_self _ _)
      have htpat : t.as_pattern.shape ∧ t.as_pattern.wf :=
        template_all_shape _ (getD_mem_of_lt htidx)
      have hgetdig : (sol.setT digit t).get digit = t := get_setT_self (by omega) t
      have hgetfix : ∀ d ∈ fixed, (sol.setT digit t).get d = sol.get d := fun d hd =>
        get_setT_ne sol (fun hh => hdigfix (by rw [hh]; exact hd)) t
      have H3 : (rest.map Prod.fst ++ (digit :: fixed)).Perm (List.range 9) :=
        List.perm_middle.trans h3
      have H4 : ∀ d ∈ digit :: fixed,
          ((sol.setT digit t).get d).as_pattern.shape ∧
            ((sol.setT digit t).get d).as_pattern.wf := by
        intro d hd
        rcases List.mem_cons.mp hd with rfl | hdf
        · rw [hgetdig]
          exact htpat
        · rw [hgetfix d hdf]
          exact h4 d hdf
      have H5 : (digit :: fixed).Pairwise (fun d d2 =>
          ((sol.setT digit t).get d).as_pattern.intersects
            ((sol.setT digit t).get d2).as_pattern = false) := by
        rw [List.pairwise_cons]
        constructor
        · intro d hdf
          rw [hgetdig, hgetfix d hdf]
          exact Pattern.intersects_false_of_subset (h6 d hdf) hintf
        · refine List.Pairwise.imp_of_mem ?_ h5
          intro a b ha hb hab
          rw [hgetfix a ha, hgetfix b hb]
          exact hab
      have H6 : ∀ d ∈ digit :: fixed,
          ((sol.setT digit t).get d).as_pattern.is_subset (filled.lor t.as_pattern) = true := by
        intro d hd
        rcases List.mem_cons.mp hd with rfl | hdf
        · rw [hgetdig]
          exact Pattern.is_subset_lor_self _ _
        · rw [hgetfix d hdf]
          exact Pattern.is_subset_lor_left _ (h6 d hdf)
      have hR := search_sound out (sol.setT digit t) (filled.lor t.as_pattern) rest m
        (digit :: fixed) (by rw [setT_length]; exact h1) h2r H3 H4 H5 H6
      obtain ⟨hlenr, hagreer⟩ :=
        search_scratch out (sol.setT digit t) (filled.lor t.as_pattern) rest m
      have hfixagree : ∀ d ∈ fixed,
          (search out (sol.setT digit t) (filled.lor t.as_pattern) rest m).2.get d =
            sol.get d := by
        intro d hd
        rw [hagreer d (hdisjkeys d hd)]
        exact get_setT_ne sol (fun hh => hdigfix (by rw [hh]; exact hd)) t
      intro s hs
      have hres := searchLoop_sound
        (search out (sol.setT digit t) (filled.lor t.as_pattern) rest m).1
        (search out (sol.setT digit t) (filled.lor t.as_pattern) rest m).2
        filled digit ts rest m fixed
        (by rw [hlenr, setT_length]; exact h1)
        (fun u hu => h2p u (List.mem_cons_of_mem _ hu)) h2r h3
        (fun d hd => by rw [hfixagree d hd]; exact h4 d hd)
        (List.Pairwise.imp_of_mem
          (fun ha hb hab => by rw [hfixagree _ ha, hfixagree _ hb]; exact hab) h5)
        (fun d hd => by rw [hfixagree d hd]; exact h6 d hd)
      rcases hres s hs with hin | hval
      · exact hR s hin
      · exact Or.inr hval
termination_by (rest.length + 1, possible.length + 1)
decreasing_by
  all_goals simp_wf
  all_goals omega

end

theorem search_forced :
    ∀ (templates : List (Nat × List Template)) (out : List Solution)
      (sol : Solution) (filled : Pattern) (m : Nat),
      (∀ dp ∈ templates, ∃ t, dp.2 = [t]) →
      (∀ dp ∈ templates, ∀ t ∈ dp.2, t.as_pattern.intersects filled = false) →
      templates.Pairwise (fun dp dp2 => ∀ t ∈ dp.2, ∀ t2 ∈ dp2.2,
        t.as_pattern.intersects t2.as_pattern = false) →
      ∃ s, search out sol filled templates m = (out ++ [s], s) := by
  intro templates
  induction templates with
  | nil =>
    intro out sol filled m _ _ _
    exact ⟨sol, by rw [search_nil_eq]⟩
  | cons dp rest ih =>
    intro out sol filled m hsing hfill hpw
    obtain ⟨digit, possible⟩ := dp
    obtain ⟨t, ht⟩ := hsing _ (List.mem_cons_self _ _)
    replace ht : possible = [t] := ht
    subst ht
    rw [search_cons_eq, searchLoop_cons_eq]
    have hintf : t.as_pattern.intersects filled = false :=
      hfill _ (List.mem_cons_self _ _) t (List.mem_singleton_self t)
    rw [hintf]
    simp only [Bool.false_eq_true, if_false]
    rw [List.pairwise_cons] at hpw
    obtain ⟨s, hs⟩ := ih out (sol.setT digit t) (filled.lor t.as_pattern) m
      (fun dp2 h2 => hsing dp2 (List.mem_cons_of_mem _ h2))
      (by
        intro dp2 h2 t2 ht2
        rw [Pattern.intersects_lor]
        refine Bool.or_eq_false_iff.mpr
          ⟨hfill dp2 (List.mem_cons_of_mem _ h2) t2 ht2, ?_⟩
        have := hpw.1 dp2 h2 t (List.mem_singleton_self t) t2 ht2
        rw [Pattern.intersects_comm]
        exact this)
      hpw.2
    rw [hs]
    split_ifs with hcap
    · exact ⟨s, rfl⟩
    · rw [searchLoop_nil_eq]
      exact ⟨s, rfl⟩

theorem sortTemplates_perm (l : List (Nat × List Template)) :
    (sortTemplates l).Perm l := by
  rw [sortTemplates]
  exact List.mergeSort_perm l _

theorem mkTemplates_map_fst (poss : Possibilities) :
    (mkTemplates poss).map Prod.fst = List.range 9 := by
  rw [mkTemplates, List.map_map]
  have h : (Prod.fst ∘ fun digit : Nat =>
      (digit, Template.within (patGet poss.patterns digit))) = fun d : Nat => d := rfl
  rw [h]
  exact List.map_id' (List.range 9)

theorem mem_mkTemplates (poss : Possibilities) (dp : Nat × List Template)
    (h : dp ∈ mkTemplates poss) :
    ∃ d, d < 9 ∧ dp = (d, Template.within (patGet poss.patterns d)) := by
  rw [mkTemplates] at h
  obtain ⟨d, hd, hdp⟩ := List.mem_map.mp h
  exact ⟨d, List.mem_range.mp hd, hdp.symm⟩

/-- C1: every solution recorded by the search in `solve` is valid: its nine
per-digit template patterns are pairwise disjoint and jointly cover all 81
cells. -/
theorem solve_solutions_valid (puzzle : List Nat) (m : Nat) (s : Solution)
    (hmem : s ∈ solve puzzle m) : SolutionValidSpec s := by
  rw [solve] at hmem
  cases hE : solveSets puzzle with
  | error e =>
    rw [hE] at hmem
    cases hmem
  | ok poss =>
    rw [hE] at hmem
    replace hmem : s ∈ (search [] Solution.default9 Pattern.EMPTY
      (sortTemplates (mkTemplates poss)) m).1 := hmem
    have hperm := sortTemplates_perm (mkTemplates poss)
    have hres := search_sound [] Solution.default9 Pattern.EMPTY
      (sortTemplates (mkTemplates poss)) m []
      (by simp [Solution.default9])
      (by
        intro dp hdp t ht
        obtain ⟨d, _, hdp2⟩ := mem_mkTemplates poss dp (hperm.mem_iff.mp hdp)
        subst hdp2
        exact ((mem_within_iff _ _).mp ht).1)
      (by
        rw [List.append_nil]
        exact (hperm.map Prod.fst).trans (by rw [mkTemplates_map_fst]))
      (fun d hd => absurd hd (List.not_mem_nil d))
      List.Pairwise.nil
      (fun d hd => absurd hd (List.not_mem_nil d))
    rcases hres s hmem with h | h
    · cases h
    · exact h

/-- C3 (corrected bound): `solve` never returns more than
`max maxSolutions 1` solutions.  (The original at-most-`maxSolutions` bound
fails at `maxSolutions = 0`: see `solve_zero_cap_counterexample`.) -/
theorem solve_at_most_max_one (puzzle : List Nat) (m : Nat) :
    (solve puzzle m).length ≤ max m 1 := by
  rw [solve]
  cases hE : solveSets puzzle with
  | error e => exact Nat.zero_le _
  | ok poss =>
    have h := search_length_le [] Solution.default9 Pattern.EMPTY
      (sortTemplates (mkTemplates poss)) m
    simpa using h

/-! ### Concrete catalog membership for the nine solved-grid patterns -/

theorem fill_mem_zero_of_eq {p build : Pattern} (cols boxes : Nat) (h : p = build) :
    p ∈ fill build cols boxes 0 := by
  subst h
  exact fill_mem_zero _ _ _

theorem solved_pattern_mem_0 :
    (⟨266368, 16797697, 16392⟩ : Pattern) ∈ Template.all := by
  show _ ∈ fill Pattern.EMPTY 0 0 9
  refine @fill_mem_step 8 _ _ _ 7 (by decide) (by decide) (by decide) _ ?_
  refine @fill_mem_step 7 _ _ _ 3 (by decide) (by decide) (by decide) _ ?_
  refine @fill_mem_step 6 _ _ _ 0 (by decide) (by decide) (by decide) _ ?_
  refine @fill_mem_step 5 _ _ _ 5 (by decide) (by decide) (by decide) _ ?_
  refine @fill_mem_step 4 _ _ _ 8 (by decide) (by decide) (by decide) _ ?_
  refine @fill_mem_step 3 _ _ _ 1 (by decide) (by decide) (by decide) _ ?_
  refine @fill_mem_step 2 _ _ _ 2 (by decide) (by decide) (by decide) _ ?_
  refine @fill_mem_step 1 _ _ _ 4 (by decide) (by decide) (by decide) _ ?_
  refine @fill_mem_step 0 _ _ _ 6 (by decide) (by decide) (by decide) _ ?_
  exact fill_mem_zero_of_eq _ _ (by decide)

theorem solved_pattern_mem_1 :
    (⟨8390912, 2416050212, 2048⟩ : Pattern) ∈ Template.all := by
  show _ ∈ fill Pattern.EMPTY 0 0 9
  refine @fill_mem_step 8 _ _ _ 8 (by decide) (by decide) (by decide) _ ?_
  refine @fill_mem_step 7 _ _ _ 2 (by decide) (by decide) (by decide) _ ?_
  refine @fill_mem_step 6 _ _ _ 5 (by decide) (by decide) (by decide) _ ?_
  refine @fill_mem_step 5 _ _ _ 7 (by decide) (by decide) (by decide) _ ?_
  refine @fill_mem_step 4 _ _ _ 1 (by decide) (by decide) (by decide) _ ?_
  refine @fill_mem_step 3 _ _ _ 4 (by decide) (by decide) (by decide) _ ?_
  refine @fill_mem_step 2 _ _ _ 6 (by decide) (by decide) (by decide) _ ?_
  refine @fill_mem_step 1 _ _ _ 0 (by decide) (by decide) (by decide) _ ?_
  refine @fill_mem_step 0 _ _ _ 3 (by decide) (by decide) (by decide) _ ?_
  exact fill_mem_zero_of_eq _ _ (by decide)

theorem solved_pattern_mem_2 :
    (⟨2129922, 67142152, 320⟩ : Pattern) ∈ Template.all := by
  show _ ∈ fill Pattern.EMPTY 0 0 9
  refine @fill_mem_step 8 _ _ _ 1 (by decide) (by decide) (by decide) _ ?_
  refine @fill_mem_step 7 _ _ _ 6 (by decide) (by decide) (by decide) _ ?_
  refine @fill_mem_step 6 _ _ _ 3 (by decide) (by decide) (by decide) _ ?_
  refine @fill_mem_step 5 _ _ _ 8 (by decide) (by decide) (by decide) _ ?_
  refine @fill_mem_step 4 _ _ _ 5 (by decide) (by decide) (by decide) _ ?_
  refine @fill_mem_step 3 _ _ _ 2 (by decide) (by decide) (by decide) _ ?_
  refine @fill_mem_step 2 _ _ _ 4 (by decide) (by decide) (by decide) _ ?_
  refine @fill_mem_step 1 _ _ _ 7 (by decide) (by decide) (by decide) _ ?_
  refine @fill_mem_step 0 _ _ _ 0 (by decide) (by decide) (by decide) _ ?_
  exact fill_mem_zero_of_eq _ _ (by decide)

theorem solved_pattern_mem_3 :
    (⟨4259844, 1074003986, 516⟩ : Pattern) ∈ Template.all := by
  show _ ∈ fill Pattern.EMPTY 0 0 9
  refine @fill_mem_step 8 _ _ _ 2 (by decide) (by decide) (by decide) _ ?_
  refine @fill_mem_step 7 _ _ _ 7 (by decide) (by decide) (by decide) _ ?_
  refine @fill_mem_step 6 _ _ _ 4 (by decide) (by decide) (by decide) _ ?_
  refine @fill_mem_step 5 _ _ _ 6 (by decide) (by decide) (by decide) _ ?_
  refine @fill_mem_step 4 _ _ _ 0 (by decide) (by decide) (by decide) _ ?_
  refine @fill_mem_step 3 _ _ _ 5 (by decide) (by decide) (by decide) _ ?_
  refine @fill_mem_step 2 _ _ _ 8 (by decide) (by decide) (by decide) _ ?_
  refine @fill_mem_step 1 _ _ _ 3 (by decide) (by decide) (by decide) _ ?_
  refine @fill_mem_step 0 _ _ _ 1 (by decide) (by decide) (by decide) _ ?_
  exact fill_mem_zero_of_eq _ _ (by decide)

theorem solved_pattern_mem_4 :
    (⟨285229057, 34603264, 1152⟩ : Pattern) ∈ Template.all := by
  show _ ∈ fill Pattern.EMPTY 0 0 9
  refine @fill_mem_step 8 _ _ _ 0 (by decide) (by decide) (by decide) _ ?_
  refine @fill_mem_step 7 _ _ _ 5 (by decide) (by decide) (by decide) _ ?_
  refine @fill_mem_step 6 _ _ _ 6 (by decide) (by decide) (by decide) _ ?_
  refine @fill_mem_step 5 _ _ _ 1 (by decide) (by decide) (by decide) _ ?_
  refine @fill_mem_step 4 _ _ _ 4 (by decide) (by decide) (by decide) _ ?_
  refine @fill_mem_step 3 _ _ _ 7 (by decide) (by decide) (by decide) _ ?_
  refine @fill_mem_step 2 _ _ _ 3 (by decide) (by decide) (by decide) _ ?_
  refine @fill_mem_step 1 _ _ _ 8 (by decide) (by decide) (by decide) _ ?_
  refine @fill_mem_step 0 _ _ _ 2 (by decide) (by decide) (by decide) _ ?_
  exact fill_mem_zero_of_eq _ _ (by decide)

theorem solved_pattern_mem_5 :
    (⟨2181038600, 10485824, 8224⟩ : Pattern) ∈ Template.all := by
  show _ ∈ fill Pattern.EMPTY 0 0 9
  refine @fill_mem_step 8 _ _ _ 3 (by decide) (by decide) (by decide) _ ?_
  refine @fill_mem_step 7 _ _ _ 0 (by decide) (by decide) (by decide) _ ?_
  refine @fill_mem_step 6 _ _ _ 7 (by decide) (by decide) (by decide) _ ?_
  refine @fill_mem_step 5 _ _ _ 4 (by decide) (by decide) (by decide) _ ?_
  refine @fill_mem_step 4 _ _ _ 2 (by decide) (by decide) (by decide) _ ?_
  refine @fill_mem_step 3 _ _ _ 8 (by decide) (by decide) (by decide) _ ?_
  refine @fill_mem_step 2 _ _ _ 1 (by decide) (by decide) (by decide) _ ?_
  refine @fill_mem_step 1 _ _ _ 6 (by decide) (by decide) (by decide) _ ?_
  refine @fill_mem_step 0 _ _ _ 5 (by decide) (by decide) (by decide) _ ?_
  exact fill_mem_zero_of_eq _ _ (by decide)

theorem solved_pattern_mem_6 :
    (⟨1140851728, 134226944, 32770⟩ : Pattern) ∈ Template.all := by
  show _ ∈ fill Pattern.EMPTY 0 0 9
  refine @fill_mem_step 8 _ _ _ 4 (by decide) (by decide) (by decide) _ ?_
  refine @fill_mem_step 7 _ _ _ 1 (by decide) (by decide) (by decide) _ ?_
  refine @fill_mem_step 6 _ _ _ 8 (by decide) (by decide) (by decide) _ ?_
  refine @fill_mem_step 5 _ _ _ 3 (by decide) (by decide) (by decide) _ ?_
  refine @fill_mem_step 4 _ _ _ 6 (by decide) (by decide) (by decide) _ ?_
  refine @fill_mem_step 3 _ _ _ 0 (by decide) (by decide) (by decide) _ ?_
  refine @fill_mem_step 2 _ _ _ 5 (by decide) (by decide) (by decide) _ ?_
  refine @fill_mem_step 1 _ _ _ 2 (by decide) (by decide) (by decide) _ ?_
  refine @fill_mem_step 0 _ _ _ 7 (by decide) (by decide) (by decide) _ ?_
  exact fill_mem_zero_of_eq _ _ (by decide)

theorem solved_pattern_mem_7 :
    (⟨135397408, 537395328, 4097⟩ : Pattern) ∈ Template.all := by
  show _ ∈ fill Pattern.EMPTY 0 0 9
  refine @fill_mem_step 8 _ _ _ 5 (by decide) (by decide) (by decide) _ ?_
  refine @fill_mem_step 7 _ _ _ 8 (by decide) (by decide) (by decide) _ ?_
  refine @fill_mem_step 6 _ _ _ 2 (by decide) (by decide) (by decide) _ ?_
  refine @fill_mem_step 5 _ _ _ 0 (by decide) (by decide) (by decide) _ ?_
  refine @fill_mem_step 4 _ _ _ 3 (by decide) (by decide) (by decide) _ ?_
  refine @fill_mem_step 3 _ _ _ 6 (by decide) (by decide) (by decide) _ ?_
  refine @fill_mem_step 2 _ _ _ 7 (by decide) (by decide) (by decide) _ ?_
  refine @fill_mem_step 1 _ _ _ 1 (by decide) (by decide) (by decide) _ ?_
  refine @fill_mem_step 0 _ _ _ 4 (by decide) (by decide) (by decide) _ ?_
  exact fill_mem_zero_of_eq _ _ (by decide)

theorem solved_pattern_mem_8 :
    (⟨537403456, 4261888, 65552⟩ : Pattern) ∈ Template.all := by
  show _ ∈ fill Pattern.EMPTY 0 0 9
  refine @fill_mem_step 8 _ _ _ 6 (by decide) (by decide) (by decide) _ ?_
  refine @fill_mem_step 7 _ _ _ 4 (by decide) (by decide) (by decide) _ ?_
  refine @fill_mem_step 6 _ _ _ 1 (by decide) (by decide) (by decide) _ ?_
  refine @fill_mem_step 5 _ _ _ 2 (by decide) (by decide) (by decide) _ ?_
  refine @fill_mem_step 4 _ _ _ 7 (by decide) (by decide) (by decide) _ ?_
  refine @fill_mem_step 3 _ _ _ 3 (by decide) (by decide) (by decide) _ ?_
  refine @fill_mem_step 2 _ _ _ 0 (by decide) (by decide) (by decide) _ ?_
  refine @fill_mem_step 1 _ _ _ 5 (by decide) (by decide) (by decide) _ ?_
  refine @fill_mem_step 0 _ _ _ 8 (by decide) (by decide) (by decide) _ ?_
  exact fill_mem_zero_of_eq _ _ (by decide)

theorem solvedState_pattern_mem :
    ∀ d, d < 9 → patGet solvedState.patterns d ∈ Template.all := by
  intro d hd
  interval_cases d
  · exact solved_pattern_mem_0
  · exact solved_pattern_mem_1
  · exact solved_pattern_mem_2
  · exact solved_pattern_mem_3
  · exact solved_pattern_mem_4
  · exact solved_pattern_mem_5
  · exact solved_pattern_mem_6
  · exact solved_pattern_mem_7
  · exact solved_pattern_mem_8

theorem solvedState_disjoint : ∀ d, d < 9 → ∀ d2, d2 < 9 → d ≠ d2 →
    (patGet solvedState.patterns d).intersects (patGet solvedState.patterns d2) = false := by
  decide

theorem solvedState_within_char : ∀ d, d < 9 →
    ∃ t, Template.within (patGet solvedState.patterns d) = [t] ∧
      t.as_pattern = patGet solvedState.patterns d :=
  fun d hd => within_singleton (solvedState_pattern_mem d hd)

theorem sorted_solved_sing :
    ∀ dp ∈ sortTemplates (mkTemplates solvedState), ∃ t, dp.2 = [t] := by
  intro dp hdp
  obtain ⟨d, hd, hdp2⟩ :=
    mem_mkTemplates solvedState dp ((sortTemplates_perm _).mem_iff.mp hdp)
  subst hdp2
  obtain ⟨t, ht, -⟩ := solvedState_within_char d hd
  exact ⟨t, ht⟩

theorem sorted_solved_pw :
    (sortTemplates (mkTemplates solvedState)).Pairwise
      (fun dp dp2 => ∀ t ∈ dp.2, ∀ t2 ∈ dp2.2,
        t.as_pattern.intersects t2.as_pattern = false) := by
  have hsymm : ∀ {x y : Nat × List Template},
      (∀ t ∈ x.2, ∀ t2 ∈ y.2, t.as_pattern.intersects t2.as_pattern = false) →
      (∀ t ∈ y.2, ∀ t2 ∈ x.2, t.as_pattern.intersects t2.as_pattern = false) := by
    intro x y hxy t ht t2 ht2
    rw [Pattern.intersects_comm]
    exact hxy t2 ht2 t ht
  refine (List.Perm.pairwise_iff hsymm (sortTemplates_perm _)).mpr ?_
  rw [mkTemplates]
  refine List.pairwise_map.mpr ?_
  refine List.pairwise_iff_getElem.mpr ?_
  intro i j hi hj hij
  simp only [List.length_range] at hi hj
  rw [List.getElem_range, List.getElem_range]
  intro t ht t2 ht2
  obtain ⟨ti, hti, htia⟩ := solvedState_within_char i hi
  obtain ⟨tj, htj, htja⟩ := solvedState_within_char j hj
  rw [hti] at ht
  rw [htj] at ht2
  have h1 : t = ti := by simpa using ht
  have h2 : t2 = tj := by simpa using ht2
  subst h1
  subst h2
  rw [htia, htja]
  exact solvedState_disjoint i hi j hj (by omega)

theorem foldlM_except_cons {ε σ α : Type} {f : σ → α → Except ε σ} {x : α}
    {xs : List α} {b c : σ} (h : f b x = Except.ok c) :
    (x :: xs).foldlM f b = xs.foldlM f c := by
  rw [List.foldlM_cons, h]
  rfl

set_option maxRecDepth 100000 in
theorem fullGridStep_0 :
    (fun p cell => if fullGridL.getD cell 0 = 0 then Except.ok p
      else p.set (cell / 9) (cell % 9) (fullGridL.getD cell 0)) Possibilities.new 0 =
      Except.ok fullS1 := by
  rfl

set_option maxRecDepth 100000 in
theorem fullGridStep_1 :
    (fun p cell => if fullGridL.getD cell 0 = 0 then Except.ok p
      else p.set (cell / 9) (cell % 9) (fullGridL.getD cell 0)) fullS1 1 =
      Except.ok fullS2 := by
  rfl

set_option maxRecDepth 100000 in
theorem fullGridStep_2 :
    (fun p cell => if fullGridL.getD cell 0 = 0 then Except.ok p
      else p.set (cell / 9) (cell % 9) (fullGridL.getD cell 0)) fullS2 2 =
      Except.ok fullS3 := by
  rfl

set_option maxRecDepth 100000 in
theorem fullGridStep_3 :
    (fun p cell => if fullGridL.getD cell 0 = 0 then Except.ok p
      else p.set (cell / 9) (cell % 9) (fullGridL.getD cell 0)) fullS3 3 =
      Except.ok fullS4 := by
  rfl

set_option maxRecDepth 100000 in
theorem fullGridStep_4 :
    (fun p cell => if fullGridL.getD cell 0 = 0 then Except.ok p
      else p.set (cell / 9) (cell % 9) (fullGridL.getD cell 0)) fullS4 4 =
      Except.ok fullS5 := by
  rfl

set_option maxRecDepth 100000 in
theorem fullGridStep_5 :
    (fun p cell => if fullGridL.getD cell 0 = 0 then Except.ok p
      else p.set (cell / 9) (cell % 9) (fullGridL.getD cell 0)) fullS5 5 =
      Except.ok fullS6 := by
  rfl

set_option maxRecDepth 100000 in
theorem fullGridStep_6 :
    (fun p cell => if fullGridL.getD cell 0 = 0 then Except.ok p
      else p.set (cell / 9) (cell % 9) (fullGridL.getD cell 0)) fullS6 6 =
      Except.ok fullS7 := by
  rfl

set_option maxRecDepth 100000 in
theorem fullGridStep_7 :
    (fun p cell => if fullGridL.getD cell 0 = 0 then Except.ok p
      else p.set (cell / 9) (cell % 9) (fullGridL.getD cell 0)) fullS7 7 =
      Except.ok fullS8 := by
  rfl

set_option maxRecDepth 100000 in
theorem fullGridStep_8 :
    (fun p cell => if fullGridL.getD cell 0 = 0 then Except.ok p
      else p.set (cell / 9) (cell % 9) (fullGridL.getD cell 0)) fullS8 8 =
      Except.ok fullS9 := by
  rfl

set_option maxRecDepth 100000 in
theorem fullGridStep_9 :
    (fun p cell => if fullGridL.getD cell 0 = 0 then Except.ok p
      else p.set (cell / 9) (cell % 9) (fullGridL.getD cell 0)) fullS9 9 =
      Except.ok fullS10 := by
  rfl

set_option maxRecDepth 100000 in
theorem fullGridStep_10 :
    (fun p cell => if fullGridL.getD cell 0 = 0 then Except.ok p
      else p.set (cell / 9) (cell % 9) (fullGridL.getD cell 0)) fullS10 10 =
      Except.ok fullS11 := by
  rfl

set_option maxRecDepth 100000 in
theorem fullGridStep_11 :
    (fun p cell => if fullGridL.getD cell 0 = 0 then Except.ok p
      else p.set (cell / 9) (cell % 9) (fullGridL.getD cell 0)) fullS11 11 =
      Except.ok fullS12 := by
  rfl

set_option maxRecDepth 100000 in
theorem fullGridStep_12 :
    (fun p cell => if fullGridL.getD cell 0 = 0 then Except.ok p
      else p.set (cell / 9) (cell % 9) (fullGridL.getD cell 0)) fullS12 12 =
      Except.ok fullS13 := by
  rfl

set_option maxRecDepth 100000 in
theorem fullGridStep_13 :
    (fun p cell => if fullGridL.getD cell 0 = 0 then Except.ok p
      else p.set (cell / 9) (cell % 9) (fullGridL.getD cell 0)) fullS13 13 =
      Except.ok fullS14 := by
  rfl

set_option maxRecDepth 100000 in
theorem fullGridStep_14 :
    (fun p cell => if fullGridL.getD cell 0 = 0 then Except.ok p
      else p.set (cell / 9) (cell % 9) (fullGridL.getD cell 0)) fullS14 14 =
      Except.ok fullS15 := by
  rfl

set_option maxRecDepth 100000 in
theorem fullGridStep_15 :
    (fun p cell => if fullGridL.getD cell 0 = 0 then Except.ok p
      else p.set (cell / 9) (cell % 9) (fullGridL.getD cell 0)) fullS15 15 =
      Except.ok fullS16 := by
  rfl

set_option maxRecDepth 100000 in
theorem fullGridStep_16 :
    (fun p cell => if fullGridL.getD cell 0 = 0 then Except.ok p
      else p.set (cell / 9) (cell % 9) (fullGridL.getD cell 0)) fullS16 16 =
      Except.ok fullS17 := by
  rfl

set_option maxRecDepth 100000 in
theorem fullGridStep_17 :
    (fun p cell => if fullGridL.getD cell 0 = 0 then Except.ok p
      else p.set (cell / 9) (cell % 9) (fullGridL.getD cell 0)) fullS17 17 =
      Except.ok fullS18 := by
  rfl

set_option maxRecDepth 100000 in
theorem fullGridStep_18 :
    (fun p cell => if fullGridL.getD cell 0 = 0 then Except.ok p
      else p.set (cell / 9) (cell % 9) (fullGridL.getD cell 0)) fullS18 18 =
      Except.ok fullS19 := by
  rfl

set_option maxRecDepth 100000 in
theorem fullGridStep_19 :
    (fun p cell => if fullGridL.getD cell 0 = 0 then Except.ok p
      else p.set (cell / 9) (cell % 9) (fullGridL.getD cell 0)) fullS19 19 =
      Except.ok fullS20 := by
  rfl

set_option maxRecDepth 100000 in
theorem fullGridStep_20 :
    (fun p cell => if fullGridL.getD cell 0 = 0 then Except.ok p
      else p.set (cell / 9) (cell % 9) (fullGridL.getD cell 0)) fullS20 20 =
      Except.ok fullS21 := by
  rfl

set_option maxRecDepth 100000 in
theorem fullGridStep_21 :
    (fun p cell => if fullGridL.getD cell 0 = 0 then Except.ok p
      else p.set (cell / 9) (cell % 9) (fullGridL.getD cell 0)) fullS21 21 =
      Except.ok fullS22 := by
  rfl

set_option maxRecDepth 100000 in
theorem fullGridStep_22 :
    (fun p cell => if fullGridL.getD cell 0 = 0 then Except.ok p
      else p.set (cell / 9) (cell % 9) (fullGridL.getD cell 0)) fullS22 22 =
      Except.ok fullS23 := by
  rfl

set_option maxRecDepth 100000 in
theorem fullGridStep_23 :
    (fun p cell => if fullGridL.getD cell 0 = 0 then Except.ok p
      else p.set (cell / 9) (cell % 9) (fullGridL.getD cell 0)) fullS23 23 =
      Except.ok fullS24 := by
  rfl

set_option maxRecDepth 100000 in
theorem fullGridStep_24 :
    (fun p cell => if fullGridL.getD cell 0 = 0 then Except.ok p
      else p.set (cell / 9) (cell % 9) (fullGridL.getD cell 0)) fullS24 24 =
      Except.ok fullS25 := by
  rfl

set_option maxRecDepth 100000 in
theorem fullGridStep_25 :
    (fun p cell => if fullGridL.getD cell 0 = 0 then Except.ok p
      else p.set (cell / 9) (cell % 9) (fullGridL.getD cell 0)) fullS25 25 =
      Except.ok fullS26 := by
  rfl

set_option maxRecDepth 100000 in
theorem fullGridStep_26 :
    (fun p cell => if fullGridL.getD cell 0 = 0 then Except.ok p
      else p.set (cell / 9) (cell % 9) (fullGridL.getD cell 0)) fullS26 26 =
      Except.ok fullS27 := by
  rfl

set_option maxRecDepth 100000 in
theorem fullGridStep_27 :
    (fun p cell => if fullGridL.getD cell 0 = 0 then Except.ok p
      else p.set (cell / 9) (cell % 9) (fullGridL.getD cell 0)) fullS27 27 =
      Except.ok fullS28 := by
  rfl

set_option maxRecDepth 100000 in
theorem fullGridStep_28 :
    (fun p cell => if fullGridL.getD cell 0 = 0 then Except.ok p
      else p.set (cell / 9) (cell % 9) (fullGridL.getD cell 0)) fullS28 28 =
      Except.ok fullS29 := by
  rfl

set_option maxRecDepth 100000 in
theorem fullGridStep_29 :
    (fun p cell => if fullGridL.getD cell 0 = 0 then Except.ok p
      else p.set (cell / 9) (cell % 9) (fullGridL.getD cell 0)) fullS29 29 =
      Except.ok fullS30 := by
  rfl

set_option maxRecDepth 100000 in
theorem fullGridStep_30 :
    (fun p cell => if fullGridL.getD cell 0 = 0 then Except.ok p
      else p.set (cell / 9) (cell % 9) (fullGridL.getD cell 0)) fullS30 30 =
      Except.ok fullS31 := by
  rfl

set_option maxRecDepth 100000 in
theorem fullGridStep_31 :
    (fun p cell => if fullGridL.getD cell 0 = 0 then Except.ok p
      else p.set (cell / 9) (cell % 9) (fullGridL.getD cell 0)) fullS31 31 =
      Except.ok fullS32 := by
  rfl

set_option maxRecDepth 100000 in
theorem fullGridStep_32 :
    (fun p cell => if fullGridL.getD cell 0 = 0 then Except.ok p
      else p.set (cell / 9) (cell % 9) (fullGridL.getD cell 0)) fullS32 32 =
      Except.ok fullS33 := by
  rfl

set_option maxRecDepth 100000 in
theorem fullGridStep_33 :
    (fun p cell => if fullGridL.getD cell 0 = 0 then Except.ok p
      else p.set (cell / 9) (cell % 9) (fullGridL.getD cell 0)) fullS33 33 =
      Except.ok fullS34 := by
  rfl

set_option maxRecDepth 100000 in
theorem fullGridStep_34 :
    (fun p cell => if fullGridL.getD cell 0 = 0 then Except.ok p
      else p.set (cell / 9) (cell % 9) (fullGridL.getD cell 0)) fullS34 34 =
      Except.ok fullS35 := by
  rfl

set_option maxRecDepth 100000 in
theorem fullGridStep_35 :
    (fun p cell => if fullGridL.getD cell 0 = 0 then Except.ok p
      else p.set (cell / 9) (cell % 9) (fullGridL.getD cell 0)) fullS35 35 =
      Except.ok fullS36 := by
  rfl

set_option maxRecDepth 100000 in
theorem fullGridStep_36 :
    (fun p cell => if fullGridL.getD cell 0 = 0 then Except.ok p
      else p.set (cell / 9) (cell % 9) (fullGridL.getD cell 0)) fullS36 36 =
      Except.ok fullS37 := by
  rfl

set_option maxRecDepth 100000 in
theorem fullGridStep_37 :
    (fun p cell => if fullGridL.getD cell 0 = 0 then Except.ok p
      else p.set (cell / 9) (cell % 9) (fullGridL.getD cell 0)) fullS37 37 =
      Except.ok fullS38 := by
  rfl

set_option maxRecDepth 100000 in
theorem fullGridStep_38 :
    (fun p cell => if fullGridL.getD cell 0 = 0 then Except.ok p
      else p.set (cell / 9) (cell % 9) (fullGridL.getD cell 0)) fullS38 38 =
      Except.ok fullS39 := by
  rfl

set_option maxRecDepth 100000 in
theorem fullGridStep_39 :
    (fun p cell => if fullGridL.getD cell 0 = 0 then Except.ok p
      else p.set (cell / 9) (cell % 9) (fullGridL.getD cell 0)) fullS39 39 =
      Except.ok fullS40 := by
  rfl

set_option maxRecDepth 100000 in
theorem fullGridStep_40 :
    (fun p cell => if fullGridL.getD cell 0 = 0 then Except.ok p
      else p.set (cell / 9) (cell % 9) (fullGridL.getD cell 0)) fullS40 40 =
      Except.ok fullS41 := by
  rfl

set_option maxRecDepth 100000 in
theorem fullGridStep_41 :
    (fun p cell => if fullGridL.getD cell 0 = 0 then Except.ok p
      else p.set (cell / 9) (cell % 9) (fullGridL.getD cell 0)) fullS41 41 =
      Except.ok fullS42 := by
  rfl

set_option maxRecDepth 100000 in
theorem fullGridStep_42 :
    (fun p cell => if fullGridL.getD cell 0 = 0 then Except.ok p
      else p.set (cell / 9) (cell % 9) (fullGridL.getD cell 0)) fullS42 42 =
      Except.ok fullS43 := by
  rfl

set_option maxRecDepth 100000 in
theorem fullGridStep_43 :
    (fun p cell => if fullGridL.getD cell 0 = 0 then Except.ok p
      else p.set (cell / 9) (cell % 9) (fullGridL.getD cell 0)) fullS43 43 =
      Except.ok fullS44 := by
  rfl

set_option maxRecDepth 100000 in
theorem fullGridStep_44 :
    (fun p cell => if fullGridL.getD cell 0 = 0 then Except.ok p
      else p.set (cell / 9) (cell % 9) (fullGridL.getD cell 0)) fullS44 44 =
      Except.ok fullS45 := by
  rfl

set_option maxRecDepth 100000 in
theorem fullGridStep_45 :
    (fun p cell => if fullGridL.getD cell 0 = 0 then Except.ok p
      else p.set (cell / 9) (cell % 9) (fullGridL.getD cell 0)) fullS45 45 =
      Except.ok fullS46 := by
  rfl

set_option maxRecDepth 100000 in
theorem fullGridStep_46 :
    (fun p cell => if fullGridL.getD cell 0 = 0 then Except.ok p
      else p.set (cell / 9) (cell % 9) (fullGridL.getD cell 0)) fullS46 46 =
      Except.ok fullS47 := by
  rfl

set_option maxRecDepth 100000 in
theorem fullGridStep_47 :
    (fun p cell => if fullGridL.getD cell 0 = 0 then Except.ok p
      else p.set (cell / 9) (cell % 9) (fullGridL.getD cell 0)) fullS47 47 =
      Except.ok fullS48 := by
  rfl

set_option maxRecDepth 100000 in
theorem fullGridStep_48 :
    (fun p cell => if fullGridL.getD cell 0 = 0 then Except.ok p
      else p.set (cell / 9) (cell % 9) (fullGridL.getD cell 0)) fullS48 48 =
      Except.ok fullS49 := by
  rfl

set_option maxRecDepth 100000 in
theorem fullGridStep_49 :
    (fun p cell => if fullGridL.getD cell 0 = 0 then Except.ok p
      else p.set (cell / 9) (cell % 9) (fullGridL.getD cell 0)) fullS49 49 =
      Except.ok fullS50 := by
  rfl

set_option maxRecDepth 100000 in
theorem fullGridStep_50 :
    (fun p cell => if fullGridL.getD cell 0 = 0 then Except.ok p
      else p.set (cell / 9) (cell % 9) (fullGridL.getD cell 0)) fullS50 50 =
      Except.ok fullS51 := by
  rfl

set_option maxRecDepth 100000 in
theorem fullGridStep_51 :
    (fun p cell => if fullGridL.getD cell 0 = 0 then Except.ok p
      else p.set (cell / 9) (cell % 9) (fullGridL.getD cell 0)) fullS51 51 =
      Except.ok fullS52 := by
  rfl

set_option maxRecDepth 100000 in
theorem fullGridStep_52 :
    (fun p cell => if fullGridL.getD cell 0 = 0 then Except.ok p
      else p.set (cell / 9) (cell % 9) (fullGridL.getD cell 0)) fullS52 52 =
      Except.ok fullS53 := by
  rfl

set_option maxRecDepth 100000 in
theorem fullGridStep_53 :
    (fun p cell => if fullGridL.getD cell 0 = 0 then Except.ok p
      else p.set (cell / 9) (cell % 9) (fullGridL.getD cell 0)) fullS53 53 =
      Except.ok fullS54 := by
  rfl

set_option maxRecDepth 100000 in
theorem fullGridStep_54 :
    (fun p cell => if fullGridL.getD cell 0 = 0 then Except.ok p
      else p.set (cell / 9) (cell % 9) (fullGridL.getD cell 0)) fullS54 54 =
      Except.ok fullS55 := by
  rfl

set_option maxRecDepth 100000 in
theorem fullGridStep_55 :
    (fun p cell => if fullGridL.getD cell 0 = 0 then Except.ok p
      else p.set (cell / 9) (cell % 9) (fullGridL.getD cell 0)) fullS55 55 =
      Except.ok fullS56 := by
  rfl

set_option maxRecDepth 100000 in
theorem fullGridStep_56 :
    (fun p cell => if fullGridL.getD cell 0 = 0 then Except.ok p
      else p.set (cell / 9) (cell % 9) (fullGridL.getD cell 0)) fullS56 56 =
      Except.ok fullS57 := by
  rfl

set_option maxRecDepth 100000 in
theorem fullGridStep_57 :
    (fun p cell => if fullGridL.getD cell 0 = 0 then Except.ok p
      else p.set (cell / 9) (cell % 9) (fullGridL.getD cell 0)) fullS57 57 =
      Except.ok fullS58 := by
  rfl

set_option maxRecDepth 100000 in
theorem fullGridStep_58 :
    (fun p cell => if fullGridL.getD cell 0 = 0 then Except.ok p
      else p.set (cell / 9) (cell % 9) (fullGridL.getD cell 0)) fullS58 58 =
      Except.ok fullS59 := by
  rfl

set_option maxRecDepth 100000 in
theorem fullGridStep_59 :
    (fun p cell => if fullGridL.getD cell 0 = 0 then Except.ok p
      else p.set (cell / 9) (cell % 9) (fullGridL.getD cell 0)) fullS59 59 =
      Except.ok fullS60 := by
  rfl

set_option maxRecDepth 100000 in
theorem fullGridStep_60 :
    (fun p cell => if fullGridL.getD cell 0 = 0 then Except.ok p
      else p.set (cell / 9) (cell % 9) (fullGridL.getD cell 0)) fullS60 60 =
      Except.ok fullS61 := by
  rfl

set_option maxRecDepth 100000 in
theorem fullGridStep_61 :
    (fun p cell => if fullGridL.getD cell 0 = 0 then Except.ok p
      else p.set (cell / 9) (cell % 9) (fullGridL.getD cell 0)) fullS61 61 =
      Except.ok fullS62 := by
  rfl

set_option maxRecDepth 100000 in
theorem fullGridStep_62 :
    (fun p cell => if fullGridL.getD cell 0 = 0 then Except.ok p
      else p.set (cell / 9) (cell % 9) (fullGridL.getD cell 0)) fullS62 62 =
      Except.ok fullS63 := by
  rfl

set_option maxRecDepth 100000 in
theorem fullGridStep_63 :
    (fun p cell => if fullGridL.getD cell 0 = 0 then Except.ok p
      else p.set (cell / 9) (cell % 9) (fullGridL.getD cell 0)) fullS63 63 =
      Except.ok fullS64 := by
  rfl

set_option maxRecDepth 100000 in
theorem fullGridStep_64 :
    (fun p cell => if fullGridL.getD cell 0 = 0 then Except.ok p
      else p.set (cell / 9) (cell % 9) (fullGridL.getD cell 0)) fullS64 64 =
      Except.ok fullS65 := by
  rfl

set_option maxRecDepth 100000 in
theorem fullGridStep_65 :
    (fun p cell => if fullGridL.getD cell 0 = 0 then Except.ok p
      else p.set (cell / 9) (cell % 9) (fullGridL.getD cell 0)) fullS65 65 =
      Except.ok fullS66 := by
  rfl

set_option maxRecDepth 100000 in
theorem fullGridStep_66 :
    (fun p cell => if fullGridL.getD cell 0 = 0 then Except.ok p
      else p.set (cell / 9) (cell % 9) (fullGridL.getD cell 0)) fullS66 66 =
      Except.ok fullS67 := by
  rfl

set_option maxRecDepth 100000 in
theorem fullGridStep_67 :
    (fun p cell => if fullGridL.getD cell 0 = 0 then Except.ok p
      else p.set (cell / 9) (cell % 9) (fullGridL.getD cell 0)) fullS67 67 =
      Except.ok fullS68 := by
  rfl

set_option maxRecDepth 100000 in
theorem fullGridStep_68 :
    (fun p cell => if fullGridL.getD cell 0 = 0 then Except.ok p
      else p.set (cell / 9) (cell % 9) (fullGridL.getD cell 0)) fullS68 68 =
      Except.ok fullS69 := by
  rfl

set_option maxRecDepth 100000 in
theorem fullGridStep_69 :
    (fun p cell => if fullGridL.getD cell 0 = 0 then Except.ok p
      else p.set (cell / 9) (cell % 9) (fullGridL.getD cell 0)) fullS69 69 =
      Except.ok fullS70 := by
  rfl

set_option maxRecDepth 100000 in
theorem fullGridStep_70 :
    (fun p cell => if fullGridL.getD cell 0 = 0 then Except.ok p
      else p.set (cell / 9) (cell % 9) (fullGridL.getD cell 0)) fullS70 70 =
      Except.ok fullS71 := by
  rfl

set_option maxRecDepth 100000 in
theorem fullGridStep_71 :
    (fun p cell => if fullGridL.getD cell 0 = 0 then Except.ok p
      else p.set (cell / 9) (cell % 9) (fullGridL.getD cell 0)) fullS71 71 =
      Except.ok fullS72 := by
  rfl

set_option maxRecDepth 100000 in
theorem fullGridStep_72 :
    (fun p cell => if fullGridL.getD cell 0 = 0 then Except.ok p
      else p.set (cell / 9) (cell % 9) (fullGridL.getD cell 0)) fullS72 72 =
      Except.ok fullS73 := by
  rfl

set_option maxRecDepth 100000 in
theorem fullGridStep_73 :
    (fun p cell => if fullGridL.getD cell 0 = 0 then Except.ok p
      else p.set (cell / 9) (cell % 9) (fullGridL.getD cell 0)) fullS73 73 =
      Except.ok fullS74 := by
  rfl

set_option maxRecDepth 100000 in
theorem fullGridStep_74 :
    (fun p cell => if fullGridL.getD cell 0 = 0 then Except.ok p
      else p.set (cell / 9) (cell % 9) (fullGridL.getD cell 0)) fullS74 74 =
      Except.ok fullS75 := by
  rfl

set_option maxRecDepth 100000 in
theorem fullGridStep_75 :
    (fun p cell => if fullGridL.getD cell 0 = 0 then Except.ok p
      else p.set (cell / 9) (cell % 9) (fullGridL.getD cell 0)) fullS75 75 =
      Except.ok fullS76 := by
  rfl

set_option maxRecDepth 100000 in
theorem fullGridStep_76 :
    (fun p cell => if fullGridL.getD cell 0 = 0 then Except.ok p
      else p.set (cell / 9) (cell % 9) (fullGridL.getD cell 0)) fullS76 76 =
      Except.ok fullS77 := by
  rfl

set_option maxRecDepth 100000 in
theorem fullGridStep_77 :
    (fun p cell => if fullGridL.getD cell 0 = 0 then Except.ok p
      else p.set (cell / 9) (cell % 9) (fullGridL.getD cell 0)) fullS77 77 =
      Except.ok fullS78 := by
  rfl

set_option maxRecDepth 100000 in
theorem fullGridStep_78 :
    (fun p cell => if fullGridL.getD cell 0 = 0 then Except.ok p
      else p.set (cell / 9) (cell % 9) (fullGridL.getD cell 0)) fullS78 78 =
      Except.ok fullS79 := by
  rfl

set_option maxRecDepth 100000 in
theorem fullGridStep_79 :
    (fun p cell => if fullGridL.getD cell 0 = 0 then Except.ok p
      else p.set (cell / 9) (cell % 9) (fullGridL.getD cell 0)) fullS79 79 =
      Except.ok fullS80 := by
  rfl

set_option maxRecDepth 100000 in
theorem fullGridStep_80 :
    (fun p cell => if fullGridL.getD cell 0 = 0 then Except.ok p
      else p.set (cell / 9) (cell % 9) (fullGridL.getD cell 0)) fullS80 80 =
      Except.ok solvedState := by
  rfl

set_option maxRecDepth 400000 in
theorem solveSets_fullGrid : solveSets fullGridL = Except.ok solvedState := by
  rw [solveSets]
  rw [show List.range 81 = [0, 1, 2, 3, 4, 5, 6, 7, 8, 9, 10, 11, 12, 13, 14, 15, 16, 17, 18, 19, 20, 21, 22, 23, 24, 25, 26, 27, 28, 29, 30, 31, 32, 33, 34, 35, 36, 37, 38, 39, 40, 41, 42, 43, 44, 45, 46, 47, 48, 49, 50, 51, 52, 53, 54, 55, 56, 57, 58, 59, 60, 61, 62, 63, 64, 65, 66, 67, 68, 69, 70, 71, 72, 73, 74, 75, 76, 77, 78, 79, 80] from rfl]
  rw [foldlM_except_cons fullGridStep_0]
  rw [foldlM_except_cons fullGridStep_1]
  rw [foldlM_except_cons fullGridStep_2]
  rw [foldlM_except_cons fullGridStep_3]
  rw [foldlM_except_cons fullGridStep_4]
  rw [foldlM_except_cons fullGridStep_5]
  rw [foldlM_except_cons fullGridStep_6]
  rw [foldlM_except_cons fullGridStep_7]
  rw [foldlM_except_cons fullGridStep_8]
  rw [foldlM_except_cons fullGridStep_9]
  rw [foldlM_except_cons fullGridStep_10]
  rw [foldlM_except_cons fullGridStep_11]
  rw [foldlM_except_cons fullGridStep_12]
  rw [foldlM_except_cons fullGridStep_13]
  rw [foldlM_except_cons fullGridStep_14]
  rw [foldlM_except_cons fullGridStep_15]
  rw [foldlM_except_cons fullGridStep_16]
  rw [foldlM_except_cons fullGridStep_17]
  rw [foldlM_except_cons fullGridStep_18]
  rw [foldlM_except_cons fullGridStep_19]
  rw [foldlM_except_cons fullGridStep_20]
  rw [foldlM_except_cons fullGridStep_21]
  rw [foldlM_except_cons fullGridStep_22]
  rw [foldlM_except_cons fullGridStep_23]
  rw [foldlM_except_cons fullGridStep_24]
  rw [foldlM_except_cons fullGridStep_25]
  rw [foldlM_except_cons fullGridStep_26]
  rw [foldlM_except_cons fullGridStep_27]
  rw [foldlM_except_cons fullGridStep_28]
  rw [foldlM_except_cons fullGridStep_29]
  rw [foldlM_except_cons fullGridStep_30]
  rw [foldlM_except_cons fullGridStep_31]
  rw [foldlM_except_cons fullGridStep_32]
  rw [foldlM_except_cons fullGridStep_33]
  rw [foldlM_except_cons fullGridStep_34]
  rw [foldlM_except_cons fullGridStep_35]
  rw [foldlM_except_cons fullGridStep_36]
  rw [foldlM_except_cons fullGridStep_37]
  rw [foldlM_except_cons fullGridStep_38]
  rw [foldlM_except_cons fullGridStep_39]
  rw [foldlM_except_cons fullGridStep_40]
  rw [foldlM_except_cons fullGridStep_41]
  rw [foldlM_except_cons fullGridStep_42]
  rw [foldlM_except_cons fullGridStep_43]
  rw [foldlM_except_cons fullGridStep_44]
  rw [foldlM_except_cons fullGridStep_45]
  rw [foldlM_except_cons fullGridStep_46]
  rw [foldlM_except_cons fullGridStep_47]
  rw [foldlM_except_cons fullGridStep_48]
  rw [foldlM_except_cons fullGridStep_49]
  rw [foldlM_except_cons fullGridStep_50]
  rw [foldlM_except_cons fullGridStep_51]
  rw [foldlM_except_cons fullGridStep_52]
  rw [foldlM_except_cons fullGridStep_53]
  rw [foldlM_except_cons fullGridStep_54]
  rw [foldlM_except_cons fullGridStep_55]
  rw [foldlM_except_cons fullGridStep_56]
  rw [foldlM_except_cons fullGridStep_57]
  rw [foldlM_except_cons fullGridStep_58]
  rw [foldlM_except_cons fullGridStep_59]
  rw [foldlM_except_cons fullGridStep_60]
  rw [foldlM_except_cons fullGridStep_61]
  rw [foldlM_except_cons fullGridStep_62]
  rw [foldlM_except_cons fullGridStep_63]
  rw [foldlM_except_cons fullGridStep_64]
  rw [foldlM_except_cons fullGridStep_65]
  rw [foldlM_except_cons fullGridStep_66]
  rw [foldlM_except_cons fullGridStep_67]
  rw [foldlM_except_cons fullGridStep_68]
  rw [foldlM_except_cons fullGridStep_69]
  rw [foldlM_except_cons fullGridStep_70]
  rw [foldlM_except_cons fullGridStep_71]
  rw [foldlM_except_cons fullGridStep_72]
  rw [foldlM_except_cons fullGridStep_73]
  rw [foldlM_except_cons fullGridStep_74]
  rw [foldlM_except_cons fullGridStep_75]
  rw [foldlM_except_cons fullGridStep_76]
  rw [foldlM_except_cons fullGridStep_77]
  rw [foldlM_except_cons fullGridStep_78]
  rw [foldlM_except_cons fullGridStep_79]
  rw [foldlM_except_cons fullGridStep_80]
  rfl


theorem solve_eq_of_solveSets {puzzle : List Nat} {poss : Possibilities} (m : Nat)
    (h : solveSets puzzle = Except.ok poss) :
    solve puzzle m = (search [] Solution.default9 Pattern.EMPTY
      (sortTemplates (mkTemplates poss)) m).1 := by
  rw [solve, h]

theorem solve_fullGrid (m : Nat) : ∃ s, solve fullGridL m = [s] := by
  obtain ⟨s, hs⟩ := search_forced (sortTemplates (mkTemplates solvedState))
    [] Solution.default9 Pattern.EMPTY m
    sorted_solved_sing
    (fun dp _ t _ => Pattern.intersects_EMPTY t.as_pattern)
    sorted_solved_pw
  refine ⟨s, ?_⟩
  rw [solve_eq_of_solveSets m solveSets_fullGrid, hs]
  rfl

/-- Counterexample for C3 as stated: with `max_solutions = 0` on a solvable
grid, `solve` still returns one solution (the leaf records it before the cap
is consulted), so the returned sequence is not at most `maxSolutions` long. -/
theorem solve_zero_cap_counterexample : (solve fullGridL 0).length = 1 := by
  obtain ⟨s, hs⟩ := solve_fullGrid 0
  rw [hs]
  rfl

/-- Witness for C1 at the concrete solved grid. -/
theorem solve_solutions_valid_witness :
    SolutionValidSpec ((solve fullGridL 1).getD 0 Solution.default9) := by
  obtain ⟨s, hs⟩ := solve_fullGrid 1
  have hmem : (solve fullGridL 1).getD 0 Solution.default9 ∈ solve fullGridL 1 := by
    rw [hs]
    exact List.mem_singleton_self s
  exact solve_solutions_valid fullGridL 1 _ hmem

/-! ### Worklist machinery: queue growth, monotonicity, processed eliminations -/

theorem foldl_cons_suffix {α β : Type} (g : α → β) :
    ∀ (l : List α) (q : List β), q <:+ l.foldl (fun q2 a => g a :: q2) q := by
  intro l
  induction l with
  | nil => intro q; exact List.suffix_refl q
  | cons a l ih =>
    intro q
    have h1 : q <:+ g a :: q := List.suffix_cons (g a) q
    have h2 := ih (g a :: q)
    simp only [List.foldl_cons]
    exact h1.trans h2

theorem foldl_cons_mem {α β : Type} (g : α → β) :
    ∀ (l : List α) (q : List β) (x : β),
      x ∈ l.foldl (fun q2 a => g a :: q2) q ↔ (∃ a ∈ l, x = g a) ∨ x ∈ q := by
  intro l
  induction l with
  | nil =>
    intro q x
    simp
  | cons a l ih =>
    intro q x
    simp only [List.foldl_cons]
    rw [ih (g a :: q) x]
    simp only [List.mem_cons]
    constructor
    · rintro (⟨b, hb, hx⟩ | hx | hx)
      · exact Or.inl ⟨b, Or.inr hb, hx⟩
      · exact Or.inl ⟨a, Or.inl rfl, hx⟩
      · exact Or.inr hx
    · rintro (⟨b, hb | hb, hx⟩ | hx)
      · exact Or.inr (Or.inl (by rw [hx, hb]))
      · exact Or.inl ⟨b, hb, hx⟩
      · exact Or.inr (Or.inr hx)

theorem enqueue_others_suffix (q : List (Nat × Nat × Nat)) (row col digit : Nat) :
    q <:+ enqueue_others q row col digit :=
  foldl_cons_suffix (fun d => (row, col, d)) _ q

theorem enqueue_adjacent_suffix (q : List (Nat × Nat × Nat)) (row col digit : Nat) :
    q <:+ enqueue_adjacent q row col digit := by
  have h1 : q <:+ ((List.range 9).filter (fun oc => oc ≠ col)).foldl
      (fun q2 oc => (row, oc, digit) :: q2) q :=
    foldl_cons_suffix (fun oc => (row, oc, digit)) _ q
  have h2 := foldl_cons_suffix (fun orow => (orow, col, digit))
    ((List.range 9).filter (fun orow => orow ≠ row))
    (((List.range 9).filter (fun oc => oc ≠ col)).foldl
      (fun q2 oc => (row, oc, digit) :: q2) q)
  have h3 := foldl_cons_suffix (fun rc : Nat × Nat => (rc.1, rc.2, digit))
    ((box_cells row col).filter (fun rc => rc ≠ (row, col)))
    (((List.range 9).filter (fun orow => orow ≠ row)).foldl
      (fun q2 orow => (orow, col, digit) :: q2)
      (((List.range 9).filter (fun oc => oc ≠ col)).foldl
        (fun q2 oc => (row, oc, digit) :: q2) q))
  exact (h1.trans h2).trans h3

theorem enqueue_others_mem (q : List (Nat × Nat × Nat)) (row col digit : Nat)
    (x : Nat × Nat × Nat) :
    x ∈ enqueue_others q row col digit ↔
      (∃ d, d ∈ (List.range 9).filter (fun d => d ≠ digit) ∧ x = (row, col, d)) ∨ x ∈ q := by
  have h := foldl_cons_mem (fun d => (row, col, d))
    ((List.range 9).filter (fun d => d ≠ digit)) q x
  exact h

theorem patGet_set_ne {l : List Pattern} {i j : Nat} (x : Pattern) (h : i ≠ j) :
    patGet (l.set i x) j = patGet l j := by
  rw [patGet, patGet, List.getD_eq_getElem?_getD, List.getD_eq_getElem?_getD,
    List.getElem?_set_ne h]

theorem patGet_set_self {l : List Pattern} {i : Nat} (x : Pattern) (h : i < l.length) :
    patGet (l.set i x) i = x := by
  rw [patGet, List.getD_eq_getElem?_getD, List.getElem?_set_self h]
  rfl

/-- Basic effect of `elimCell` on the fields other than its own counter
table: patterns and other tables unchanged, queue only grows. -/
theorem elimCell_ok_basic {p q : Possibilities} {row col : Nat}
    (h : elimCell p row col = .ok q) :
    q.patterns = p.patterns ∧ p.work_queue <:+ q.work_queue ∧
      q.row_constraints = p.row_constraints ∧ q.col_constraints = p.col_constraints ∧
      q.box_constraints = p.box_constraints ∧
      q.cell_constraints = tSet p.cell_constraints row col
        (tGet p.cell_constraints row col - 1) := by
  rw [elimCell] at h
  split_ifs at h with h0 h1
  all_goals cases h
  all_goals refine ⟨rfl, ?_, rfl, rfl, rfl, rfl⟩
  all_goals
    first
    | exact List.suffix_refl _
    | exact enqueue_adjacent_suffix _ _ _ _

theorem elimRow_ok_basic {p q : Possibilities} {row digit : Nat}
    (h : elimRow p row digit = .ok q) :
    q.patterns = p.patterns ∧ p.work_queue <:+ q.work_queue ∧
      q.cell_constraints = p.cell_constraints ∧ q.col_constraints = p.col_constraints ∧
      q.box_constraints = p.box_constraints ∧
      q.row_constraints = tSet p.row_constraints row digit
        (tGet p.row_constraints row digit - 1) := by
  rw [elimRow] at h
  split_ifs at h with h0 h1
  all_goals cases h
  all_goals refine ⟨rfl, ?_, rfl, rfl, rfl, rfl⟩
  all_goals
    first
    | exact List.suffix_refl _
    | exact enqueue_others_suffix _ _ _ _

theorem elimCol_ok_basic {p q : Possibilities} {col digit : Nat}
    (h : elimCol p col digit = .ok q) :
    q.patterns = p.patterns ∧ p.work_queue <:+ q.work_queue ∧
      q.cell_constraints = p.cell_constraints ∧ q.row_constraints = p.row_constraints ∧
      q.box_constraints = p.box_constraints ∧
      q.col_constraints = tSet p.col_constraints col digit
        (tGet p.col_constraints col digit - 1) := by
  rw [elimCol] at h
  split_ifs at h with h0 h1
  all_goals cases h
  all_goals refine ⟨rfl, ?_, rfl, rfl, rfl, rfl⟩
  all_goals
    first
    | exact List.suffix_refl _
    | exact enqueue_others_suffix _ _ _ _

theorem elimBox_ok_basic {p q : Possibilities} {row col digit : Nat}
    (h : elimBox p row col digit = .ok q) :
    q.patterns = p.patterns ∧ p.work_queue <:+ q.work_queue ∧
      q.cell_constraints = p.cell_constraints ∧ q.row_constraints = p.row_constraints ∧
      q.col_constraints = p.col_constraints ∧
      q.box_constraints = tSet p.box_constraints (row / 3 * 3 + col / 3) digit
        (tGet p.box_constraints (row / 3 * 3 + col / 3) digit - 1) := by
  rw [elimBox] at h
  split_ifs at h with h0 h1
  all_goals cases h
  all_goals refine ⟨rfl, ?_, rfl, rfl, rfl, rfl⟩
  all_goals
    first
    | exact List.suffix_refl _
    | exact enqueue_others_suffix _ _ _ _

theorem eliminate_noop {p : Possibilities} {row col digit : Nat}
    (h : (patGet p.patterns digit).has row col = false) :
    eliminate p row col digit = .ok p := by
  rw [eliminate]
  have hop : ((patGet p.patterns digit).remove row col).1 = false := by
    rw [Pattern.remove_fst]
    exact h
  simp [hop]

/-- An `Ok` run of `eliminate` clears the targeted candidate, only grows the
queue, and never revives a candidate bit. -/
theorem eliminate_ok_basic {p q : Possibilities} {row col digit : Nat}
    (h : eliminate p row col digit = .ok q) :
    p.work_queue <:+ q.work_queue ∧
      (patGet q.patterns digit).has row col = false ∧
      (∀ d r c, (patGet p.patterns d).has r c = false →
        (patGet q.patterns d).has r c = false) := by
  rw [eliminate] at h
  split_ifs at h with hop
  · cases h
    rw [Pattern.remove_fst] at hop
    exact ⟨List.suffix_refl _, hop, fun d r c hf => hf⟩
  · rw [Pattern.remove_fst] at hop
    have hdig9 : (patGet p.patterns digit).has row col = true := by
      cases hb : (patGet p.patterns digit).has row col
      · rw [hb] at hop
        cases hop rfl
      · rfl
    have hlen : digit < p.patterns.length := by
      by_contra hge
      have hE : patGet p.patterns digit = Pattern.EMPTY := by
        rw [patGet, List.getD_eq_default _ _ (by omega)]
      rw [hE, Pattern.has_EMPTY] at hdig9
      cases hdig9
    dsimp only at h
    cases hcell : elimCell ({ p with patterns :=
        (p.patterns.set digit (((patGet p.patterns digit).remove row col).2)) }) row col with
    | error e =>
      rw [hcell] at h
      dsimp only [Except.bind] at h
      cases h
    | ok q1 =>
      rw [hcell] at h
      dsimp only [Except.bind] at h
      cases hrow : elimRow q1 row digit with
      | error e =>
        rw [hrow] at h
        dsimp only [Except.bind] at h
        cases h
      | ok q2 =>
        rw [hrow] at h
        dsimp only [Except.bind] at h
        cases hcol : elimCol q2 col digit with
        | error e =>
          rw [hcol] at h
          dsimp only [Except.bind] at h
          cases h
        | ok q3 =>
          rw [hcol] at h
          dsimp only [Except.bind] at h
          obtain ⟨hp1, hs1, -, -, -, -⟩ := elimCell_ok_basic hcell
          obtain ⟨hp2, hs2, -, -, -, -⟩ := elimRow_ok_basic hrow
          obtain ⟨hp3, hs3, -, -, -, -⟩ := elimCol_ok_basic hcol
          obtain ⟨hp4, hs4, -, -, -, -⟩ := elimBox_ok_basic h
          have hpat : q.patterns =
              p.patterns.set digit ((patGet p.patterns digit).remove row col).2 := by
            rw [hp4, hp3, hp2, hp1]
          refine ⟨?_, ?_, ?_⟩
          · have hq0 : p.work_queue <:+ q1.work_queue := hs1
            exact ((hq0.trans hs2).trans hs3).trans hs4
          · rw [hpat, patGet_set_self _ hlen]
            exact Pattern.has_remove_self _ row col
          · intro d r c hf
            rw [hpat]
            by_cases hdd : digit = d
            · subst hdd
              rw [patGet_set_self _ hlen]
              cases hb : ((patGet p.patterns digit).remove row col).2.has r c
              · rfl
              · rw [Pattern.has_remove_mono _ hb] at hf
                cases hf
            · rw [patGet_set_ne _ hdd]
              exact hf

theorem workAux_ok_queue_nil :
    ∀ (fuel : Nat) (p q : Possibilities), workAux fuel p = .ok q → q.work_queue = [] := by
  intro fuel
  induction fuel with
  | zero =>
    intro p q h
    simp only [workAux] at h
    cases hq : p.work_queue with
    | nil =>
      rw [hq] at h
      injection h with h
      subst h
      exact hq
    | cons e rest =>
      rw [hq] at h
      cases h
  | succ fuel ih =>
    intro p q h
    simp only [workAux] at h
    cases hq : p.work_queue with
    | nil =>
      rw [hq] at h
      injection h with h
      subst h
      exact hq
    | cons e rest =>
      obtain ⟨r, c, d⟩ := e
      rw [hq] at h
      dsimp only at h
      cases he : eliminate { p with work_queue := rest } r c d with
      | error e2 =>
        rw [he] at h
        dsimp only at h
        cases h
      | ok p2 =>
        rw [he] at h
        dsimp only at h
        exact ih p2 q h

theorem workAux_ok_mono :
    ∀ (fuel : Nat) (p q : Possibilities), workAux fuel p = .ok q →
      ∀ d r c, (patGet p.patterns d).has r c = false →
        (patGet q.patterns d).has r c = false := by
  intro fuel
  induction fuel with
  | zero =>
    intro p q h d r c hf
    simp only [workAux] at h
    cases hq : p.work_queue with
    | nil =>
      rw [hq] at h
      injection h with h
      subst h
      exact hf
    | cons e rest =>
      rw [hq] at h
      cases h
  | succ fuel ih =>
    intro p q h d r c hf
    simp only [workAux] at h
    cases hq : p.work_queue with
    | nil =>
      rw [hq] at h
      injection h with h
      subst h
      exact hf
    | cons e rest =>
      obtain ⟨r0, c0, d0⟩ := e
      rw [hq] at h
      dsimp only at h
      cases he : eliminate { p with work_queue := rest } r0 c0 d0 with
      | error e2 =>
        rw [he] at h
        dsimp only at h
        cases h
      | ok p2 =>
        rw [he] at h
        dsimp only at h
        obtain ⟨-, -, hmono⟩ := eliminate_ok_basic he
        exact ih p2 q h d r c (hmono d r c hf)

theorem workAux_processes :
    ∀ (fuel : Nat) (p q : Possibilities), workAux fuel p = .ok q →
      ∀ e ∈ p.work_queue, (patGet q.patterns e.2.2).has e.1 e.2.1 = false := by
  intro fuel
  induction fuel with
  | zero =>
    intro p q h e he
    simp only [workAux] at h
    cases hq : p.work_queue with
    | nil =>
      rw [hq] at he
      cases he
    | cons e2 rest =>
      rw [hq] at h
      cases h
  | succ fuel ih =>
    intro p q h e he
    simp only [workAux] at h
    cases hq : p.work_queue with
    | nil =>
      rw [hq] at he
      cases he
    | cons e2 rest =>
      obtain ⟨r0, c0, d0⟩ := e2
      rw [hq] at h
      dsimp only at h
      cases hel : eliminate { p with work_queue := rest } r0 c0 d0 with
      | error e3 =>
        rw [hel] at h
        dsimp only at h
        cases h
      | ok p2 =>
        rw [hel] at h
        dsimp only at h
        obtain ⟨hsuf, hself, -⟩ := eliminate_ok_basic hel
        rw [hq] at he
        rcases List.mem_cons.mp he with rfl | hrest
        · exact workAux_ok_mono fuel p2 q h d0 r0 c0 hself
        · exact ih p2 q h e (hsuf.subset hrest)

theorem workAux_noop_drain :
    ∀ (es : List (Nat × Nat × Nat)) (fuel : Nat)
      (pats : List Pattern) (cc rc colc bc : List (List Nat)),
      es.length ≤ fuel →
      (∀ e ∈ es, (patGet pats e.2.2).has e.1 e.2.1 = false) →
      workAux fuel ⟨pats, es, cc, rc, colc, bc⟩ = .ok ⟨pats, [], cc, rc, colc, bc⟩ := by
  intro es
  induction es with
  | nil =>
    intro fuel pats cc rc colc bc _ _
    cases fuel with
    | zero => rfl
    | succ fuel => rfl
  | cons e es ih =>
    intro fuel pats cc rc colc bc hlen hdead
    obtain ⟨r0, c0, d0⟩ := e
    cases fuel with
    | zero =>
      exfalso
      simp at hlen
    | succ fuel =>
      simp only [workAux]
      have hnoop : eliminate
          { (⟨pats, (r0, c0, d0) :: es, cc, rc, colc, bc⟩ : Possibilities) with
            work_queue := es } r0 c0 d0 =
          .ok { (⟨pats, (r0, c0, d0) :: es, cc, rc, colc, bc⟩ : Possibilities) with
            work_queue := es } :=
        eliminate_noop (hdead (r0, c0, d0) (List.mem_cons_self _ _))
      rw [hnoop]
      exact ih fuel pats cc rc colc bc (by simpa using hlen)
        (fun e2 he2 => hdead e2 (List.mem_cons_of_mem _ he2))

theorem set_ok_of_forced {pats : List Pattern} {cc rc colc bc : List (List Nat)}
    {row col digit : Nat}
    (hdead : ∀ d, d < 9 → d ≠ digit - 1 → (patGet pats d).has row col = false) :
    Possibilities.set ⟨pats, [], cc, rc, colc, bc⟩ row col digit =
      .ok ⟨pats, [], cc, rc, colc, bc⟩ := by
  rw [Possibilities.set, Possibilities.work]
  dsimp only
  refine workAux_noop_drain _ _ pats cc rc colc bc (Nat.le_add_left _ _) ?_
  intro e he
  rw [enqueue_others_mem] at he
  rcases he with ⟨d, hd, he⟩ | he
  · obtain ⟨hd9, hdne⟩ := List.mem_filter.mp hd
    subst he
    exact hdead d (List.mem_range.mp hd9) (by simpa using hdne)
  · cases he

/-- C9: `set` is idempotent on an already-forced clue: a second identical
`set(row, col, digit)` right after a successful one returns `Ok` with the
state completely unchanged (every pattern, every counter, the queue). -/
theorem set_idempotent_on_forced (p q : Possibilities) (row col digit : Nat)
    (hprev : p.set row col digit = .ok q) :
    q.set row col digit = .ok q := by
  have hwork : workAux
      (45792 + (enqueue_others p.work_queue row col (digit - 1)).length)
      { p with work_queue := enqueue_others p.work_queue row col (digit - 1) } = .ok q :=
    hprev
  have hqnil : q.work_queue = [] := workAux_ok_queue_nil _ _ _ hwork
  have hdead : ∀ d, d < 9 → d ≠ digit - 1 → (patGet q.patterns d).has row col = false := by
    intro d hd hne
    have hmemq : (row, col, d) ∈ enqueue_others p.work_queue row col (digit - 1) := by
      rw [enqueue_others_mem]
      left
      exact ⟨d, List.mem_filter.mpr ⟨List.mem_range.mpr hd, by simpa using hne⟩, rfl⟩
    exact workAux_processes _ _ _ hwork (row, col, d) hmemq
  obtain ⟨pats, q0, cc, rc, colc, bc⟩ := q
  dsimp only at hqnil
  subst hqnil
  exact set_ok_of_forced hdead

/-! ### Counter-table access and the exact effect of an elimination -/

theorem tGet_tSet_self {t : List (List Nat)} {i j : Nat} (v : Nat)
    (hi : i < t.length) (hj : j < (t.getD i []).length) :
    tGet (tSet t i j v) i j = v := by
  have houter : (tSet t i j v).getD i [] = (t.getD i []).set j v := by
    rw [tSet, List.getD_eq_getElem?_getD, List.getElem?_set_self hi, Option.getD_some]
  rw [tGet, houter]
  have hlen : j < ((t.getD i []).set j v).length := by
    rw [List.length_set]
    exact hj
  rw [List.getD_eq_getElem _ _ hlen]
  exact List.getElem_set_self hlen

theorem tGet_tSet_ne {t : List (List Nat)} {i j i2 j2 : Nat} (v : Nat)
    (h : ¬(i = i2 ∧ j = j2)) :
    tGet (tSet t i j v) i2 j2 = tGet t i2 j2 := by
  by_cases hi : i = i2
  · subst hi
    have hj : j ≠ j2 := fun hh => h ⟨rfl, hh⟩
    by_cases hlen : i < t.length
    · have houter : (tSet t i j v).getD i [] = (t.getD i []).set j v := by
        rw [tSet, List.getD_eq_getElem?_getD, List.getElem?_set_self hlen, Option.getD_some]
      rw [tGet, houter, tGet]
      rw [List.getD_eq_getElem?_getD, List.getElem?_set_ne hj, ← List.getD_eq_getElem?_getD]
    · rw [tSet, List.set_eq_of_length_le (by omega)]
  · have houter : (tSet t i j v).getD i2 [] = t.getD i2 [] := by
      rw [tSet, List.getD_eq_getElem?_getD, List.getElem?_set_ne hi,
        ← List.getD_eq_getElem?_getD]
    rw [tGet, houter, tGet]

theorem tSet_length (t : List (List Nat)) (i j v : Nat) :
    (tSet t i j v).length = t.length := by
  rw [tSet, List.length_set]

theorem tSet_rows {t : List (List Nat)} (hrows : ∀ r ∈ t, r.length = 9) (i j v : Nat) :
    ∀ r ∈ tSet t i j v, r.length = 9 := by
  intro r hr
  by_cases hi : i < t.length
  · rcases List.mem_or_eq_of_mem_set hr with hmem | heq
    · exact hrows r hmem
    · subst heq
      rw [List.length_set]
      exact hrows _ (getD_mem_of_lt hi)
  · rw [tSet, List.set_eq_of_length_le (by omega)] at hr
    exact hrows r hr

theorem find_in_cell_lt (p : Possibilities) (row col : Nat) :
    find_in_cell p row col < 9 := by
  rw [find_in_cell]
  cases hf : (List.range 9).find? (fun d => (patGet p.patterns d).has row col) with
  | none => exact Nat.lt_of_sub_eq_succ rfl
  | some x =>
    rw [Option.getD_some]
    exact List.mem_range.mp (List.mem_of_find?_eq_some hf)

theorem find_in_row_lt (p : Possibilities) (row digit : Nat) :
    find_in_row p row digit < 9 := by
  rw [find_in_row]
  cases hf : (List.range 9).find? (fun col => (patGet p.patterns digit).has row col) with
  | none => exact Nat.lt_of_sub_eq_succ rfl
  | some x =>
    rw [Option.getD_some]
    exact List.mem_range.mp (List.mem_of_find?_eq_some hf)

theorem find_in_col_lt (p : Possibilities) (col digit : Nat) :
    find_in_col p col digit < 9 := by
  rw [find_in_col]
  cases hf : (List.range 9).find? (fun row => (patGet p.patterns digit).has row col) with
  | none => exact Nat.lt_of_sub_eq_succ rfl
  | some x =>
    rw [Option.getD_some]
    exact List.mem_range.mp (List.mem_of_find?_eq_some hf)

theorem find_in_box_lt (p : Possibilities) {row col : Nat} (digit : Nat)
    (hr : row < 9) (hc : col < 9) :
    (find_in_box p row col digit).1 < 9 ∧ (find_in_box p row col digit).2 < 9 := by
  rw [find_in_box]
  cases hf : (box_cells row col).find? (fun rc => (patGet p.patterns digit).has rc.1 rc.2) with
  | none => exact ⟨Nat.lt_of_sub_eq_succ rfl, Nat.lt_of_sub_eq_succ rfl⟩
  | some x =>
    rw [Option.getD_some]
    exact box_cells_bounds hr hc x (List.mem_of_find?_eq_some hf)

theorem enqueue_adjacent_mem (q : List (Nat × Nat × Nat)) (row col digit : Nat)
    (x : Nat × Nat × Nat) :
    x ∈ enqueue_adjacent q row col digit ↔
      ((∃ oc, oc ∈ (List.range 9).filter (fun oc => oc ≠ col) ∧ x = (row, oc, digit)) ∨
       (∃ orow, orow ∈ (List.range 9).filter (fun orow => orow ≠ row) ∧
          x = (orow, col, digit)) ∨
       (∃ rc, rc ∈ (box_cells row col).filter (fun rc => rc ≠ (row, col)) ∧
          x = (rc.1, rc.2, digit)) ∨
       x ∈ q) := by
  have heq : enqueue_adjacent q row col digit =
      ((box_cells row col).filter (fun rc => rc ≠ (row, col))).foldl
        (fun q2 rc => (rc.1, rc.2, digit) :: q2)
        (((List.range 9).filter (fun orow => orow ≠ row)).foldl
          (fun q2 orow => (orow, col, digit) :: q2)
          (((List.range 9).filter (fun oc => oc ≠ col)).foldl
            (fun q2 oc => (row, oc, digit) :: q2) q)) := rfl
  rw [heq, foldl_cons_mem, foldl_cons_mem, foldl_cons_mem]
  constructor
  · rintro (⟨rc, hrc, hx⟩ | ⟨orow, ho, hx⟩ | ⟨oc, hoc, hx⟩ | hq)
    · exact Or.inr (Or.inr (Or.inl ⟨rc, hrc, hx⟩))
    · exact Or.inr (Or.inl ⟨orow, ho, hx⟩)
    · exact Or.inl ⟨oc, hoc, hx⟩
    · exact Or.inr (Or.inr (Or.inr hq))
  · rintro (⟨oc, hoc, hx⟩ | ⟨orow, ho, hx⟩ | ⟨rc, hrc, hx⟩ | hq)
    · exact Or.inr (Or.inr (Or.inl ⟨oc, hoc, hx⟩))
    · exact Or.inr (Or.inl ⟨orow, ho, hx⟩)
    · exact Or.inl ⟨rc, hrc, hx⟩
    · exact Or.inr (Or.inr (Or.inr hq))

theorem elimCell_ok_nonzero {p q : Possibilities} {row col : Nat}
    (h : elimCell p row col = .ok q) : ¬tGet q.cell_constraints row col = 0 := by
  rw [elimCell] at h
  split_ifs at h with h0 h1
  all_goals cases h
  all_goals exact h0

theorem elimRow_ok_nonzero {p q : Possibilities} {row digit : Nat}
    (h : elimRow p row digit = .ok q) : ¬tGet q.row_constraints row digit = 0 := by
  rw [elimRow] at h
  split_ifs at h with h0 h1
  all_goals cases h
  all_goals exact h0

theorem elimCol_ok_nonzero {p q : Possibilities} {col digit : Nat}
    (h : elimCol p col digit = .ok q) : ¬tGet q.col_constraints col digit = 0 := by
  rw [elimCol] at h
  split_ifs at h with h0 h1
  all_goals cases h
  all_goals exact h0

theorem elimBox_ok_nonzero {p q : Possibilities} {row col digit : Nat}
    (h : elimBox p row col digit = .ok q) :
    ¬tGet q.box_constraints (row / 3 * 3 + col / 3) digit = 0 := by
  rw [elimBox] at h
  split_ifs at h with h0 h1
  all_goals cases h
  all_goals exact h0

theorem elimCell_ok_queue_mem {p q : Possibilities} {row col : Nat}
    (hr : row < 9) (hc : col < 9) (h : elimCell p row col = .ok q) :
    ∀ x ∈ q.work_queue, x ∈ p.work_queue ∨ (x.1 < 9 ∧ x.2.1 < 9 ∧ x.2.2 < 9) := by
  rw [elimCell] at h
  split_ifs at h with h0 h1
  all_goals cases h
  · intro x hx
    rw [enqueue_adjacent_mem] at hx
    rcases hx with ⟨oc, hoc, hx⟩ | ⟨orow, horow, hx⟩ | ⟨rc, hrc, hx⟩ | hx
    · subst hx
      have := List.mem_range.mp (List.mem_filter.mp hoc).1
      exact Or.inr ⟨hr, this, find_in_cell_lt _ _ _⟩
    · subst hx
      have := List.mem_range.mp (List.mem_filter.mp horow).1
      exact Or.inr ⟨this, hc, find_in_cell_lt _ _ _⟩
    · subst hx
      have := box_cells_bounds hr hc rc (List.mem_filter.mp hrc).1
      exact Or.inr ⟨this.1, this.2, find_in_cell_lt _ _ _⟩
    · exact Or.inl hx
  · exact fun x hx => Or.inl hx

theorem elimRow_ok_queue_mem {p q : Possibilities} {row digit : Nat}
    (hr : row < 9) (h : elimRow p row digit = .ok q) :
    ∀ x ∈ q.work_queue, x ∈ p.work_queue ∨ (x.1 < 9 ∧ x.2.1 < 9 ∧ x.2.2 < 9) := by
  rw [elimRow] at h
  split_ifs at h with h0 h1
  all_goals cases h
  · intro x hx
    rw [enqueue_others_mem] at hx
    rcases hx with ⟨d, hdm, hx⟩ | hx
    · subst hx
      have := List.mem_range.mp (List.mem_filter.mp hdm).1
      exact Or.inr ⟨hr, find_in_row_lt _ _ _, this⟩
    · exact Or.inl hx
  · exact fun x hx => Or.inl hx

theorem elimCol_ok_queue_mem {p q : Possibilities} {col digit : Nat}
    (hc : col < 9) (h : elimCol p col digit = .ok q) :
    ∀ x ∈ q.work_queue, x ∈ p.work_queue ∨ (x.1 < 9 ∧ x.2.1 < 9 ∧ x.2.2 < 9) := by
  rw [elimCol] at h
  split_ifs at h with h0 h1
  all_goals cases h
  · intro x hx
    rw [enqueue_others_mem] at hx
    rcases hx with ⟨d, hdm, hx⟩ | hx
    · subst hx
      have := List.mem_range.mp (List.mem_filter.mp hdm).1
      exact Or.inr ⟨find_in_col_lt _ _ _, hc, this⟩
    · exact Or.inl hx
  · exact fun x hx => Or.inl hx

theorem elimBox_ok_queue_mem {p q : Possibilities} {row col digit : Nat}
    (hr : row < 9) (hc : col < 9) (h : elimBox p row col digit = .ok q) :
    ∀ x ∈ q.work_queue, x ∈ p.work_queue ∨ (x.1 < 9 ∧ x.2.1 < 9 ∧ x.2.2 < 9) := by
  rw [elimBox] at h
  split_ifs at h with h0 h1
  all_goals cases h
  · intro x hx
    rw [enqueue_others_mem] at hx
    rcases hx with ⟨d, hdm, hx⟩ | hx
    · subst hx
      have hd2 := List.mem_range.mp (List.mem_filter.mp hdm).1
      have hb := find_in_box_lt p digit hr hc
      exact Or.inr ⟨hb.1, hb.2, hd2⟩
    · exact Or.inl hx
  · exact fun x hx => Or.inl hx

theorem countP_congr_eq {α : Type} {f g : α → Bool} {l : List α}
    (h : ∀ a ∈ l, f a = g a) : l.countP f = l.countP g :=
  List.countP_congr (fun a ha => by rw [h a ha])

theorem eliminate_ok_fields {p q : Possibilities} {r0 c0 d0 : Nat}
    (h : eliminate p r0 c0 d0 = .ok q) :
    (q = p ∧ (patGet p.patterns d0).has r0 c0 = false) ∨
    ((patGet p.patterns d0).has r0 c0 = true ∧ d0 < p.patterns.length ∧
      q.patterns = p.patterns.set d0 ((patGet p.patterns d0).remove r0 c0).2 ∧
      q.cell_constraints = tSet p.cell_constraints r0 c0 (tGet p.cell_constraints r0 c0 - 1) ∧
      q.row_constraints = tSet p.row_constraints r0 d0 (tGet p.row_constraints r0 d0 - 1) ∧
      q.col_constraints = tSet p.col_constraints c0 d0 (tGet p.col_constraints c0 d0 - 1) ∧
      q.box_constraints = tSet p.box_constraints (r0 / 3 * 3 + c0 / 3) d0
        (tGet p.box_constraints (r0 / 3 * 3 + c0 / 3) d0 - 1) ∧
      tGet q.cell_constraints r0 c0 ≠ 0 ∧ tGet q.row_constraints r0 d0 ≠ 0 ∧
      tGet q.col_constraints c0 d0 ≠ 0 ∧
      tGet q.box_constraints (r0 / 3 * 3 + c0 / 3) d0 ≠ 0 ∧
      p.work_queue <:+ q.work_queue) := by
  rw [eliminate] at h
  split_ifs at h with hop
  · cases h
    rw [Pattern.remove_fst] at hop
    exact Or.inl ⟨rfl, hop⟩
  · rw [Pattern.remove_fst] at hop
    have hdig9 : (patGet p.patterns d0).has r0 c0 = true := by
      cases hb : (patGet p.patterns d0).has r0 c0
      · rw [hb] at hop
        cases hop rfl
      · rfl
    have hlen : d0 < p.patterns.length := by
      by_contra hge
      have hE : patGet p.patterns d0 = Pattern.EMPTY := by
        rw [patGet, List.getD_eq_default _ _ (by omega)]
      rw [hE, Pattern.has_EMPTY] at hdig9
      cases hdig9
    dsimp only at h
    cases hcell : elimCell ({ p with patterns :=
        (p.patterns.set d0 (((patGet p.patterns d0).remove r0 c0).2)) }) r0 c0 with
    | error e =>
      rw [hcell] at h
      dsimp only [Except.bind] at h
      cases h
    | ok q1 =>
      rw [hcell] at h
      dsimp only [Except.bind] at h
      cases hrow : elimRow q1 r0 d0 with
      | error e =>
        rw [hrow] at h
        dsimp only [Except.bind] at h
        cases h
      | ok q2 =>
        rw [hrow] at h
        dsimp only [Except.bind] at h
        cases hcol : elimCol q2 c0 d0 with
        | error e =>
          rw [hcol] at h
          dsimp only [Except.bind] at h
          cases h
        | ok q3 =>
          rw [hcol] at h
          dsimp only [Except.bind] at h
          obtain ⟨c_pat, c_suf, c_row, c_col, c_box, c_cell⟩ := elimCell_ok_basic hcell
          obtain ⟨r_pat, r_suf, r_cell, r_col, r_box, r_row⟩ := elimRow_ok_basic hrow
          obtain ⟨l_pat, l_suf, l_cell, l_row, l_box, l_col⟩ := elimCol_ok_basic hcol
          obtain ⟨b_pat, b_suf, b_cell, b_row, b_col, b_box⟩ := elimBox_ok_basic h
          have hnz_c := elimCell_ok_nonzero hcell
          have hnz_r := elimRow_ok_nonzero hrow
          have hnz_l := elimCol_ok_nonzero hcol
          have hnz_b := elimBox_ok_nonzero h
          refine Or.inr ⟨hdig9, hlen, ?_, ?_, ?_, ?_, ?_, ?_, ?_, ?_, ?_, ?_⟩
          · rw [b_pat, l_pat, r_pat, c_pat]
          · rw [b_cell, l_cell, r_cell, c_cell]
          · rw [b_row, l_row, r_row, c_row]
          · rw [b_col, l_col, r_col, c_col]
          · rw [b_box, l_box, r_box, c_box]
          · rw [b_cell, l_cell, r_cell]
            exact hnz_c
          · rw [b_row, l_row]
            exact hnz_r
          · rw [b_col]
            exact hnz_l
          · exact hnz_b
          · have hq0 : p.work_queue <:+ q1.work_queue := c_suf
            exact ((hq0.trans r_suf).trans l_suf).trans b_suf

theorem eliminate_preserves {p q : Possibilities} {r0 c0 d0 : Nat}
    (hr : r0 < 9) (hc : c0 < 9) (hd : d0 < 9)
    (hT : TablesWF p) (hI : InvCounts p) (hP : CellPos p)
    (h : eliminate p r0 c0 d0 = .ok q) :
    TablesWF q ∧ InvCounts q ∧ CellPos q := by
  obtain ⟨hTp, hTc, hTcr, hTr, hTrr, hTl, hTlr, hTb, hTbr⟩ := hT
  obtain ⟨hIc, hIr, hIl, hIb⟩ := hI
  rcases eliminate_ok_fields h with ⟨hqp, -⟩ | hreal
  · subst hqp
    exact ⟨⟨hTp, hTc, hTcr, hTr, hTrr, hTl, hTlr, hTb, hTbr⟩, ⟨hIc, hIr, hIl, hIb⟩, hP⟩
  · obtain ⟨hhas, hdlen, hpat, hcell, hrow, hcol, hbox, hnzc, hnzr, hnzl, hnzb, -⟩ := hreal
    have hb0 : r0 / 3 * 3 + c0 / 3 < 9 := by omega
    have hget_self : patGet q.patterns d0 = ((patGet p.patterns d0).remove r0 c0).2 := by
      rw [hpat]
      exact patGet_set_self _ hdlen
    have hget_ne : ∀ d, d ≠ d0 → patGet q.patterns d = patGet p.patterns d := by
      intro d hdne
      rw [hpat]
      exact patGet_set_ne _ (fun hh => hdne hh.symm)
    -- bounds inside the tables
    have hcr0 : r0 < p.cell_constraints.length := by omega
    have hcc0 : c0 < (p.cell_constraints.getD r0 []).length := by
      rw [hTcr _ (getD_mem_of_lt hcr0)]
      omega
    have hrr0 : r0 < p.row_constraints.length := by omega
    have hrd0 : d0 < (p.row_constraints.getD r0 []).length := by
      rw [hTrr _ (getD_mem_of_lt hrr0)]
      omega
    have hlc0 : c0 < p.col_constraints.length := by omega
    have hld0 : d0 < (p.col_constraints.getD c0 []).length := by
      rw [hTlr _ (getD_mem_of_lt hlc0)]
      omega
    have hbb0 : r0 / 3 * 3 + c0 / 3 < p.box_constraints.length := by omega
    have hbd0 : d0 < (p.box_constraints.getD (r0 / 3 * 3 + c0 / 3) []).length := by
      rw [hTbr _ (getD_mem_of_lt hbb0)]
      omega
    refine ⟨⟨?_, ?_, ?_, ?_, ?_, ?_, ?_, ?_, ?_⟩, ⟨?_, ?_, ?_, ?_⟩, ?_⟩
    · rw [hpat, List.length_set]
      exact hTp
    · rw [hcell, tSet_length]
      exact hTc
    · rw [hcell]
      exact tSet_rows hTcr _ _ _
    · rw [hrow, tSet_length]
      exact hTr
    · rw [hrow]
      exact tSet_rows hTrr _ _ _
    · rw [hcol, tSet_length]
      exact hTl
    · rw [hcol]
      exact tSet_rows hTlr _ _ _
    · rw [hbox, tSet_length]
      exact hTb
    · rw [hbox]
      exact tSet_rows hTbr _ _ _
    · -- cell counters still match
      intro r c hr9 hc9
      rw [hcell]
      by_cases hrc : r = r0 ∧ c = c0
      · obtain ⟨rfl, rfl⟩ := hrc
        rw [tGet_tSet_self _ hcr0 hcc0]
        have hflip : (List.range 9).countP (fun d => (patGet p.patterns d).has r c) =
            (List.range 9).countP (fun d => (patGet q.patterns d).has r c) + 1 := by
          refine countP_succ_flip (List.nodup_range 9) (List.mem_range.mpr hd) ?_ hhas ?_
          · rw [hget_self]
            exact Pattern.has_remove_self _ r c
          · intro y _ hy
            rw [hget_ne y hy]
        have hold := hIc r c hr9 hc9
        rw [cellLive] at hold
        rw [cellLive]
        omega
      · rw [tGet_tSet_ne _ (fun hh => hrc ⟨hh.1.symm, hh.2.symm⟩)]
        rw [hIc r c hr9 hc9, cellLive, cellLive]
        refine countP_congr_eq ?_
        intro d _
        by_cases hdd : d = d0
        · subst hdd
          rw [hget_self]
          exact (Pattern.has_remove_of_ne _ hr hc hr9 hc9 (fun hh => hrc ⟨hh.1, hh.2⟩)).symm
        · rw [hget_ne d hdd]
    · -- row counters still match
      intro r d hr9 hd9
      rw [hrow]
      by_cases hrd : r = r0 ∧ d = d0
      · obtain ⟨rfl, rfl⟩ := hrd
        rw [tGet_tSet_self _ hrr0 hrd0]
        have hflip : (List.range 9).countP (fun c => (patGet p.patterns d).has r c) =
            (List.range 9).countP (fun c => (patGet q.patterns d).has r c) + 1 := by
          refine countP_succ_flip (List.nodup_range 9) (List.mem_range.mpr hc) ?_ hhas ?_
          · rw [hget_self]
            exact Pattern.has_remove_self _ r c0
          · intro y hy9 hy
            rw [hget_self]
            exact Pattern.has_remove_of_ne _ hr hc hr (List.mem_range.mp hy9)
              (fun hh => hy hh.2)
        have hold := hIr r d hr9 hd9
        rw [rowLive] at hold
        rw [rowLive]
        omega
      · rw [tGet_tSet_ne _ (fun hh => hrd ⟨hh.1.symm, hh.2.symm⟩)]
        rw [hIr r d hr9 hd9, rowLive, rowLive]
        refine countP_congr_eq ?_
        intro c2 hc2
        by_cases hdd : d = d0
        · subst hdd
          have hr0ne : ¬(r = r0 ∧ c2 = c0) := by
            intro hh
            exact hrd ⟨hh.1, rfl⟩
          rw [hget_self]
          exact (Pattern.has_remove_of_ne _ hr hc hr9 (List.mem_range.mp hc2) hr0ne).symm
        · rw [hget_ne d hdd]
    · -- column counters still match
      intro c d hc9 hd9
      rw [hcol]
      by_cases hcd : c = c0 ∧ d = d0
      · obtain ⟨rfl, rfl⟩ := hcd
        rw [tGet_tSet_self _ hlc0 hld0]
        have hflip : (List.range 9).countP (fun r => (patGet p.patterns d).has r c) =
            (List.range 9).countP (fun r => (patGet q.patterns d).has r c) + 1 := by
          refine countP_succ_flip (List.nodup_range 9) (List.mem_range.mpr hr) ?_ hhas ?_
          · rw [hget_self]
            exact Pattern.has_remove_self _ r0 c
          · intro y hy9 hy
            rw [hget_self]
            exact Pattern.has_remove_of_ne _ hr hc (List.mem_range.mp hy9) hc
              (fun hh => hy hh.1)
        have hold := hIl c d hc9 hd9
        rw [colLive] at hold
        rw [colLive]
        omega
      · rw [tGet_tSet_ne _ (fun hh => hcd ⟨hh.1.symm, hh.2.symm⟩)]
        rw [hIl c d hc9 hd9, colLive, colLive]
        refine countP_congr_eq ?_
        intro r2 hr2
        by_cases hdd : d = d0
        · subst hdd
          have hc0ne : ¬(r2 = r0 ∧ c = c0) := by
            intro hh
            exact hcd ⟨hh.2, rfl⟩
          rw [hget_self]
          exact (Pattern.has_remove_of_ne _ hr hc (List.mem_range.mp hr2) hc9 hc0ne).symm
        · rw [hget_ne d hdd]
    · -- box counters still match
      intro b d hb9 hd9
      rw [hbox]
      by_cases hbd : b = r0 / 3 * 3 + c0 / 3 ∧ d = d0
      · obtain ⟨rfl, rfl⟩ := hbd
        rw [tGet_tSet_self _ hbb0 hbd0]
        have hcells : box_cells ((r0 / 3 * 3 + c0 / 3) / 3 * 3)
            ((r0 / 3 * 3 + c0 / 3) % 3 * 3) = box_cells r0 c0 := by
          refine box_cells_congr (by omega) (by omega)
        have hflip : (box_cells r0 c0).countP
              (fun rc => (patGet p.patterns d).has rc.1 rc.2) =
            (box_cells r0 c0).countP
              (fun rc => (patGet q.patterns d).has rc.1 rc.2) + 1 := by
          refine countP_succ_flip (box_cells_nodup r0 c0) (mem_box_cells_self r0 c0) ?_ hhas ?_
          · rw [hget_self]
            exact Pattern.has_remove_self _ r0 c0
          · intro y hy9 hy
            obtain ⟨hy1, hy2⟩ := box_cells_bounds hr hc y hy9
            rw [hget_self]
            refine Pattern.has_remove_of_ne _ hr hc hy1 hy2 ?_
            intro hh
            exact hy (Prod.ext hh.1 hh.2)
        have hold := hIb _ d hb9 hd9
        rw [boxLive, hcells] at hold
        rw [boxLive, hcells]
        omega
      · rw [tGet_tSet_ne _ (fun hh => hbd ⟨hh.1.symm, hh.2.symm⟩)]
        rw [hIb b d hb9 hd9, boxLive, boxLive]
        refine countP_congr_eq ?_
        intro rc hrc
        by_cases hdd : d = d0
        · subst hdd
          obtain ⟨hrc1, hrc2⟩ := box_cells_bounds (by omega) (by omega) rc hrc
          obtain ⟨hdiv1, hdiv2⟩ := box_cells_coords rc hrc
          have hne : ¬(rc.1 = r0 ∧ rc.2 = c0) := by
            intro hh
            refine hbd ⟨?_, rfl⟩
            omega
          rw [hget_self]
          exact (Pattern.has_remove_of_ne _ hr hc hrc1 hrc2 hne).symm
        · rw [hget_ne d hdd]
    · -- cell counters stay positive
      intro r c hr9 hc9
      rw [hcell]
      by_cases hrc : r = r0 ∧ c = c0
      · obtain ⟨rfl, rfl⟩ := hrc
        rw [hcell, tGet_tSet_self _ hcr0 hcc0] at hnzc
        rw [tGet_tSet_self _ hcr0 hcc0]
        omega
      · rw [tGet_tSet_ne _ (fun hh => hrc ⟨hh.1.symm, hh.2.symm⟩)]
        exact hP r c hr9 hc9

/-! ### Full invariant bundle through `eliminate`, `workAux` and `set` -/

theorem eliminate_ok_queue_mem {p q : Possibilities} {r0 c0 d0 : Nat}
    (hr : r0 < 9) (hc : c0 < 9) (h : eliminate p r0 c0 d0 = .ok q) :
    ∀ x ∈ q.work_queue, x ∈ p.work_queue ∨ (x.1 < 9 ∧ x.2.1 < 9 ∧ x.2.2 < 9) := by
  rw [eliminate] at h
  split_ifs at h with hop
  · cases h
    exact fun x hx => Or.inl hx
  · dsimp only at h
    cases hcell : elimCell ({ p with patterns :=
        (p.patterns.set d0 (((patGet p.patterns d0).remove r0 c0).2)) }) r0 c0 with
    | error e =>
      rw [hcell] at h
      dsimp only [Except.bind] at h
      cases h
    | ok q1 =>
      rw [hcell] at h
      dsimp only [Except.bind] at h
      cases hrow : elimRow q1 r0 d0 with
      | error e =>
        rw [hrow] at h
        dsimp only [Except.bind] at h
        cases h
      | ok q2 =>
        rw [hrow] at h
        dsimp only [Except.bind] at h
        cases hcol : elimCol q2 c0 d0 with
        | error e =>
          rw [hcol] at h
          dsimp only [Except.bind] at h
          cases h
        | ok q3 =>
          rw [hcol] at h
          dsimp only [Except.bind] at h
          have m1 := elimCell_ok_queue_mem hr hc hcell
          have m2 := elimRow_ok_queue_mem hr hrow
          have m3 := elimCol_ok_queue_mem hc hcol
          have m4 := elimBox_ok_queue_mem hr hc h
          intro x hx
          rcases m4 x hx with hx3 | hb
          · rcases m3 x hx3 with hx2 | hb
            · rcases m2 x hx2 with hx1 | hb
              · rcases m1 x hx1 with hx0 | hb
                · exact Or.inl hx0
                · exact Or.inr hb
              · exact Or.inr hb
            · exact Or.inr hb
          · exact Or.inr hb

theorem elimCell_cascade {p q : Possibilities} {row col : Nat}
    (h : elimCell p row col = .ok q)
    (h1 : tGet q.cell_constraints row col = 1) :
    ∀ oc, oc < 9 → oc ≠ col → (row, oc, find_in_cell q row col) ∈ q.work_queue := by
  rw [elimCell] at h
  split_ifs at h with h0 hone
  all_goals cases h
  · intro oc hoc hne
    dsimp only
    rw [enqueue_adjacent_mem]
    exact Or.inl ⟨oc, List.mem_filter.mpr ⟨List.mem_range.mpr hoc, by simpa using hne⟩, rfl⟩
  · exact absurd h1 hone

theorem find_in_cell_congr {p q : Possibilities} (h : p.patterns = q.patterns)
    (row col : Nat) : find_in_cell p row col = find_in_cell q row col := by
  rw [find_in_cell, find_in_cell, h]

theorem find_in_cell_eq_of_unique {p : Possibilities} {r c d : Nat}
    (hcl : cellLive p r c = 1) (hd : d < 9)
    (hdl : (patGet p.patterns d).has r c = true) :
    find_in_cell p r c = d := by
  rw [cellLive] at hcl
  obtain ⟨x, hx, hfx, huniq⟩ := countP_unique_val hcl
  have hxd : x = d := (huniq d (List.mem_range.mpr hd) hdl).symm
  subst hxd
  rw [find_in_cell, find?_eq_some_of_unique hx hfx huniq, Option.getD_some]

theorem eliminate_cascade_cell {p q : Possibilities} {r0 c0 d0 : Nat}
    (hhas : (patGet p.patterns d0).has r0 c0 = true)
    (h1 : tGet q.cell_constraints r0 c0 = 1)
    (h : eliminate p r0 c0 d0 = .ok q) :
    ∀ oc, oc < 9 → oc ≠ c0 → (r0, oc, find_in_cell q r0 c0) ∈ q.work_queue := by
  rw [eliminate] at h
  split_ifs at h with hop
  · rw [Pattern.remove_fst, hhas] at hop
    cases hop
  · dsimp only at h
    cases hcell : elimCell ({ p with patterns :=
        (p.patterns.set d0 (((patGet p.patterns d0).remove r0 c0).2)) }) r0 c0 with
    | error e =>
      rw [hcell] at h
      dsimp only [Except.bind] at h
      cases h
    | ok q1 =>
      rw [hcell] at h
      dsimp only [Except.bind] at h
      cases hrow : elimRow q1 r0 d0 with
      | error e =>
        rw [hrow] at h
        dsimp only [Except.bind] at h
        cases h
      | ok q2 =>
        rw [hrow] at h
        dsimp only [Except.bind] at h
        cases hcol : elimCol q2 c0 d0 with
        | error e =>
          rw [hcol] at h
          dsimp only [Except.bind] at h
          cases h
        | ok q3 =>
          rw [hcol] at h
          dsimp only [Except.bind] at h
          obtain ⟨r_pat, r_suf, r_cell, -, -, -⟩ := elimRow_ok_basic hrow
          obtain ⟨l_pat, l_suf, l_cell, -, -, -⟩ := elimCol_ok_basic hcol
          obtain ⟨b_pat, b_suf, b_cell, -, -, -⟩ := elimBox_ok_basic h
          have hcell1 : tGet q1.cell_constraints r0 c0 = 1 := by
            rw [b_cell, l_cell, r_cell] at h1
            exact h1
          have hfc : find_in_cell q1 r0 c0 = find_in_cell q r0 c0 :=
            find_in_cell_congr (by rw [b_pat, l_pat, r_pat]) r0 c0
          intro oc hoc hne
          have hmem := elimCell_cascade hcell hcell1 oc hoc hne
          rw [hfc] at hmem
          exact ((r_suf.trans l_suf).trans b_suf).subset hmem

theorem eliminate_good {p q : Possibilities} {r0 c0 d0 : Nat}
    (hr0 : r0 < 9) (hc0 : c0 < 9) (hd0 : d0 < 9)
    (hT : TablesWF p) (hI : InvCounts p) (hP : CellPos p)
    (hQ : ∀ x ∈ p.work_queue, x.1 < 9 ∧ x.2.1 < 9 ∧ x.2.2 < 9)
    (hi : ∀ r c d, r < 9 → c < 9 → d < 9 → tGet p.cell_constraints r c = 1 →
      (patGet p.patterns d).has r c = true → ∀ c2, c2 < 9 → c2 ≠ c →
      (patGet p.patterns d).has r c2 = false ∨ (r, c2, d) ∈ p.work_queue ∨
        (r = r0 ∧ c2 = c0 ∧ d = d0))
    (h : eliminate p r0 c0 d0 = .ok q) :
    TablesWF q ∧ InvCounts q ∧ CellPos q ∧ QueueWF q ∧ I2row q := by
  obtain ⟨hTq, hIq, hPq⟩ := eliminate_preserves hr0 hc0 hd0 hT hI hP h
  obtain ⟨hsuf0, hself, hmono⟩ := eliminate_ok_basic h
  refine ⟨hTq, hIq, hPq, ?_, ?_⟩
  · intro x hx
    rcases eliminate_ok_queue_mem hr0 hc0 h x hx with hxp | hb
    · exact hQ x hxp
    · exact hb
  · rcases eliminate_ok_fields h with ⟨hqp, hop⟩ | hreal
    · subst hqp
      intro r c d hr hc hd hcnt hdl c2 hc2 hc2ne
      rcases hi r c d hr hc hd hcnt hdl c2 hc2 hc2ne with hdead | hmem | ⟨he1, he2, he3⟩
      · exact Or.inl hdead
      · exact Or.inr hmem
      · subst he1
        subst he2
        subst he3
        exact Or.inl hself
    · obtain ⟨hhas, hdlen, hpat, hcell, -, -, -, -, -, -, -, -⟩ := hreal
      intro r c d hr hc hd hcnt hdl c2 hc2 hc2ne
      by_cases hrc : r = r0 ∧ c = c0
      · obtain ⟨hre, hce⟩ := hrc
        subst hre
        subst hce
        have hclq : cellLive q r c = 1 := by
          rw [← hIq.1 r c hr hc]
          exact hcnt
        have hfd : find_in_cell q r c = d := find_in_cell_eq_of_unique hclq hd hdl
        have hcasc := eliminate_cascade_cell hhas hcnt h c2 hc2 hc2ne
        rw [hfd] at hcasc
        exact Or.inr hcasc
      · have hcnt_p : tGet p.cell_constraints r c = 1 := by
          rw [hcell, tGet_tSet_ne _ (fun hh => hrc ⟨hh.1.symm, hh.2.symm⟩)] at hcnt
          exact hcnt
        have hdl_p : (patGet p.patterns d).has r c = true := by
          cases hb : (patGet p.patterns d).has r c
          · rw [hmono d r c hb] at hdl
            cases hdl
          · rfl
        rcases hi r c d hr hc hd hcnt_p hdl_p c2 hc2 hc2ne with hdead | hmem | ⟨he1, he2, he3⟩
        · exact Or.inl (hmono d r c2 hdead)
        · exact Or.inr (hsuf0.subset hmem)
        · subst he1
          subst he2
          subst he3
          exact Or.inl hself

theorem workAux_good :
    ∀ (fuel : Nat) (p q : Possibilities), workAux fuel p = .ok q → GoodP p → GoodP q := by
  intro fuel
  induction fuel with
  | zero =>
    intro p q h hg
    simp only [workAux] at h
    cases hq : p.work_queue with
    | nil =>
      rw [hq] at h
      injection h with h
      subst h
      exact hg
    | cons e rest =>
      rw [hq] at h
      cases h
  | succ fuel ih =>
    intro p q h hg
    obtain ⟨hT, hI, hP, hQ, hi⟩ := hg
    simp only [workAux] at h
    cases hq : p.work_queue with
    | nil =>
      rw [hq] at h
      injection h with h
      subst h
      exact ⟨hT, hI, hP, hQ, hi⟩
    | cons e rest =>
      obtain ⟨r0, c0, d0⟩ := e
      rw [hq] at h
      dsimp only at h
      cases he : eliminate { p with work_queue := rest } r0 c0 d0 with
      | error e2 =>
        rw [he] at h
        dsimp only at h
        cases h
      | ok p2 =>
        rw [he] at h
        dsimp only at h
        have hb := hQ (r0, c0, d0) (by rw [hq]; exact List.mem_cons_self _ _)
        have hQ2 : ∀ x ∈ rest, x.1 < 9 ∧ x.2.1 < 9 ∧ x.2.2 < 9 := by
          intro x hx
          exact hQ x (by rw [hq]; exact List.mem_cons_of_mem _ hx)
        have hi2 : ∀ r c d, r < 9 → c < 9 → d < 9 →
            tGet p.cell_constraints r c = 1 →
            (patGet p.patterns d).has r c = true → ∀ c2, c2 < 9 → c2 ≠ c →
            (patGet p.patterns d).has r c2 = false ∨ (r, c2, d) ∈ rest ∨
              (r = r0 ∧ c2 = c0 ∧ d = d0) := by
          intro r c d hr hc hd hcnt hdl c2 hc2 hc2ne
          rcases hi r c d hr hc hd hcnt hdl c2 hc2 hc2ne with hdead | hmem
          · exact Or.inl hdead
          · rw [hq] at hmem
            rcases List.mem_cons.mp hmem with heq | hrest
            · refine Or.inr (Or.inr ?_)
              have h1 := congrArg Prod.fst heq
              have h2 := congrArg (fun x : Nat × Nat × Nat => x.2.1) heq
              have h3 := congrArg (fun x : Nat × Nat × Nat => x.2.2) heq
              exact ⟨h1, h2, h3⟩
            · exact Or.inr (Or.inl hrest)
        obtain ⟨hTq, hIq, hPq, hQq, hiq⟩ :=
          eliminate_good (p := { p with work_queue := rest }) hb.1 hb.2.1 hb.2.2
            hT hI hP hQ2 hi2 he
        exact ih p2 q h ⟨hTq, hIq, hPq, hQq, hiq⟩

theorem set_good {p q : Possibilities} {row col digit : Nat}
    (hr : row < 9) (hc : col < 9)
    (hg : GoodP p) (h : p.set row col digit = .ok q) : GoodP q := by
  obtain ⟨hT, hI, hP, hQ, hi⟩ := hg
  rw [Possibilities.set, Possibilities.work] at h
  refine workAux_good _ _ _ h ⟨hT, hI, hP, ?_, ?_⟩
  · intro x hx
    rcases (enqueue_others_mem _ _ _ _ x).mp hx with ⟨d2, hd2, hxeq⟩ | hxq
    · subst hxeq
      exact ⟨hr, hc, List.mem_range.mp (List.mem_filter.mp hd2).1⟩
    · exact hQ x hxq
  · intro r c d hr2 hc2 hd2 hcnt hdl c2 hc2lt hc2ne
    rcases hi r c d hr2 hc2 hd2 hcnt hdl c2 hc2lt hc2ne with hdead | hmem
    · exact Or.inl hdead
    · exact Or.inr ((enqueue_others_suffix _ _ _ _).subset hmem)

theorem tablesWF_new : TablesWF Possibilities.new := by
  refine ⟨rfl, rfl, ?_, rfl, ?_, rfl, ?_, rfl, ?_⟩
  all_goals
    intro r hrm
    rw [List.eq_of_mem_replicate hrm]
    rfl

theorem invCounts_new : InvCounts Possibilities.new := by
  have h1 : ∀ r, r < 9 → ∀ c, c < 9 →
      tGet Possibilities.new.cell_constraints r c = cellLive Possibilities.new r c := by
    decide
  have h2 : ∀ r, r < 9 → ∀ d, d < 9 →
      tGet Possibilities.new.row_constraints r d = rowLive Possibilities.new r d := by
    decide
  have h3 : ∀ c, c < 9 → ∀ d, d < 9 →
      tGet Possibilities.new.col_constraints c d = colLive Possibilities.new c d := by
    decide
  have h4 : ∀ b, b < 9 → ∀ d, d < 9 →
      tGet Possibilities.new.box_constraints b d = boxLive Possibilities.new b d := by
    decide
  exact ⟨fun r c hr hc => h1 r hr c hc, fun r d hr hd => h2 r hr d hd,
    fun c d hc hd => h3 c hc d hd, fun b d hb hd => h4 b hb d hd⟩

theorem cellPos_new : CellPos Possibilities.new := by
  have h1 : ∀ r, r < 9 → ∀ c, c < 9 →
      1 ≤ tGet Possibilities.new.cell_constraints r c := by
    decide
  exact fun r c hr hc => h1 r hr c hc

theorem queueWF_new : QueueWF Possibilities.new := by
  intro x hx
  cases hx

theorem i2row_new : I2row Possibilities.new := by
  have h1 : ∀ r, r < 9 → ∀ c, c < 9 →
      ¬tGet Possibilities.new.cell_constraints r c = 1 := by
    decide
  intro r c d hr hc hd hcnt
  exact absurd hcnt (h1 r hr c hc)

theorem good_new : GoodP Possibilities.new :=
  ⟨tablesWF_new, invCounts_new, cellPos_new, queueWF_new, i2row_new⟩

theorem reachable_good {p : Possibilities} (h : ReachableOk p) : GoodP p := by
  induction h with
  | base => exact good_new
  | step row col digit hp hr hc hd1 hd9 hset ih => exact set_good hr hc ih hset

/-- C4: in every state reachable from `Possibilities::new` through successful
`set` calls, each of the four constraint tables holds exactly the live
popcount of its slice of the candidate bitsets: `cell_constraints[r][c]`
counts the digits still possible at cell `(r,c)`, `row_constraints[r][d]`
the cells of row `r` where `d` is still possible, and analogously
`col_constraints` and `box_constraints`. -/
theorem counters_match_popcounts {p : Possibilities} (h : ReachableOk p) : InvCounts p :=
  (reachable_good h).2.1

theorem counters_match_popcounts_witness : InvCounts Possibilities.new :=
  counters_match_popcounts ReachableOk.base

/-! ### A duplicated clue in a row forces a contradiction -/

theorem set_ok_queue_nil {p q : Possibilities} {r c v : Nat}
    (h : p.set r c v = .ok q) : q.work_queue = [] := by
  rw [Possibilities.set, Possibilities.work] at h
  exact workAux_ok_queue_nil _ _ _ h

theorem set_ok_mono {p q : Possibilities} {r c v : Nat}
    (h : p.set r c v = .ok q) :
    ∀ d rr cc, (patGet p.patterns d).has rr cc = false →
      (patGet q.patterns d).has rr cc = false := by
  rw [Possibilities.set, Possibilities.work] at h
  intro d rr cc hf
  exact workAux_ok_mono _ _ _ h d rr cc hf

theorem set_processes {p q : Possibilities} {r c v : Nat}
    (h : p.set r c v = .ok q) :
    ∀ d2, d2 < 9 → d2 ≠ v - 1 → (patGet q.patterns d2).has r c = false := by
  rw [Possibilities.set, Possibilities.work] at h
  intro d2 hd2 hne
  have hmem : (r, c, d2) ∈ enqueue_others p.work_queue r c (v - 1) := by
    rw [enqueue_others_mem]
    exact Or.inl ⟨d2, List.mem_filter.mpr ⟨List.mem_range.mpr hd2, by simpa using hne⟩, rfl⟩
  exact workAux_processes _ _ _ h (r, c, d2) hmem

theorem set_forces {p q : Possibilities} {r c : Nat} (hr : r < 9) (hc : c < 9)
    (hg : GoodP p) (h : p.set r c 5 = .ok q) :
    ∀ c2, c2 < 9 → c2 ≠ c → (patGet q.patterns 4).has r c2 = false := by
  obtain ⟨hT2, hI2, hP2, hQ2, hi2⟩ := set_good hr hc hg h
  have hqnil := set_ok_queue_nil h
  have hdead : ∀ d2, d2 < 9 → d2 ≠ 4 → (patGet q.patterns d2).has r c = false := by
    intro d2 hd2 hne
    exact set_processes h d2 hd2 (by omega)
  have halive : (patGet q.patterns 4).has r c = true := by
    cases hb : (patGet q.patterns 4).has r c
    · exfalso
      have hzero : cellLive q r c = 0 := by
        rw [cellLive, List.countP_eq_zero]
        intro a ha
        have ha9 := List.mem_range.mp ha
        by_cases h4 : a = 4
        · subst h4
          simp [hb]
        · simp [hdead a ha9 h4]
      have hx1 := hI2.1 r c hr hc
      have hx2 := hP2 r c hr hc
      omega
    · rfl
  have hcnt1 : tGet q.cell_constraints r c = 1 := by
    rw [hI2.1 r c hr hc, cellLive]
    refine countP_eq_one_of_unique (List.nodup_range 9) (List.mem_range.mpr (by omega))
      halive ?_
    intro y hy hyne
    exact hdead y (List.mem_range.mp hy) hyne
  intro c2 hc2 hc2ne
  rcases hi2 r c 4 hr hc (by omega) hcnt1 halive c2 hc2 hc2ne with hd | hm
  · exact hd
  · rw [hqnil] at hm
    cases hm

theorem set_doomed {p q : Possibilities} {rt ct : Nat} (hrt : rt < 9) (hct : ct < 9)
    (hg : GoodP p) (hdead : (patGet p.patterns 4).has rt ct = false)
    (h : p.set rt ct 5 = .ok q) : False := by
  obtain ⟨hT2, hI2, hP2, hQ2, hi2⟩ := set_good hrt hct hg h
  have hdeadq : (patGet q.patterns 4).has rt ct = false := set_ok_mono h 4 rt ct hdead
  have hothers : ∀ d2, d2 < 9 → d2 ≠ 4 → (patGet q.patterns d2).has rt ct = false := by
    intro d2 hd2 hne
    exact set_processes h d2 hd2 (by omega)
  have hzero : cellLive q rt ct = 0 := by
    rw [cellLive, List.countP_eq_zero]
    intro a ha
    have ha9 := List.mem_range.mp ha
    by_cases h4 : a = 4
    · subst h4
      simp [hdeadq]
    · simp [hothers a ha9 h4]
  have hx1 := hI2.1 rt ct hrt hct
  have hx2 := hP2 rt ct hrt hct
  omega

theorem foldlM_except_cons_error {ε σ α : Type} {f : σ → α → Except ε σ} {x : α}
    {xs : List α} {b : σ} {e : ε} (h : f b x = Except.error e) :
    (x :: xs).foldlM f b = Except.error e := by
  rw [List.foldlM_cons, h]
  rfl

theorem foldlM_clue_doomed (clue pr pc : Nat → Nat)
    (step : Possibilities → Nat → Except ImpossiblePuzzle Possibilities)
    (hstep : ∀ (pp : Possibilities) (x : Nat), step pp x =
      if clue x = 0 then Except.ok pp else pp.set (pr x) (pc x) (clue x))
    (rt ct : Nat) (hrt : rt < 9) (hct : ct < 9) :
    ∀ (cols : List Nat) (p : Possibilities), GoodP p →
      (patGet p.patterns 4).has rt ct = false →
      (∃ w ∈ cols, pr w = rt ∧ pc w = ct ∧ clue w = 5) →
      (∀ x ∈ cols, pr x < 9 ∧ pc x < 9) →
      cols.foldlM step p = Except.error ⟨⟩ := by
  intro cols
  induction cols with
  | nil =>
    intro p hg hdead hex hb
    obtain ⟨w, hw, -⟩ := hex
    cases hw
  | cons x rest ih =>
    intro p hg hdead hex hb
    by_cases hcx : clue x = 0
    · have hsx : step p x = Except.ok p := by rw [hstep, if_pos hcx]
      rw [foldlM_except_cons hsx]
      obtain ⟨w, hw, hwr, hwc, hwv⟩ := hex
      rcases List.mem_cons.mp hw with rfl | hwrest
      · rw [hwv] at hcx
        exact absurd hcx (by decide)
      · exact ih p hg hdead ⟨w, hwrest, hwr, hwc, hwv⟩
          (fun y hy => hb y (List.mem_cons_of_mem _ hy))
    · have hsx : step p x = p.set (pr x) (pc x) (clue x) := by rw [hstep, if_neg hcx]
      cases hs : p.set (pr x) (pc x) (clue x) with
      | error e =>
        have hse : step p x = Except.error e := by rw [hsx, hs]
        rw [foldlM_except_cons_error hse]
      | ok p2 =>
        have hbx := hb x (List.mem_cons_self x rest)
        have hg2 : GoodP p2 := set_good hbx.1 hbx.2 hg hs
        obtain ⟨w, hw, hwr, hwc, hwv⟩ := hex
        rcases List.mem_cons.mp hw with rfl | hwrest
        · rw [hwr, hwc, hwv] at hs
          exact (set_doomed hrt hct hg hdead hs).elim
        · have hdead2 : (patGet p2.patterns 4).has rt ct = false :=
            set_ok_mono hs 4 rt ct hdead
          have hstep2 : step p x = Except.ok p2 := by rw [hsx, hs]
          rw [foldlM_except_cons hstep2]
          exact ih p2 hg2 hdead2 ⟨w, hwrest, hwr, hwc, hwv⟩
            (fun y hy => hb y (List.mem_cons_of_mem _ hy))

theorem foldlM_clue_dup (clue pr pc : Nat → Nat)
    (step : Possibilities → Nat → Except ImpossiblePuzzle Possibilities)
    (hstep : ∀ (pp : Possibilities) (x : Nat), step pp x =
      if clue x = 0 then Except.ok pp else pp.set (pr x) (pc x) (clue x))
    (rt x1 x2 : Nat) (hrt : rt < 9)
    (h1r : pr x1 = rt) (h1c : pc x1 < 9) (h1v : clue x1 = 5)
    (h2r : pr x2 = rt) (h2c : pc x2 < 9) (h2v : clue x2 = 5)
    (hcc : pc x1 ≠ pc x2) :
    ∀ (cols : List Nat) (p : Possibilities), GoodP p →
      x1 ∈ cols → x2 ∈ cols →
      (∀ x ∈ cols, pr x < 9 ∧ pc x < 9) →
      cols.foldlM step p = Except.error ⟨⟩ := by
  intro cols
  induction cols with
  | nil =>
    intro p hg hm1 hm2 hb
    cases hm1
  | cons x rest ih =>
    intro p hg hm1 hm2 hb
    by_cases hcx : clue x = 0
    · have hsx : step p x = Except.ok p := by rw [hstep, if_pos hcx]
      rw [foldlM_except_cons hsx]
      have hm1r : x1 ∈ rest := by
        rcases List.mem_cons.mp hm1 with h1x | h
        · rw [h1x] at h1v
          rw [h1v] at hcx
          exact absurd hcx (by decide)
        · exact h
      have hm2r : x2 ∈ rest := by
        rcases List.mem_cons.mp hm2 with h2x | h
        · rw [h2x] at h2v
          rw [h2v] at hcx
          exact absurd hcx (by decide)
        · exact h
      exact ih p hg hm1r hm2r (fun y hy => hb y (List.mem_cons_of_mem _ hy))
    · have hsx : step p x = p.set (pr x) (pc x) (clue x) := by rw [hstep, if_neg hcx]
      cases hs : p.set (pr x) (pc x) (clue x) with
      | error e =>
        have hse : step p x = Except.error e := by rw [hsx, hs]
        rw [foldlM_except_cons_error hse]
      | ok p2 =>
        have hbx := hb x (List.mem_cons_self x rest)
        have hg2 : GoodP p2 := set_good hbx.1 hbx.2 hg hs
        have hstep2 : step p x = Except.ok p2 := by rw [hsx, hs]
        rw [foldlM_except_cons hstep2]
        by_cases hx1 : x = x1
        · subst hx1
          rw [h1r, h1v] at hs
          have hforce := set_forces hrt h1c hg hs
          have hdead2 : (patGet p2.patterns 4).has rt (pc x2) = false :=
            hforce (pc x2) h2c (Ne.symm hcc)
          have hm2r : x2 ∈ rest := by
            rcases List.mem_cons.mp hm2 with h2x | h
            · exact absurd (congrArg pc h2x) (Ne.symm hcc)
            · exact h
          exact foldlM_clue_doomed clue pr pc step hstep rt (pc x2) hrt h2c rest p2
            hg2 hdead2 ⟨x2, hm2r, h2r, rfl, h2v⟩
            (fun y hy => hb y (List.mem_cons_of_mem _ hy))
        · by_cases hx2 : x = x2
          · subst hx2
            rw [h2r, h2v] at hs
            have hforce := set_forces hrt h2c hg hs
            have hdead2 : (patGet p2.patterns 4).has rt (pc x1) = false :=
              hforce (pc x1) h1c hcc
            have hm1r : x1 ∈ rest := by
              rcases List.mem_cons.mp hm1 with h1x | h
              · exact absurd (congrArg pc h1x) hcc
              · exact h
            exact foldlM_clue_doomed clue pr pc step hstep rt (pc x1) hrt h1c rest p2
              hg2 hdead2 ⟨x1, hm1r, h1r, rfl, h1v⟩
              (fun y hy => hb y (List.mem_cons_of_mem _ hy))
          · have hm1r : x1 ∈ rest := by
              rcases List.mem_cons.mp hm1 with h1x | h
              · exact absurd h1x.symm hx1
              · exact h
            have hm2r : x2 ∈ rest := by
              rcases List.mem_cons.mp hm2 with h2x | h
              · exact absurd h2x.symm hx2
              · exact h
            exact ih p2 hg2 hm1r hm2r (fun y hy => hb y (List.mem_cons_of_mem _ hy))

theorem flattenGrid_getD (g : List (List Nat)) {i : Nat} (hi : i < 81) :
    (flattenGrid g).getD i 0 = (g.getD (i / 9) []).getD (i % 9) 0 := by
  rw [flattenGrid, List.getD_eq_getElem?_getD, List.getElem?_map, List.getElem?_range hi]
  rfl

/-- C8: any grid that assigns digit 5 to two different cells of row 0 makes
`prepare` fail with the contradiction error, and `solve` on the flattened
grid returns the empty list for every solution cap. -/
theorem duplicate_clue_contradiction (g : List (List Nat)) (c1 c2 : Nat)
    (hc1 : c1 < 9) (hc2 : c2 < 9) (hne : c1 ≠ c2)
    (h1 : (g.getD 0 []).getD c1 0 = 5) (h2 : (g.getD 0 []).getD c2 0 = 5) :
    prepare g = .error ⟨⟩ ∧ ∀ m, solve (flattenGrid g) m = [] := by
  have hinner : (List.range 9).foldlM (fun p col =>
      if 0 < (g.getD 0 []).getD col 0 then p.set 0 col ((g.getD 0 []).getD col 0)
      else Except.ok p) Possibilities.new = Except.error ⟨⟩ := by
    refine foldlM_clue_dup (fun x => (g.getD 0 []).getD x 0) (fun x => 0) (fun x => x)
      _ ?_ 0 c1 c2 (by omega) rfl hc1 h1 rfl hc2 h2 hne (List.range 9)
      Possibilities.new good_new (List.mem_range.mpr hc1) (List.mem_range.mpr hc2) ?_
    · intro pp x
      dsimp only
      by_cases hx : (g.getD 0 []).getD x 0 = 0
      · rw [hx]
        simp
      · rw [if_pos (Nat.pos_of_ne_zero hx), if_neg hx]
    · intro x hx
      exact ⟨(by omega : (0 : Nat) < 9), List.mem_range.mp hx⟩
  have hprep : prepare g = Except.error ⟨⟩ := by
    rw [prepare]
    exact foldlM_except_cons_error
      (show (fun (p : Possibilities) (row : Nat) =>
          (List.range 9).foldlM (fun p col =>
            if 0 < (g.getD row []).getD col 0 then p.set row col ((g.getD row []).getD col 0)
            else Except.ok p) p) Possibilities.new 0 = Except.error ⟨⟩ from hinner)
  have hv1 : (flattenGrid g).getD c1 0 = 5 := by
    rw [flattenGrid_getD g (show c1 < 81 by omega),
      (by omega : c1 / 9 = 0), (by omega : c1 % 9 = c1)]
    exact h1
  have hv2 : (flattenGrid g).getD c2 0 = 5 := by
    rw [flattenGrid_getD g (show c2 < 81 by omega),
      (by omega : c2 / 9 = 0), (by omega : c2 % 9 = c2)]
    exact h2
  have hss : solveSets (flattenGrid g) = Except.error ⟨⟩ := by
    rw [solveSets]
    refine foldlM_clue_dup (fun x => (flattenGrid g).getD x 0) (fun x => x / 9)
      (fun x => x % 9) _ ?_ 0 c1 c2 (by omega) (by omega : c1 / 9 = 0)
      (by omega : c1 % 9 < 9) hv1 (by omega : c2 / 9 = 0) (by omega : c2 % 9 < 9) hv2
      (by omega : c1 % 9 ≠ c2 % 9) (List.range 81) Possibilities.new good_new
      (List.mem_range.mpr (by omega)) (List.mem_range.mpr (by omega)) ?_
    · intro pp x
      rfl
    · intro x hx
      have hx81 := List.mem_range.mp hx
      exact ⟨(by omega : x / 9 < 9), (by omega : x % 9 < 9)⟩
  refine ⟨hprep, ?_⟩
  intro m
  rw [solve, hss]

theorem duplicate_clue_contradiction_witness :
    prepare dupGrid = .error ⟨⟩ ∧ ∀ m, solve (flattenGrid dupGrid) m = [] :=
  duplicate_clue_contradiction dupGrid 0 3 (by decide) (by decide) (by decide)
    (by rfl) (by rfl)

set_option maxRecDepth 200000 in
theorem set_idempotent_on_forced_witness :
    Possibilities.new.set 0 0 1 = Except.ok idemS ∧ idemS.set 0 0 1 = Except.ok idemS :=
  ⟨by rfl, set_idempotent_on_forced Possibilities.new idemS 0 0 1 (by rfl)⟩
